import Mathlib

/-!
# Verification of the rainbow-rs steganography library

Shallow embedding of the core of the `rainbow-rs` repository
(HTTP steganography framing layer, codec registry, CFG codec, LSB codec,
octet codec, HTTP validation utilities) together with proofs and
refutations of the specification claims C1..C10.

Bytes are modelled as `Nat` (values < 256 by construction at every write),
Rust `&str`/`String` values as `List Char`, `Vec<u8>` as `List Nat`.
Fallible Rust functions returning `Result<T>` are modelled with `Except`.
Code points where Rust panics (slice out of range, `unwrap`, `assert!`)
are modelled explicitly by a dedicated outcome constructor so that
totality claims can be settled faithfully.
-/

namespace RainbowRs

set_option linter.unreachableTactic false
set_option linter.unusedTactic false
set_option linter.unusedVariables false

/-- Ceiling division, `ceil (a / b)` for `b > 0`. -/
def ceilDiv (a b : Nat) : Nat := (a + b - 1) / b

/-- The error type of the library (`RainbowError` in `src/lib.rs`),
restricted to the constructors exercised by the embedded code. -/
inductive RErr where
  | invalidData (msg : String) : RErr
  | other (msg : String) : RErr
  | base64Error : RErr
  | jsonError : RErr
  deriving DecidableEq, Repr

/-- `Result<T>` from `src/lib.rs`. -/
abbrev RResult (α : Type) := Except RErr α

instance {ε α : Type} [DecidableEq ε] [DecidableEq α] :
    DecidableEq (Except ε α) := fun a b =>
  match a, b with
  | .ok x, .ok y =>
      if h : x = y then isTrue (by rw [h]) else isFalse (by simp [h])
  | .error x, .error y =>
      if h : x = y then isTrue (by rw [h]) else isFalse (by simp [h])
  | .ok _, .error _ => isFalse (by simp)
  | .error _, .ok _ => isFalse (by simp)

/-! ## Rust string primitives over `List Char` -/

/-- Rust `char::is_whitespace` (the Unicode `White_Space` property). -/
def isRustWhitespace (c : Char) : Bool :=
  let n := c.toNat
  (0x09 ≤ n && n ≤ 0x0D) || n = 0x20 || n = 0x85 || n = 0xA0 ||
  n = 0x1680 || (0x2000 ≤ n && n ≤ 0x200A) || n = 0x2028 || n = 0x2029 ||
  n = 0x202F || n = 0x205F || n = 0x3000

/-- Rust `str::trim_start`. -/
def trimStart (s : List Char) : List Char := s.dropWhile isRustWhitespace

/-- Rust `str::trim` (drop leading and trailing whitespace). -/
def trimBoth (s : List Char) : List Char :=
  ((s.dropWhile isRustWhitespace).reverse.dropWhile isRustWhitespace).reverse

/-- Rust `str::lines`: split on `'\n'`, then strip one trailing `'\r'`
from every line; a trailing newline does not produce a final empty line. -/
def rustLinesAux (cur : List Char) : List Char → List (List Char)
  | [] => [cur.reverse]
  | c :: rest =>
      if c = '\n' then cur.reverse :: rustLinesAux [] rest
      else rustLinesAux (c :: cur) rest

def stripCr (l : List Char) : List Char :=
  match l.reverse with
  | '\r' :: r => r.reverse
  | _ => l

/-- Rust `str::lines` on a `List Char`. -/
def rustLines (s : List Char) : List (List Char) :=
  match s with
  | [] => []
  | _ =>
    let parts := rustLinesAux [] s
    let parts := match parts.reverse with
      | [] :: r => r.reverse
      | _ => parts
    parts.map stripCr

theorem length_dropWhile_le (p : α → Bool) (l : List α) :
    (l.dropWhile p).length ≤ l.length := by
  induction l with
  | nil => simp
  | cons c rest ih =>
      rw [List.dropWhile_cons]
      split
      · exact Nat.le_succ_of_le ih
      · simp

/-- Worker for `splitWhitespace`; the fuel is an upper bound on the list
length, so structural recursion on it keeps the function kernel-reducible. -/
def splitWhitespaceGo : Nat → List Char → List (List Char)
  | _, [] => []
  | 0, _ => []
  | fuel + 1, c :: rest =>
      if isRustWhitespace c then splitWhitespaceGo fuel rest
      else
        (c :: rest.takeWhile (fun x => !isRustWhitespace x)) ::
          splitWhitespaceGo fuel (rest.dropWhile (fun x => !isRustWhitespace x))

/-- Rust `str::split_whitespace` (non-empty runs between whitespace). -/
def splitWhitespace (s : List Char) : List (List Char) :=
  splitWhitespaceGo s.length s

/-- Rust `str::contains(pat)` for a literal pattern. -/
def containsSeq (needle : List Char) : List Char → Bool
  | [] => needle.isEmpty
  | c :: rest => needle.isPrefixOf (c :: rest) || containsSeq needle rest

/-- ASCII lowercase map; Rust `str::to_lowercase` agrees with this on
ASCII input (the only input compared case-insensitively by the code). -/
def toLowerAscii (s : List Char) : List Char :=
  s.map fun c =>
    if 'A' ≤ c ∧ c ≤ 'Z' then Char.ofNat (c.toNat + 32) else c

/-- Rust `str::split(sep)` for a one-character separator. -/
def splitOnChar (sep : Char) (s : List Char) : List (List Char) :=
  go [] s
where
  go (cur : List Char) : List Char → List (List Char)
    | [] => [cur.reverse]
    | c :: rest =>
        if c = sep then cur.reverse :: go [] rest
        else go (c :: cur) rest

/-- Rust `str::split_once(sep)` for a one-character separator. -/
def splitOnceChar (sep : Char) (s : List Char) :
    Option (List Char × List Char) :=
  go [] s
where
  go (cur : List Char) : List Char → Option (List Char × List Char)
    | [] => none
    | c :: rest =>
        if c = sep then some (cur.reverse, rest)
        else go (c :: cur) rest

/-! ## UTF-8 encoding and lossy decoding

`String::from_utf8_lossy` follows the "substitution of maximal subparts"
policy: every maximal invalid subsequence is replaced by one U+FFFD. -/

/-- UTF-8 encoding of a single scalar value. -/
def utf8EncodeChar (c : Char) : List Nat :=
  let n := c.toNat
  if n < 0x80 then [n]
  else if n < 0x800 then [0xC0 + n / 64, 0x80 + n % 64]
  else if n < 0x10000 then
    [0xE0 + n / 4096, 0x80 + n / 64 % 64, 0x80 + n % 64]
  else
    [0xF0 + n / 262144, 0x80 + n / 4096 % 64, 0x80 + n / 64 % 64,
     0x80 + n % 64]

/-- UTF-8 encoding of a string (`str::as_bytes` / `String::into_bytes`). -/
def utf8Encode (s : List Char) : List Nat := s.flatMap utf8EncodeChar

def isCont (b : Nat) : Bool := 0x80 ≤ b && b ≤ 0xBF

/-- One step of the lossy decoder: decode one scalar or one replacement
character; the returned number says how many bytes of `rest` (beyond the
lead byte) belong to this scalar / maximal invalid subpart. -/
def utf8LossyStep (b0 : Nat) (rest : List Nat) : Char × Nat :=
  if b0 < 0x80 then (Char.ofNat b0, 0)
  else if 0xC2 ≤ b0 ∧ b0 ≤ 0xDF then
    match rest with
    | b1 :: _ =>
        if isCont b1 then (Char.ofNat ((b0 - 0xC0) * 64 + (b1 - 0x80)), 1)
        else (Char.ofNat 0xFFFD, 0)
    | [] => (Char.ofNat 0xFFFD, 0)
  else if 0xE0 ≤ b0 ∧ b0 ≤ 0xEF then
    let lo1 := if b0 = 0xE0 then 0xA0 else 0x80
    let hi1 := if b0 = 0xED then 0x9F else 0xBF
    match rest with
    | b1 :: r1 =>
        if lo1 ≤ b1 ∧ b1 ≤ hi1 then
          match r1 with
          | b2 :: _ =>
              if isCont b2 then
                (Char.ofNat ((b0 - 0xE0) * 4096 + (b1 - 0x80) * 64 +
                  (b2 - 0x80)), 2)
              else (Char.ofNat 0xFFFD, 1)
          | [] => (Char.ofNat 0xFFFD, 1)
        else (Char.ofNat 0xFFFD, 0)
    | [] => (Char.ofNat 0xFFFD, 0)
  else if 0xF0 ≤ b0 ∧ b0 ≤ 0xF4 then
    let lo1 := if b0 = 0xF0 then 0x90 else 0x80
    let hi1 := if b0 = 0xF4 then 0x8F else 0xBF
    match rest with
    | b1 :: r1 =>
        if lo1 ≤ b1 ∧ b1 ≤ hi1 then
          match r1 with
          | b2 :: r2 =>
              if isCont b2 then
                match r2 with
                | b3 :: _ =>
                    if isCont b3 then
                      (Char.ofNat ((b0 - 0xF0) * 262144 +
                        (b1 - 0x80) * 4096 + (b2 - 0x80) * 64 +
                        (b3 - 0x80)), 3)
                    else (Char.ofNat 0xFFFD, 2)
                | [] => (Char.ofNat 0xFFFD, 2)
              else (Char.ofNat 0xFFFD, 1)
          | [] => (Char.ofNat 0xFFFD, 1)
        else (Char.ofNat 0xFFFD, 0)
    | [] => (Char.ofNat 0xFFFD, 0)
  else (Char.ofNat 0xFFFD, 0)

/-- Worker for `utf8Lossy`, fuelled for kernel reducibility; the fuel is
an upper bound on the byte count, and every step consumes at least one
byte, so the fuel never runs out when started at the list length. -/
def utf8LossyGo : Nat → List Nat → List Char
  | _, [] => []
  | 0, _ => []
  | fuel + 1, b :: rest =>
      let s := utf8LossyStep b rest
      s.1 :: utf8LossyGo fuel (rest.drop s.2)

/-- `String::from_utf8_lossy` on a byte list. -/
def utf8Lossy (l : List Nat) : List Char := utf8LossyGo l.length l

theorem utf8LossyGo_fuel : ∀ (fuel : Nat) (l : List Nat),
    l.length ≤ fuel → utf8LossyGo fuel l = utf8Lossy l := by
  intro fuel
  induction fuel using Nat.strong_induction_on with
  | _ fuel ih =>
      intro l h
      cases l with
      | nil => cases fuel <;> rfl
      | cons b rest =>
          cases fuel with
          | zero => simp at h
          | succ f =>
              show _ = utf8LossyGo (b :: rest).length (b :: rest)
              simp only [List.length_cons, utf8LossyGo]
              have hd : (rest.drop (utf8LossyStep b rest).2).length ≤
                  rest.length := by
                rw [List.length_drop]; omega
              have hle : rest.length ≤ f := by
                simp only [List.length_cons] at h; omega
              rw [ih f (Nat.lt_succ_self _) _ (Nat.le_trans hd hle),
                ih rest.length (Nat.lt_succ_of_le hle) _ hd]

theorem utf8Lossy_cons_ascii (b : Nat) (rest : List Nat) (hb : b < 0x80) :
    utf8Lossy (b :: rest) = Char.ofNat b :: utf8Lossy rest := by
  show utf8LossyGo (b :: rest).length (b :: rest) = _
  simp only [List.length_cons, utf8LossyGo, utf8LossyStep, hb, if_pos,
    List.drop_zero]
  rw [utf8LossyGo_fuel rest.length rest (Nat.le_refl _)]

/-- All-ASCII byte lists decode losslessly. -/
theorem utf8Lossy_ascii (l : List Nat) (h : ∀ b ∈ l, b < 0x80) :
    utf8Lossy l = l.map Char.ofNat := by
  induction l with
  | nil => rfl
  | cons b rest ih =>
      rw [utf8Lossy_cons_ascii b rest (h b (List.mem_cons_self ..)),
        ih (fun x hx => h x (List.mem_cons_of_mem _ hx))]
      rfl

/-- ASCII strings encode to their code points. -/
theorem utf8Encode_ascii (s : List Char) (h : ∀ c ∈ s, c.toNat < 0x80) :
    utf8Encode s = s.map Char.toNat := by
  induction s with
  | nil => simp [utf8Encode]
  | cons c rest ih =>
      have hc : c.toNat < 0x80 := h c (List.mem_cons_self ..)
      simp only [utf8Encode, List.flatMap_cons, utf8EncodeChar, hc, if_pos]
      simpa [utf8Encode] using ih (fun x hx => h x (List.mem_cons_of_mem _ hx))

/-! ## `src/utils.rs` -/

/-- `utils::find_crlf_crlf`: first index where `\r\n\r\n` occurs. -/
def findCrlfCrlf : List Nat → Option Nat
  | [] => none
  | a :: rest =>
      match rest with
      | b :: c :: d :: _ =>
          if a = 13 ∧ b = 10 ∧ c = 13 ∧ d = 10 then some 0
          else (findCrlfCrlf rest).map (· + 1)
      | _ => none

/-- `utils::data_find`: first index where `target` occurs in `data`. -/
def dataFind (target : List Nat) : List Nat → Option Nat
  | [] => if target.isEmpty then some 0 else none
  | c :: rest =>
      if target.isPrefixOf (c :: rest) then some 0
      else (dataFind target rest).map (· + 1)

def findMatchingBraceAux : List Char → Nat → Int → Option Nat
  | [], _, _ => none
  | c :: rest, i, stack =>
      if c = '{' then findMatchingBraceAux rest (i + 1) (stack + 1)
      else if c = '}' then
        if stack - 1 = 0 then some i
        else findMatchingBraceAux rest (i + 1) (stack - 1)
      else findMatchingBraceAux rest (i + 1) stack

/-- `utils::find_matching_brace`: index of the matching `}` for the brace
at index `l`, via a depth counter. (Indices count characters; all uses
slice the same string at positions produced by this function and by
`find`, so the char-index model is observationally faithful.) -/
def findMatchingBrace (text : List Char) (l : Nat) : Option Nat :=
  findMatchingBraceAux (text.drop l) l 0

/-- `utils::HTTP_CONSTANTS.cookie_names`. -/
def cookieNames : List (List Char) :=
  ["sessionId".toList, "visitor".toList, "track".toList, "_ga".toList,
   "_gid".toList, "JSESSIONID".toList, "cf_id".toList]

/-- `utils::HTTP_CONSTANTS.get_paths`. -/
def getPaths : List (List Char) :=
  ["/".toList, "/index.html".toList, "/assets/main.css".toList,
   "/js/app.js".toList, "/images/logo.png".toList, "/blog/latest".toList,
   "/docs/guide".toList]

/-- `utils::HTTP_CONSTANTS.post_paths`. -/
def postPaths : List (List Char) :=
  ["/api/v1/data".toList, "/api/v1/upload".toList, "/api/v2/submit".toList,
   "/upload".toList, "/submit".toList, "/process".toList]

/-- First branch of `validate_http_packet`: the status-line test. -/
def vhpStatusLine (fl : List Char) : Bool :=
  "HTTP/".toList.isPrefixOf fl && containsSeq " ".toList fl

/-- Second branch of `validate_http_packet`: the request-line test. -/
def vhpRequestLine (fl : List Char) : Bool :=
  (splitWhitespace fl).length == 3 && containsSeq "HTTP/".toList fl &&
    ("GET ".toList.isPrefixOf fl || "POST ".toList.isPrefixOf fl)

/-- `utils::validate_http_packet`. -/
def validateHttpPacket (packet : List Nat) : RResult Unit :=
  if packet.length < 16 then
    .error (RErr.invalidData "Packet too short")
  else
    let content := utf8Lossy packet
    match rustLines content with
    | [] => .error (RErr.invalidData "Cannot get first line of packet")
    | firstLine :: _ =>
        if vhpStatusLine firstLine then .ok ()
        else if vhpRequestLine firstLine then .ok ()
        else .error (RErr.invalidData "Invalid HTTP format")

/-- The first line of a packet, as `validate_http_packet` sees it. -/
def firstLineOf (packet : List Nat) : List Char :=
  match rustLines (utf8Lossy packet) with
  | [] => []
  | l :: _ => l

/-- Modelled from the spec: the acceptance condition exactly as claim C9
words it — at least 16 bytes, and the first line either starts with
`HTTP/` and contains a space, or is a three-token request line whose
method is `GET` or `POST` and whose third token starts with `HTTP/`. -/
def c9ClaimAccepts (packet : List Nat) : Bool :=
  16 ≤ packet.length &&
    (let fl := firstLineOf packet
     ("HTTP/".toList.isPrefixOf fl && containsSeq " ".toList fl) ||
      (match splitWhitespace fl with
       | [m, _, v] =>
           (m = "GET".toList || m = "POST".toList) &&
             "HTTP/".toList.isPrefixOf v
       | _ => false))

/-- The acceptance condition actually implemented: at least 16 bytes, and
the first line either starts with `HTTP/` and contains a space, or has
exactly three whitespace-separated tokens, contains `HTTP/` anywhere, and
begins with `GET ` or `POST `. -/
def c9AmendedAccepts (packet : List Nat) : Bool :=
  16 ≤ packet.length &&
    (vhpStatusLine (firstLineOf packet) ||
      vhpRequestLine (firstLineOf packet))

/-- C9 (counterexample): the 16-byte buffer `"GET /xHTTP/yy zz"` is
accepted by `validate_http_packet` — its first line starts with `GET `,
has three tokens and contains `HTTP/` — even though its third token
`zz` does not start with `HTTP/`, so the claimed acceptance condition
calls for rejection. -/
theorem c9_counterexample :
    validateHttpPacket (utf8Encode "GET /xHTTP/yy zz".toList) =
        Except.ok () ∧
      c9ClaimAccepts (utf8Encode "GET /xHTTP/yy zz".toList) = false := by
  constructor <;> decide

/-- C9 (amended): `validate_http_packet` accepts exactly the buffers of
at least 16 bytes whose first line starts with `HTTP/` and contains a
space, or has exactly three whitespace tokens, contains `HTTP/`
anywhere, and begins with `GET ` or `POST `; every other buffer is
rejected with `InvalidData`. -/
theorem c9_amended (packet : List Nat) :
    (validateHttpPacket packet = Except.ok () ↔
      c9AmendedAccepts packet = true) ∧
    (validateHttpPacket packet = Except.ok () ∨
      ∃ msg, validateHttpPacket packet = Except.error (RErr.invalidData msg)) := by
  have herr : validateHttpPacket packet = Except.ok () ∨
      ∃ msg, validateHttpPacket packet =
        Except.error (RErr.invalidData msg) := by
    unfold validateHttpPacket
    by_cases hlen : packet.length < 16
    · exact Or.inr ⟨"Packet too short", by simp [hlen]⟩
    · simp only [hlen, if_false]
      cases hl : rustLines (utf8Lossy packet) with
      | nil => exact Or.inr ⟨"Cannot get first line of packet", rfl⟩
      | cons fl rest =>
          cases h1 : vhpStatusLine fl
          · cases h2 : vhpRequestLine fl
            · exact Or.inr ⟨"Invalid HTTP format", by simp [h1, h2]⟩
            · exact Or.inl (by simp [h1, h2])
          · exact Or.inl (by simp [h1])
  refine ⟨?_, herr⟩
  unfold validateHttpPacket c9AmendedAccepts firstLineOf
  by_cases hlen : packet.length < 16
  · simp [hlen]
    try omega
  · simp only [hlen, if_false]
    cases hl : rustLines (utf8Lossy packet) with
    | nil => simp [vhpStatusLine, vhpRequestLine]
    | cons fl rest =>
        cases h1 : vhpStatusLine fl
        · cases h2 : vhpRequestLine fl
          · simp [h1, h2]
          · simp [h1, h2]
            omega
        · simp [h1]
          omega

/-! ## Base64 (the `base64` crate's `STANDARD` engine)

External library, modelled by the RFC 4648 standard alphabet with
mandatory canonical padding, which is what the `STANDARD` engine
implements: decode rejects non-alphabet characters, non-multiple-of-4
lengths, and non-zero trailing bits. -/

def b64Alphabet : List Char :=
  "ABCDEFGHIJKLMNOPQRSTUVWXYZabcdefghijklmnopqrstuvwxyz0123456789+/".toList

def b64Char (n : Nat) : Char := b64Alphabet.getD n 'A'

def b64Val (c : Char) : Option Nat :=
  (b64Alphabet.findIdx? (· = c)).map id

def base64Encode : List Nat → List Char
  | [] => []
  | [a] => [b64Char (a / 4), b64Char (a % 4 * 16), '=', '=']
  | [a, b] =>
      [b64Char (a / 4), b64Char (a % 4 * 16 + b / 16), b64Char (b % 16 * 4),
       '=']
  | a :: b :: c :: rest =>
      b64Char (a / 4) :: b64Char (a % 4 * 16 + b / 16) ::
        b64Char (b % 16 * 4 + c / 64) :: b64Char (c % 64) ::
          base64Encode rest

def base64Decode : List Char → Option (List Nat)
  | [] => some []
  | c1 :: rest1 =>
      match rest1 with
      | c2 :: c3 :: c4 :: rest => do
          let v1 ← b64Val c1
          let v2 ← b64Val c2
          if c3 = '=' ∧ c4 = '=' ∧ rest = [] then
            if v2 % 16 = 0 then some [v1 * 4 + v2 / 16] else none
          else if c4 = '=' ∧ rest = [] then do
            let v3 ← b64Val c3
            if v3 % 4 = 0 then
              some [v1 * 4 + v2 / 16, v2 % 16 * 16 + v3 / 4]
            else none
          else do
            let v3 ← b64Val c3
            let v4 ← b64Val c4
            let tail ← base64Decode rest
            some ((v1 * 4 + v2 / 16) :: (v2 % 16 * 16 + v3 / 4) ::
              (v3 % 4 * 64 + v4) :: tail)
      | _ => none

theorem b64Val_b64Char : ∀ n < 64, b64Val (b64Char n) = some n := by decide

theorem b64Char_ne_pad : ∀ n < 64, b64Char n ≠ '=' := by decide

theorem base64_roundtrip : ∀ (l : List Nat), (∀ x ∈ l, x < 256) →
    base64Decode (base64Encode l) = some l := by
  intro l
  induction l using base64Encode.induct with
  | case1 => intro _; rfl
  | case2 a =>
      intro h
      have ha : a < 256 := h a (by simp)
      have h1 : a / 4 < 64 := by omega
      have h2 : a % 4 * 16 < 64 := by omega
      simp only [base64Encode, base64Decode, b64Val_b64Char _ h1,
        b64Val_b64Char _ h2]
      have : a % 4 * 16 % 16 = 0 := by omega
      simp only [Option.bind_eq_bind, Option.some_bind]
      have heq : (a / 4 * 4 + a % 4 * 16 / 16) = a := by omega
      simp [this, heq]
      omega
  | case3 a b =>
      intro h
      have ha : a < 256 := h a (by simp)
      have hb : b < 256 := h b (by simp)
      have h1 : a / 4 < 64 := by omega
      have h2 : a % 4 * 16 + b / 16 < 64 := by omega
      have h3 : b % 16 * 4 < 64 := by omega
      simp only [base64Encode, base64Decode, b64Val_b64Char _ h1,
        b64Val_b64Char _ h2, b64Val_b64Char _ h3,
        b64Char_ne_pad _ h3, Option.bind_eq_bind, Option.some_bind]
      have hmod : b % 16 * 4 % 4 = 0 := by omega
      have heq1 : (a / 4 * 4 + (a % 4 * 16 + b / 16) / 16) = a := by omega
      have heq2 : ((a % 4 * 16 + b / 16) % 16 * 16 + b % 16 * 4 / 4) = b := by
        omega
      simp [b64Char_ne_pad _ h3, hmod, heq1, heq2]
      omega
  | case4 a b c rest ih =>
      intro h
      have ha : a < 256 := h a (by simp)
      have hb : b < 256 := h b (by simp)
      have hc : c < 256 := h c (by simp)
      have h1 : a / 4 < 64 := by omega
      have h2 : a % 4 * 16 + b / 16 < 64 := by omega
      have h3 : b % 16 * 4 + c / 64 < 64 := by omega
      have h4 : c % 64 < 64 := by omega
      have htail := ih (fun x hx => h x (by simp [hx]))
      simp only [base64Encode, base64Decode, b64Val_b64Char _ h1,
        b64Val_b64Char _ h2, b64Val_b64Char _ h3, b64Val_b64Char _ h4,
        Option.bind_eq_bind, Option.some_bind]
      have hpad3 := b64Char_ne_pad _ h3
      have hpad4 := b64Char_ne_pad _ h4
      have heq1 : (a / 4 * 4 + (a % 4 * 16 + b / 16) / 16) = a := by omega
      have heq2 : ((a % 4 * 16 + b / 16) % 16 * 16 +
          (b % 16 * 4 + c / 64) / 4) = b := by omega
      have heq3 : ((b % 16 * 4 + c / 64) % 4 * 64 + c % 64) = c := by omega
      by_cases hre : base64Encode rest = []
      · simp [hre, hpad3, hpad4, heq1, heq2, heq3]
        rw [hre] at htail
        simp only [base64Decode] at htail
        simp at htail
        subst htail
        simp [base64Decode]
      · have hne : ¬ (b64Char (c % 64) = '=' ∧ base64Encode rest = []) := by
          intro hx; exact hre hx.2
        have hne2 : ¬ (b64Char (b % 16 * 4 + c / 64) = '=' ∧
            b64Char (c % 64) = '=' ∧ base64Encode rest = []) := by
          intro hx; exact hre hx.2.2
        simp only [hne, hne2, if_false, htail, Option.some_bind]
        simp [heq1, heq2, heq3]

/-- Decimal digit characters of `n` (used for every `format!` number). -/
def natChars (n : Nat) : List Char := Nat.toDigits 10 n

/-! ## The `PacketInfo` cookie (`src/rainbow.rs`) -/

/-- `rainbow::PacketInfo`. The Rust struct stores `timestamp : i64`; the
embedded model uses `Nat` (every produced timestamp is non-negative). -/
structure PacketInfo where
  version : Nat
  timestamp : Nat
  index : Nat
  total : Nat
  length : Nat
  deriving DecidableEq, Repr

/-- `PacketInfo::new` (the runtime clock is passed explicitly). -/
def PacketInfo.mkNew (timestamp index total length : Nat) : PacketInfo :=
  ⟨1, timestamp, index, total, length⟩

/-- `serde_json::to_string(&PacketInfo)` — external library, modelled by
the exact compact JSON text serde emits for this struct (fields in
declaration order, no whitespace). -/
def pinfoJson (p : PacketInfo) : List Char :=
  "\x7b\"version\":".toList ++ natChars p.version ++
    ",\"timestamp\":".toList ++ natChars p.timestamp ++
    ",\"index\":".toList ++ natChars p.index ++
    ",\"total\":".toList ++ natChars p.total ++
    ",\"length\":".toList ++ natChars p.length ++ "\x7d".toList

/-- `PacketInfo::to_cookie`: base64 of the JSON text. -/
def PacketInfo.toCookie (p : PacketInfo) : List Char :=
  base64Encode (utf8Encode (pinfoJson p))

def parseNatChars (s : List Char) : Option (Nat × List Char) :=
  let digits := s.takeWhile (fun c => '0' ≤ c ∧ c ≤ '9')
  if digits.isEmpty then none
  else
    some (digits.foldl (fun acc c => acc * 10 + (c.toNat - 48)) 0,
      s.dropWhile (fun c => '0' ≤ c ∧ c ≤ '9'))

def expectSeq (pat s : List Char) : Option (List Char) :=
  if pat.isPrefixOf s then some (s.drop pat.length) else none

/-- `serde_json::from_slice::<PacketInfo>` — external library, modelled
as the inverse of `pinfoJson` on the canonical compact object text that
`to_cookie` emits (any other input is rejected; serde would accept some
re-orderings that never occur here). -/
def parsePInfo (bytes : List Nat) : Option PacketInfo := do
  let s := bytes.map Char.ofNat
  let s ← expectSeq "\x7b\"version\":".toList s
  let (v, s) ← parseNatChars s
  let s ← expectSeq ",\"timestamp\":".toList s
  let (t, s) ← parseNatChars s
  let s ← expectSeq ",\"index\":".toList s
  let (i, s) ← parseNatChars s
  let s ← expectSeq ",\"total\":".toList s
  let (n, s) ← parseNatChars s
  let s ← expectSeq ",\"length\":".toList s
  let (l, s) ← parseNatChars s
  if s = "\x7d".toList then some ⟨v, t, i, n, l⟩ else none

/-- `PacketInfo::from_cookie`. -/
def PacketInfo.fromCookie (cookie : List Char) : RResult PacketInfo :=
  match base64Decode cookie with
  | none => .error RErr.base64Error
  | some bytes =>
      match parsePInfo bytes with
      | none => .error RErr.jsonError
      | some p => .ok p

/-! ## The CFG codec (`src/stego/cfg/mod.rs`)

Strings are `List Char`; indices produced by `find('{')` and
`find_matching_brace` count characters. All slicing in the source happens
at positions produced by these functions on the same string, so the
char-index model is observationally faithful (byte indices only shift
positions, not the resulting substrings). -/

inductive ProductType where
  | plain | variableName | replace
  deriving DecidableEq, Repr

structure Production where
  text : List Char
  productType : ProductType
  deriving DecidableEq, Repr

/-- `CFG { variables: BTreeMap<String, Vec<Production>> }`; the list is
kept in ascending key order, matching `BTreeMap` iteration. -/
structure CFG where
  vars : List (List Char × List Production)
  deriving Repr

/-- `BTreeMap::get` on the ordered pair list. -/
def CFG.get (g : CFG) (name : List Char) : Option (List Production) :=
  (g.vars.find? (fun p => p.1 == name)).map (·.2)

/-- The choices map (`HashMap<String, usize>`), as a function. -/
def Choices : Type := List Char → Option Nat

def emptyC : Choices := fun _ => none

/-- `HashMap::insert`. -/
def insertC (key : List Char) (val : Nat) (m : Choices) : Choices :=
  fun k => if k == key then some val else m k

/-- `HashMap::remove`. -/
def removeC (key : List Char) (m : Choices) : Choices :=
  fun k => if k == key then none else m k

/-- Structural-recursion `floor (log2 n)` (`(n as f64).log2().floor()`,
exact for every production-list length that occurs). -/
def floorLog2Go : Nat → Nat → Nat
  | 0, _ => 0
  | fuel + 1, n => if 2 ≤ n then floorLog2Go fuel (n / 2) + 1 else 0

def floorLog2 (n : Nat) : Nat := floorLog2Go n n

/-- `CFG::bits_capacity`. -/
def CFG.bitsCapacity (g : CFG) : Nat :=
  (g.vars.map (fun p =>
    if p.2.length ≤ 1 then 0 else floorLog2 p.2.length)).foldl (· + ·) 0

/-- `usize::is_power_of_two`. -/
def isPow2 (n : Nat) : Bool := n ≠ 0 && 2 ^ floorLog2 n = n

/-- `CFG::expand`, fuelled (one fuel unit per `{}` substitution; the
grammars in this file need at most 11). `none` models the panics of the
source (`find_matching_brace(..).unwrap()`, `variables.get(..).unwrap()`,
`productions[*index]` out of range) and fuel exhaustion (unreachable for
the embedded grammars). A `choices` argument of `emptyC` models the Rust
`None` argument (both always pick production `0`). -/
def expandGo (g : CFG) : Nat → List Char → Choices → Option (List Char)
  | 0, _, _ => none
  | fuel + 1, result, choices =>
      match result.findIdx? (· = '{') with
      | none => some result
      | some start =>
          match findMatchingBrace result start with
          | none => none
          | some stop =>
              let varName := (result.take stop).drop (start + 1)
              match g.get varName with
              | none => none
              | some productions =>
                  let index := (choices varName).getD 0
                  match productions.get? index with
                  | none => none
                  | some production =>
                      expandGo g fuel
                        (result.take start ++ production.text ++
                          result.drop (stop + 1)) choices

def CFG.expand (g : CFG) (text : List Char) (choices : Choices) :
    Option (List Char) :=
  expandGo g 64 text choices

/-- The production loop inside `CFG::match_recursive`, with the choices
map threaded exactly as the Rust `&mut HashMap` is mutated: insert
before the prune check (a pruned `continue` keeps the insert), removal
only after a failed recursive call. `rec` is the recursive matcher call
at the next-smaller fuel; `none` bubbles up a panic. -/
def mrLoop (target pattern : List Char) (start stop : Nat)
    (varName : List Char)
    (rec : List Char → Choices → Option (Bool × Choices)) :
    Nat → List Production → Choices → Option (Bool × Choices)
  | _, [], choices => some (false, choices)
  | idx, prod :: rest, choices =>
      let choices1 := insertC varName idx choices
      let newPattern :=
        pattern.take start ++ prod.text ++ pattern.drop (stop + 1)
      let pruned :=
        match newPattern.findIdx? (· = '{') with
        | some bs => bs ≠ 0 && ! ((newPattern.take bs).isPrefixOf target)
        | none => false
      if pruned then
        mrLoop target pattern start stop varName rec (idx + 1) rest choices1
      else
        match rec newPattern choices1 with
        | none => none
        | some (true, m) => some (true, m)
        | some (false, m) =>
            mrLoop target pattern start stop varName rec (idx + 1) rest
              (removeC varName m)

/-- `CFG::match_recursive`, fuelled on substitution depth (the embedded
grammars need at most 11). `none` models the
`find_matching_brace(..).unwrap()` panic and fuel exhaustion. -/
def matchRecGo (g : CFG) (useStartWith : Bool) :
    Nat → List Char → List Char → Choices → Option (Bool × Choices)
  | 0, _, _, _ => none
  | fuel + 1, target, pattern, choices =>
      match pattern.findIdx? (· = '{') with
      | none =>
          some ((if useStartWith then pattern.isPrefixOf target
                 else pattern == target), choices)
      | some start =>
          match findMatchingBrace pattern start with
          | none => none
          | some stop =>
              let varName := (pattern.take stop).drop (start + 1)
              match g.get varName with
              | none => some (false, choices)
              | some productions =>
                  mrLoop target pattern start stop varName
                    (matchRecGo g useStartWith fuel target) 0 productions
                    choices

/-- `CFG::reverse_by_start_with`: `none` = panic,
`some none` = no match, `some (some m)` = the recovered choices. -/
def CFG.reverseByStartWith (g : CFG) (target : List Char) :
    Option (Option Choices) :=
  match matchRecGo g true 32 target "\x7bstart\x7d".toList emptyC with
  | none => none
  | some (true, m) => some (some m)
  | some (false, _) => some none

/-- One bit appended to the `choices_to_bytes` accumulator
`(result, current_byte, bits_in_current_byte)`. -/
def pushBit (st : List Nat × Nat × Nat) (bit : Nat) : List Nat × Nat × Nat :=
  let cur := st.2.1 * 2 + bit
  if st.2.2 + 1 = 8 then (st.1 ++ [cur], 0, 0)
  else (st.1, cur, st.2.2 + 1)

/-- The MSB-first bits of `v` in width `w` (`for bit_pos in (0..w).rev()`). -/
def bitsMsb (w v : Nat) : List Nat :=
  (List.range w).reverse.map (fun bp => v / 2 ^ bp % 2)

/-- `CFG::choices_to_bytes`. (`*choice as u8 % num as u8`: every embedded
grammar has `2 ≤ num < 256`, so the `u8` casts are the identity on the
counts; the stored choice is reduced both through `% 256` and `% num`.) -/
def CFG.choicesToBytes (g : CFG) (choices : Choices) : List Nat :=
  let st := g.vars.foldl (fun st pair =>
    let n := pair.2.length
    if n ≤ 1 then st
    else
      let w := floorLog2 n
      if w = 0 then st
      else
        let choice := (choices pair.1).getD 0
        let value := choice % 256 % (n % 256)
        (bitsMsb w value).foldl pushBit st) ([], 0, 0)
  if st.2.2 > 0 then st.1 ++ [st.2.1 * 2 ^ (8 - st.2.2)] else st.1

/-- `u32::to_be_bytes` of `n as u32`. -/
def be32 (n : Nat) : List Nat :=
  [n % 2 ^ 32 / 2 ^ 24, n % 2 ^ 24 / 2 ^ 16, n % 2 ^ 16 / 2 ^ 8, n % 2 ^ 8]

/-- `u32::from_be_bytes`. -/
def be32val (l : List Nat) : Nat :=
  l.getD 0 0 * 2 ^ 24 + l.getD 1 0 * 2 ^ 16 + l.getD 2 0 * 2 ^ 8 + l.getD 3 0

/-- Consume up to `w` bits MSB-first from `data` starting at cursor
`(byteIdx, bitIdx)` (the inner `for _ in 0..bits_per_var` loop of
`CFGEncoder::encode`, which stops early when the data runs out and
leaves the consumed bits right-aligned in `value`). -/
def takeBitsGo (data : List Nat) : Nat → Nat → Nat → Nat → Nat × Nat × Nat
  | 0, value, byteIdx, bitIdx => (value, byteIdx, bitIdx)
  | w + 1, value, byteIdx, bitIdx =>
      if data.length ≤ byteIdx then (value, byteIdx, bitIdx)
      else
        let byte := data.getD byteIdx 0
        let value := value * 2 + byte / 2 ^ (7 - bitIdx) % 2
        if bitIdx + 1 = 8 then takeBitsGo data w value (byteIdx + 1) 0
        else takeBitsGo data w value byteIdx (bitIdx + 1)

/-- The per-sentence variable loop of `CFGEncoder::encode`: walk the
variables in map order, consuming bits into a choices map; break when
the data is exhausted. -/
def encodeSentenceVars (data : List Nat) :
    List (List Char × List Production) → Choices → Nat → Nat →
      Choices × Nat × Nat
  | [], ch, byteIdx, bitIdx => (ch, byteIdx, bitIdx)
  | (name, prods) :: rest, ch, byteIdx, bitIdx =>
      let n := prods.length
      if n ≤ 1 then encodeSentenceVars data rest ch byteIdx bitIdx
      else
        let w := floorLog2 n
        if w = 0 then encodeSentenceVars data rest ch byteIdx bitIdx
        else if data.length ≤ byteIdx then (ch, byteIdx, bitIdx)
        else
          let r := takeBitsGo data w 0 byteIdx bitIdx
          let value := r.1 % 256 % (n % 256)
          encodeSentenceVars data rest (insertC name value ch) r.2.1 r.2.2

/-- The sentence loop of `CFGEncoder::encode` (fuelled; each sentence of
a grammar with positive capacity consumes at least one bit, so fuel
`8 * data.length + 1` never runs out for the embedded grammars). -/
def cfgEncodeGo (g : CFG) (data : List Nat) :
    Nat → Nat → Nat → List Char → Option (List Char)
  | 0, _, _, _ => none
  | fuel + 1, byteIdx, bitIdx, acc =>
      if byteIdx < data.length then
        let r := encodeSentenceVars data g.vars emptyC byteIdx bitIdx
        match g.expand "\x7bstart\x7d".toList r.1 with
        | none => none
        | some sentence =>
            cfgEncodeGo g data fuel r.2.1 r.2.2
              (acc ++ (if acc.isEmpty then [] else " ".toList) ++ sentence)
      else some acc

/-- `CFGEncoder::encode` (as text; the Rust byte output is
`utf8Encode` of this). `none` models expand panics and fuel exhaustion,
both unreachable for the embedded grammars. -/
def cfgEncode (g : CFG) (data : List Nat) : Option (List Char) :=
  let capacity := g.bitsCapacity
  let header := be32 data.length
  let full :=
    if 4 < capacity / 8 then
      header ++ List.replicate (capacity / 8 - 4) 0 ++ data
    else header ++ data
  cfgEncodeGo g full (8 * full.length + 1) 0 0 []

/-- Decoder outcome: `ok`/`err` are the Rust `Ok`/`Err`; `panics` marks
a Rust abort (failed `assert!`, `unwrap`, out-of-range slice); `nofuel`
is the model's divergence marker (a sentence loop that consumes no
input, unreachable for the embedded grammars). -/
inductive DOut where
  | ok (bytes : List Nat)
  | err (e : RErr)
  | panics (msg : String)
  | nofuel
  deriving DecidableEq, Repr

/-- The sentence loop of `CFGEncoder::decode`, one iteration per matched
sentence. The state is `(remaining_text, result, required_short_fill_count)`.
(`*last_byte += real` is `u8` arithmetic; it never exceeds 255 on
encoder output, and the model wraps as release builds do.) -/
def cfgDecodeLoop (g : CFG) (capacity : Nat) :
    Nat → List Char → List Nat → Nat → DOut
  | 0, _, _, _ => DOut.nofuel
  | fuel + 1, remaining, result, rsfc =>
      if remaining.isEmpty then DOut.ok result
      else
        let remaining := trimStart remaining
        match g.reverseByStartWith remaining with
        | none => DOut.panics "find_matching_brace unwrap in match_recursive"
        | some none =>
            DOut.err (RErr.invalidData "reverse_by_start_with failed")
        | some (some choices) =>
            let bytes := g.choicesToBytes choices
            let next : Option (List Nat × Nat) :=
              if capacity < 8 then
                if bytes.length ≠ 1 then none
                else
                  let thisByte := bytes.getD 0 0
                  if rsfc = 0 then
                    some (result ++ [thisByte], 8 / capacity - 1)
                  else
                    match result.getLast? with
                    | none => none
                    | some lastB =>
                        let real :=
                          thisByte / 2 ^ (capacity * (8 / capacity - rsfc))
                        some (result.dropLast ++ [(lastB + real) % 256],
                          rsfc - 1)
              else some (result ++ bytes, rsfc)
            match next with
            | none => DOut.panics "assert or unwrap in short-fill handling"
            | some (result, rsfc) =>
                match g.expand "\x7bstart\x7d".toList choices with
                | none => DOut.panics "expand unwrap"
                | some expanded =>
                    cfgDecodeLoop g capacity fuel
                      (remaining.drop expanded.length) result rsfc

/-- `CFGEncoder::decode`. The input bytes go through
`String::from_utf8_lossy`; the final header processing panics (slice out
of range) when fewer than 4 result bytes were produced or when
`start_at + data_length` overruns the result. -/
def cfgDecode (g : CFG) (content : List Nat) : DOut :=
  let capacity := g.bitsCapacity
  if ! isPow2 capacity then
    DOut.panics "assert capacity.is_power_of_two()"
  else
    let cs := utf8Lossy content
    match cfgDecodeLoop g capacity (cs.length + 1) cs [] 0 with
    | DOut.ok result =>
        if result.length < 4 then DOut.panics "slice [..4] out of range"
        else
          let dataLength := be32val (result.take 4)
          let capacityPerByte := capacity / 8
          let startAt := if 4 < capacityPerByte then capacityPerByte else 4
          if result.length < startAt + dataLength then
            DOut.panics "slice [start_at..start_at+data_length] out of range"
          else DOut.ok ((result.drop startAt).take dataLength)
    | r => r

/-- Encode then decode, the composition claim C4 quantifies. -/
def cfgEncDec (g : CFG) (data : List Nat) : DOut :=
  match cfgEncode g data with
  | none => DOut.nofuel
  | some text => cfgDecode g (utf8Encode text)

/-- `cfg::init_plain_by_list`. -/
def initPlainByList (l : List String) : List Production :=
  l.map (fun s => ⟨s.toList, ProductType.plain⟩)

/-- `CFG::cfg_example1` (capacity 4). The pair list is in ascending key
order, matching `BTreeMap` iteration:
`direction < noun < start < verb < where`. -/
def ex1 : CFG :=
  ⟨[("direction".toList, initPlainByList ["northern", "southern"]),
    ("noun".toList, initPlainByList ["Fred", "Barney"]),
    ("start".toList, [⟨"\x7bnoun\x7d \x7bverb\x7d".toList,
      ProductType.replace⟩]),
    ("verb".toList,
      [⟨"went ﬁshing \x7bwhere\x7d".toList, ProductType.replace⟩,
       ⟨"went bowling \x7bwhere\x7d".toList, ProductType.replace⟩]),
    ("where".toList,
      [⟨"in \x7bdirection\x7d Iowa.".toList, ProductType.replace⟩,
       ⟨"in \x7bdirection\x7d Minnesota.".toList, ProductType.replace⟩])]⟩

def ex2Subjects : List String :=
  ["Tech giant", "Local authorities", "Scientists", "Researchers",
   "Industry experts", "Market analysts", "Government officials",
   "Medical professionals", "Environmental activists",
   "Security researchers", "Financial experts", "Education leaders",
   "Technology pioneers", "Healthcare providers", "Climate scientists",
   "Policy makers", "Business leaders", "Innovation experts",
   "Data scientists", "AI researchers", "Cybersecurity experts",
   "Space scientists", "Marine biologists", "Energy researchers",
   "Quantum physicists", "Neuroscientists", "Biotechnology firms",
   "Software developers", "Automotive engineers", "Aerospace experts",
   "Economic analysts", "Urban planners"]

def ex2Verbs : List String :=
  ["reveals", "launches", "discovers", "introduces", "develops",
   "implements", "demonstrates", "unveils", "presents", "confirms",
   "establishes", "initiates", "validates", "showcases", "releases",
   "publishes"]

def ex2Objects : List String :=
  ["new findings", "innovative solution", "major development",
   "groundbreaking research", "revolutionary platform",
   "cutting-edge system", "advanced framework", "sustainable initiative",
   "strategic partnership", "quantum breakthrough", "AI-powered solution",
   "digital transformation", "research findings",
   "technological advancement", "innovative approach",
   "sustainable solution", "security protocol", "efficiency improvement",
   "market strategy", "development framework", "research methodology",
   "optimization technique", "implementation strategy", "analytical tool",
   "prediction model", "automation system", "integration platform",
   "monitoring system", "validation process", "enhancement protocol",
   "deployment strategy", "scaling solution"]

def ex2Cities : List String :=
  ["NEW YORK", "LONDON", "TOKYO", "BEIJING", "SAN FRANCISCO", "SINGAPORE",
   "BERLIN", "PARIS", "SEOUL", "SYDNEY", "DUBAI", "TORONTO", "SHANGHAI",
   "MUMBAI", "AMSTERDAM", "STOCKHOLM", "HONG KONG", "BOSTON", "TEL AVIV",
   "ZURICH", "SEATTLE", "AUSTIN", "BANGALORE", "MUNICH", "VANCOUVER",
   "COPENHAGEN", "OSLO", "VIENNA", "MELBOURNE", "MONTREAL", "GENEVA",
   "HELSINKI"]

def ex2Content : List String :=
  ["This breakthrough could revolutionize the industry. ",
   "The development marks a significant milestone in the field. ",
   "The innovation represents a major leap forward in technology. ",
   "This discovery opens up new possibilities for future research. ",
   "The findings suggest a paradigm shift in the industry. ",
   "The results demonstrate unprecedented potential for growth. ",
   "This advancement challenges existing technological limitations. ",
   "The research reveals promising applications across sectors. "]

def ex2Quotes : List String :=
  ["\"This is just the beginning of a new era in technology.\"",
   "\"Our findings will transform the way we approach this field.\"",
   "\"The implications of this discovery are far-reaching.\"",
   "\"We're excited about the potential applications of this breakthrough.\"",
   "\"This development represents a quantum leap in our capabilities.\"",
   "\"The results have exceeded our most optimistic expectations.\"",
   "\"This marks a pivotal moment in our research journey.\"",
   "\"We're just scratching the surface of what's possible.\""]

def ex2QuoteIntros : List String :=
  ["The lead scientist stated,", "The project director commented,",
   "The research team leader noted,", "The chief investigator remarked,"]

/-- `(1..=32).map(|day| format!("January \x7b\x7d, 2024", day))`. -/
def ex2Dates : List (List Char) :=
  (List.range 32).map
    (fun d => "January ".toList ++ natChars (d + 1) ++ ", 2024".toList)

/-- `CFG::cfg_example2` (capacity 32). Pair list in ascending key order:
`CITY < CONTENT < DATE < DATELINE < OBJECT < QUOTE < QUOTE_INTRO <
SUBJECT < SUBJECT_VERB_OBJECT < VERB < start`. -/
def ex2 : CFG :=
  ⟨[("CITY".toList, initPlainByList ex2Cities),
    ("CONTENT".toList, initPlainByList ex2Content),
    ("DATE".toList, ex2Dates.map (fun d => ⟨d, ProductType.plain⟩)),
    ("DATELINE".toList,
      [⟨"\x7bDATE\x7d \x7bCITY\x7d".toList, ProductType.plain⟩]),
    ("OBJECT".toList, initPlainByList ex2Objects),
    ("QUOTE".toList, initPlainByList ex2Quotes),
    ("QUOTE_INTRO".toList, initPlainByList ex2QuoteIntros),
    ("SUBJECT".toList, initPlainByList ex2Subjects),
    ("SUBJECT_VERB_OBJECT".toList,
      [⟨"\x7bSUBJECT\x7d \x7bVERB\x7d \x7bOBJECT\x7d".toList,
        ProductType.replace⟩]),
    ("VERB".toList, initPlainByList ex2Verbs),
    ("start".toList,
      [⟨("\x7bSUBJECT_VERB_OBJECT\x7d\n\x7bDATELINE\x7d\n" ++
         "\x7bCONTENT\x7d\n\x7bQUOTE_INTRO\x7d \x7bQUOTE\x7d").toList,
        ProductType.replace⟩])]⟩

set_option maxRecDepth 10000

/-- C4 (counterexample): for `example2` the round-trip fails on the
two-byte payload `[0x00, 0x04]`: the last sentence's partially-filled
variable (`OBJECT`, fed 3 of its 5 bits) is re-expanded by
`choices_to_bytes` as a left-zero-padded 5-bit value, shifting the
consumed bits, so decode returns `[0x00, 0x01]` instead. -/
theorem c4_counterexample :
    cfgEncDec ex2 [0, 4] = DOut.ok [0, 1] ∧
      ([0, 1] : List Nat) ≠ [0, 4] := by
  constructor <;> decide

/-- C10 (counterexample): `CFGEncoder::decode` with the default grammar
`example2` is not total: on empty input the sentence loop produces zero
result bytes and the 4-byte length-header read
`result.as_slice()[..4]` panics instead of returning an error. -/
theorem c10_counterexample :
    cfgDecode ex2 [] = DOut.panics "slice [..4] out of range" := by
  decide

/-! ## The LSB image codec (`src/stego/lsb.rs`)

The raster is a function `pixel index → channel → value`; the source
addresses pixels through `(x, y) = (idx % width, idx / width)` and
`get_pixel(x, y)` at `y * width + x`, which recombines to the same
index. -/

structure Img where
  width : Nat
  height : Nat
  pixels : Nat → Nat → Nat

/-- Write one channel of one pixel. -/
def setChannel (img : Img) (pix ch val : Nat) : Img :=
  { img with pixels := fun i c =>
      if i = pix ∧ c = ch then val else img.pixels i c }

/-- `u32::to_le_bytes` of `n as u32`. -/
def le32 (n : Nat) : List Nat :=
  [n % 256, n / 2 ^ 8 % 256, n / 2 ^ 16 % 256, n % 2 ^ 32 / 2 ^ 24]

/-- `u32::from_le_bytes`. -/
def le32val (l : List Nat) : Nat :=
  l.getD 0 0 + l.getD 1 0 * 2 ^ 8 + l.getD 2 0 * 2 ^ 16 +
    l.getD 3 0 * 2 ^ 24

/-- The inner channel loop of the 1-bit embed path: write the MSB-first
bits of `byte` into the LSB of channels `chans` of pixel `pix`. Returns
the image, the shifted byte and the remaining bit count. -/
def embed1Chans (pix : Nat) : List Nat → Nat → Nat → Img →
    Img × Nat × Nat
  | [], byte, bitsLeft, img => (img, byte, bitsLeft)
  | ch :: rest, byte, bitsLeft, img =>
      match bitsLeft with
      | 0 => (img, byte, 0)
      | bl + 1 =>
          let v := img.pixels pix ch
          embed1Chans pix rest (byte * 2 % 256) bl
            (setChannel img pix ch (v - v % 2 + byte / 128 % 2))

/-- The outer pixel loop of the 1-bit embed path (`while bits_left > 0`
in `embed_bytes`); fuel 9 always suffices for the 8 bits of one byte. -/
def embed1Go : Nat → Nat → Nat → Nat → Nat → Img → RResult Img
  | 0, _, _, _, _, img => .ok img
  | fuel + 1, pixel, channel, byte, bitsLeft, img =>
      if bitsLeft = 0 then .ok img
      else if img.height ≤ pixel / img.width then
        .error (RErr.other "Image too small to store data")
      else
        let r := embed1Chans pixel ((List.range 3).drop channel) byte
          bitsLeft img
        if 0 < r.2.2 then embed1Go fuel (pixel + 1) 0 r.2.1 r.2.2 r.1
        else .ok r.1

/-- The channel loop of the multi-bit embed path. Writes
`min (k - offset) (8 - bw)` bits of `byte` into the bits
`[offset, offset+btw)` of each channel in turn; after the first channel
the offset is 0, which also models the spill loop exactly. Returns the
image and the new `bits_written`. -/
def embedKChans (k pix byte : Nat) : List Nat → Nat → Nat → Img →
    Img × Nat
  | [], bw, _, img => (img, bw)
  | ch :: rest, bw, offset, img =>
      if 8 ≤ bw then (img, bw)
      else
        let btw := min (k - offset) (8 - bw)
        let v := img.pixels pix ch
        let cleared := v - v / 2 ^ offset % 2 ^ btw * 2 ^ offset
        let bits := byte / 2 ^ (8 - btw - bw) % 2 ^ btw * 2 ^ offset
        embedKChans k pix byte rest (bw + btw) 0
          (setChannel img pix ch (cleared + bits))

/-- One byte of `embed_bytes` (`src/stego/lsb.rs:224-333`): start
position derived from the byte index, channel-first write, spill into
the next pixel. -/
def embedByte (k byte startBit byteIdx : Nat) (img : Img) : RResult Img :=
  let bitsPerPixel := k * 3
  let startPixel := (startBit + byteIdx * 8) / bitsPerPixel
  let bitOffset := (startBit + byteIdx * 8) % bitsPerPixel
  let channelStart := bitOffset / k
  let offsetInChannel := bitOffset % k
  if img.height ≤ startPixel / img.width then
    .error (RErr.other "Image too small to store data")
  else if k = 1 then
    embed1Go 9 startPixel channelStart byte 8 img
  else
    let r := embedKChans k startPixel byte ((List.range 3).drop channelStart)
      0 offsetInChannel img
    if r.2 < 8 then
      let nextPixel := startPixel + 1
      if img.height ≤ nextPixel / img.width then
        .error (RErr.other "Image too small to store data")
      else
        .ok (embedKChans k nextPixel byte (List.range 3) r.2 0 r.1).1
    else .ok r.1

/-- `lsb::embed_bytes`. -/
def embedBytes (k : Nat) (img : Img) (data : List Nat) (startBit : Nat) :
    RResult Img :=
  go data 0 img
where
  go : List Nat → Nat → Img → RResult Img
    | [], _, img => .ok img
    | b :: rest, idx, img =>
        match embedByte k b startBit idx img with
        | .error e => .error e
        | .ok img => go rest (idx + 1) img

/-- The inner channel loop of the 1-bit extract path. -/
def extract1Chans (img : Img) (pix : Nat) : List Nat → Nat → Nat →
    Nat × Nat
  | [], byte, bitsRead => (byte, bitsRead)
  | ch :: rest, byte, bitsRead =>
      if 8 ≤ bitsRead then (byte, bitsRead)
      else
        extract1Chans img pix rest
          (byte + img.pixels pix ch % 2 * 2 ^ (7 - bitsRead)) (bitsRead + 1)

/-- The outer pixel loop of the 1-bit extract path. -/
def extract1Go (img : Img) : Nat → Nat → Nat → Nat → Nat → RResult Nat
  | 0, _, _, byte, _ => .ok byte
  | fuel + 1, pixel, channel, byte, bitsRead =>
      if 8 ≤ bitsRead then .ok byte
      else if img.height ≤ pixel / img.width then
        .error (RErr.other "Image too small to extract data")
      else
        let r := extract1Chans img pixel ((List.range 3).drop channel) byte
          bitsRead
        if r.2 < 8 then extract1Go img fuel (pixel + 1) 0 r.1 r.2
        else .ok r.1

/-- The channel loop of the multi-bit extract path. -/
def extractKChans (k : Nat) (img : Img) (pix : Nat) : List Nat → Nat →
    Nat → Nat → Nat × Nat
  | [], bw, _, acc => (acc, bw)
  | ch :: rest, bw, offset, acc =>
      if 8 ≤ bw then (acc, bw)
      else
        let btr := min (k - offset) (8 - bw)
        let channelBits := img.pixels pix ch / 2 ^ offset % 2 ^ btr
        extractKChans k img pix rest (bw + btr) 0
          (acc + channelBits * 2 ^ (8 - btr - bw))

/-- One byte of `lsb::extract_bytes` (`src/stego/lsb.rs:347-451`). -/
def extractByte (k startBit byteIdx : Nat) (img : Img) : RResult Nat :=
  let bitsPerPixel := k * 3
  let startPixel := (startBit + byteIdx * 8) / bitsPerPixel
  let bitOffset := (startBit + byteIdx * 8) % bitsPerPixel
  let channelStart := bitOffset / k
  let offsetInChannel := bitOffset % k
  if img.height ≤ startPixel / img.width then
    .error (RErr.other "Image too small to extract data")
  else if k = 1 then
    extract1Go img 9 startPixel channelStart 0 0
  else
    let r := extractKChans k img startPixel
      ((List.range 3).drop channelStart) 0 offsetInChannel 0
    if r.2 < 8 then
      let nextPixel := startPixel + 1
      if img.height ≤ nextPixel / img.width then
        .error (RErr.other "Image too small to extract data")
      else
        .ok (extractKChans k img nextPixel (List.range 3) r.2 0 r.1).1
    else .ok r.1

/-- `lsb::extract_bytes`. -/
def extractBytes (k : Nat) (img : Img) (startBit length : Nat) :
    RResult (List Nat) :=
  go 0 length
where
  go (byteIdx : Nat) : Nat → RResult (List Nat)
    | 0 => .ok []
    | n + 1 =>
        match extractByte k startBit byteIdx img with
        | .error e => .error e
        | .ok b =>
            match go (byteIdx + 1) n with
            | .error e => .error e
            | .ok rest => .ok (b :: rest)

/-- `LSBEncoder::encode` with a supplied cover image: the capacity check
(`min_pixels` with the safety margin), then the 32-bit little-endian
length header at bit 0, then the payload at bit 32. PNG serialization is
an external wrapper (out of the spec's scope) modelled as the identity
on the raster, which `decode`'s `image::load_from_memory` inverts. -/
def lsbEncode (k : Nat) (cover : Img) (data : List Nat) : RResult Img :=
  let bitsPerPixel := k * 3
  let totalBits := (data.length + 4) * 8
  let pixelsNeeded := ceilDiv totalBits bitsPerPixel
  let margin := if 1 < k then pixelsNeeded else 100
  let minPixels := pixelsNeeded + margin
  if cover.width * cover.height < minPixels then
    .error (RErr.other "Cover image too small to store data")
  else
    match embedBytes k cover (le32 data.length) 0 with
    | .error e => .error e
    | .ok img => embedBytes k img data 32

/-- `LSBEncoder::decode` on the raster. -/
def lsbDecode (k : Nat) (img : Img) : RResult (List Nat) :=
  match extractBytes k img 0 4 with
  | .error e => .error e
  | .ok lenBytes => extractBytes k img 32 (le32val lenBytes)

/-- `RErr` kind discriminator used by refutations. -/
def isInvalidDataErr {α : Type} : RResult α → Bool
  | .error (RErr.invalidData _) => true
  | _ => false

/-- A 2×2 all-black cover image. -/
def tinyImg : Img := ⟨2, 2, fun _ _ => 0⟩

/-- C7 (counterexample): a cover too small for the payload makes
`LSBEncoder::encode` fail with `RainbowError::Other("Cover image too
small …")`, not with `InvalidData` as the claim states: at bit-depth 1 a
one-byte payload needs 14 + 100 pixels and the 2×2 cover has 4. -/
theorem c7_counterexample :
    lsbEncode 1 tinyImg [5] =
        Except.error (RErr.other "Cover image too small to store data") ∧
      isInvalidDataErr (lsbEncode 1 tinyImg [5]) = false := by
  constructor <;> rfl

/-- C7 (amended): for every bit-depth `k ≥ 1` and payload, a supplied
cover image with fewer than
`ceil((32 + 8·len)/ (3k)) + margin` pixels (margin 100 for `k = 1`,
double the required count for `k > 1`) makes encode return an error of
kind `Other` — never a truncated artifact and never `InvalidData`. -/
theorem c7_amended (k : Nat) (cover : Img) (data : List Nat)
    (hsmall : cover.width * cover.height <
      ceilDiv ((data.length + 4) * 8) (k * 3) +
        (if 1 < k then ceilDiv ((data.length + 4) * 8) (k * 3) else 100)) :
    lsbEncode k cover data =
      Except.error (RErr.other "Cover image too small to store data") := by
  unfold lsbEncode
  simp only [hsmall, if_pos]

/-- C7 (witness): the amended theorem applied at `k = 2`, a 3×3 cover
and a two-byte payload. -/
theorem c7_amended_witness :
    lsbEncode 2 ⟨3, 3, fun _ _ => 7⟩ [1, 2] =
      Except.error (RErr.other "Cover image too small to store data") :=
  c7_amended 2 ⟨3, 3, fun _ _ => 7⟩ [1, 2] (by decide)

/-! ## The octet codec (`src/stego/octet.rs`)

The AEAD primitives (`aes_gcm`, `chacha20poly1305` crates) are external
libraries; they enter as an explicit model parameter: deterministic
`seal : key → nonce → plaintext → ciphertext` and
`opn : key → nonce → ciphertext → Option plaintext`. -/

inductive EncryptionMethod where
  | aes | chacha
  deriving DecidableEq, Repr

structure AeadModel where
  aesSeal : List Nat → List Nat → List Nat → List Nat
  aesOpn : List Nat → List Nat → List Nat → Option (List Nat)
  chachaSeal : List Nat → List Nat → List Nat → List Nat
  chachaOpn : List Nat → List Nat → List Nat → Option (List Nat)

structure OctetEncoder where
  method : EncryptionMethod
  key : List Nat

/-- `OctetEncoder::encode` (the random nonce is passed explicitly). -/
def octetEncode (A : AeadModel) (e : OctetEncoder) (nonce data : List Nat) :
    RResult (List Nat) :=
  let encrypted :=
    match e.method with
    | .aes => A.aesSeal e.key nonce data
    | .chacha => A.chachaSeal e.key nonce data
  .ok ((match e.method with | .aes => 0 | .chacha => 1) ::
    nonce ++ le32 encrypted.length ++ encrypted)

/-- `OctetEncoder::decode`: read the method tag, nonce and length; use
the instance's cipher when the tag matches its method, otherwise try
AES and fall back to ChaCha with the same key. -/
def octetDecode (A : AeadModel) (e : OctetEncoder) (content : List Nat) :
    RResult (List Nat) :=
  if content.length < 17 then
    .error (RErr.invalidData "Content too short")
  else
    let methodTag := content.getD 0 0
    let method? : Option EncryptionMethod :=
      if methodTag = 0 then some .aes
      else if methodTag = 1 then some .chacha
      else none
    match method? with
    | none => .error (RErr.invalidData "Invalid encryption method")
    | some method =>
        let nonce := (content.drop 1).take 12
        let encryptedLen := le32val ((content.drop 13).take 4)
        if content.length < 17 + encryptedLen then
          .error (RErr.invalidData "Content shorter than expected")
        else
          let encryptedData := (content.drop 17).take encryptedLen
          let result :=
            if method = e.method then
              match e.method with
              | .aes => A.aesOpn e.key nonce encryptedData
              | .chacha => A.chachaOpn e.key nonce encryptedData
            else
              match A.aesOpn e.key nonce encryptedData with
              | some d => some d
              | none => A.chachaOpn e.key nonce encryptedData
          match result with
          | some d => .ok d
          | none => .error (RErr.other "decryption failed")

theorem le32val_le32 (n : Nat) (h : n < 2 ^ 32) : le32val (le32 n) = n := by
  simp only [le32, le32val, List.getD]
  simp
  omega

theorem length_le32 (n : Nat) : (le32 n).length = 4 := rfl

/-- Wire-format decomposition of an encoded octet artifact. -/
theorem octet_parts (tag : Nat) (nonce ct : List Nat)
    (hn : nonce.length = 12) :
    (tag :: nonce ++ le32 ct.length ++ ct).length = 17 + ct.length ∧
    (tag :: nonce ++ le32 ct.length ++ ct).getD 0 0 = tag ∧
    ((tag :: nonce ++ le32 ct.length ++ ct).drop 1).take 12 = nonce ∧
    ((tag :: nonce ++ le32 ct.length ++ ct).drop 13).take 4 =
      le32 ct.length ∧
    ((tag :: nonce ++ le32 ct.length ++ ct).drop 17).take ct.length = ct := by
  have hassoc : tag :: nonce ++ le32 ct.length ++ ct =
      (tag :: nonce) ++ (le32 ct.length ++ ct) := by simp
  have hlen13 : (tag :: nonce).length = 13 := by simp [hn]
  have hdrop13 : (tag :: nonce ++ le32 ct.length ++ ct).drop 13 =
      le32 ct.length ++ ct := by
    rw [hassoc, ← hlen13, List.drop_left]
  have hdrop1 : (tag :: nonce ++ le32 ct.length ++ ct).drop 1 =
      nonce ++ (le32 ct.length ++ ct) := by
    have e1 : tag :: nonce ++ le32 ct.length ++ ct =
        [tag] ++ (nonce ++ (le32 ct.length ++ ct)) := by simp
    have h1 : ([tag] : List Nat).length = 1 := rfl
    rw [e1, ← h1, List.drop_left]
  refine ⟨by simp [hn, length_le32]; omega, rfl, ?_, ?_, ?_⟩
  · rw [hdrop1, ← hn, List.take_left]
  · rw [hdrop13, ← length_le32 ct.length, List.take_left]
  · have e3 : (tag :: nonce ++ le32 ct.length ++ ct).drop 17 =
        ((tag :: nonce ++ le32 ct.length ++ ct).drop 13).drop 4 := by
      rw [List.drop_drop]
    rw [e3, hdrop13, ← length_le32 ct.length, List.drop_left,
      List.take_length]

/-- Decoding an artifact whose method tag differs from the instance's
method runs the try-both branch. -/
theorem octetDecode_encoded_cross (A : AeadModel) (e : OctetEncoder)
    (tag : Nat) (nonce ct : List Nat) (hn : nonce.length = 12)
    (hlt : ct.length < 2 ^ 32)
    (htag : (tag = 0 ∧ e.method = .chacha) ∨ (tag = 1 ∧ e.method = .aes)) :
    octetDecode A e (tag :: nonce ++ le32 ct.length ++ ct) =
      match A.aesOpn e.key nonce ct with
      | some d => .ok d
      | none =>
          match A.chachaOpn e.key nonce ct with
          | some d => .ok d
          | none => .error (RErr.other "decryption failed") := by
  obtain ⟨hlen, hget, hnonce, hle, hct⟩ := octet_parts tag nonce ct hn
  unfold octetDecode
  have hnlt : ¬ ((tag :: nonce ++ le32 ct.length ++ ct).length < 17) := by
    omega
  simp only [hnlt, if_false, hget, hnonce]
  have hval : le32val (((tag :: nonce ++ le32 ct.length ++ ct).drop 13).take 4)
      = ct.length := by rw [hle, le32val_le32 _ hlt]
  have hnlt2 : ¬ ((tag :: nonce ++ le32 ct.length ++ ct).length <
      17 + ct.length) := by omega
  rcases htag with ⟨h0, hm⟩ | ⟨h1, hm⟩
  · subst h0
    rw [hm]
    simp only [if_pos rfl, hval, hnlt2, if_false, hct]
    cases A.aesOpn e.key nonce ct with
    | none => cases A.chachaOpn e.key nonce ct <;> simp
    | some d => simp
  · subst h1
    rw [hm]
    have h10 : (1 : Nat) ≠ 0 := by omega
    simp only [h10, if_false, if_pos rfl, hval, hnlt2, hct]
    cases A.aesOpn e.key nonce ct with
    | none => cases A.chachaOpn e.key nonce ct <;> simp
    | some d => simp

/-- C8: octet cross-method decode. For AEAD primitives satisfying the
standard facts — each cipher's `open` inverts its own `seal`, AES `open`
rejects a ChaCha ciphertext, and ciphertexts are shorter than 2^32 — an
artifact encoded by the AES instance under key K is decoded back to the
plaintext by the ChaCha instance under the same key, and vice versa:
decode reads the one-byte method tag and, when it differs from the
instance's own method, tries both ciphers with the same key. -/
theorem c8_cross_method (A : AeadModel) (key n1 n2 x : List Nat)
    (hn1 : n1.length = 12) (hn2 : n2.length = 12)
    (haes : A.aesOpn key n1 (A.aesSeal key n1 x) = some x)
    (hcha : A.chachaOpn key n2 (A.chachaSeal key n2 x) = some x)
    (hcross : A.aesOpn key n2 (A.chachaSeal key n2 x) = none)
    (hl1 : (A.aesSeal key n1 x).length < 2 ^ 32)
    (hl2 : (A.chachaSeal key n2 x).length < 2 ^ 32) :
    (octetEncode A ⟨.aes, key⟩ n1 x).bind
        (octetDecode A ⟨.chacha, key⟩) = Except.ok x ∧
      (octetEncode A ⟨.chacha, key⟩ n2 x).bind
        (octetDecode A ⟨.aes, key⟩) = Except.ok x := by
  constructor
  · show octetDecode A ⟨.chacha, key⟩ (0 :: n1 ++
      le32 (A.aesSeal key n1 x).length ++ A.aesSeal key n1 x) = Except.ok x
    rw [octetDecode_encoded_cross A ⟨.chacha, key⟩ 0 n1 _ hn1 hl1
      (Or.inl ⟨rfl, rfl⟩)]
    simp [haes]
  · show octetDecode A ⟨.aes, key⟩ (1 :: n2 ++
      le32 (A.chachaSeal key n2 x).length ++ A.chachaSeal key n2 x) =
      Except.ok x
    rw [octetDecode_encoded_cross A ⟨.aes, key⟩ 1 n2 _ hn2 hl2
      (Or.inr ⟨rfl, rfl⟩)]
    simp [hcross, hcha]

/-- A concrete AEAD model for witness purposes: each cipher prefixes its
tag byte and opening checks it (so cross-opening fails). -/
def toyAead : AeadModel :=
  ⟨fun _ _ m => 0 :: m,
   fun _ _ c => if c.getD 0 9 = 0 then some c.tail else none,
   fun _ _ m => 1 :: m,
   fun _ _ c => if c.getD 0 9 = 1 then some c.tail else none⟩

/-- C8 (witness): the theorem at the concrete AEAD model, zero key and
nonces, plaintext `[1,2,3]`. -/
theorem c8_cross_method_witness :
    ((octetEncode toyAead ⟨.aes, List.replicate 32 0⟩ (List.replicate 12 0)
        [1, 2, 3]).bind
        (octetDecode toyAead ⟨.chacha, List.replicate 32 0⟩) =
          Except.ok [1, 2, 3]) ∧
    ((octetEncode toyAead ⟨.chacha, List.replicate 32 0⟩
        (List.replicate 12 0) [1, 2, 3]).bind
        (octetDecode toyAead ⟨.aes, List.replicate 32 0⟩) =
          Except.ok [1, 2, 3]) :=
  c8_cross_method toyAead
    (List.replicate 32 0) (List.replicate 12 0) (List.replicate 12 0)
    [1, 2, 3] (by decide) (by decide) (by decide) (by decide) (by decide)
    (by decide) (by decide)

/-! ## The codec registry defaults (`src/stego/mod.rs`) -/

structure CodecInfo where
  cname : String
  mime : String
  deriving DecidableEq, Repr

/-- `EncoderRegistry::default` (`src/stego/mod.rs:61-91`), as the pairs
(registry key, codec's `get_mime_type()`), in insertion order. The
`get_mime_type` values come from each codec's file; `html`, `xml` and
`json` lack the method in this snapshot of the sources and `audio` is
registered through an `AudioEncoder` without an `Encoder` impl — those
four MIMEs are modelled from the spec (`text/html`, `application/xml`,
`application/json`, `audio/wav`). No `cfg` codec is registered. -/
def defaultRegistry : List CodecInfo :=
  [⟨"html", "text/html"⟩, ⟨"json", "application/json"⟩,
   ⟨"prism", "text/html"⟩, ⟨"font", "text/html"⟩, ⟨"css", "text/css"⟩,
   ⟨"houdini", "text/css"⟩, ⟨"grid", "text/css"⟩,
   ⟨"xml", "application/xml"⟩, ⟨"rss", "application/xml"⟩,
   ⟨"audio", "audio/wav"⟩, ⟨"lsb", "image/png"⟩,
   ⟨"svg_path", "image/svg+xml"⟩, ⟨"octet", "application/octet-stream"⟩]

/-- The registry's MIME index: names of the codecs declaring a MIME. -/
def mimeIndex (reg : List CodecInfo) (mime : String) : List String :=
  (reg.filter (fun c => c.mime = mime)).map (·.cname)

/-- C6 (counterexample): the default-constructed registry has no codec
with MIME `text/plain` and no codec named `cfg` at all — the CFG codec
is absent from `EncoderRegistry::default`. -/
theorem c6_counterexample :
    mimeIndex defaultRegistry "text/plain" = [] ∧
      defaultRegistry.all (fun c => c.cname ≠ "cfg") = true := by
  constructor <;> decide

/-- C6 (amended): the default registry's MIME index maps
`text/html → [html, prism, font]`, `text/css → [css, houdini, grid]`,
`application/json → [json]`, `application/xml → [xml, rss]`,
`audio/wav → [audio]`, `image/svg+xml → [svg_path]`,
`image/png → [lsb]`, `application/octet-stream → [octet]`, and
`text/plain` to no codec (the CFG codec is not registered; the codecs
the claim calls `wav-audio` and `svg-path` are keyed `audio` and
`svg_path`). -/
theorem c6_amended :
    mimeIndex defaultRegistry "text/html" = ["html", "prism", "font"] ∧
    mimeIndex defaultRegistry "text/css" = ["css", "houdini", "grid"] ∧
    mimeIndex defaultRegistry "application/json" = ["json"] ∧
    mimeIndex defaultRegistry "application/xml" = ["xml", "rss"] ∧
    mimeIndex defaultRegistry "audio/wav" = ["audio"] ∧
    mimeIndex defaultRegistry "image/svg+xml" = ["svg_path"] ∧
    mimeIndex defaultRegistry "image/png" = ["lsb"] ∧
    mimeIndex defaultRegistry "application/octet-stream" = ["octet"] ∧
    mimeIndex defaultRegistry "text/plain" = [] := by
  repeat' constructor <;> decide

/-! ## The encoder holder (`EncodersHolder`)

`rainbow.rs` stores an `EncodersHolder`, whose definition is not under
`src/` (only its callers are). Modelled from the spec: a codec catalog
with MIME-based dispatch whose `encode_mime`/`decode_mime` are embedded
from the identical `EncoderRegistry` methods in
`src/stego/mod.rs:169-242`. A codec is its name, MIME and the two
byte-level functions. -/

structure Codec where
  cname : String
  mime : List Char
  enc : List Nat → RResult (List Nat)
  dec : List Nat → RResult (List Nat)

structure Holder where
  codecs : List Codec

/-- The caller-supplied randomness: `thread_rng().shuffle` modelled as an
index permutation, falling back to the given order when the supplied
indices are not a permutation. -/
def reorder (ord : List Nat) (l : List α) : List α :=
  if ord.length = l.length ∧ ord.Nodup ∧ ∀ i ∈ ord, i < l.length then
    ord.filterMap l.get?
  else l

/-- `encode_mime` (`src/stego/mod.rs:169-194`): pick one matching codec
(`pick` models the `gen_range` draw) and encode. -/
def encodeMime (h : Holder) (data : List Nat) (mime : List Char)
    (pick : Nat) : RResult (List Nat) :=
  let matching := h.codecs.filter (fun c => c.mime == mime)
  match matching with
  | [] => .error (RErr.other "Unsupported MIME type")
  | c :: rest => ((c :: rest).getD (pick % (c :: rest).length) c).enc data

/-- The try-each-decoder loop of `decode_mime`: first `Ok` with
non-empty output wins. -/
def tryDecoders (data : List Nat) : List Codec → RResult (List Nat)
  | [] => .error (RErr.other "No decoder succeeded")
  | c :: rest =>
      match c.dec data with
      | .ok decoded =>
          if decoded.isEmpty then tryDecoders data rest else .ok decoded
      | .error _ => tryDecoders data rest

/-- `decode_mime` (`src/stego/mod.rs:197-242`). -/
def decodeMime (h : Holder) (data : List Nat) (mime : List Char)
    (ord : List Nat) : RResult (List Nat) :=
  let matching := h.codecs.filter (fun c => c.mime == mime)
  if matching.isEmpty then .error (RErr.other "Unsupported MIME type")
  else tryDecoders data (reorder ord matching)

/-! ## The framing layer (`src/rainbow.rs`) -/

/-- The thread-local randomness consumed while building one packet,
passed explicitly: path / cookie-name draws, session id, the optional
noise cookies and headers, the `Date` text, the status-code draw, the
timestamp, the encoder pick and the expected-reply-length draw. -/
structure ReqRand where
  pathIdx : Nat
  cookieNameIdx : Nat
  sid : List Char
  gaFlag : Bool
  ga1 : Nat
  ga2 : Nat
  gidFlag : Bool
  gid : Nat
  themeFlag : Bool
  dntFlag : Bool
  cacheFlag : Bool
  stsFlag : Bool
  cspFlag : Bool
  dateStr : List Char
  statusCode : Nat
  timestamp : Nat
  encPick : Nat
  expLen : Nat

/-- `utils::generate_realistic_headers`, as (lowercase canonical header
name, value) pairs in insertion order (`HeaderName::as_str` is
lowercase). -/
def realisticHeaders (isRequest : Bool) (r : ReqRand) :
    List (List Char × List Char) :=
  if isRequest then
    [("user-agent".toList,
      "Mozilla/5.0 (Windows NT 10.0; Win64; x64) AppleWebKit/537.36".toList),
     ("accept-language".toList, "en-US,en;q=0.9".toList),
     ("accept-encoding".toList, "gzip, deflate, br".toList)] ++
    (if r.dntFlag then [("dnt".toList, "1".toList)] else []) ++
    (if r.cacheFlag then
      [("cache-control".toList, "max-age=0".toList)] else [])
  else
    [("server".toList, "nginx/1.18.0".toList),
     ("x-frame-options".toList, "SAMEORIGIN".toList),
     ("x-content-type-options".toList, "nosniff".toList)] ++
    (if r.stsFlag then
      [("strict-transport-security".toList,
        "max-age=31536000; includeSubDomains".toList)] else []) ++
    (if r.cspFlag then
      [("content-security-policy".toList,
        "default-src 'self'".toList)] else [])

/-- `Rainbow::build_common_headers`. -/
def buildCommonHeaders (isRequest : Bool) (r : ReqRand) : List Char :=
  "Date: ".toList ++ r.dateStr ++ "\r\n".toList ++
    (realisticHeaders isRequest r).foldl
      (fun acc p => acc ++ p.1 ++ ": ".toList ++ p.2 ++ "\r\n".toList) []

/-- `Rainbow::build_cookie_header`. -/
def buildCookieHeader (pinfo : PacketInfo) (isRequest : Bool)
    (r : ReqRand) : List Char :=
  let cookieName := cookieNames.getD (r.cookieNameIdx % cookieNames.length) []
  let cookies :=
    [cookieName ++ "=".toList ++ pinfo.toCookie,
     "sid=".toList ++ r.sid] ++
    (if r.gaFlag then
      ["_ga=GA1.2.".toList ++ natChars (r.ga1 % 2 ^ 32) ++ ".".toList ++
        natChars (r.ga2 % 2 ^ 32)] else []) ++
    (if r.gidFlag then
      ["_gid=GA1.2.".toList ++ natChars (r.gid % 2 ^ 32)] else []) ++
    (if r.themeFlag then ["theme=light".toList] else [])
  (if isRequest then "Cookie: ".toList else "Set-Cookie: ".toList) ++
    (cookies.intersperse "; ".toList).foldl (· ++ ·) [] ++ "\r\n".toList

/-- `Rainbow::get_accept_header`. -/
def getAcceptHeader (path : List Char) : List Char :=
  if ".css".toList.isSuffixOf path then "text/css,*/*;q=0.1".toList
  else if ".js".toList.isSuffixOf path then
    "application/javascript,*/*;q=0.1".toList
  else if ".png".toList.isSuffixOf path then
    "image/png,image/*;q=0.8,*/*;q=0.5".toList
  else if "/api/".toList.isPrefixOf path then "application/json".toList
  else "*/*".toList

/-- `Rainbow::build_http_request` (the data is already codec-encoded). -/
def buildHttpRequest (data : List Nat) (pinfo : PacketInfo)
    (mime : List Char) (r : ReqRand) : List Nat :=
  let useGet := containsSeq "text/plain".toList mime ||
    containsSeq "application/json".toList mime
  let paths := if useGet then getPaths else postPaths
  let path := paths.getD (r.pathIdx % paths.length) []
  let method := if useGet then "GET".toList else "POST".toList
  let headers :=
    method ++ " ".toList ++ path ++ " HTTP/1.1\r\n".toList ++
    buildCommonHeaders true r ++
    "Accept: ".toList ++ getAcceptHeader path ++ "\r\n".toList ++
    buildCookieHeader pinfo true r
  if useGet then
    utf8Encode (headers ++ "X-Data: ".toList ++ base64Encode data ++
      "\r\n\r\n".toList)
  else
    utf8Encode (headers ++ "Content-Type: ".toList ++ mime ++
      "\r\n".toList ++ "Content-Length: ".toList ++ natChars data.length ++
      "\r\n\r\n".toList) ++ data

/-- `Rainbow::build_http_response`. -/
def buildHttpResponse (data : List Nat) (pinfo : PacketInfo)
    (mime : List Char) (r : ReqRand) : List Nat :=
  let headers :=
    "HTTP/1.1 ".toList ++ natChars r.statusCode ++ " OK\r\n".toList ++
    buildCommonHeaders false r ++
    "Content-Type: ".toList ++ mime ++ "\r\n".toList ++
    "Content-Length: ".toList ++ natChars data.length ++ "\r\n".toList ++
    buildCookieHeader pinfo false r ++ "\r\n".toList
  utf8Encode headers ++ data

/-- `Rainbow::decode_single_packet`. -/
def decodeSinglePacket (h : Holder) (ord : List Nat) (packet : List Nat) :
    RResult (List Nat) :=
  match findCrlfCrlf packet with
  | none => .error (RErr.invalidData "Invalid packet format")
  | some splitPos =>
      let header := utf8Lossy (packet.take splitPos)
      let body := packet.drop (splitPos + 4)
      match rustLines header with
      | [] => .error (RErr.invalidData "Cannot get first line")
      | firstLine :: _ =>
          if "GET".toList.isPrefixOf firstLine then
            match (rustLines header).find?
                (fun l => "x-data:".toList.isPrefixOf (toLowerAscii l)) with
            | none =>
                .error (RErr.invalidData "Missing X-Data header in GET request")
            | some line =>
                match splitOnceChar ':' line with
                | none => .error (RErr.invalidData "Invalid X-Data header")
                | some (_, v) =>
                    match base64Decode (trimBoth v) with
                    | none => .error RErr.base64Error
                    | some dataToDecode =>
                        match decodeMime h dataToDecode "text/plain".toList
                            ord with
                        | .ok decoded => .ok decoded
                        | .error _ =>
                            match decodeMime h dataToDecode
                                "application/json".toList ord with
                            | .ok decoded => .ok decoded
                            | .error _ =>
                                .error (RErr.invalidData
                                  "Failed to decode content")
          else
            match (rustLines header).find? (fun l =>
                "content-type:".toList.isPrefixOf (toLowerAscii l)) with
            | none => .error (RErr.invalidData "Missing Content-Type header")
            | some line =>
                match splitOnceChar ':' line with
                | none => .error (RErr.invalidData "Missing Content-Type header")
                | some (_, v) => decodeMime h body (trimBoth v) ord

/-- `http::HeaderValue::from_str` validity (external library): every
byte is tab, or visible, or ≥ 0x80. -/
def headerValueOk (v : List Char) : Bool :=
  v.all (fun c => c.toNat = 9 || (32 ≤ c.toNat && c.toNat ≠ 127))

/-- The cookie scan of `decrypt_single_read`: values of header lines
whose lowercased text starts with `cookie:` (accepted by
`HeaderValue::from_str`), in order. -/
def cookieHeaderValues (headerLines : List (List Char)) : List (List Char) :=
  (headerLines.filter
    (fun l => "cookie:".toList.isPrefixOf (toLowerAscii l))).filterMap
    (fun l =>
      let v := trimBoth (l.drop 7)
      if headerValueOk v then some v else none)

/-- `Rainbow::parse_cookies`: split every collected `Cookie` value on
`;` and trim. -/
def parseCookies (vals : List (List Char)) : List (List Char) :=
  vals.flatMap (fun v => (splitOnChar ';' v).map trimBoth)

/-- The first cookie whose name is well-known and whose value decodes as
a `PacketInfo` (`src/rainbow.rs:599-611`). -/
def findPInfoIn : List (List Char) → Option PacketInfo
  | [] => none
  | c :: rest =>
      match splitOnceChar '=' c with
      | some (name, value) =>
          if cookieNames.contains (trimBoth name) then
            match PacketInfo.fromCookie (trimBoth value) with
            | .ok info => some info
            | .error _ => findPInfoIn rest
          else findPInfoIn rest
      | none => findPInfoIn rest

structure DecodeResultM where
  data : List Nat
  expectedReturnLength : Nat
  isReadEnd : Bool
  deriving DecidableEq, Repr

/-- `Rainbow::decrypt_single_read`. -/
def decryptSingleRead (h : Holder) (ord : List Nat) (data : List Nat)
    (packetIndex : Nat) (isClient : Bool) : RResult DecodeResultM :=
  match validateHttpPacket data with
  | .error e => .error e
  | .ok _ =>
      match decodeSinglePacket h ord data with
      | .error e => .error e
      | .ok decoded =>
          let isResponse := (utf8Encode "HTTP/1.1".toList).isPrefixOf data
          if isClient ∧ isResponse then
            .error (RErr.invalidData "Client should not receive responses")
          else if ¬ isClient ∧ ¬ isResponse then
            .error (RErr.invalidData "Server should not receive requests")
          else
            match findCrlfCrlf data with
            | none => .error (RErr.invalidData "Invalid packet format")
            | some splitPos =>
                let headerPart := utf8Lossy (data.take splitPos)
                match findPInfoIn
                    (parseCookies (cookieHeaderValues
                      (rustLines headerPart))) with
                | none =>
                    .error (RErr.invalidData
                      "Could not find valid packet info in cookies")
                | some info =>
                    .ok ⟨decoded, info.length,
                      decide (info.total ≤ packetIndex + 1)⟩

/-- `data.chunks(n)`, fuelled on the list length. -/
def chunksOfGo (n : Nat) : Nat → List α → List (List α)
  | _, [] => []
  | 0, _ => []
  | fuel + 1, l => l.take n :: chunksOfGo n fuel (l.drop n)

def chunksOf (n : Nat) (l : List α) : List (List α) :=
  chunksOfGo n l.length l

structure EncodeResultM where
  packets : List (List Nat)
  expectedLengths : List Nat
  deriving DecidableEq, Repr

/-- The per-chunk loop of `encode_write`; `rands i` is the randomness
consumed for chunk `i` and `mimeDraw i` the `get_random_mime_type`
draw. -/
def encodeWriteGo (h : Holder) (isClient : Bool)
    (mimeOpt : Option (List Char)) (rands : Nat → ReqRand)
    (mimeDraw : Nat → List Char) (total : Nat) :
    List (List Nat) → Nat → RResult (List (List Nat) × List Nat)
  | [], _ => .ok ([], [])
  | chunk :: rest, i =>
      let r := rands i
      let mime := mimeOpt.getD (mimeDraw i)
      match encodeMime h chunk mime r.encPick with
      | .error e => .error e
      | .ok encoded =>
          let pinfo := PacketInfo.mkNew r.timestamp i total chunk.length
          let packet :=
            if isClient then buildHttpRequest encoded pinfo mime r
            else buildHttpResponse encoded pinfo mime r
          match encodeWriteGo h isClient mimeOpt rands mimeDraw total rest
              (i + 1) with
          | .error e => .error e
          | .ok (ps, ls) => .ok (packet :: ps, r.expLen :: ls)

/-- `Rainbow::encode_write`. -/
def encodeWrite (h : Holder) (data : List Nat) (isClient : Bool)
    (mimeOpt : Option (List Char)) (rands : Nat → ReqRand)
    (mimeDraw : Nat → List Char) : RResult EncodeResultM :=
  let chunks := chunksOf 1024 data
  match encodeWriteGo h isClient mimeOpt rands mimeDraw chunks.length
      chunks 0 with
  | .error e => .error e
  | .ok (ps, ls) => .ok ⟨ps, ls⟩

/-! ## Claims C1-C3 -/

/-- The CFG codec as an `Encoder` (`CFGEncoder` with the default grammar
`example2`, MIME `text/plain`); a decode abort (panic) is mapped to an
error here, which is exact on every path exercised below (no abort
occurs). -/
def cfgCodec : Codec :=
  ⟨"cfg", "text/plain".toList,
   fun d => match cfgEncode ex2 d with
     | some t => .ok (utf8Encode t)
     | none => .error (RErr.other "cfg encode abort"),
   fun c => match cfgDecode ex2 c with
     | DOut.ok bs => .ok bs
     | DOut.err e => .error e
     | _ => .error (RErr.other "cfg decode abort")⟩

/-- Modelled from the spec: the `EncodersHolder` built by
`Rainbow::new` (absent from `src/`), restricted to its `text/plain`
entry — the CFG codec — which is the only codec the concrete packets
below use. -/
def specHolder : Holder := ⟨[cfgCodec]⟩

/-- One concrete draw of the per-packet randomness: path 0 (`/`),
cookie name 0 (`sessionId`), session id `abc123`, no noise cookies or
optional headers, a fixed date, status 200, timestamp 1700000000. -/
def r0 : ReqRand :=
  ⟨0, 0, "abc123".toList, false, 0, 0, false, 0, false, false, false,
   false, false, "Mon, 01 Jan 2024 00:00:00 GMT".toList, 200,
   1700000000, 0, 500⟩

/-- The single packet produced by
`encode_write([1], is_client=false, mime=text/plain)` under `r0`,
followed by `decrypt_single_read(packet, 0, false)`. -/
def c1ServerDecrypt : RResult DecodeResultM :=
  (encodeWrite specHolder [1] false (some "text/plain".toList)
    (fun _ => r0) (fun _ => "text/plain".toList)).bind
    (fun r => decryptSingleRead specHolder [0] (r.packets.getD 0 []) 0 false)

/-- C1 (code bug): the framing round-trip fails for every server-authored
packet. `encode_write` with `is_client = false` produces an HTTP response
carrying its PacketInfo in a `Set-Cookie` header, but
`decrypt_single_read` scans only lines starting (case-insensitively) with
`cookie:`, so the cookie is never found: decoding the one response packet
of payload `[0x01]` fails with `InvalidData("Could not find valid packet
info in cookies")` instead of recovering the payload. -/
theorem c1_server_roundtrip_fails :
    c1ServerDecrypt =
      Except.error
        (RErr.invalidData "Could not find valid packet info in cookies") := by
  decide

/-- C2: whenever `encode_write` succeeds, it returns exactly
`ceil(len(data)/1024)` packets (`0` for empty data) and an
expected-reply-length list of the same length. -/
theorem c2_chunk_count (h : Holder) (data : List Nat) (isClient : Bool)
    (mimeOpt : Option (List Char)) (rands : Nat → ReqRand)
    (mimeDraw : Nat → List Char) (res : EncodeResultM)
    (hok : encodeWrite h data isClient mimeOpt rands mimeDraw =
      Except.ok res) :
    res.packets.length = ceilDiv data.length 1024 ∧
      res.expectedLengths.length = res.packets.length := by
  have hchunks : ∀ (fuel : Nat) (l : List Nat), l.length ≤ fuel →
      (chunksOfGo 1024 fuel l).length = ceilDiv l.length 1024 := by
    intro fuel
    induction fuel with
    | zero =>
        intro l h
        cases l with
        | nil => simp [chunksOfGo, ceilDiv]
        | cons a r => simp at h
    | succ f ih =>
        intro l h
        cases l with
        | nil => simp [chunksOfGo, ceilDiv]
        | cons a r =>
            show ((a :: r).take 1024 :: chunksOfGo 1024 f
              ((a :: r).drop 1024)).length = _
            have hdl : ((a :: r).drop 1024).length = (a :: r).length - 1024 := by
              rw [List.length_drop]
            have hle : ((a :: r).drop 1024).length ≤ f := by
              simp only [hdl, List.length_cons]
              simp only [List.length_cons] at h
              omega
            simp only [List.length_cons, ih _ hle, hdl, ceilDiv,
              List.length_cons]
            omega
  have hgo : ∀ (chs : List (List Nat)) (i : Nat) (ps : List (List Nat))
      (ls : List Nat),
      encodeWriteGo h isClient mimeOpt rands mimeDraw
        (chunksOf 1024 data).length chs i = Except.ok (ps, ls) →
      ps.length = chs.length ∧ ls.length = chs.length := by
    intro chs
    induction chs with
    | nil =>
        intro i ps ls hok2
        simp only [encodeWriteGo] at hok2
        cases hok2
        simp
    | cons c rest ih =>
        intro i ps ls hok2
        simp only [encodeWriteGo] at hok2
        cases hm : encodeMime h c (mimeOpt.getD (mimeDraw i))
            (rands i).encPick with
        | error e => rw [hm] at hok2; cases hok2
        | ok enc =>
            rw [hm] at hok2
            cases hrec : encodeWriteGo h isClient mimeOpt rands mimeDraw
                (chunksOf 1024 data).length rest (i + 1) with
            | error e => rw [hrec] at hok2; cases hok2
            | ok pr =>
                rw [hrec] at hok2
                cases hok2
                have := ih (i + 1) pr.1 pr.2 (by rw [hrec])
                simp [this.1, this.2]
  unfold encodeWrite at hok
  dsimp only at hok
  cases hw : encodeWriteGo h isClient mimeOpt rands mimeDraw
      (chunksOf 1024 data).length (chunksOf 1024 data) 0 with
  | error e => rw [hw] at hok; cases hok
  | ok pr =>
      rw [hw] at hok
      cases hok
      have hlen := hgo (chunksOf 1024 data) 0 pr.1 pr.2 (by rw [hw])
      have hcl : (chunksOf 1024 data).length = ceilDiv data.length 1024 :=
        hchunks data.length data (Nat.le_refl _)
      exact ⟨by rw [hlen.1, hcl], by rw [hlen.2, hlen.1]⟩

/-- C2 (witness): the theorem at the concrete encoder holder, payload
`[7]`, client side, MIME `text/plain`: one packet, one length. -/
theorem c2_chunk_count_witness :
    (match hok : encodeWrite specHolder [7] true (some "text/plain".toList)
        (fun _ => r0) (fun _ => "text/plain".toList) with
     | .ok res => res.packets.length = ceilDiv 1 1024 ∧
         res.expectedLengths.length = res.packets.length
     | .error _ => False) := by
  split
  · next res hok => exact c2_chunk_count specHolder [7] true _ _ _ res hok
  · next e hok =>
      have hne : (encodeWrite specHolder [7] true (some "text/plain".toList)
          (fun _ => r0) (fun _ => "text/plain".toList)).isOk = true := by
        decide
      rw [hok] at hne
      cases hne

/-- The single packet produced by
`encode_write([1], is_client=true, mime=text/plain)` under `r0`: a GET
request whose first bytes are `GET / HTTP/1.1`, not `HTTP/1.1`. -/
def c3ReqPacket : List Nat :=
  match encodeWrite specHolder [1] true (some "text/plain".toList)
      (fun _ => r0) (fun _ => "text/plain".toList) with
  | .ok r => r.packets.getD 0 []
  | .error _ => []

/-- C3 (counterexample): a request packet (first bytes not `HTTP/1.1`)
processed by `decrypt_single_read` with `is_client = true` does NOT
return the claimed `InvalidData` error — it succeeds and returns the
payload. The code rejects the opposite pairings. -/
theorem c3_counterexample :
    (utf8Encode "HTTP/1.1".toList).isPrefixOf c3ReqPacket = false ∧
      decryptSingleRead specHolder [0] c3ReqPacket 0 true =
        Except.ok ⟨[1], 1, true⟩ := by
  constructor <;> decide

/-- C3 (amended): the direction check is the reverse of the claim: a
client must not receive *responses* and a server must not receive
*requests*. For every packet and index, if `is_client = true` and the
packet starts with `HTTP/1.1`, or `is_client = false` and it does not,
`decrypt_single_read` fails — and when validation and body decoding
succeed the error is exactly `InvalidData("Client should not receive
responses")` resp. `InvalidData("Server should not receive requests")`. -/
theorem c3_amended (h : Holder) (ord data : List Nat) (idx : Nat)
    (isClient : Bool)
    (hdir : (isClient = true ∧
        (utf8Encode "HTTP/1.1".toList).isPrefixOf data = true) ∨
      (isClient = false ∧
        (utf8Encode "HTTP/1.1".toList).isPrefixOf data = false)) :
    (∃ e, decryptSingleRead h ord data idx isClient = Except.error e) ∧
    (∀ d, validateHttpPacket data = Except.ok () →
      decodeSinglePacket h ord data = Except.ok d →
      decryptSingleRead h ord data idx isClient = Except.error
        (RErr.invalidData (if isClient then
          "Client should not receive responses"
          else "Server should not receive requests"))) := by
  have hbody : ∀ d, validateHttpPacket data = Except.ok () →
      decodeSinglePacket h ord data = Except.ok d →
      decryptSingleRead h ord data idx isClient = Except.error
        (RErr.invalidData (if isClient then
          "Client should not receive responses"
          else "Server should not receive requests")) := by
    intro d hval hdec
    unfold decryptSingleRead
    rw [hval, hdec]
    rcases hdir with ⟨hc, hp⟩ | ⟨hc, hp⟩ <;> subst hc <;> simp [hp]
    · exact fun hcon => absurd (by simpa using hp) hcon
    · refine fun hcon => absurd ?_ (by rw [hp]; simp : ¬ (utf8Encode "HTTP/1.1".toList).isPrefixOf data = true)
      simpa using hcon
  refine ⟨?_, hbody⟩
  cases hval : validateHttpPacket data with
  | error e => exact ⟨e, by unfold decryptSingleRead; rw [hval]⟩
  | ok u =>
      cases u
      cases hdec : decodeSinglePacket h ord data with
      | error e => exact ⟨e, by unfold decryptSingleRead; rw [hval, hdec]⟩
      | ok d => exact ⟨_, hbody d hval hdec⟩

/-- C3 (amended, witness): a response packet (`HTTP/1.1 200 OK` with an
empty body) read with `is_client = true` fails. -/
theorem c3_amended_witness :
    ∃ e, decryptSingleRead ⟨[]⟩ [0]
      (utf8Encode "HTTP/1.1 200 OK\r\n\r\n".toList) 0 true =
        Except.error e :=
  (c3_amended ⟨[]⟩ [0] (utf8Encode "HTTP/1.1 200 OK\r\n\r\n".toList) 0 true
    (Or.inl ⟨rfl, by decide⟩)).1

/-! ## CFG machinery: pattern decomposition lemmas

A pattern during expansion/matching always has the shape
`A ++ '{' :: N ++ '}' :: B` with `A` brace-free (the rendered prefix)
and `N` a brace-free variable name. -/

/-- No `{` or `}` occurs. -/
def noBrace (s : List Char) : Bool :=
  s.all (fun c => ¬ (c = '{' ∨ c = '}'))

theorem noBrace_append {A B : List Char} (hA : noBrace A) (hB : noBrace B) :
    noBrace (A ++ B) := by
  simp only [noBrace, List.all_append, Bool.and_eq_true] at *
  exact ⟨hA, hB⟩

theorem findIdx?_noBrace_go {s : List Char} (h : noBrace s) :
    ∀ i, s.findIdx? (· = '{') i = none := by
  induction s with
  | nil => intro i; rfl
  | cons c rest ih =>
      intro i
      simp only [noBrace, List.all_cons, Bool.and_eq_true] at h
      have hc : ¬ ((fun x => decide (x = '{')) c = true) := by
        intro hx
        have hx2 : c = '{' := by simpa using hx
        simp [hx2] at h
      rw [List.findIdx?_cons, if_neg hc]
      exact ih (by simpa [noBrace] using h.2) (i + 1)

theorem findIdx?_noBrace {s : List Char} (h : noBrace s) :
    s.findIdx? (· = '{') = none := findIdx?_noBrace_go h 0

theorem findIdx?_brace_go {A : List Char} (B : List Char) (hA : noBrace A) :
    ∀ i, (A ++ '{' :: B).findIdx? (· = '{') i = some (i + A.length) := by
  induction A with
  | nil =>
      intro i
      rw [List.nil_append, List.findIdx?_cons, if_pos (by simp)]
      simp
  | cons c rest ih =>
      intro i
      simp only [noBrace, List.all_cons, Bool.and_eq_true] at hA
      have hc : ¬ ((fun x => decide (x = '{')) c = true) := by
        intro hx
        have hx2 : c = '{' := by simpa using hx
        simp [hx2] at hA
      rw [List.cons_append, List.findIdx?_cons, if_neg hc,
        ih (by simpa [noBrace] using hA.2) (i + 1)]
      simp only [List.length_cons]
      congr 1
      omega

theorem findIdx?_brace {A : List Char} (B : List Char) (hA : noBrace A) :
    (A ++ '{' :: B).findIdx? (· = '{') = some A.length := by
  have h := findIdx?_brace_go B hA 0
  simpa using h

theorem fmbAux_scan {N : List Char} (B : List Char) (hN : noBrace N) :
    ∀ i, findMatchingBraceAux (N ++ '}' :: B) i 1 = some (i + N.length) := by
  induction N with
  | nil => intro i; simp [findMatchingBraceAux]
  | cons c rest ih =>
      intro i
      simp only [noBrace, List.all_cons, Bool.and_eq_true] at hN
      have hc1 : ¬ (c = '{') := fun hx => by simp [hx] at hN
      have hc2 : ¬ (c = '}') := fun hx => by simp [hx] at hN
      have step : findMatchingBraceAux ((c :: rest) ++ '}' :: B) i 1 =
          findMatchingBraceAux (rest ++ '}' :: B) (i + 1) 1 := by
        show findMatchingBraceAux (c :: (rest ++ '}' :: B)) i 1 = _
        simp only [findMatchingBraceAux, hc1, hc2, if_false]
      rw [step, ih (by simpa [noBrace] using hN.2) (i + 1)]
      simp only [List.length_cons]
      congr 1
      omega

theorem fmb_pattern {A N : List Char} (B : List Char) (hA : noBrace A)
    (hN : noBrace N) :
    findMatchingBrace (A ++ '{' :: (N ++ '}' :: B)) A.length =
      some (A.length + 1 + N.length) := by
  show findMatchingBraceAux
    ((A ++ '{' :: (N ++ '}' :: B)).drop A.length) A.length 0 = _
  rw [List.drop_left]
  show findMatchingBraceAux ('{' :: (N ++ '}' :: B)) A.length 0 = _
  simp only [findMatchingBraceAux]
  rw [if_pos trivial]
  show findMatchingBraceAux (N ++ '}' :: B) (A.length + 1) 1 = _
  exact fmbAux_scan B hN (A.length + 1)

theorem varName_extract {A : List Char} (N B : List Char) :
    (((A ++ '{' :: (N ++ '}' :: B)).take (A.length + 1 + N.length)).drop
      (A.length + 1)) = N := by
  have h1 : A ++ '{' :: (N ++ '}' :: B) = ((A ++ ['{']) ++ N) ++ '}' :: B := by
    simp
  have h2 : A.length + 1 + N.length = ((A ++ ['{']) ++ N).length := by
    simp
    omega
  rw [h1, h2, List.take_left]
  have h3 : A.length + 1 = (A ++ ['{']).length := by simp
  rw [h3, List.drop_left]

theorem pattern_take_A {A : List Char} (N B : List Char) :
    (A ++ '{' :: (N ++ '}' :: B)).take A.length = A := by
  have h1 : A ++ '{' :: (N ++ '}' :: B) = A ++ ('{' :: (N ++ '}' :: B)) := rfl
  rw [h1, List.take_left]

theorem pattern_drop_B {A : List Char} (N B : List Char) :
    (A ++ '{' :: (N ++ '}' :: B)).drop (A.length + 1 + N.length + 1) = B := by
  have h1 : A ++ '{' :: (N ++ '}' :: B) = ((A ++ '{' :: N) ++ ['}']) ++ B := by
    simp
  have h2 : A.length + 1 + N.length + 1 = ((A ++ '{' :: N) ++ ['}']).length := by
    simp
    omega
  rw [h1, h2, List.drop_left]

/-- `insertC` on the same key twice keeps the last write. -/
theorem insertC_insertC (k : List Char) (a b : Nat) (m : Choices) :
    insertC k a (insertC k b m) = insertC k a m := by
  funext x
  simp only [insertC]
  split <;> rfl

/-- `removeC` after inserts on the same key restores a map without the
key. -/
theorem removeC_insertC (k : List Char) (a : Nat) (m : Choices) :
    removeC k (insertC k a m) = removeC k m := by
  funext x
  simp only [removeC, insertC]
  split <;> rfl

theorem removeC_absent (k : List Char) (m : Choices) (h : m k = none) :
    removeC k m = m := by
  funext x
  simp only [removeC]
  split
  · next hx =>
      rw [eq_of_beq hx, h]
  · rfl

theorem insertC_get_same (k : List Char) (a : Nat) (m : Choices) :
    insertC k a m k = some a := by
  simp [insertC]

theorem insertC_get_other (k k2 : List Char) (a : Nat) (m : Choices)
    (h : ¬ (k2 == k) = true) : insertC k a m k2 = m k2 := by
  simp only [insertC]
  rw [if_neg h]

/-! ### Matcher step lemmas -/

/-- The prune test of `mrLoop` on the substituted pattern
`A ++ t ++ B` (`A` = `pattern.take start`, `B` = `pattern.drop (stop+1)`). -/
def prunedB (target A B t : List Char) : Bool :=
  match (A ++ t ++ B).findIdx? (· = '{') with
  | some bs => bs ≠ 0 && ! ((A ++ t ++ B).take bs).isPrefixOf target
  | none => false

/-- `match_recursive` at a variable slot reduces to the production loop. -/
theorem matchRecGo_var (g : CFG) (usw : Bool) (fuel : Nat)
    (target A N B : List Char) (m : Choices) (prods : List Production)
    (hA : noBrace A) (hN : noBrace N) (hget : g.get N = some prods) :
    matchRecGo g usw (fuel + 1) target (A ++ '{' :: (N ++ '}' :: B)) m =
      mrLoop target (A ++ '{' :: (N ++ '}' :: B)) A.length
        (A.length + 1 + N.length) N (matchRecGo g usw fuel target) 0 prods
        m := by
  show (match (A ++ '{' :: (N ++ '}' :: B)).findIdx? (· = '{') with
    | none => some ((if usw
        then (A ++ '{' :: (N ++ '}' :: B)).isPrefixOf target
        else (A ++ '{' :: (N ++ '}' :: B)) == target), m)
    | some start =>
        match findMatchingBrace (A ++ '{' :: (N ++ '}' :: B)) start with
        | none => none
        | some stop =>
            let varName :=
              ((A ++ '{' :: (N ++ '}' :: B)).take stop).drop (start + 1)
            match g.get varName with
            | none => some (false, m)
            | some productions =>
                mrLoop target (A ++ '{' :: (N ++ '}' :: B)) start stop varName
                  (matchRecGo g usw fuel target) 0 productions m) = _
  rw [findIdx?_brace (N ++ '}' :: B) hA]
  show (match findMatchingBrace (A ++ '{' :: (N ++ '}' :: B)) A.length with
    | none => none
    | some stop =>
        let varName :=
          ((A ++ '{' :: (N ++ '}' :: B)).take stop).drop (A.length + 1)
        match g.get varName with
        | none => some (false, m)
        | some productions =>
            mrLoop target (A ++ '{' :: (N ++ '}' :: B)) A.length stop varName
              (matchRecGo g usw fuel target) 0 productions m) = _
  rw [fmb_pattern B hA hN]
  show (match g.get
      (((A ++ '{' :: (N ++ '}' :: B)).take (A.length + 1 + N.length)).drop
        (A.length + 1)) with
    | none => some (false, m)
    | some productions =>
        mrLoop target (A ++ '{' :: (N ++ '}' :: B)) A.length
          (A.length + 1 + N.length)
          (((A ++ '{' :: (N ++ '}' :: B)).take
            (A.length + 1 + N.length)).drop (A.length + 1))
          (matchRecGo g usw fuel target) 0 productions m) = _
  rw [varName_extract N B, hget]

/-- `match_recursive` at a brace-free pattern is the start-with test. -/
theorem matchRecGo_leaf (g : CFG) (usw : Bool) (fuel : Nat)
    (target pattern : List Char) (m : Choices) (hp : noBrace pattern) :
    matchRecGo g usw (fuel + 1) target pattern m =
      some ((if usw then pattern.isPrefixOf target else pattern == target),
        m) := by
  show (match pattern.findIdx? (· = '{') with
    | none => some ((if usw then pattern.isPrefixOf target
        else pattern == target), m)
    | some start =>
        match findMatchingBrace pattern start with
        | none => none
        | some stop =>
            let varName := (pattern.take stop).drop (start + 1)
            match g.get varName with
            | none => some (false, m)
            | some productions =>
                mrLoop target pattern start stop varName
                  (matchRecGo g usw fuel target) 0 productions m) = _
  rw [findIdx?_noBrace hp]

/-- One `mrLoop` iteration, prune taken. -/
theorem mrLoop_step_pruned (target pattern : List Char) (start stop : Nat)
    (N : List Char) (rec : List Char → Choices → Option (Bool × Choices))
    (idx : Nat) (prod : Production) (rest : List Production) (m : Choices)
    (tkA dpB : List Char) (htk : pattern.take start = tkA)
    (hdp : pattern.drop (stop + 1) = dpB)
    (hpr : prunedB target tkA dpB prod.text = true) :
    mrLoop target pattern start stop N rec idx (prod :: rest) m =
      mrLoop target pattern start stop N rec (idx + 1) rest
        (insertC N idx m) := by
  show (if (match (pattern.take start ++ prod.text ++
        pattern.drop (stop + 1)).findIdx? (· = '{') with
      | some bs => bs ≠ 0 &&
          ! (((pattern.take start ++ prod.text ++
            pattern.drop (stop + 1)).take bs).isPrefixOf target)
      | none => false) then
      mrLoop target pattern start stop N rec (idx + 1) rest
        (insertC N idx m)
    else
      match rec (pattern.take start ++ prod.text ++
          pattern.drop (stop + 1)) (insertC N idx m) with
      | none => none
      | some (true, m2) => some (true, m2)
      | some (false, m2) =>
          mrLoop target pattern start stop N rec (idx + 1) rest
            (removeC N m2)) = _
  rw [htk, hdp]
  have hcond : (match (tkA ++ prod.text ++ dpB).findIdx? (· = '{') with
      | some bs => bs ≠ 0 &&
          ! (((tkA ++ prod.text ++ dpB).take bs).isPrefixOf target)
      | none => false) = true := hpr
  rw [if_pos hcond]

/-- One `mrLoop` iteration, prune not taken, recursion result `r`. -/
theorem mrLoop_step_rec (target pattern : List Char) (start stop : Nat)
    (N : List Char) (rec : List Char → Choices → Option (Bool × Choices))
    (idx : Nat) (prod : Production) (rest : List Production) (m : Choices)
    (tkA dpB : List Char) (htk : pattern.take start = tkA)
    (hdp : pattern.drop (stop + 1) = dpB)
    (hpr : prunedB target tkA dpB prod.text = false) :
    mrLoop target pattern start stop N rec idx (prod :: rest) m =
      (match rec (tkA ++ prod.text ++ dpB) (insertC N idx m) with
       | none => none
       | some (true, m2) => some (true, m2)
       | some (false, m2) =>
           mrLoop target pattern start stop N rec (idx + 1) rest
             (removeC N m2)) := by
  show (if (match (pattern.take start ++ prod.text ++
        pattern.drop (stop + 1)).findIdx? (· = '{') with
      | some bs => bs ≠ 0 &&
          ! (((pattern.take start ++ prod.text ++
            pattern.drop (stop + 1)).take bs).isPrefixOf target)
      | none => false) then
      mrLoop target pattern start stop N rec (idx + 1) rest
        (insertC N idx m)
    else
      match rec (pattern.take start ++ prod.text ++
          pattern.drop (stop + 1)) (insertC N idx m) with
      | none => none
      | some (true, m2) => some (true, m2)
      | some (false, m2) =>
          mrLoop target pattern start stop N rec (idx + 1) rest
            (removeC N m2)) = _
  rw [htk, hdp]
  have hcond : (match (tkA ++ prod.text ++ dpB).findIdx? (· = '{') with
      | some bs => bs ≠ 0 &&
          ! (((tkA ++ prod.text ++ dpB).take bs).isPrefixOf target)
      | none => false) = false := hpr
  rw [if_neg (by rw [hcond]; exact Bool.false_ne_true)]

/-- The production loop succeeds at index `idx + pre.length` when every
earlier production is pruned and the recursive call at the chosen
production succeeds. -/
theorem mrLoop_prefix_success (target pattern : List Char)
    (start stop : Nat) (N : List Char)
    (rec : List Char → Choices → Option (Bool × Choices))
    (rest : List Production) (m' : Choices) (tkA dpB : List Char)
    (htk : pattern.take start = tkA) (hdp : pattern.drop (stop + 1) = dpB) :
    ∀ (pre : List Production) (cprod : Production) (idx : Nat)
      (m : Choices),
    (∀ prod ∈ pre, prunedB target tkA dpB prod.text = true) →
    prunedB target tkA dpB cprod.text = false →
    rec (tkA ++ cprod.text ++ dpB) (insertC N (idx + pre.length) m) =
      some (true, m') →
    mrLoop target pattern start stop N rec idx (pre ++ cprod :: rest) m =
      some (true, m') := by
  intro pre
  induction pre with
  | nil =>
      intro cprod idx m _ hc hrec
      rw [List.nil_append,
        mrLoop_step_rec target pattern start stop N rec idx cprod rest m
          tkA dpB htk hdp hc]
      simp only [List.length_nil, Nat.add_zero] at hrec
      rw [hrec]
  | cons p pre' ih =>
      intro cprod idx m hpre hc hrec
      rw [List.cons_append,
        mrLoop_step_pruned target pattern start stop N rec idx p
          (pre' ++ cprod :: rest) m tkA dpB htk hdp
          (hpre p (List.mem_cons_self p pre'))]
      apply ih cprod (idx + 1) (insertC N idx m)
        (fun prod hprod => hpre prod (List.mem_cons_of_mem p hprod)) hc
      rw [insertC_insertC]
      have harith : idx + 1 + pre'.length = idx + (p :: pre').length := by
        simp
        omega
      rw [harith]
      exact hrec

/-- The production loop succeeds at index `idx + pre.length` when every
earlier production recurses into a failing leaf that leaves the map
unchanged, and the chosen production's recursive call succeeds. -/
theorem mrLoop_leaf_success (target pattern : List Char)
    (start stop : Nat) (N : List Char)
    (rec : List Char → Choices → Option (Bool × Choices))
    (rest : List Production) (m' : Choices) (tkA dpB : List Char)
    (htk : pattern.take start = tkA) (hdp : pattern.drop (stop + 1) = dpB) :
    ∀ (pre : List Production) (cprod : Production) (idx : Nat)
      (m : Choices),
    m N = none →
    (∀ prod ∈ pre, prunedB target tkA dpB prod.text = false ∧
      ∀ mm : Choices, rec (tkA ++ prod.text ++ dpB) mm = some (false, mm)) →
    prunedB target tkA dpB cprod.text = false →
    rec (tkA ++ cprod.text ++ dpB) (insertC N (idx + pre.length) m) =
      some (true, m') →
    mrLoop target pattern start stop N rec idx (pre ++ cprod :: rest) m =
      some (true, m') := by
  intro pre
  induction pre with
  | nil =>
      intro cprod idx m _ _ hc hrec
      rw [List.nil_append,
        mrLoop_step_rec target pattern start stop N rec idx cprod rest m
          tkA dpB htk hdp hc]
      simp only [List.length_nil, Nat.add_zero] at hrec
      rw [hrec]
  | cons p pre' ih =>
      intro cprod idx m hm hpre hc hrec
      have hp := hpre p (List.mem_cons_self p pre')
      rw [List.cons_append,
        mrLoop_step_rec target pattern start stop N rec idx p
          (pre' ++ cprod :: rest) m tkA dpB htk hdp hp.1]
      rw [hp.2 (insertC N idx m)]
      show mrLoop target pattern start stop N rec (idx + 1)
        (pre' ++ cprod :: rest) (removeC N (insertC N idx m)) =
          some (true, m')
      rw [removeC_insertC, removeC_absent N m hm]
      apply ih cprod (idx + 1) m hm
        (fun prod hprod => hpre prod (List.mem_cons_of_mem p hprod)) hc
      have harith : idx + 1 + pre'.length = idx + (p :: pre').length := by
        simp
        omega
      rw [harith]
      exact hrec

/-- `mrLoop` on the empty production list fails. -/
theorem mrLoop_nil (target pattern : List Char) (start stop : Nat)
    (N : List Char) (rec : List Char → Choices → Option (Bool × Choices))
    (idx : Nat) (m : Choices) :
    mrLoop target pattern start stop N rec idx [] m = some (false, m) := rfl

/-! ### Prune-test evaluation lemmas -/

theorem prunedB_true_of (target A w sep B2 : List Char)
    (hA : noBrace A) (hw : noBrace w) (hsep : noBrace sep)
    (hne : 0 < A.length + w.length + sep.length)
    (hpre : ¬ (A ++ (w ++ sep)) <+: target) :
    prunedB target A (sep ++ '{' :: B2) w = true := by
  unfold prunedB
  have hsh : A ++ w ++ (sep ++ '{' :: B2) =
      ((A ++ w) ++ sep) ++ '{' :: B2 := by simp
  rw [hsh, findIdx?_brace B2 (noBrace_append (noBrace_append hA hw) hsep)]
  show (decide (((A ++ w) ++ sep).length ≠ 0) &&
    ! ((((A ++ w) ++ sep) ++ '{' :: B2).take
        ((A ++ w) ++ sep).length).isPrefixOf target) = true
  rw [List.take_left]
  have h1 : ((A ++ w) ++ sep).length ≠ 0 := by
    simp only [List.length_append]
    omega
  have h2 : ((A ++ w) ++ sep).isPrefixOf target = false := by
    rw [Bool.eq_false_iff]
    intro hx
    apply hpre
    have := List.isPrefixOf_iff_prefix.1 hx
    simpa [List.append_assoc] using this
  rw [h2, decide_eq_true h1]
  rfl

theorem prunedB_false_mid (target A t1 t2 B : List Char)
    (hA : noBrace A) (ht1 : noBrace t1)
    (hpre : (A ++ t1) <+: target) :
    prunedB target A B (t1 ++ '{' :: t2) = false := by
  unfold prunedB
  have hsh : A ++ (t1 ++ '{' :: t2) ++ B =
      (A ++ t1) ++ '{' :: (t2 ++ B) := by simp
  rw [hsh, findIdx?_brace (t2 ++ B) (noBrace_append hA ht1)]
  show (decide ((A ++ t1).length ≠ 0) &&
    ! (((A ++ t1) ++ '{' :: (t2 ++ B)).take
        (A ++ t1).length).isPrefixOf target) = false
  rw [List.take_left]
  have h2 : (A ++ t1).isPrefixOf target = true :=
    List.isPrefixOf_iff_prefix.2 hpre
  rw [h2]
  simp

theorem prunedB_false_sep (target A w sep B2 : List Char)
    (hA : noBrace A) (hw : noBrace w) (hsep : noBrace sep)
    (hpre : (A ++ (w ++ sep)) <+: target) :
    prunedB target A (sep ++ '{' :: B2) w = false := by
  unfold prunedB
  have hsh : A ++ w ++ (sep ++ '{' :: B2) =
      ((A ++ w) ++ sep) ++ '{' :: B2 := by simp
  rw [hsh, findIdx?_brace B2 (noBrace_append (noBrace_append hA hw) hsep)]
  show (decide (((A ++ w) ++ sep).length ≠ 0) &&
    ! ((((A ++ w) ++ sep) ++ '{' :: B2).take
        ((A ++ w) ++ sep).length).isPrefixOf target) = false
  rw [List.take_left]
  have h2 : ((A ++ w) ++ sep).isPrefixOf target = true := by
    apply List.isPrefixOf_iff_prefix.2
    simpa [List.append_assoc] using hpre
  rw [h2]
  simp

theorem prunedB_false_noBrace (target A B t : List Char)
    (h : noBrace (A ++ t ++ B)) :
    prunedB target A B t = false := by
  unfold prunedB
  rw [findIdx?_noBrace h]

/-- Cancel a common rendered prefix, then rule out the wrong word by the
two-way non-prefix facts. -/
theorem not_prefix_of_pairwise (A x y T : List Char)
    (h1 : ¬ x <+: y) (h2 : ¬ y <+: x) :
    ¬ (A ++ x) <+: (A ++ (y ++ T)) := by
  intro h
  rw [List.prefix_append_right_inj] at h
  rcases List.prefix_or_prefix_of_prefix h (List.prefix_append y T) with
    hc | hc
  · exact h1 hc
  · exact h2 hc

/-! ### Expansion step lemmas -/

theorem expandGo_var (g : CFG) (fuel : Nat) (A N B : List Char)
    (m : Choices) (prods : List Production) (prod : Production)
    (hA : noBrace A) (hN : noBrace N) (hget : g.get N = some prods)
    (hidx : prods.get? ((m N).getD 0) = some prod) :
    expandGo g (fuel + 1) (A ++ '{' :: (N ++ '}' :: B)) m =
      expandGo g fuel ((A ++ prod.text) ++ B) m := by
  show (match (A ++ '{' :: (N ++ '}' :: B)).findIdx? (· = '{') with
    | none => some (A ++ '{' :: (N ++ '}' :: B))
    | some start =>
        match findMatchingBrace (A ++ '{' :: (N ++ '}' :: B)) start with
        | none => none
        | some stop =>
            let varName :=
              ((A ++ '{' :: (N ++ '}' :: B)).take stop).drop (start + 1)
            match g.get varName with
            | none => none
            | some productions =>
                let index := (m varName).getD 0
                match productions.get? index with
                | none => none
                | some production =>
                    expandGo g fuel
                      ((A ++ '{' :: (N ++ '}' :: B)).take start ++
                        production.text ++
                        (A ++ '{' :: (N ++ '}' :: B)).drop (stop + 1)) m) = _
  rw [findIdx?_brace (N ++ '}' :: B) hA]
  show (match findMatchingBrace (A ++ '{' :: (N ++ '}' :: B)) A.length with
    | none => none
    | some stop =>
        let varName :=
          ((A ++ '{' :: (N ++ '}' :: B)).take stop).drop (A.length + 1)
        match g.get varName with
        | none => none
        | some productions =>
            let index := (m varName).getD 0
            match productions.get? index with
            | none => none
            | some production =>
                expandGo g fuel
                  ((A ++ '{' :: (N ++ '}' :: B)).take A.length ++
                    production.text ++
                    (A ++ '{' :: (N ++ '}' :: B)).drop (stop + 1)) m) = _
  rw [fmb_pattern B hA hN]
  show (match g.get
      (((A ++ '{' :: (N ++ '}' :: B)).take (A.length + 1 + N.length)).drop
        (A.length + 1)) with
    | none => none
    | some productions =>
        match productions.get?
          ((m (((A ++ '{' :: (N ++ '}' :: B)).take
            (A.length + 1 + N.length)).drop (A.length + 1))).getD 0) with
        | none => none
        | some production =>
            expandGo g fuel
              ((A ++ '{' :: (N ++ '}' :: B)).take A.length ++
                production.text ++
                (A ++ '{' :: (N ++ '}' :: B)).drop
                  (A.length + 1 + N.length + 1)) m) = _
  rw [varName_extract N B, hget]
  show (match prods.get? ((m N).getD 0) with
    | none => none
    | some production =>
        expandGo g fuel
          ((A ++ '{' :: (N ++ '}' :: B)).take A.length ++ production.text ++
            (A ++ '{' :: (N ++ '}' :: B)).drop
              (A.length + 1 + N.length + 1)) m) = _
  rw [hidx, pattern_take_A N B, pattern_drop_B N B]

theorem expandGo_done (g : CFG) (fuel : Nat) (s : List Char) (m : Choices)
    (hs : noBrace s) :
    expandGo g (fuel + 1) s m = some s := by
  show (match s.findIdx? (· = '{') with
    | none => some s
    | some start =>
        match findMatchingBrace s start with
        | none => none
        | some stop =>
            let varName := (s.take stop).drop (start + 1)
            match g.get varName with
            | none => none
            | some productions =>
                let index := (m varName).getD 0
                match productions.get? index with
                | none => none
                | some production =>
                    expandGo g fuel
                      (s.take start ++ production.text ++ s.drop (stop + 1))
                      m) = _
  rw [findIdx?_noBrace hs]


/-! ### The `example2` sentence grammar, slot by slot -/

/-- Word `i` of a word list (`productions[i]` text). -/
def wd (l : List String) (i : Nat) : List Char := (l.getD i "").toList

def dD (i : Nat) : List Char := ex2Dates.getD i []

/-- The template tails `N ++ '}' :: rest` of the `example2` pattern as the
matcher walks it left to right. -/
def tQ : List Char := "QUOTE".toList ++ '}' :: []

def tQi : List Char := "QUOTE_INTRO".toList ++ '}' :: (' ' :: '{' :: tQ)

def tCo : List Char := "CONTENT".toList ++ '}' :: ('\n' :: '{' :: tQi)

def tCity : List Char := "CITY".toList ++ '}' :: ('\n' :: '{' :: tCo)

def tDate : List Char := "DATE".toList ++ '}' :: (' ' :: '{' :: tCity)

def tDL : List Char := "DATELINE".toList ++ '}' :: ('\n' :: '{' :: tCo)

def tO : List Char := "OBJECT".toList ++ '}' :: ('\n' :: '{' :: tDL)

def tV : List Char := "VERB".toList ++ '}' :: (' ' :: '{' :: tO)

def tS : List Char := "SUBJECT".toList ++ '}' :: (' ' :: '{' :: tV)

def tSVO : List Char := "SUBJECT_VERB_OBJECT".toList ++ '}' :: ('\n' :: '{' :: tDL)

def tStart : List Char := "start".toList ++ '}' :: []

/-- The fully-rendered `example2` sentence for a tuple of choices. -/
def ex2Sentence (iS iV iO iD iC iCo iQi iQ : Nat) : List Char :=
  wd ex2Subjects iS ++ (' ' :: (wd ex2Verbs iV ++ (' ' ::
    (wd ex2Objects iO ++ ('\n' :: (dD iD ++ (' ' ::
      (wd ex2Cities iC ++ ('\n' :: (wd ex2Content iCo ++ ('\n' ::
        (wd ex2QuoteIntros iQi ++ (' ' :: wd ex2Quotes iQ)))))))))))))

/-! #### Generic access lemmas -/

theorem map_decomp {a b : Type} (f : a -> b) (l : List a) (d : a) (i : Nat)
    (h : i < l.length) :
    l.map f = (l.map f).take i ++ f (l.getD i d) :: (l.map f).drop (i + 1) := by
  have hlen : i < (l.map f).length := by simpa using h
  conv_lhs => rw [← List.take_append_drop i (l.map f)]
  rw [List.drop_eq_getElem_cons hlen]
  congr 2
  rw [List.getElem_map, List.getD_eq_getElem l d h]

theorem mem_take_map {a b : Type} (f : a -> b) (l : List a) (d : a) (i : Nat)
    (y : b) (h : y ∈ (l.map f).take i) :
    ∃ j, j < i ∧ j < l.length ∧ y = f (l.getD j d) := by
  obtain ⟨j, hj, hEq⟩ := List.mem_iff_getElem.1 h
  have hj1 : j < i := by
    have := hj
    simp only [List.length_take, List.length_map, lt_min_iff] at this
    exact this.1
  have hj2 : j < l.length := by
    have := hj
    simp only [List.length_take, List.length_map, lt_min_iff] at this
    exact this.2
  refine ⟨j, hj1, hj2, ?_⟩
  rw [← hEq, List.getElem_take, List.getElem_map,
    List.getD_eq_getElem l d hj2]

theorem isPrefixOf_false_of (x y : List Char) (h : ¬ x <+: y) :
    x.isPrefixOf y = false := by
  rw [Bool.eq_false_iff]
  intro hx
  exact h (List.isPrefixOf_iff_prefix.1 hx)

theorem isPrefixOf_true_of (x y : List Char) (h : x <+: y) :
    x.isPrefixOf y = true := List.isPrefixOf_iff_prefix.2 h

theorem prefix_round (A x y T target : List Char)
    (ht : target = A ++ (x ++ (y ++ T))) : (A ++ (x ++ y)) <+: target :=
  ⟨T, by rw [ht]; simp⟩

theorem sep1_shift (X : List Char) (c : Char) (Y : List Char) :
    X ++ (c :: Y) = (X ++ [c]) ++ Y := by simp

/-! #### Decidable word-list facts -/

theorem ex2Subjects_noBrace : ∀ i, i < 32 → noBrace (wd ex2Subjects i) = true := by
  decide

theorem ex2Verbs_noBrace : ∀ i, i < 16 → noBrace (wd ex2Verbs i) = true := by
  decide

theorem ex2Objects_noBrace : ∀ i, i < 32 → noBrace (wd ex2Objects i) = true := by
  decide

theorem ex2Cities_noBrace : ∀ i, i < 32 → noBrace (wd ex2Cities i) = true := by
  decide

theorem ex2Content_noBrace : ∀ i, i < 8 → noBrace (wd ex2Content i) = true := by
  decide

theorem ex2Quotes_noBrace : ∀ i, i < 8 → noBrace (wd ex2Quotes i) = true := by
  decide

theorem ex2QuoteIntros_noBrace : ∀ i, i < 4 → noBrace (wd ex2QuoteIntros i) = true := by
  decide

theorem ex2Dates_noBrace : ∀ i, i < 32 → noBrace (dD i) = true := by
  decide

theorem ex2Subjects_pw : ∀ i, i < 32 → ∀ j, j < 32 → i ≠ j →
    ¬ (wd ex2Subjects i ++ [' ']) <+: (wd ex2Subjects j ++ [' ']) := by
  decide

theorem ex2Verbs_pw : ∀ i, i < 16 → ∀ j, j < 16 → i ≠ j →
    ¬ (wd ex2Verbs i ++ [' ']) <+: (wd ex2Verbs j ++ [' ']) := by
  decide

theorem ex2Objects_pw : ∀ i, i < 32 → ∀ j, j < 32 → i ≠ j →
    ¬ (wd ex2Objects i ++ ['\n']) <+: (wd ex2Objects j ++ ['\n']) := by
  decide

theorem ex2Cities_pw : ∀ i, i < 32 → ∀ j, j < 32 → i ≠ j →
    ¬ (wd ex2Cities i ++ ['\n']) <+: (wd ex2Cities j ++ ['\n']) := by
  decide

theorem ex2Content_pw : ∀ i, i < 8 → ∀ j, j < 8 → i ≠ j →
    ¬ (wd ex2Content i ++ ['\n']) <+: (wd ex2Content j ++ ['\n']) := by
  decide

theorem ex2Quotes_pw : ∀ i, i < 8 → ∀ j, j < 8 → i ≠ j →
    ¬ (wd ex2Quotes i) <+: (wd ex2Quotes j) := by
  decide

theorem ex2QuoteIntros_pw : ∀ i, i < 4 → ∀ j, j < 4 → i ≠ j →
    ¬ (wd ex2QuoteIntros i ++ [' ']) <+: (wd ex2QuoteIntros j ++ [' ']) := by
  decide

theorem ex2Dates_pw : ∀ i, i < 32 → ∀ j, j < 32 → i ≠ j →
    ¬ (dD i ++ [' ']) <+: (dD j ++ [' ']) := by
  decide

theorem initPlain_decomp (l : List String) (i : Nat) (h : i < l.length) :
    initPlainByList l = (initPlainByList l).take i ++
      (⟨wd l i, ProductType.plain⟩ : Production) ::
        (initPlainByList l).drop (i + 1) := by
  have h2 := map_decomp
    (fun s : String => (⟨s.toList, ProductType.plain⟩ : Production)) l "" i h
  exact h2

theorem mem_take_initPlain (l : List String) (i : Nat) (prod : Production)
    (h : prod ∈ (initPlainByList l).take i) :
    ∃ j, j < i ∧ j < l.length ∧ prod = ⟨wd l j, ProductType.plain⟩ := by
  have h' : prod ∈
      (l.map (fun s : String =>
        (⟨s.toList, ProductType.plain⟩ : Production))).take i := h
  obtain ⟨j, h1, h2, h3⟩ :=
    mem_take_map (fun s : String =>
      (⟨s.toList, ProductType.plain⟩ : Production)) l "" i prod h'
  exact ⟨j, h1, h2, h3⟩

/-- QUOTE, the final slot: the pattern becomes brace-free and the matcher
start-with test settles each candidate quote. -/
theorem ex2_step_quote (fuel : Nat) (A tail : List Char) (m : Choices)
    (iQ : Nat) (hA : noBrace A) (hQ : iQ < 8)
    (hm : m "QUOTE".toList = none) :
    matchRecGo ex2 true (fuel + 2) (A ++ (wd ex2Quotes iQ ++ tail))
      (A ++ '{' :: tQ) m =
      some (true, insertC "QUOTE".toList iQ m) := by
  have hget : ex2.get "QUOTE".toList = some (initPlainByList ex2Quotes) := by
    decide
  rw [show (A ++ '{' :: tQ : List Char) =
    A ++ '{' :: ("QUOTE".toList ++ '}' :: []) from rfl]
  rw [matchRecGo_var ex2 true (fuel + 1) (A ++ (wd ex2Quotes iQ ++ tail)) A
    "QUOTE".toList [] m (initPlainByList ex2Quotes) hA (by decide) hget]
  rw [initPlain_decomp ex2Quotes iQ (show iQ < ex2Quotes.length from hQ)]
  apply mrLoop_leaf_success (A ++ (wd ex2Quotes iQ ++ tail))
    (A ++ '{' :: ("QUOTE".toList ++ '}' :: [])) A.length
    (A.length + 1 + ("QUOTE".toList).length) "QUOTE".toList
    (matchRecGo ex2 true (fuel + 1) (A ++ (wd ex2Quotes iQ ++ tail)))
    ((initPlainByList ex2Quotes).drop (iQ + 1))
    (insertC "QUOTE".toList iQ m) A []
    (pattern_take_A "QUOTE".toList []) (pattern_drop_B "QUOTE".toList [])
    ((initPlainByList ex2Quotes).take iQ)
    (⟨wd ex2Quotes iQ, ProductType.plain⟩ : Production) 0 m hm
  · intro prod hp
    obtain ⟨j, hj1, hj2, rfl⟩ := mem_take_initPlain ex2Quotes iQ prod hp
    have hj8 : j < 8 := hj2
    have hne : j ≠ iQ := Nat.ne_of_lt hj1
    constructor
    · show prunedB (A ++ (wd ex2Quotes iQ ++ tail)) A [] (wd ex2Quotes j) =
        false
      apply prunedB_false_noBrace
      have : A ++ wd ex2Quotes j ++ [] = A ++ wd ex2Quotes j := by simp
      rw [this]
      exact noBrace_append hA (ex2Quotes_noBrace j hj8)
    · intro mm
      show matchRecGo ex2 true (fuel + 1) (A ++ (wd ex2Quotes iQ ++ tail))
        (A ++ wd ex2Quotes j ++ []) mm = some (false, mm)
      rw [matchRecGo_leaf ex2 true fuel (A ++ (wd ex2Quotes iQ ++ tail))
        (A ++ wd ex2Quotes j ++ []) mm
        (by rw [List.append_nil]
            exact noBrace_append hA (ex2Quotes_noBrace j hj8))]
      have hpf : (A ++ wd ex2Quotes j ++ []).isPrefixOf
          (A ++ (wd ex2Quotes iQ ++ tail)) = false := by
        apply isPrefixOf_false_of
        rw [List.append_nil]
        exact not_prefix_of_pairwise A _ _ tail
          (ex2Quotes_pw j hj8 iQ hQ hne) (ex2Quotes_pw iQ hQ j hj8 hne.symm)
      rw [hpf]
      rfl
  · show prunedB (A ++ (wd ex2Quotes iQ ++ tail)) A [] (wd ex2Quotes iQ) =
      false
    apply prunedB_false_noBrace
    have : A ++ wd ex2Quotes iQ ++ [] = A ++ wd ex2Quotes iQ := by simp
    rw [this]
    exact noBrace_append hA (ex2Quotes_noBrace iQ hQ)
  · show matchRecGo ex2 true (fuel + 1) (A ++ (wd ex2Quotes iQ ++ tail))
      (A ++ wd ex2Quotes iQ ++ [])
      (insertC "QUOTE".toList
        (0 + ((initPlainByList ex2Quotes).take iQ).length) m) =
        some (true, insertC "QUOTE".toList iQ m)
    have hlen : (0 + ((initPlainByList ex2Quotes).take iQ).length) = iQ := by
      rw [Nat.zero_add, List.length_take]
      have : (initPlainByList ex2Quotes).length = 8 := by decide
      rw [this]
      omega
    rw [hlen]
    rw [matchRecGo_leaf ex2 true fuel (A ++ (wd ex2Quotes iQ ++ tail))
      (A ++ wd ex2Quotes iQ ++ [])
      (insertC "QUOTE".toList iQ m)
      (by rw [List.append_nil]
          exact noBrace_append hA (ex2Quotes_noBrace iQ hQ))]
    have hpf : (A ++ wd ex2Quotes iQ ++ []).isPrefixOf
        (A ++ (wd ex2Quotes iQ ++ tail)) = true := by
      apply isPrefixOf_true_of
      rw [List.append_nil, ← List.append_assoc]
      exact List.prefix_append _ _
    rw [hpf]
    rfl

theorem prunedB_true_of1 (target A w : List Char) (c : Char) (B2 : List Char)
    (hA : noBrace A) (hw : noBrace w) (hc : noBrace [c])
    (hpre : ¬ (A ++ (w ++ [c])) <+: target) :
    prunedB target A (c :: '{' :: B2) w = true := by
  have h : (c :: '{' :: B2 : List Char) = [c] ++ '{' :: B2 := rfl
  rw [h]
  exact prunedB_true_of target A w [c] B2 hA hw hc
    (by simp only [List.length_cons, List.length_nil]; omega) hpre

theorem prunedB_false_sep1 (target A w : List Char) (c : Char)
    (B2 : List Char) (hA : noBrace A) (hw : noBrace w) (hc : noBrace [c])
    (hpre : (A ++ (w ++ [c])) <+: target) :
    prunedB target A (c :: '{' :: B2) w = false := by
  have h : (c :: '{' :: B2 : List Char) = [c] ++ '{' :: B2 := rfl
  rw [h]
  exact prunedB_false_sep target A w [c] B2 hA hw hc hpre

theorem prunedB_false_brace0 (target A B t2 : List Char)
    (hA : noBrace A) (hpre : A <+: target) :
    prunedB target A B ('{' :: t2) = false := by
  have h : ('{' :: t2 : List Char) = [] ++ '{' :: t2 := rfl
  rw [h]
  exact prunedB_false_mid target A [] t2 B hA (by decide)
    (by simpa using hpre)

/-- QUOTE_INTRO slot. -/
theorem ex2_step_quoteIntro (fuel : Nat) (A tail : List Char) (m : Choices)
    (iQi iQ : Nat) (hA : noBrace A) (hQi : iQi < 4) (hQ : iQ < 8)
    (hm : m "QUOTE".toList = none) :
    matchRecGo ex2 true (fuel + 3)
      (A ++ (wd ex2QuoteIntros iQi ++ ([' '] ++ (wd ex2Quotes iQ ++ tail))))
      (A ++ '{' :: tQi) m =
      some (true, insertC "QUOTE".toList iQ
        (insertC "QUOTE_INTRO".toList iQi m)) := by
  have hget : ex2.get "QUOTE_INTRO".toList =
      some (initPlainByList ex2QuoteIntros) := by decide
  rw [show (A ++ '{' :: tQi : List Char) =
    A ++ '{' :: ("QUOTE_INTRO".toList ++ '}' :: (' ' :: '{' :: tQ)) from rfl]
  rw [matchRecGo_var ex2 true (fuel + 2)
    (A ++ (wd ex2QuoteIntros iQi ++ ([' '] ++ (wd ex2Quotes iQ ++ tail)))) A
    "QUOTE_INTRO".toList (' ' :: '{' :: tQ) m
    (initPlainByList ex2QuoteIntros) hA (by decide) hget]
  rw [initPlain_decomp ex2QuoteIntros iQi
    (show iQi < ex2QuoteIntros.length from hQi)]
  apply mrLoop_prefix_success
    (A ++ (wd ex2QuoteIntros iQi ++ ([' '] ++ (wd ex2Quotes iQ ++ tail))))
    (A ++ '{' :: ("QUOTE_INTRO".toList ++ '}' :: (' ' :: '{' :: tQ)))
    A.length (A.length + 1 + ("QUOTE_INTRO".toList).length)
    "QUOTE_INTRO".toList
    (matchRecGo ex2 true (fuel + 2)
      (A ++ (wd ex2QuoteIntros iQi ++ ([' '] ++ (wd ex2Quotes iQ ++ tail)))))
    ((initPlainByList ex2QuoteIntros).drop (iQi + 1))
    (insertC "QUOTE".toList iQ (insertC "QUOTE_INTRO".toList iQi m))
    A (' ' :: '{' :: tQ)
    (pattern_take_A "QUOTE_INTRO".toList (' ' :: '{' :: tQ))
    (pattern_drop_B "QUOTE_INTRO".toList (' ' :: '{' :: tQ))
    ((initPlainByList ex2QuoteIntros).take iQi)
    (⟨wd ex2QuoteIntros iQi, ProductType.plain⟩ : Production) 0 m
  · intro prod hp
    obtain ⟨j, hj1, hj2, rfl⟩ := mem_take_initPlain ex2QuoteIntros iQi prod hp
    have hj4 : j < 4 := hj2
    have hne : j ≠ iQi := Nat.ne_of_lt hj1
    show prunedB
      (A ++ (wd ex2QuoteIntros iQi ++ ([' '] ++ (wd ex2Quotes iQ ++ tail))))
      A (' ' :: '{' :: tQ) (wd ex2QuoteIntros j) = true
    apply prunedB_true_of1 _ _ _ _ _ hA (ex2QuoteIntros_noBrace j hj4)
      (by decide)
    have ht : A ++ (wd ex2QuoteIntros iQi ++ ([' '] ++
        (wd ex2Quotes iQ ++ tail))) =
        A ++ ((wd ex2QuoteIntros iQi ++ [' ']) ++
          (wd ex2Quotes iQ ++ tail)) := by simp
    rw [ht]
    exact not_prefix_of_pairwise A _ _ _
      (ex2QuoteIntros_pw j hj4 iQi hQi hne)
      (ex2QuoteIntros_pw iQi hQi j hj4 hne.symm)
  · show prunedB
      (A ++ (wd ex2QuoteIntros iQi ++ ([' '] ++ (wd ex2Quotes iQ ++ tail))))
      A (' ' :: '{' :: tQ) (wd ex2QuoteIntros iQi) = false
    apply prunedB_false_sep1 _ _ _ _ _ hA (ex2QuoteIntros_noBrace iQi hQi)
      (by decide)
    exact prefix_round A _ [' '] _ _ rfl
  · have hlen : (0 + ((initPlainByList ex2QuoteIntros).take iQi).length) =
        iQi := by
      rw [Nat.zero_add, List.length_take]
      have h8 : (initPlainByList ex2QuoteIntros).length = 4 := by decide
      rw [h8]
      omega
    rw [hlen]
    show matchRecGo ex2 true (fuel + 2)
      (A ++ (wd ex2QuoteIntros iQi ++ ([' '] ++ (wd ex2Quotes iQ ++ tail))))
      (A ++ wd ex2QuoteIntros iQi ++ (' ' :: '{' :: tQ))
      (insertC "QUOTE_INTRO".toList iQi m) =
      some (true, insertC "QUOTE".toList iQ
        (insertC "QUOTE_INTRO".toList iQi m))
    rw [sep1_shift (A ++ wd ex2QuoteIntros iQi) ' ' ('{' :: tQ)]
    have ht2 : A ++ (wd ex2QuoteIntros iQi ++ ([' '] ++
        (wd ex2Quotes iQ ++ tail))) =
        ((A ++ wd ex2QuoteIntros iQi) ++ [' ']) ++
          (wd ex2Quotes iQ ++ tail) := by simp
    rw [ht2]
    exact ex2_step_quote fuel ((A ++ wd ex2QuoteIntros iQi) ++ [' ']) tail
      (insertC "QUOTE_INTRO".toList iQi m) iQ
      (noBrace_append (noBrace_append hA (ex2QuoteIntros_noBrace iQi hQi))
        (by decide))
      hQ
      (by rw [insertC_get_other _ _ _ _ (by decide)]; exact hm)

theorem dates_decomp (i : Nat) (h : i < ex2Dates.length) :
    ex2Dates.map (fun d => (⟨d, ProductType.plain⟩ : Production)) =
      (ex2Dates.map (fun d => (⟨d, ProductType.plain⟩ : Production))).take i ++
        (⟨dD i, ProductType.plain⟩ : Production) ::
          (ex2Dates.map
            (fun d => (⟨d, ProductType.plain⟩ : Production))).drop (i + 1) := by
  have h2 := map_decomp
    (fun d : List Char => (⟨d, ProductType.plain⟩ : Production)) ex2Dates []
    i h
  exact h2

theorem mem_take_dates (i : Nat) (prod : Production)
    (h : prod ∈ (ex2Dates.map
      (fun d => (⟨d, ProductType.plain⟩ : Production))).take i) :
    ∃ j, j < i ∧ j < ex2Dates.length ∧
      prod = ⟨dD j, ProductType.plain⟩ := by
  obtain ⟨j, h1, h2, h3⟩ := mem_take_map
    (fun d : List Char => (⟨d, ProductType.plain⟩ : Production)) ex2Dates []
    i prod h
  exact ⟨j, h1, h2, h3⟩


/-- CONTENT slot. -/
theorem ex2_step_content (fuel : Nat) (A tail : List Char) (m : Choices)
    (iCo iQi iQ : Nat) (hA : noBrace A) (hCo : iCo < 8) (hQi : iQi < 4) (hQ : iQ < 8)
    (hm : m "QUOTE".toList = none) :
    matchRecGo ex2 true (fuel + 4)
      (A ++ (wd ex2Content iCo ++ (['\n'] ++ (wd ex2QuoteIntros iQi ++ ([' '] ++ (wd ex2Quotes iQ ++ tail))))))
      (A ++ '{' :: tCo) m =
      some (true, insertC "QUOTE".toList iQ (insertC "QUOTE_INTRO".toList iQi (insertC "CONTENT".toList iCo (m)))) := by
  have hget : ex2.get "CONTENT".toList = some (initPlainByList ex2Content) := by decide
  rw [show (A ++ '{' :: tCo : List Char) =
    A ++ '{' :: ("CONTENT".toList ++ '}' :: ('\n' :: '{' :: tQi)) from rfl]
  rw [matchRecGo_var ex2 true (fuel + 3)
    (A ++ (wd ex2Content iCo ++ (['\n'] ++ (wd ex2QuoteIntros iQi ++ ([' '] ++ (wd ex2Quotes iQ ++ tail)))))) A
    "CONTENT".toList ('\n' :: '{' :: tQi) m
    (initPlainByList ex2Content) hA (by decide) hget]
  rw [initPlain_decomp ex2Content iCo (show iCo < ex2Content.length from hCo)]
  apply mrLoop_prefix_success
    (A ++ (wd ex2Content iCo ++ (['\n'] ++ (wd ex2QuoteIntros iQi ++ ([' '] ++ (wd ex2Quotes iQ ++ tail))))))
    (A ++ '{' :: ("CONTENT".toList ++ '}' :: ('\n' :: '{' :: tQi)))
    A.length (A.length + 1 + ("CONTENT".toList).length)
    "CONTENT".toList
    (matchRecGo ex2 true (fuel + 3)
      (A ++ (wd ex2Content iCo ++ (['\n'] ++ (wd ex2QuoteIntros iQi ++ ([' '] ++ (wd ex2Quotes iQ ++ tail)))))))
    ((initPlainByList ex2Content).drop (iCo + 1))
    (insertC "QUOTE".toList iQ (insertC "QUOTE_INTRO".toList iQi (insertC "CONTENT".toList iCo (m))))
    A ('\n' :: '{' :: tQi)
    (pattern_take_A "CONTENT".toList ('\n' :: '{' :: tQi))
    (pattern_drop_B "CONTENT".toList ('\n' :: '{' :: tQi))
    ((initPlainByList ex2Content).take iCo)
    (⟨wd ex2Content iCo, ProductType.plain⟩ : Production) 0 m
  · intro prod hp
    obtain ⟨j, hj1, hj2, rfl⟩ := mem_take_initPlain ex2Content iCo prod hp
    have hjn : j < 8 := hj2
    have hne : j ≠ iCo := Nat.ne_of_lt hj1
    show prunedB
      (A ++ (wd ex2Content iCo ++ (['\n'] ++ (wd ex2QuoteIntros iQi ++ ([' '] ++ (wd ex2Quotes iQ ++ tail))))))
      A ('\n' :: '{' :: tQi) (wd ex2Content j) = true
    apply prunedB_true_of1 _ _ _ _ _ hA (ex2Content_noBrace j hjn)
      (by decide)
    have ht : A ++ (wd ex2Content iCo ++ (['\n'] ++ (wd ex2QuoteIntros iQi ++ ([' '] ++ (wd ex2Quotes iQ ++ tail))))) =
        A ++ ((wd ex2Content iCo ++ ['\n']) ++ (wd ex2QuoteIntros iQi ++ ([' '] ++ (wd ex2Quotes iQ ++ tail)))) := by simp
    rw [ht]
    exact not_prefix_of_pairwise A _ _ _
      (ex2Content_pw j hjn iCo hCo hne)
      (ex2Content_pw iCo hCo j hjn hne.symm)
  · show prunedB
      (A ++ (wd ex2Content iCo ++ (['\n'] ++ (wd ex2QuoteIntros iQi ++ ([' '] ++ (wd ex2Quotes iQ ++ tail))))))
      A ('\n' :: '{' :: tQi) (wd ex2Content iCo) = false
    apply prunedB_false_sep1 _ _ _ _ _ hA (ex2Content_noBrace iCo hCo)
      (by decide)
    exact prefix_round A _ ['\n'] _ _ rfl
  · have hlen : (0 + ((initPlainByList ex2Content).take iCo).length) = iCo := by
      rw [Nat.zero_add, List.length_take]
      have h8 : (initPlainByList ex2Content).length = 8 := by decide
      rw [h8]
      omega
    rw [hlen]
    show matchRecGo ex2 true (fuel + 3)
      (A ++ (wd ex2Content iCo ++ (['\n'] ++ (wd ex2QuoteIntros iQi ++ ([' '] ++ (wd ex2Quotes iQ ++ tail))))))
      (A ++ wd ex2Content iCo ++ ('\n' :: '{' :: tQi))
      (insertC "CONTENT".toList iCo m) =
      some (true, insertC "QUOTE".toList iQ (insertC "QUOTE_INTRO".toList iQi (insertC "CONTENT".toList iCo (m))))
    rw [sep1_shift (A ++ wd ex2Content iCo) '\n' ('{' :: tQi)]
    have ht2 : A ++ (wd ex2Content iCo ++ (['\n'] ++ (wd ex2QuoteIntros iQi ++ ([' '] ++ (wd ex2Quotes iQ ++ tail))))) =
        ((A ++ wd ex2Content iCo) ++ ['\n']) ++ (wd ex2QuoteIntros iQi ++ ([' '] ++ (wd ex2Quotes iQ ++ tail))) := by simp
    rw [ht2]
    exact ex2_step_quoteIntro fuel ((A ++ wd ex2Content iCo) ++ ['\n']) tail
      (insertC "CONTENT".toList iCo m) iQi iQ
      (noBrace_append (noBrace_append hA (ex2Content_noBrace iCo hCo))
        (by decide))
      hQi hQ
      (by rw [insertC_get_other _ _ _ _ (by decide)]; exact hm)


/-- CITY slot. -/
theorem ex2_step_city (fuel : Nat) (A tail : List Char) (m : Choices)
    (iC iCo iQi iQ : Nat) (hA : noBrace A) (hC : iC < 32) (hCo : iCo < 8) (hQi : iQi < 4) (hQ : iQ < 8)
    (hm : m "QUOTE".toList = none) :
    matchRecGo ex2 true (fuel + 5)
      (A ++ (wd ex2Cities iC ++ (['\n'] ++ (wd ex2Content iCo ++ (['\n'] ++ (wd ex2QuoteIntros iQi ++ ([' '] ++ (wd ex2Quotes iQ ++ tail))))))))
      (A ++ '{' :: tCity) m =
      some (true, insertC "QUOTE".toList iQ (insertC "QUOTE_INTRO".toList iQi (insertC "CONTENT".toList iCo (insertC "CITY".toList iC (m))))) := by
  have hget : ex2.get "CITY".toList = some (initPlainByList ex2Cities) := by decide
  rw [show (A ++ '{' :: tCity : List Char) =
    A ++ '{' :: ("CITY".toList ++ '}' :: ('\n' :: '{' :: tCo)) from rfl]
  rw [matchRecGo_var ex2 true (fuel + 4)
    (A ++ (wd ex2Cities iC ++ (['\n'] ++ (wd ex2Content iCo ++ (['\n'] ++ (wd ex2QuoteIntros iQi ++ ([' '] ++ (wd ex2Quotes iQ ++ tail)))))))) A
    "CITY".toList ('\n' :: '{' :: tCo) m
    (initPlainByList ex2Cities) hA (by decide) hget]
  rw [initPlain_decomp ex2Cities iC (show iC < ex2Cities.length from hC)]
  apply mrLoop_prefix_success
    (A ++ (wd ex2Cities iC ++ (['\n'] ++ (wd ex2Content iCo ++ (['\n'] ++ (wd ex2QuoteIntros iQi ++ ([' '] ++ (wd ex2Quotes iQ ++ tail))))))))
    (A ++ '{' :: ("CITY".toList ++ '}' :: ('\n' :: '{' :: tCo)))
    A.length (A.length + 1 + ("CITY".toList).length)
    "CITY".toList
    (matchRecGo ex2 true (fuel + 4)
      (A ++ (wd ex2Cities iC ++ (['\n'] ++ (wd ex2Content iCo ++ (['\n'] ++ (wd ex2QuoteIntros iQi ++ ([' '] ++ (wd ex2Quotes iQ ++ tail)))))))))
    ((initPlainByList ex2Cities).drop (iC + 1))
    (insertC "QUOTE".toList iQ (insertC "QUOTE_INTRO".toList iQi (insertC "CONTENT".toList iCo (insertC "CITY".toList iC (m)))))
    A ('\n' :: '{' :: tCo)
    (pattern_take_A "CITY".toList ('\n' :: '{' :: tCo))
    (pattern_drop_B "CITY".toList ('\n' :: '{' :: tCo))
    ((initPlainByList ex2Cities).take iC)
    (⟨wd ex2Cities iC, ProductType.plain⟩ : Production) 0 m
  · intro prod hp
    obtain ⟨j, hj1, hj2, rfl⟩ := mem_take_initPlain ex2Cities iC prod hp
    have hjn : j < 32 := hj2
    have hne : j ≠ iC := Nat.ne_of_lt hj1
    show prunedB
      (A ++ (wd ex2Cities iC ++ (['\n'] ++ (wd ex2Content iCo ++ (['\n'] ++ (wd ex2QuoteIntros iQi ++ ([' '] ++ (wd ex2Quotes iQ ++ tail))))))))
      A ('\n' :: '{' :: tCo) (wd ex2Cities j) = true
    apply prunedB_true_of1 _ _ _ _ _ hA (ex2Cities_noBrace j hjn)
      (by decide)
    have ht : A ++ (wd ex2Cities iC ++ (['\n'] ++ (wd ex2Content iCo ++ (['\n'] ++ (wd ex2QuoteIntros iQi ++ ([' '] ++ (wd ex2Quotes iQ ++ tail))))))) =
        A ++ ((wd ex2Cities iC ++ ['\n']) ++ (wd ex2Content iCo ++ (['\n'] ++ (wd ex2QuoteIntros iQi ++ ([' '] ++ (wd ex2Quotes iQ ++ tail)))))) := by simp
    rw [ht]
    exact not_prefix_of_pairwise A _ _ _
      (ex2Cities_pw j hjn iC hC hne)
      (ex2Cities_pw iC hC j hjn hne.symm)
  · show prunedB
      (A ++ (wd ex2Cities iC ++ (['\n'] ++ (wd ex2Content iCo ++ (['\n'] ++ (wd ex2QuoteIntros iQi ++ ([' '] ++ (wd ex2Quotes iQ ++ tail))))))))
      A ('\n' :: '{' :: tCo) (wd ex2Cities iC) = false
    apply prunedB_false_sep1 _ _ _ _ _ hA (ex2Cities_noBrace iC hC)
      (by decide)
    exact prefix_round A _ ['\n'] _ _ rfl
  · have hlen : (0 + ((initPlainByList ex2Cities).take iC).length) = iC := by
      rw [Nat.zero_add, List.length_take]
      have h8 : (initPlainByList ex2Cities).length = 32 := by decide
      rw [h8]
      omega
    rw [hlen]
    show matchRecGo ex2 true (fuel + 4)
      (A ++ (wd ex2Cities iC ++ (['\n'] ++ (wd ex2Content iCo ++ (['\n'] ++ (wd ex2QuoteIntros iQi ++ ([' '] ++ (wd ex2Quotes iQ ++ tail))))))))
      (A ++ wd ex2Cities iC ++ ('\n' :: '{' :: tCo))
      (insertC "CITY".toList iC m) =
      some (true, insertC "QUOTE".toList iQ (insertC "QUOTE_INTRO".toList iQi (insertC "CONTENT".toList iCo (insertC "CITY".toList iC (m)))))
    rw [sep1_shift (A ++ wd ex2Cities iC) '\n' ('{' :: tCo)]
    have ht2 : A ++ (wd ex2Cities iC ++ (['\n'] ++ (wd ex2Content iCo ++ (['\n'] ++ (wd ex2QuoteIntros iQi ++ ([' '] ++ (wd ex2Quotes iQ ++ tail))))))) =
        ((A ++ wd ex2Cities iC) ++ ['\n']) ++ (wd ex2Content iCo ++ (['\n'] ++ (wd ex2QuoteIntros iQi ++ ([' '] ++ (wd ex2Quotes iQ ++ tail))))) := by simp
    rw [ht2]
    exact ex2_step_content fuel ((A ++ wd ex2Cities iC) ++ ['\n']) tail
      (insertC "CITY".toList iC m) iCo iQi iQ
      (noBrace_append (noBrace_append hA (ex2Cities_noBrace iC hC))
        (by decide))
      hCo hQi hQ
      (by rw [insertC_get_other _ _ _ _ (by decide)]; exact hm)


/-- DATE slot. -/
theorem ex2_step_date (fuel : Nat) (A tail : List Char) (m : Choices)
    (iD iC iCo iQi iQ : Nat) (hA : noBrace A) (hD : iD < 32) (hC : iC < 32) (hCo : iCo < 8) (hQi : iQi < 4) (hQ : iQ < 8)
    (hm : m "QUOTE".toList = none) :
    matchRecGo ex2 true (fuel + 6)
      (A ++ (dD iD ++ ([' '] ++ (wd ex2Cities iC ++ (['\n'] ++ (wd ex2Content iCo ++ (['\n'] ++ (wd ex2QuoteIntros iQi ++ ([' '] ++ (wd ex2Quotes iQ ++ tail))))))))))
      (A ++ '{' :: tDate) m =
      some (true, insertC "QUOTE".toList iQ (insertC "QUOTE_INTRO".toList iQi (insertC "CONTENT".toList iCo (insertC "CITY".toList iC (insertC "DATE".toList iD (m)))))) := by
  have hget : ex2.get "DATE".toList = some (ex2Dates.map (fun d => (⟨d, ProductType.plain⟩ : Production))) := by decide
  rw [show (A ++ '{' :: tDate : List Char) =
    A ++ '{' :: ("DATE".toList ++ '}' :: (' ' :: '{' :: tCity)) from rfl]
  rw [matchRecGo_var ex2 true (fuel + 5)
    (A ++ (dD iD ++ ([' '] ++ (wd ex2Cities iC ++ (['\n'] ++ (wd ex2Content iCo ++ (['\n'] ++ (wd ex2QuoteIntros iQi ++ ([' '] ++ (wd ex2Quotes iQ ++ tail)))))))))) A
    "DATE".toList (' ' :: '{' :: tCity) m
    (ex2Dates.map (fun d => (⟨d, ProductType.plain⟩ : Production))) hA (by decide) hget]
  rw [dates_decomp iD (show iD < ex2Dates.length from hD)]
  apply mrLoop_prefix_success
    (A ++ (dD iD ++ ([' '] ++ (wd ex2Cities iC ++ (['\n'] ++ (wd ex2Content iCo ++ (['\n'] ++ (wd ex2QuoteIntros iQi ++ ([' '] ++ (wd ex2Quotes iQ ++ tail))))))))))
    (A ++ '{' :: ("DATE".toList ++ '}' :: (' ' :: '{' :: tCity)))
    A.length (A.length + 1 + ("DATE".toList).length)
    "DATE".toList
    (matchRecGo ex2 true (fuel + 5)
      (A ++ (dD iD ++ ([' '] ++ (wd ex2Cities iC ++ (['\n'] ++ (wd ex2Content iCo ++ (['\n'] ++ (wd ex2QuoteIntros iQi ++ ([' '] ++ (wd ex2Quotes iQ ++ tail)))))))))))
    ((ex2Dates.map (fun d => (⟨d, ProductType.plain⟩ : Production))).drop (iD + 1))
    (insertC "QUOTE".toList iQ (insertC "QUOTE_INTRO".toList iQi (insertC "CONTENT".toList iCo (insertC "CITY".toList iC (insertC "DATE".toList iD (m))))))
    A (' ' :: '{' :: tCity)
    (pattern_take_A "DATE".toList (' ' :: '{' :: tCity))
    (pattern_drop_B "DATE".toList (' ' :: '{' :: tCity))
    ((ex2Dates.map (fun d => (⟨d, ProductType.plain⟩ : Production))).take iD)
    (⟨dD iD, ProductType.plain⟩ : Production) 0 m
  · intro prod hp
    obtain ⟨j, hj1, hj2, rfl⟩ := mem_take_dates iD prod hp
    have hjn : j < 32 := hj2
    have hne : j ≠ iD := Nat.ne_of_lt hj1
    show prunedB
      (A ++ (dD iD ++ ([' '] ++ (wd ex2Cities iC ++ (['\n'] ++ (wd ex2Content iCo ++ (['\n'] ++ (wd ex2QuoteIntros iQi ++ ([' '] ++ (wd ex2Quotes iQ ++ tail))))))))))
      A (' ' :: '{' :: tCity) (dD j) = true
    apply prunedB_true_of1 _ _ _ _ _ hA (ex2Dates_noBrace j hjn)
      (by decide)
    have ht : A ++ (dD iD ++ ([' '] ++ (wd ex2Cities iC ++ (['\n'] ++ (wd ex2Content iCo ++ (['\n'] ++ (wd ex2QuoteIntros iQi ++ ([' '] ++ (wd ex2Quotes iQ ++ tail))))))))) =
        A ++ ((dD iD ++ [' ']) ++ (wd ex2Cities iC ++ (['\n'] ++ (wd ex2Content iCo ++ (['\n'] ++ (wd ex2QuoteIntros iQi ++ ([' '] ++ (wd ex2Quotes iQ ++ tail)))))))) := by simp
    rw [ht]
    exact not_prefix_of_pairwise A _ _ _
      (ex2Dates_pw j hjn iD hD hne)
      (ex2Dates_pw iD hD j hjn hne.symm)
  · show prunedB
      (A ++ (dD iD ++ ([' '] ++ (wd ex2Cities iC ++ (['\n'] ++ (wd ex2Content iCo ++ (['\n'] ++ (wd ex2QuoteIntros iQi ++ ([' '] ++ (wd ex2Quotes iQ ++ tail))))))))))
      A (' ' :: '{' :: tCity) (dD iD) = false
    apply prunedB_false_sep1 _ _ _ _ _ hA (ex2Dates_noBrace iD hD)
      (by decide)
    exact prefix_round A _ [' '] _ _ rfl
  · have hlen : (0 + ((ex2Dates.map (fun d => (⟨d, ProductType.plain⟩ : Production))).take iD).length) = iD := by
      rw [Nat.zero_add, List.length_take]
      have h8 : (ex2Dates.map (fun d => (⟨d, ProductType.plain⟩ : Production))).length = 32 := by decide
      rw [h8]
      omega
    rw [hlen]
    show matchRecGo ex2 true (fuel + 5)
      (A ++ (dD iD ++ ([' '] ++ (wd ex2Cities iC ++ (['\n'] ++ (wd ex2Content iCo ++ (['\n'] ++ (wd ex2QuoteIntros iQi ++ ([' '] ++ (wd ex2Quotes iQ ++ tail))))))))))
      (A ++ dD iD ++ (' ' :: '{' :: tCity))
      (insertC "DATE".toList iD m) =
      some (true, insertC "QUOTE".toList iQ (insertC "QUOTE_INTRO".toList iQi (insertC "CONTENT".toList iCo (insertC "CITY".toList iC (insertC "DATE".toList iD (m))))))
    rw [sep1_shift (A ++ dD iD) ' ' ('{' :: tCity)]
    have ht2 : A ++ (dD iD ++ ([' '] ++ (wd ex2Cities iC ++ (['\n'] ++ (wd ex2Content iCo ++ (['\n'] ++ (wd ex2QuoteIntros iQi ++ ([' '] ++ (wd ex2Quotes iQ ++ tail))))))))) =
        ((A ++ dD iD) ++ [' ']) ++ (wd ex2Cities iC ++ (['\n'] ++ (wd ex2Content iCo ++ (['\n'] ++ (wd ex2QuoteIntros iQi ++ ([' '] ++ (wd ex2Quotes iQ ++ tail))))))) := by simp
    rw [ht2]
    exact ex2_step_city fuel ((A ++ dD iD) ++ [' ']) tail
      (insertC "DATE".toList iD m) iC iCo iQi iQ
      (noBrace_append (noBrace_append hA (ex2Dates_noBrace iD hD))
        (by decide))
      hC hCo hQi hQ
      (by rw [insertC_get_other _ _ _ _ (by decide)]; exact hm)

/-- DATELINE slot (single production). -/
theorem ex2_step_dateline (fuel : Nat) (A tail : List Char) (m : Choices)
    (iS iV iO iD iC iCo iQi iQ : Nat) (hA : noBrace A)
    (hS : iS < 32) (hV : iV < 16) (hO : iO < 32) (hD : iD < 32)
    (hC : iC < 32) (hCo : iCo < 8) (hQi : iQi < 4) (hQ : iQ < 8)
    (hm : m "QUOTE".toList = none) :
    matchRecGo ex2 true (fuel + 7)
      (A ++ (dD iD ++ ([' '] ++ (wd ex2Cities iC ++ (['\n'] ++ (wd ex2Content iCo ++ (['\n'] ++ (wd ex2QuoteIntros iQi ++ ([' '] ++ (wd ex2Quotes iQ ++ tail))))))))))
      (A ++ '{' :: tDL) m =
      some (true, insertC "QUOTE".toList iQ (insertC "QUOTE_INTRO".toList iQi (insertC "CONTENT".toList iCo (insertC "CITY".toList iC (insertC "DATE".toList iD (insertC "DATELINE".toList 0 (m))))))) := by
  have hget : ex2.get "DATELINE".toList =
      some [(⟨"\x7bDATE\x7d \x7bCITY\x7d".toList, ProductType.plain⟩ : Production)] := by decide
  rw [show (A ++ '{' :: tDL : List Char) =
    A ++ '{' :: ("DATELINE".toList ++ '}' :: ('\n' :: '{' :: tCo)) from rfl]
  rw [matchRecGo_var ex2 true (fuel + 6)
    (A ++ (dD iD ++ ([' '] ++ (wd ex2Cities iC ++ (['\n'] ++ (wd ex2Content iCo ++ (['\n'] ++ (wd ex2QuoteIntros iQi ++ ([' '] ++ (wd ex2Quotes iQ ++ tail)))))))))) A
    "DATELINE".toList ('\n' :: '{' :: tCo) m
    [(⟨"\x7bDATE\x7d \x7bCITY\x7d".toList, ProductType.plain⟩ : Production)] hA (by decide) hget]
  rw [show ([(⟨"\x7bDATE\x7d \x7bCITY\x7d".toList, ProductType.plain⟩ : Production)] :
      List Production) =
    [] ++ (⟨"\x7bDATE\x7d \x7bCITY\x7d".toList, ProductType.plain⟩ : Production) :: [] from rfl]
  apply mrLoop_prefix_success
    (A ++ (dD iD ++ ([' '] ++ (wd ex2Cities iC ++ (['\n'] ++ (wd ex2Content iCo ++ (['\n'] ++ (wd ex2QuoteIntros iQi ++ ([' '] ++ (wd ex2Quotes iQ ++ tail))))))))))
    (A ++ '{' :: ("DATELINE".toList ++ '}' :: ('\n' :: '{' :: tCo)))
    A.length (A.length + 1 + ("DATELINE".toList).length)
    "DATELINE".toList
    (matchRecGo ex2 true (fuel + 6)
      (A ++ (dD iD ++ ([' '] ++ (wd ex2Cities iC ++ (['\n'] ++ (wd ex2Content iCo ++ (['\n'] ++ (wd ex2QuoteIntros iQi ++ ([' '] ++ (wd ex2Quotes iQ ++ tail)))))))))))
    [] (insertC "QUOTE".toList iQ (insertC "QUOTE_INTRO".toList iQi (insertC "CONTENT".toList iCo (insertC "CITY".toList iC (insertC "DATE".toList iD (insertC "DATELINE".toList 0 (m))))))) A ('\n' :: '{' :: tCo)
    (pattern_take_A "DATELINE".toList ('\n' :: '{' :: tCo))
    (pattern_drop_B "DATELINE".toList ('\n' :: '{' :: tCo))
    [] (⟨"\x7bDATE\x7d \x7bCITY\x7d".toList, ProductType.plain⟩ : Production) 0 m
  · intro prod hp
    exact absurd hp (List.not_mem_nil prod)
  · show prunedB (A ++ (dD iD ++ ([' '] ++ (wd ex2Cities iC ++ (['\n'] ++ (wd ex2Content iCo ++ (['\n'] ++ (wd ex2QuoteIntros iQi ++ ([' '] ++ (wd ex2Quotes iQ ++ tail)))))))))) A ('\n' :: '{' :: tCo) ("\x7bDATE\x7d \x7bCITY\x7d".toList) = false
    rw [show ("\x7bDATE\x7d \x7bCITY\x7d".toList : List Char) =
      '{' :: (List.drop 1 "\x7bDATE\x7d \x7bCITY\x7d".toList) from rfl]
    exact prunedB_false_brace0 _ _ _ _ hA ⟨(dD iD ++ ([' '] ++ (wd ex2Cities iC ++ (['\n'] ++ (wd ex2Content iCo ++ (['\n'] ++ (wd ex2QuoteIntros iQi ++ ([' '] ++ (wd ex2Quotes iQ ++ tail))))))))), rfl⟩
  · show matchRecGo ex2 true (fuel + 6)
      (A ++ (dD iD ++ ([' '] ++ (wd ex2Cities iC ++ (['\n'] ++ (wd ex2Content iCo ++ (['\n'] ++ (wd ex2QuoteIntros iQi ++ ([' '] ++ (wd ex2Quotes iQ ++ tail))))))))))
      (A ++ "\x7bDATE\x7d \x7bCITY\x7d".toList ++ ('\n' :: '{' :: tCo))
      (insertC "DATELINE".toList 0 m) =
      some (true, insertC "QUOTE".toList iQ (insertC "QUOTE_INTRO".toList iQi (insertC "CONTENT".toList iCo (insertC "CITY".toList iC (insertC "DATE".toList iD (insertC "DATELINE".toList 0 (m)))))))
    have hp2 : A ++ "\x7bDATE\x7d \x7bCITY\x7d".toList ++ ('\n' :: '{' :: tCo) = A ++ '{' :: tDate := by
      rw [List.append_assoc]
      congr 1
    rw [hp2]
    exact ex2_step_date fuel A tail (insertC "DATELINE".toList 0 m)
      iD iC iCo iQi iQ hA hD hC hCo hQi hQ
      (by rw [insertC_get_other _ _ _ _ (by decide)]; exact hm)


/-- OBJECT slot. -/
theorem ex2_step_object (fuel : Nat) (A tail : List Char) (m : Choices)
    (iS iV iO iD iC iCo iQi iQ : Nat) (hA : noBrace A) (hS : iS < 32) (hV : iV < 16) (hO : iO < 32) (hD : iD < 32)
    (hC : iC < 32) (hCo : iCo < 8) (hQi : iQi < 4) (hQ : iQ < 8)
    (hm : m "QUOTE".toList = none) :
    matchRecGo ex2 true (fuel + 8)
      (A ++ (wd ex2Objects iO ++ (['\n'] ++ (dD iD ++ ([' '] ++ (wd ex2Cities iC ++ (['\n'] ++ (wd ex2Content iCo ++ (['\n'] ++ (wd ex2QuoteIntros iQi ++ ([' '] ++ (wd ex2Quotes iQ ++ tail))))))))))))
      (A ++ '{' :: tO) m =
      some (true, insertC "QUOTE".toList iQ (insertC "QUOTE_INTRO".toList iQi (insertC "CONTENT".toList iCo (insertC "CITY".toList iC (insertC "DATE".toList iD (insertC "DATELINE".toList 0 (insertC "OBJECT".toList iO (m)))))))) := by
  have hget : ex2.get "OBJECT".toList = some (initPlainByList ex2Objects) := by decide
  rw [show (A ++ '{' :: tO : List Char) =
    A ++ '{' :: ("OBJECT".toList ++ '}' :: ('\n' :: '{' :: tDL)) from rfl]
  rw [matchRecGo_var ex2 true (fuel + 7)
    (A ++ (wd ex2Objects iO ++ (['\n'] ++ (dD iD ++ ([' '] ++ (wd ex2Cities iC ++ (['\n'] ++ (wd ex2Content iCo ++ (['\n'] ++ (wd ex2QuoteIntros iQi ++ ([' '] ++ (wd ex2Quotes iQ ++ tail)))))))))))) A
    "OBJECT".toList ('\n' :: '{' :: tDL) m
    (initPlainByList ex2Objects) hA (by decide) hget]
  rw [initPlain_decomp ex2Objects iO (show iO < ex2Objects.length from hO)]
  apply mrLoop_prefix_success
    (A ++ (wd ex2Objects iO ++ (['\n'] ++ (dD iD ++ ([' '] ++ (wd ex2Cities iC ++ (['\n'] ++ (wd ex2Content iCo ++ (['\n'] ++ (wd ex2QuoteIntros iQi ++ ([' '] ++ (wd ex2Quotes iQ ++ tail))))))))))))
    (A ++ '{' :: ("OBJECT".toList ++ '}' :: ('\n' :: '{' :: tDL)))
    A.length (A.length + 1 + ("OBJECT".toList).length)
    "OBJECT".toList
    (matchRecGo ex2 true (fuel + 7)
      (A ++ (wd ex2Objects iO ++ (['\n'] ++ (dD iD ++ ([' '] ++ (wd ex2Cities iC ++ (['\n'] ++ (wd ex2Content iCo ++ (['\n'] ++ (wd ex2QuoteIntros iQi ++ ([' '] ++ (wd ex2Quotes iQ ++ tail)))))))))))))
    ((initPlainByList ex2Objects).drop (iO + 1))
    (insertC "QUOTE".toList iQ (insertC "QUOTE_INTRO".toList iQi (insertC "CONTENT".toList iCo (insertC "CITY".toList iC (insertC "DATE".toList iD (insertC "DATELINE".toList 0 (insertC "OBJECT".toList iO (m))))))))
    A ('\n' :: '{' :: tDL)
    (pattern_take_A "OBJECT".toList ('\n' :: '{' :: tDL))
    (pattern_drop_B "OBJECT".toList ('\n' :: '{' :: tDL))
    ((initPlainByList ex2Objects).take iO)
    (⟨wd ex2Objects iO, ProductType.plain⟩ : Production) 0 m
  · intro prod hp
    obtain ⟨j, hj1, hj2, rfl⟩ := mem_take_initPlain ex2Objects iO prod hp
    have hjn : j < 32 := hj2
    have hne : j ≠ iO := Nat.ne_of_lt hj1
    show prunedB
      (A ++ (wd ex2Objects iO ++ (['\n'] ++ (dD iD ++ ([' '] ++ (wd ex2Cities iC ++ (['\n'] ++ (wd ex2Content iCo ++ (['\n'] ++ (wd ex2QuoteIntros iQi ++ ([' '] ++ (wd ex2Quotes iQ ++ tail))))))))))))
      A ('\n' :: '{' :: tDL) (wd ex2Objects j) = true
    apply prunedB_true_of1 _ _ _ _ _ hA (ex2Objects_noBrace j hjn)
      (by decide)
    have ht : A ++ (wd ex2Objects iO ++ (['\n'] ++ (dD iD ++ ([' '] ++ (wd ex2Cities iC ++ (['\n'] ++ (wd ex2Content iCo ++ (['\n'] ++ (wd ex2QuoteIntros iQi ++ ([' '] ++ (wd ex2Quotes iQ ++ tail))))))))))) =
        A ++ ((wd ex2Objects iO ++ ['\n']) ++ (dD iD ++ ([' '] ++ (wd ex2Cities iC ++ (['\n'] ++ (wd ex2Content iCo ++ (['\n'] ++ (wd ex2QuoteIntros iQi ++ ([' '] ++ (wd ex2Quotes iQ ++ tail)))))))))) := by simp
    rw [ht]
    exact not_prefix_of_pairwise A _ _ _
      (ex2Objects_pw j hjn iO hO hne)
      (ex2Objects_pw iO hO j hjn hne.symm)
  · show prunedB
      (A ++ (wd ex2Objects iO ++ (['\n'] ++ (dD iD ++ ([' '] ++ (wd ex2Cities iC ++ (['\n'] ++ (wd ex2Content iCo ++ (['\n'] ++ (wd ex2QuoteIntros iQi ++ ([' '] ++ (wd ex2Quotes iQ ++ tail))))))))))))
      A ('\n' :: '{' :: tDL) (wd ex2Objects iO) = false
    apply prunedB_false_sep1 _ _ _ _ _ hA (ex2Objects_noBrace iO hO)
      (by decide)
    exact prefix_round A _ ['\n'] _ _ rfl
  · have hlen : (0 + ((initPlainByList ex2Objects).take iO).length) = iO := by
      rw [Nat.zero_add, List.length_take]
      have h8 : (initPlainByList ex2Objects).length = 32 := by decide
      rw [h8]
      omega
    rw [hlen]
    show matchRecGo ex2 true (fuel + 7)
      (A ++ (wd ex2Objects iO ++ (['\n'] ++ (dD iD ++ ([' '] ++ (wd ex2Cities iC ++ (['\n'] ++ (wd ex2Content iCo ++ (['\n'] ++ (wd ex2QuoteIntros iQi ++ ([' '] ++ (wd ex2Quotes iQ ++ tail))))))))))))
      (A ++ wd ex2Objects iO ++ ('\n' :: '{' :: tDL))
      (insertC "OBJECT".toList iO m) =
      some (true, insertC "QUOTE".toList iQ (insertC "QUOTE_INTRO".toList iQi (insertC "CONTENT".toList iCo (insertC "CITY".toList iC (insertC "DATE".toList iD (insertC "DATELINE".toList 0 (insertC "OBJECT".toList iO (m))))))))
    rw [sep1_shift (A ++ wd ex2Objects iO) '\n' ('{' :: tDL)]
    have ht2 : A ++ (wd ex2Objects iO ++ (['\n'] ++ (dD iD ++ ([' '] ++ (wd ex2Cities iC ++ (['\n'] ++ (wd ex2Content iCo ++ (['\n'] ++ (wd ex2QuoteIntros iQi ++ ([' '] ++ (wd ex2Quotes iQ ++ tail))))))))))) =
        ((A ++ wd ex2Objects iO) ++ ['\n']) ++ (dD iD ++ ([' '] ++ (wd ex2Cities iC ++ (['\n'] ++ (wd ex2Content iCo ++ (['\n'] ++ (wd ex2QuoteIntros iQi ++ ([' '] ++ (wd ex2Quotes iQ ++ tail))))))))) := by simp
    rw [ht2]
    exact ex2_step_dateline fuel ((A ++ wd ex2Objects iO) ++ ['\n']) tail
      (insertC "OBJECT".toList iO m) iS iV iO iD iC iCo iQi iQ
      (noBrace_append (noBrace_append hA (ex2Objects_noBrace iO hO))
        (by decide))
      hS hV hO hD hC hCo hQi hQ
      (by rw [insertC_get_other _ _ _ _ (by decide)]; exact hm)


/-- VERB slot. -/
theorem ex2_step_verb (fuel : Nat) (A tail : List Char) (m : Choices)
    (iS iV iO iD iC iCo iQi iQ : Nat) (hA : noBrace A) (hS : iS < 32) (hV : iV < 16) (hO : iO < 32) (hD : iD < 32)
    (hC : iC < 32) (hCo : iCo < 8) (hQi : iQi < 4) (hQ : iQ < 8)
    (hm : m "QUOTE".toList = none) :
    matchRecGo ex2 true (fuel + 9)
      (A ++ (wd ex2Verbs iV ++ ([' '] ++ (wd ex2Objects iO ++ (['\n'] ++ (dD iD ++ ([' '] ++ (wd ex2Cities iC ++ (['\n'] ++ (wd ex2Content iCo ++ (['\n'] ++ (wd ex2QuoteIntros iQi ++ ([' '] ++ (wd ex2Quotes iQ ++ tail))))))))))))))
      (A ++ '{' :: tV) m =
      some (true, insertC "QUOTE".toList iQ (insertC "QUOTE_INTRO".toList iQi (insertC "CONTENT".toList iCo (insertC "CITY".toList iC (insertC "DATE".toList iD (insertC "DATELINE".toList 0 (insertC "OBJECT".toList iO (insertC "VERB".toList iV (m))))))))) := by
  have hget : ex2.get "VERB".toList = some (initPlainByList ex2Verbs) := by decide
  rw [show (A ++ '{' :: tV : List Char) =
    A ++ '{' :: ("VERB".toList ++ '}' :: (' ' :: '{' :: tO)) from rfl]
  rw [matchRecGo_var ex2 true (fuel + 8)
    (A ++ (wd ex2Verbs iV ++ ([' '] ++ (wd ex2Objects iO ++ (['\n'] ++ (dD iD ++ ([' '] ++ (wd ex2Cities iC ++ (['\n'] ++ (wd ex2Content iCo ++ (['\n'] ++ (wd ex2QuoteIntros iQi ++ ([' '] ++ (wd ex2Quotes iQ ++ tail)))))))))))))) A
    "VERB".toList (' ' :: '{' :: tO) m
    (initPlainByList ex2Verbs) hA (by decide) hget]
  rw [initPlain_decomp ex2Verbs iV (show iV < ex2Verbs.length from hV)]
  apply mrLoop_prefix_success
    (A ++ (wd ex2Verbs iV ++ ([' '] ++ (wd ex2Objects iO ++ (['\n'] ++ (dD iD ++ ([' '] ++ (wd ex2Cities iC ++ (['\n'] ++ (wd ex2Content iCo ++ (['\n'] ++ (wd ex2QuoteIntros iQi ++ ([' '] ++ (wd ex2Quotes iQ ++ tail))))))))))))))
    (A ++ '{' :: ("VERB".toList ++ '}' :: (' ' :: '{' :: tO)))
    A.length (A.length + 1 + ("VERB".toList).length)
    "VERB".toList
    (matchRecGo ex2 true (fuel + 8)
      (A ++ (wd ex2Verbs iV ++ ([' '] ++ (wd ex2Objects iO ++ (['\n'] ++ (dD iD ++ ([' '] ++ (wd ex2Cities iC ++ (['\n'] ++ (wd ex2Content iCo ++ (['\n'] ++ (wd ex2QuoteIntros iQi ++ ([' '] ++ (wd ex2Quotes iQ ++ tail)))))))))))))))
    ((initPlainByList ex2Verbs).drop (iV + 1))
    (insertC "QUOTE".toList iQ (insertC "QUOTE_INTRO".toList iQi (insertC "CONTENT".toList iCo (insertC "CITY".toList iC (insertC "DATE".toList iD (insertC "DATELINE".toList 0 (insertC "OBJECT".toList iO (insertC "VERB".toList iV (m)))))))))
    A (' ' :: '{' :: tO)
    (pattern_take_A "VERB".toList (' ' :: '{' :: tO))
    (pattern_drop_B "VERB".toList (' ' :: '{' :: tO))
    ((initPlainByList ex2Verbs).take iV)
    (⟨wd ex2Verbs iV, ProductType.plain⟩ : Production) 0 m
  · intro prod hp
    obtain ⟨j, hj1, hj2, rfl⟩ := mem_take_initPlain ex2Verbs iV prod hp
    have hjn : j < 16 := hj2
    have hne : j ≠ iV := Nat.ne_of_lt hj1
    show prunedB
      (A ++ (wd ex2Verbs iV ++ ([' '] ++ (wd ex2Objects iO ++ (['\n'] ++ (dD iD ++ ([' '] ++ (wd ex2Cities iC ++ (['\n'] ++ (wd ex2Content iCo ++ (['\n'] ++ (wd ex2QuoteIntros iQi ++ ([' '] ++ (wd ex2Quotes iQ ++ tail))))))))))))))
      A (' ' :: '{' :: tO) (wd ex2Verbs j) = true
    apply prunedB_true_of1 _ _ _ _ _ hA (ex2Verbs_noBrace j hjn)
      (by decide)
    have ht : A ++ (wd ex2Verbs iV ++ ([' '] ++ (wd ex2Objects iO ++ (['\n'] ++ (dD iD ++ ([' '] ++ (wd ex2Cities iC ++ (['\n'] ++ (wd ex2Content iCo ++ (['\n'] ++ (wd ex2QuoteIntros iQi ++ ([' '] ++ (wd ex2Quotes iQ ++ tail))))))))))))) =
        A ++ ((wd ex2Verbs iV ++ [' ']) ++ (wd ex2Objects iO ++ (['\n'] ++ (dD iD ++ ([' '] ++ (wd ex2Cities iC ++ (['\n'] ++ (wd ex2Content iCo ++ (['\n'] ++ (wd ex2QuoteIntros iQi ++ ([' '] ++ (wd ex2Quotes iQ ++ tail)))))))))))) := by simp
    rw [ht]
    exact not_prefix_of_pairwise A _ _ _
      (ex2Verbs_pw j hjn iV hV hne)
      (ex2Verbs_pw iV hV j hjn hne.symm)
  · show prunedB
      (A ++ (wd ex2Verbs iV ++ ([' '] ++ (wd ex2Objects iO ++ (['\n'] ++ (dD iD ++ ([' '] ++ (wd ex2Cities iC ++ (['\n'] ++ (wd ex2Content iCo ++ (['\n'] ++ (wd ex2QuoteIntros iQi ++ ([' '] ++ (wd ex2Quotes iQ ++ tail))))))))))))))
      A (' ' :: '{' :: tO) (wd ex2Verbs iV) = false
    apply prunedB_false_sep1 _ _ _ _ _ hA (ex2Verbs_noBrace iV hV)
      (by decide)
    exact prefix_round A _ [' '] _ _ rfl
  · have hlen : (0 + ((initPlainByList ex2Verbs).take iV).length) = iV := by
      rw [Nat.zero_add, List.length_take]
      have h8 : (initPlainByList ex2Verbs).length = 16 := by decide
      rw [h8]
      omega
    rw [hlen]
    show matchRecGo ex2 true (fuel + 8)
      (A ++ (wd ex2Verbs iV ++ ([' '] ++ (wd ex2Objects iO ++ (['\n'] ++ (dD iD ++ ([' '] ++ (wd ex2Cities iC ++ (['\n'] ++ (wd ex2Content iCo ++ (['\n'] ++ (wd ex2QuoteIntros iQi ++ ([' '] ++ (wd ex2Quotes iQ ++ tail))))))))))))))
      (A ++ wd ex2Verbs iV ++ (' ' :: '{' :: tO))
      (insertC "VERB".toList iV m) =
      some (true, insertC "QUOTE".toList iQ (insertC "QUOTE_INTRO".toList iQi (insertC "CONTENT".toList iCo (insertC "CITY".toList iC (insertC "DATE".toList iD (insertC "DATELINE".toList 0 (insertC "OBJECT".toList iO (insertC "VERB".toList iV (m)))))))))
    rw [sep1_shift (A ++ wd ex2Verbs iV) ' ' ('{' :: tO)]
    have ht2 : A ++ (wd ex2Verbs iV ++ ([' '] ++ (wd ex2Objects iO ++ (['\n'] ++ (dD iD ++ ([' '] ++ (wd ex2Cities iC ++ (['\n'] ++ (wd ex2Content iCo ++ (['\n'] ++ (wd ex2QuoteIntros iQi ++ ([' '] ++ (wd ex2Quotes iQ ++ tail))))))))))))) =
        ((A ++ wd ex2Verbs iV) ++ [' ']) ++ (wd ex2Objects iO ++ (['\n'] ++ (dD iD ++ ([' '] ++ (wd ex2Cities iC ++ (['\n'] ++ (wd ex2Content iCo ++ (['\n'] ++ (wd ex2QuoteIntros iQi ++ ([' '] ++ (wd ex2Quotes iQ ++ tail))))))))))) := by simp
    rw [ht2]
    exact ex2_step_object fuel ((A ++ wd ex2Verbs iV) ++ [' ']) tail
      (insertC "VERB".toList iV m) iS iV iO iD iC iCo iQi iQ
      (noBrace_append (noBrace_append hA (ex2Verbs_noBrace iV hV))
        (by decide))
      hS hV hO hD hC hCo hQi hQ
      (by rw [insertC_get_other _ _ _ _ (by decide)]; exact hm)


/-- SUBJECT slot. -/
theorem ex2_step_subject (fuel : Nat) (A tail : List Char) (m : Choices)
    (iS iV iO iD iC iCo iQi iQ : Nat) (hA : noBrace A) (hS : iS < 32) (hV : iV < 16) (hO : iO < 32) (hD : iD < 32)
    (hC : iC < 32) (hCo : iCo < 8) (hQi : iQi < 4) (hQ : iQ < 8)
    (hm : m "QUOTE".toList = none) :
    matchRecGo ex2 true (fuel + 10)
      (A ++ (wd ex2Subjects iS ++ ([' '] ++ (wd ex2Verbs iV ++ ([' '] ++ (wd ex2Objects iO ++ (['\n'] ++ (dD iD ++ ([' '] ++ (wd ex2Cities iC ++ (['\n'] ++ (wd ex2Content iCo ++ (['\n'] ++ (wd ex2QuoteIntros iQi ++ ([' '] ++ (wd ex2Quotes iQ ++ tail))))))))))))))))
      (A ++ '{' :: tS) m =
      some (true, insertC "QUOTE".toList iQ (insertC "QUOTE_INTRO".toList iQi (insertC "CONTENT".toList iCo (insertC "CITY".toList iC (insertC "DATE".toList iD (insertC "DATELINE".toList 0 (insertC "OBJECT".toList iO (insertC "VERB".toList iV (insertC "SUBJECT".toList iS (m)))))))))) := by
  have hget : ex2.get "SUBJECT".toList = some (initPlainByList ex2Subjects) := by decide
  rw [show (A ++ '{' :: tS : List Char) =
    A ++ '{' :: ("SUBJECT".toList ++ '}' :: (' ' :: '{' :: tV)) from rfl]
  rw [matchRecGo_var ex2 true (fuel + 9)
    (A ++ (wd ex2Subjects iS ++ ([' '] ++ (wd ex2Verbs iV ++ ([' '] ++ (wd ex2Objects iO ++ (['\n'] ++ (dD iD ++ ([' '] ++ (wd ex2Cities iC ++ (['\n'] ++ (wd ex2Content iCo ++ (['\n'] ++ (wd ex2QuoteIntros iQi ++ ([' '] ++ (wd ex2Quotes iQ ++ tail)))))))))))))))) A
    "SUBJECT".toList (' ' :: '{' :: tV) m
    (initPlainByList ex2Subjects) hA (by decide) hget]
  rw [initPlain_decomp ex2Subjects iS (show iS < ex2Subjects.length from hS)]
  apply mrLoop_prefix_success
    (A ++ (wd ex2Subjects iS ++ ([' '] ++ (wd ex2Verbs iV ++ ([' '] ++ (wd ex2Objects iO ++ (['\n'] ++ (dD iD ++ ([' '] ++ (wd ex2Cities iC ++ (['\n'] ++ (wd ex2Content iCo ++ (['\n'] ++ (wd ex2QuoteIntros iQi ++ ([' '] ++ (wd ex2Quotes iQ ++ tail))))))))))))))))
    (A ++ '{' :: ("SUBJECT".toList ++ '}' :: (' ' :: '{' :: tV)))
    A.length (A.length + 1 + ("SUBJECT".toList).length)
    "SUBJECT".toList
    (matchRecGo ex2 true (fuel + 9)
      (A ++ (wd ex2Subjects iS ++ ([' '] ++ (wd ex2Verbs iV ++ ([' '] ++ (wd ex2Objects iO ++ (['\n'] ++ (dD iD ++ ([' '] ++ (wd ex2Cities iC ++ (['\n'] ++ (wd ex2Content iCo ++ (['\n'] ++ (wd ex2QuoteIntros iQi ++ ([' '] ++ (wd ex2Quotes iQ ++ tail)))))))))))))))))
    ((initPlainByList ex2Subjects).drop (iS + 1))
    (insertC "QUOTE".toList iQ (insertC "QUOTE_INTRO".toList iQi (insertC "CONTENT".toList iCo (insertC "CITY".toList iC (insertC "DATE".toList iD (insertC "DATELINE".toList 0 (insertC "OBJECT".toList iO (insertC "VERB".toList iV (insertC "SUBJECT".toList iS (m))))))))))
    A (' ' :: '{' :: tV)
    (pattern_take_A "SUBJECT".toList (' ' :: '{' :: tV))
    (pattern_drop_B "SUBJECT".toList (' ' :: '{' :: tV))
    ((initPlainByList ex2Subjects).take iS)
    (⟨wd ex2Subjects iS, ProductType.plain⟩ : Production) 0 m
  · intro prod hp
    obtain ⟨j, hj1, hj2, rfl⟩ := mem_take_initPlain ex2Subjects iS prod hp
    have hjn : j < 32 := hj2
    have hne : j ≠ iS := Nat.ne_of_lt hj1
    show prunedB
      (A ++ (wd ex2Subjects iS ++ ([' '] ++ (wd ex2Verbs iV ++ ([' '] ++ (wd ex2Objects iO ++ (['\n'] ++ (dD iD ++ ([' '] ++ (wd ex2Cities iC ++ (['\n'] ++ (wd ex2Content iCo ++ (['\n'] ++ (wd ex2QuoteIntros iQi ++ ([' '] ++ (wd ex2Quotes iQ ++ tail))))))))))))))))
      A (' ' :: '{' :: tV) (wd ex2Subjects j) = true
    apply prunedB_true_of1 _ _ _ _ _ hA (ex2Subjects_noBrace j hjn)
      (by decide)
    have ht : A ++ (wd ex2Subjects iS ++ ([' '] ++ (wd ex2Verbs iV ++ ([' '] ++ (wd ex2Objects iO ++ (['\n'] ++ (dD iD ++ ([' '] ++ (wd ex2Cities iC ++ (['\n'] ++ (wd ex2Content iCo ++ (['\n'] ++ (wd ex2QuoteIntros iQi ++ ([' '] ++ (wd ex2Quotes iQ ++ tail))))))))))))))) =
        A ++ ((wd ex2Subjects iS ++ [' ']) ++ (wd ex2Verbs iV ++ ([' '] ++ (wd ex2Objects iO ++ (['\n'] ++ (dD iD ++ ([' '] ++ (wd ex2Cities iC ++ (['\n'] ++ (wd ex2Content iCo ++ (['\n'] ++ (wd ex2QuoteIntros iQi ++ ([' '] ++ (wd ex2Quotes iQ ++ tail)))))))))))))) := by simp
    rw [ht]
    exact not_prefix_of_pairwise A _ _ _
      (ex2Subjects_pw j hjn iS hS hne)
      (ex2Subjects_pw iS hS j hjn hne.symm)
  · show prunedB
      (A ++ (wd ex2Subjects iS ++ ([' '] ++ (wd ex2Verbs iV ++ ([' '] ++ (wd ex2Objects iO ++ (['\n'] ++ (dD iD ++ ([' '] ++ (wd ex2Cities iC ++ (['\n'] ++ (wd ex2Content iCo ++ (['\n'] ++ (wd ex2QuoteIntros iQi ++ ([' '] ++ (wd ex2Quotes iQ ++ tail))))))))))))))))
      A (' ' :: '{' :: tV) (wd ex2Subjects iS) = false
    apply prunedB_false_sep1 _ _ _ _ _ hA (ex2Subjects_noBrace iS hS)
      (by decide)
    exact prefix_round A _ [' '] _ _ rfl
  · have hlen : (0 + ((initPlainByList ex2Subjects).take iS).length) = iS := by
      rw [Nat.zero_add, List.length_take]
      have h8 : (initPlainByList ex2Subjects).length = 32 := by decide
      rw [h8]
      omega
    rw [hlen]
    show matchRecGo ex2 true (fuel + 9)
      (A ++ (wd ex2Subjects iS ++ ([' '] ++ (wd ex2Verbs iV ++ ([' '] ++ (wd ex2Objects iO ++ (['\n'] ++ (dD iD ++ ([' '] ++ (wd ex2Cities iC ++ (['\n'] ++ (wd ex2Content iCo ++ (['\n'] ++ (wd ex2QuoteIntros iQi ++ ([' '] ++ (wd ex2Quotes iQ ++ tail))))))))))))))))
      (A ++ wd ex2Subjects iS ++ (' ' :: '{' :: tV))
      (insertC "SUBJECT".toList iS m) =
      some (true, insertC "QUOTE".toList iQ (insertC "QUOTE_INTRO".toList iQi (insertC "CONTENT".toList iCo (insertC "CITY".toList iC (insertC "DATE".toList iD (insertC "DATELINE".toList 0 (insertC "OBJECT".toList iO (insertC "VERB".toList iV (insertC "SUBJECT".toList iS (m))))))))))
    rw [sep1_shift (A ++ wd ex2Subjects iS) ' ' ('{' :: tV)]
    have ht2 : A ++ (wd ex2Subjects iS ++ ([' '] ++ (wd ex2Verbs iV ++ ([' '] ++ (wd ex2Objects iO ++ (['\n'] ++ (dD iD ++ ([' '] ++ (wd ex2Cities iC ++ (['\n'] ++ (wd ex2Content iCo ++ (['\n'] ++ (wd ex2QuoteIntros iQi ++ ([' '] ++ (wd ex2Quotes iQ ++ tail))))))))))))))) =
        ((A ++ wd ex2Subjects iS) ++ [' ']) ++ (wd ex2Verbs iV ++ ([' '] ++ (wd ex2Objects iO ++ (['\n'] ++ (dD iD ++ ([' '] ++ (wd ex2Cities iC ++ (['\n'] ++ (wd ex2Content iCo ++ (['\n'] ++ (wd ex2QuoteIntros iQi ++ ([' '] ++ (wd ex2Quotes iQ ++ tail))))))))))))) := by simp
    rw [ht2]
    exact ex2_step_verb fuel ((A ++ wd ex2Subjects iS) ++ [' ']) tail
      (insertC "SUBJECT".toList iS m) iS iV iO iD iC iCo iQi iQ
      (noBrace_append (noBrace_append hA (ex2Subjects_noBrace iS hS))
        (by decide))
      hS hV hO hD hC hCo hQi hQ
      (by rw [insertC_get_other _ _ _ _ (by decide)]; exact hm)


/-- SUBJECT_VERB_OBJECT slot (single production). -/
theorem ex2_step_svo (fuel : Nat) (A tail : List Char) (m : Choices)
    (iS iV iO iD iC iCo iQi iQ : Nat) (hA : noBrace A)
    (hS : iS < 32) (hV : iV < 16) (hO : iO < 32) (hD : iD < 32)
    (hC : iC < 32) (hCo : iCo < 8) (hQi : iQi < 4) (hQ : iQ < 8)
    (hm : m "QUOTE".toList = none) :
    matchRecGo ex2 true (fuel + 11)
      (A ++ (wd ex2Subjects iS ++ ([' '] ++ (wd ex2Verbs iV ++ ([' '] ++ (wd ex2Objects iO ++ (['\n'] ++ (dD iD ++ ([' '] ++ (wd ex2Cities iC ++ (['\n'] ++ (wd ex2Content iCo ++ (['\n'] ++ (wd ex2QuoteIntros iQi ++ ([' '] ++ (wd ex2Quotes iQ ++ tail))))))))))))))))
      (A ++ '{' :: tSVO) m =
      some (true, insertC "QUOTE".toList iQ (insertC "QUOTE_INTRO".toList iQi (insertC "CONTENT".toList iCo (insertC "CITY".toList iC (insertC "DATE".toList iD (insertC "DATELINE".toList 0 (insertC "OBJECT".toList iO (insertC "VERB".toList iV (insertC "SUBJECT".toList iS (insertC "SUBJECT_VERB_OBJECT".toList 0 (m))))))))))) := by
  have hget : ex2.get "SUBJECT_VERB_OBJECT".toList =
      some [(⟨"\x7bSUBJECT\x7d \x7bVERB\x7d \x7bOBJECT\x7d".toList, ProductType.replace⟩ : Production)] := by decide
  rw [show (A ++ '{' :: tSVO : List Char) =
    A ++ '{' :: ("SUBJECT_VERB_OBJECT".toList ++ '}' :: ('\n' :: '{' :: tDL)) from rfl]
  rw [matchRecGo_var ex2 true (fuel + 10)
    (A ++ (wd ex2Subjects iS ++ ([' '] ++ (wd ex2Verbs iV ++ ([' '] ++ (wd ex2Objects iO ++ (['\n'] ++ (dD iD ++ ([' '] ++ (wd ex2Cities iC ++ (['\n'] ++ (wd ex2Content iCo ++ (['\n'] ++ (wd ex2QuoteIntros iQi ++ ([' '] ++ (wd ex2Quotes iQ ++ tail)))))))))))))))) A
    "SUBJECT_VERB_OBJECT".toList ('\n' :: '{' :: tDL) m
    [(⟨"\x7bSUBJECT\x7d \x7bVERB\x7d \x7bOBJECT\x7d".toList, ProductType.replace⟩ : Production)] hA (by decide) hget]
  rw [show ([(⟨"\x7bSUBJECT\x7d \x7bVERB\x7d \x7bOBJECT\x7d".toList, ProductType.replace⟩ : Production)] :
      List Production) =
    [] ++ (⟨"\x7bSUBJECT\x7d \x7bVERB\x7d \x7bOBJECT\x7d".toList, ProductType.replace⟩ : Production) :: [] from rfl]
  apply mrLoop_prefix_success
    (A ++ (wd ex2Subjects iS ++ ([' '] ++ (wd ex2Verbs iV ++ ([' '] ++ (wd ex2Objects iO ++ (['\n'] ++ (dD iD ++ ([' '] ++ (wd ex2Cities iC ++ (['\n'] ++ (wd ex2Content iCo ++ (['\n'] ++ (wd ex2QuoteIntros iQi ++ ([' '] ++ (wd ex2Quotes iQ ++ tail))))))))))))))))
    (A ++ '{' :: ("SUBJECT_VERB_OBJECT".toList ++ '}' :: ('\n' :: '{' :: tDL)))
    A.length (A.length + 1 + ("SUBJECT_VERB_OBJECT".toList).length)
    "SUBJECT_VERB_OBJECT".toList
    (matchRecGo ex2 true (fuel + 10)
      (A ++ (wd ex2Subjects iS ++ ([' '] ++ (wd ex2Verbs iV ++ ([' '] ++ (wd ex2Objects iO ++ (['\n'] ++ (dD iD ++ ([' '] ++ (wd ex2Cities iC ++ (['\n'] ++ (wd ex2Content iCo ++ (['\n'] ++ (wd ex2QuoteIntros iQi ++ ([' '] ++ (wd ex2Quotes iQ ++ tail)))))))))))))))))
    [] (insertC "QUOTE".toList iQ (insertC "QUOTE_INTRO".toList iQi (insertC "CONTENT".toList iCo (insertC "CITY".toList iC (insertC "DATE".toList iD (insertC "DATELINE".toList 0 (insertC "OBJECT".toList iO (insertC "VERB".toList iV (insertC "SUBJECT".toList iS (insertC "SUBJECT_VERB_OBJECT".toList 0 (m))))))))))) A ('\n' :: '{' :: tDL)
    (pattern_take_A "SUBJECT_VERB_OBJECT".toList ('\n' :: '{' :: tDL))
    (pattern_drop_B "SUBJECT_VERB_OBJECT".toList ('\n' :: '{' :: tDL))
    [] (⟨"\x7bSUBJECT\x7d \x7bVERB\x7d \x7bOBJECT\x7d".toList, ProductType.replace⟩ : Production) 0 m
  · intro prod hp
    exact absurd hp (List.not_mem_nil prod)
  · show prunedB (A ++ (wd ex2Subjects iS ++ ([' '] ++ (wd ex2Verbs iV ++ ([' '] ++ (wd ex2Objects iO ++ (['\n'] ++ (dD iD ++ ([' '] ++ (wd ex2Cities iC ++ (['\n'] ++ (wd ex2Content iCo ++ (['\n'] ++ (wd ex2QuoteIntros iQi ++ ([' '] ++ (wd ex2Quotes iQ ++ tail)))))))))))))))) A ('\n' :: '{' :: tDL) ("\x7bSUBJECT\x7d \x7bVERB\x7d \x7bOBJECT\x7d".toList) = false
    rw [show ("\x7bSUBJECT\x7d \x7bVERB\x7d \x7bOBJECT\x7d".toList : List Char) =
      '{' :: (List.drop 1 "\x7bSUBJECT\x7d \x7bVERB\x7d \x7bOBJECT\x7d".toList) from rfl]
    exact prunedB_false_brace0 _ _ _ _ hA ⟨(wd ex2Subjects iS ++ ([' '] ++ (wd ex2Verbs iV ++ ([' '] ++ (wd ex2Objects iO ++ (['\n'] ++ (dD iD ++ ([' '] ++ (wd ex2Cities iC ++ (['\n'] ++ (wd ex2Content iCo ++ (['\n'] ++ (wd ex2QuoteIntros iQi ++ ([' '] ++ (wd ex2Quotes iQ ++ tail))))))))))))))), rfl⟩
  · show matchRecGo ex2 true (fuel + 10)
      (A ++ (wd ex2Subjects iS ++ ([' '] ++ (wd ex2Verbs iV ++ ([' '] ++ (wd ex2Objects iO ++ (['\n'] ++ (dD iD ++ ([' '] ++ (wd ex2Cities iC ++ (['\n'] ++ (wd ex2Content iCo ++ (['\n'] ++ (wd ex2QuoteIntros iQi ++ ([' '] ++ (wd ex2Quotes iQ ++ tail))))))))))))))))
      (A ++ "\x7bSUBJECT\x7d \x7bVERB\x7d \x7bOBJECT\x7d".toList ++ ('\n' :: '{' :: tDL))
      (insertC "SUBJECT_VERB_OBJECT".toList 0 m) =
      some (true, insertC "QUOTE".toList iQ (insertC "QUOTE_INTRO".toList iQi (insertC "CONTENT".toList iCo (insertC "CITY".toList iC (insertC "DATE".toList iD (insertC "DATELINE".toList 0 (insertC "OBJECT".toList iO (insertC "VERB".toList iV (insertC "SUBJECT".toList iS (insertC "SUBJECT_VERB_OBJECT".toList 0 (m)))))))))))
    have hp2 : A ++ "\x7bSUBJECT\x7d \x7bVERB\x7d \x7bOBJECT\x7d".toList ++ ('\n' :: '{' :: tDL) = A ++ '{' :: tS := by
      rw [List.append_assoc]
      congr 1
    rw [hp2]
    exact ex2_step_subject fuel A tail
      (insertC "SUBJECT_VERB_OBJECT".toList 0 m) iS iV iO iD iC iCo iQi iQ
      hA hS hV hO hD hC hCo hQi hQ
      (by rw [insertC_get_other _ _ _ _ (by decide)]; exact hm)

/-- The `start` slot: the whole-template substitution. -/
theorem ex2_step_start (fuel : Nat) (A tail : List Char) (m : Choices)
    (iS iV iO iD iC iCo iQi iQ : Nat) (hA : noBrace A)
    (hS : iS < 32) (hV : iV < 16) (hO : iO < 32) (hD : iD < 32)
    (hC : iC < 32) (hCo : iCo < 8) (hQi : iQi < 4) (hQ : iQ < 8)
    (hm : m "QUOTE".toList = none) :
    matchRecGo ex2 true (fuel + 12)
      (A ++ (wd ex2Subjects iS ++ ([' '] ++ (wd ex2Verbs iV ++ ([' '] ++ (wd ex2Objects iO ++ (['\n'] ++ (dD iD ++ ([' '] ++ (wd ex2Cities iC ++ (['\n'] ++ (wd ex2Content iCo ++ (['\n'] ++ (wd ex2QuoteIntros iQi ++ ([' '] ++ (wd ex2Quotes iQ ++ tail))))))))))))))))
      (A ++ '{' :: tStart) m =
      some (true, insertC "QUOTE".toList iQ (insertC "QUOTE_INTRO".toList iQi (insertC "CONTENT".toList iCo (insertC "CITY".toList iC (insertC "DATE".toList iD (insertC "DATELINE".toList 0 (insertC "OBJECT".toList iO (insertC "VERB".toList iV (insertC "SUBJECT".toList iS (insertC "SUBJECT_VERB_OBJECT".toList 0 (insertC "start".toList 0 (m)))))))))))) := by
  have hget : ex2.get "start".toList =
      some [(⟨"\x7bSUBJECT_VERB_OBJECT\x7d\n\x7bDATELINE\x7d\n\x7bCONTENT\x7d\n\x7bQUOTE_INTRO\x7d \x7bQUOTE\x7d".toList, ProductType.replace⟩ : Production)] := by decide
  rw [show (A ++ '{' :: tStart : List Char) =
    A ++ '{' :: ("start".toList ++ '}' :: []) from rfl]
  rw [matchRecGo_var ex2 true (fuel + 11)
    (A ++ (wd ex2Subjects iS ++ ([' '] ++ (wd ex2Verbs iV ++ ([' '] ++ (wd ex2Objects iO ++ (['\n'] ++ (dD iD ++ ([' '] ++ (wd ex2Cities iC ++ (['\n'] ++ (wd ex2Content iCo ++ (['\n'] ++ (wd ex2QuoteIntros iQi ++ ([' '] ++ (wd ex2Quotes iQ ++ tail)))))))))))))))) A
    "start".toList [] m
    [(⟨"\x7bSUBJECT_VERB_OBJECT\x7d\n\x7bDATELINE\x7d\n\x7bCONTENT\x7d\n\x7bQUOTE_INTRO\x7d \x7bQUOTE\x7d".toList, ProductType.replace⟩ : Production)] hA (by decide) hget]
  rw [show ([(⟨"\x7bSUBJECT_VERB_OBJECT\x7d\n\x7bDATELINE\x7d\n\x7bCONTENT\x7d\n\x7bQUOTE_INTRO\x7d \x7bQUOTE\x7d".toList, ProductType.replace⟩ : Production)] :
      List Production) =
    [] ++ (⟨"\x7bSUBJECT_VERB_OBJECT\x7d\n\x7bDATELINE\x7d\n\x7bCONTENT\x7d\n\x7bQUOTE_INTRO\x7d \x7bQUOTE\x7d".toList, ProductType.replace⟩ : Production) :: [] from rfl]
  apply mrLoop_prefix_success
    (A ++ (wd ex2Subjects iS ++ ([' '] ++ (wd ex2Verbs iV ++ ([' '] ++ (wd ex2Objects iO ++ (['\n'] ++ (dD iD ++ ([' '] ++ (wd ex2Cities iC ++ (['\n'] ++ (wd ex2Content iCo ++ (['\n'] ++ (wd ex2QuoteIntros iQi ++ ([' '] ++ (wd ex2Quotes iQ ++ tail))))))))))))))))
    (A ++ '{' :: ("start".toList ++ '}' :: []))
    A.length (A.length + 1 + ("start".toList).length)
    "start".toList
    (matchRecGo ex2 true (fuel + 11)
      (A ++ (wd ex2Subjects iS ++ ([' '] ++ (wd ex2Verbs iV ++ ([' '] ++ (wd ex2Objects iO ++ (['\n'] ++ (dD iD ++ ([' '] ++ (wd ex2Cities iC ++ (['\n'] ++ (wd ex2Content iCo ++ (['\n'] ++ (wd ex2QuoteIntros iQi ++ ([' '] ++ (wd ex2Quotes iQ ++ tail)))))))))))))))))
    [] (insertC "QUOTE".toList iQ (insertC "QUOTE_INTRO".toList iQi (insertC "CONTENT".toList iCo (insertC "CITY".toList iC (insertC "DATE".toList iD (insertC "DATELINE".toList 0 (insertC "OBJECT".toList iO (insertC "VERB".toList iV (insertC "SUBJECT".toList iS (insertC "SUBJECT_VERB_OBJECT".toList 0 (insertC "start".toList 0 (m)))))))))))) A []
    (pattern_take_A "start".toList [])
    (pattern_drop_B "start".toList [])
    [] (⟨"\x7bSUBJECT_VERB_OBJECT\x7d\n\x7bDATELINE\x7d\n\x7bCONTENT\x7d\n\x7bQUOTE_INTRO\x7d \x7bQUOTE\x7d".toList, ProductType.replace⟩ : Production) 0 m
  · intro prod hp
    exact absurd hp (List.not_mem_nil prod)
  · show prunedB (A ++ (wd ex2Subjects iS ++ ([' '] ++ (wd ex2Verbs iV ++ ([' '] ++ (wd ex2Objects iO ++ (['\n'] ++ (dD iD ++ ([' '] ++ (wd ex2Cities iC ++ (['\n'] ++ (wd ex2Content iCo ++ (['\n'] ++ (wd ex2QuoteIntros iQi ++ ([' '] ++ (wd ex2Quotes iQ ++ tail)))))))))))))))) A [] ("\x7bSUBJECT_VERB_OBJECT\x7d\n\x7bDATELINE\x7d\n\x7bCONTENT\x7d\n\x7bQUOTE_INTRO\x7d \x7bQUOTE\x7d".toList) = false
    rw [show ("\x7bSUBJECT_VERB_OBJECT\x7d\n\x7bDATELINE\x7d\n\x7bCONTENT\x7d\n\x7bQUOTE_INTRO\x7d \x7bQUOTE\x7d".toList : List Char) =
      '{' :: (List.drop 1 "\x7bSUBJECT_VERB_OBJECT\x7d\n\x7bDATELINE\x7d\n\x7bCONTENT\x7d\n\x7bQUOTE_INTRO\x7d \x7bQUOTE\x7d".toList) from rfl]
    exact prunedB_false_brace0 _ _ _ _ hA ⟨(wd ex2Subjects iS ++ ([' '] ++ (wd ex2Verbs iV ++ ([' '] ++ (wd ex2Objects iO ++ (['\n'] ++ (dD iD ++ ([' '] ++ (wd ex2Cities iC ++ (['\n'] ++ (wd ex2Content iCo ++ (['\n'] ++ (wd ex2QuoteIntros iQi ++ ([' '] ++ (wd ex2Quotes iQ ++ tail))))))))))))))), rfl⟩
  · show matchRecGo ex2 true (fuel + 11)
      (A ++ (wd ex2Subjects iS ++ ([' '] ++ (wd ex2Verbs iV ++ ([' '] ++ (wd ex2Objects iO ++ (['\n'] ++ (dD iD ++ ([' '] ++ (wd ex2Cities iC ++ (['\n'] ++ (wd ex2Content iCo ++ (['\n'] ++ (wd ex2QuoteIntros iQi ++ ([' '] ++ (wd ex2Quotes iQ ++ tail))))))))))))))))
      (A ++ "\x7bSUBJECT_VERB_OBJECT\x7d\n\x7bDATELINE\x7d\n\x7bCONTENT\x7d\n\x7bQUOTE_INTRO\x7d \x7bQUOTE\x7d".toList ++ [])
      (insertC "start".toList 0 m) =
      some (true, insertC "QUOTE".toList iQ (insertC "QUOTE_INTRO".toList iQi (insertC "CONTENT".toList iCo (insertC "CITY".toList iC (insertC "DATE".toList iD (insertC "DATELINE".toList 0 (insertC "OBJECT".toList iO (insertC "VERB".toList iV (insertC "SUBJECT".toList iS (insertC "SUBJECT_VERB_OBJECT".toList 0 (insertC "start".toList 0 (m))))))))))))
    have hp2 : A ++ "\x7bSUBJECT_VERB_OBJECT\x7d\n\x7bDATELINE\x7d\n\x7bCONTENT\x7d\n\x7bQUOTE_INTRO\x7d \x7bQUOTE\x7d".toList ++ [] = A ++ '{' :: tSVO := by
      rw [List.append_nil]
      congr 1
    rw [hp2]
    exact ex2_step_svo fuel A tail (insertC "start".toList 0 m)
      iS iV iO iD iC iCo iQi iQ hA hS hV hO hD hC hCo hQi hQ
      (by rw [insertC_get_other _ _ _ _ (by decide)]; exact hm)

/-- The choices map `match_recursive` produces on an `example2` sentence. -/
def ex2M (iS iV iO iD iC iCo iQi iQ : Nat) (m : Choices) : Choices :=
  insertC "QUOTE".toList iQ (insertC "QUOTE_INTRO".toList iQi (insertC "CONTENT".toList iCo (insertC "CITY".toList iC (insertC "DATE".toList iD (insertC "DATELINE".toList 0 (insertC "OBJECT".toList iO (insertC "VERB".toList iV (insertC "SUBJECT".toList iS (insertC "SUBJECT_VERB_OBJECT".toList 0 (insertC "start".toList 0 (m)))))))))))

/-- The full `example2` sentence matcher: on a target that begins with a
rendered sentence, `match_recursive` from the start pattern succeeds and
recovers exactly the sentence's choices, whatever follows the sentence. -/
theorem ex2_match (fuel : Nat) (iS iV iO iD iC iCo iQi iQ : Nat)
    (tail : List Char) (m : Choices)
    (hS : iS < 32) (hV : iV < 16) (hO : iO < 32) (hD : iD < 32)
    (hC : iC < 32) (hCo : iCo < 8) (hQi : iQi < 4) (hQ : iQ < 8)
    (hm : m "QUOTE".toList = none) :
    matchRecGo ex2 true (fuel + 12)
      (ex2Sentence iS iV iO iD iC iCo iQi iQ ++ tail)
      "\x7bstart\x7d".toList m =
      some (true, ex2M iS iV iO iD iC iCo iQi iQ m) := by
  have h2 : ex2Sentence iS iV iO iD iC iCo iQi iQ ++ tail =
      [] ++ (wd ex2Subjects iS ++ ([' '] ++ (wd ex2Verbs iV ++ ([' '] ++ (wd ex2Objects iO ++ (['\n'] ++ (dD iD ++ ([' '] ++ (wd ex2Cities iC ++ (['\n'] ++ (wd ex2Content iCo ++ (['\n'] ++ (wd ex2QuoteIntros iQi ++ ([' '] ++ (wd ex2Quotes iQ ++ tail))))))))))))))) := by
    simp [ex2Sentence, List.append_assoc]
  rw [h2, show ("\x7bstart\x7d".toList : List Char) =
    [] ++ '{' :: tStart from rfl]
  exact ex2_step_start fuel [] tail m iS iV iO iD iC iCo iQi iQ
    (by decide) hS hV hO hD hC hCo hQi hQ hm

theorem initPlain_get? (l : List String) (i : Nat) (h : i < l.length) :
    (initPlainByList l).get? i =
      some (⟨wd l i, ProductType.plain⟩ : Production) := by
  have h2 : (l.map (fun s : String =>
      (⟨s.toList, ProductType.plain⟩ : Production))).get? i =
      some (⟨wd l i, ProductType.plain⟩ : Production) := by
    rw [List.get?_eq_getElem?, List.getElem?_map, List.getElem?_eq_getElem h]
    show some (⟨(l[i]).toList, ProductType.plain⟩ : Production) = _
    have h3 : wd l i = (l[i]).toList := by
      rw [wd, List.getD_eq_getElem l "" h]
    rw [h3]
  exact h2

theorem dates_get? (i : Nat) (h : i < ex2Dates.length) :
    (ex2Dates.map (fun d => (⟨d, ProductType.plain⟩ : Production))).get? i =
      some (⟨dD i, ProductType.plain⟩ : Production) := by
  rw [List.get?_eq_getElem?, List.getElem?_map, List.getElem?_eq_getElem h]
  show some (⟨ex2Dates[i], ProductType.plain⟩ : Production) = _
  have h3 : dD i = ex2Dates[i] := by
    rw [dD, List.getD_eq_getElem ex2Dates [] h]
  rw [h3]


theorem ex2_expand_quote (fuel : Nat) (A : List Char) (m : Choices)
    (iQ : Nat) (hA : noBrace A) (hQ : iQ < 8)
    (g11 : (m "QUOTE".toList).getD 0 = iQ) :
    expandGo ex2 (fuel + 2) (A ++ '{' :: tQ) m =
      some (A ++ wd ex2Quotes iQ) := by
  have hget : ex2.get "QUOTE".toList = some (initPlainByList ex2Quotes) := by
    decide
  rw [show (A ++ '{' :: tQ : List Char) =
    A ++ '{' :: ("QUOTE".toList ++ '}' :: []) from rfl]
  rw [expandGo_var ex2 (fuel + 1) A "QUOTE".toList [] m _
    (⟨wd ex2Quotes iQ, ProductType.plain⟩ : Production)
    hA (by decide) hget
    (by rw [g11]; exact initPlain_get? ex2Quotes iQ hQ)]
  rw [expandGo_done ex2 fuel ((A ++ wd ex2Quotes iQ) ++ []) m
    (by rw [List.append_nil]
        exact noBrace_append hA (ex2Quotes_noBrace iQ hQ))]
  rw [List.append_nil]


theorem ex2_expand_quoteIntro (fuel : Nat) (A : List Char) (m : Choices)
    (iQi iQ : Nat) (hA : noBrace A) (hQi : iQi < 4) (hQ : iQ < 8)
    (g10 : (m "QUOTE_INTRO".toList).getD 0 = iQi)
    (g11 : (m "QUOTE".toList).getD 0 = iQ) :
    expandGo ex2 (fuel + 3) (A ++ '{' :: tQi) m =
      some (A ++ (wd ex2QuoteIntros iQi ++ ([' '] ++ wd ex2Quotes iQ))) := by
  have hget : ex2.get "QUOTE_INTRO".toList = some (initPlainByList ex2QuoteIntros) := by decide
  rw [show (A ++ '{' :: tQi : List Char) =
    A ++ '{' :: ("QUOTE_INTRO".toList ++ '}' :: (' ' :: '{' :: tQ)) from rfl]
  rw [expandGo_var ex2 (fuel + 2) A "QUOTE_INTRO".toList (' ' :: '{' :: tQ)
    m _ (⟨wd ex2QuoteIntros iQi, ProductType.plain⟩ : Production)
    hA (by decide) hget
    (by rw [g10]; exact initPlain_get? ex2QuoteIntros iQi hQi)]
  rw [sep1_shift (A ++ wd ex2QuoteIntros iQi) ' ' ('{' :: tQ)]
  have hres : (A ++ (wd ex2QuoteIntros iQi ++ ([' '] ++ wd ex2Quotes iQ)) : List Char) =
      ((A ++ wd ex2QuoteIntros iQi) ++ [' ']) ++ wd ex2Quotes iQ := by simp
  rw [hres]
  exact ex2_expand_quote fuel ((A ++ wd ex2QuoteIntros iQi) ++ [' ']) m iQ
    (noBrace_append (noBrace_append hA (ex2QuoteIntros_noBrace iQi hQi))
      (by decide)) hQ g11

theorem ex2_expand_content (fuel : Nat) (A : List Char) (m : Choices)
    (iCo iQi iQ : Nat) (hA : noBrace A) (hCo : iCo < 8) (hQi : iQi < 4) (hQ : iQ < 8)
    (g9 : (m "CONTENT".toList).getD 0 = iCo)
    (g10 : (m "QUOTE_INTRO".toList).getD 0 = iQi)
    (g11 : (m "QUOTE".toList).getD 0 = iQ) :
    expandGo ex2 (fuel + 4) (A ++ '{' :: tCo) m =
      some (A ++ (wd ex2Content iCo ++ (['\n'] ++ (wd ex2QuoteIntros iQi ++ ([' '] ++ wd ex2Quotes iQ))))) := by
  have hget : ex2.get "CONTENT".toList = some (initPlainByList ex2Content) := by decide
  rw [show (A ++ '{' :: tCo : List Char) =
    A ++ '{' :: ("CONTENT".toList ++ '}' :: ('\n' :: '{' :: tQi)) from rfl]
  rw [expandGo_var ex2 (fuel + 3) A "CONTENT".toList ('\n' :: '{' :: tQi)
    m _ (⟨wd ex2Content iCo, ProductType.plain⟩ : Production)
    hA (by decide) hget
    (by rw [g9]; exact initPlain_get? ex2Content iCo hCo)]
  rw [sep1_shift (A ++ wd ex2Content iCo) '\n' ('{' :: tQi)]
  have hres : (A ++ (wd ex2Content iCo ++ (['\n'] ++ (wd ex2QuoteIntros iQi ++ ([' '] ++ wd ex2Quotes iQ)))) : List Char) =
      ((A ++ wd ex2Content iCo) ++ ['\n']) ++ (wd ex2QuoteIntros iQi ++ ([' '] ++ wd ex2Quotes iQ)) := by simp
  rw [hres]
  exact ex2_expand_quoteIntro fuel ((A ++ wd ex2Content iCo) ++ ['\n']) m iQi iQ
    (noBrace_append (noBrace_append hA (ex2Content_noBrace iCo hCo))
      (by decide)) hQi hQ g10 g11


theorem ex2_expand_city (fuel : Nat) (A : List Char) (m : Choices)
    (iC iCo iQi iQ : Nat) (hA : noBrace A) (hC : iC < 32) (hCo : iCo < 8) (hQi : iQi < 4) (hQ : iQ < 8)
    (g8 : (m "CITY".toList).getD 0 = iC)
    (g9 : (m "CONTENT".toList).getD 0 = iCo)
    (g10 : (m "QUOTE_INTRO".toList).getD 0 = iQi)
    (g11 : (m "QUOTE".toList).getD 0 = iQ) :
    expandGo ex2 (fuel + 5) (A ++ '{' :: tCity) m =
      some (A ++ (wd ex2Cities iC ++ (['\n'] ++ (wd ex2Content iCo ++ (['\n'] ++ (wd ex2QuoteIntros iQi ++ ([' '] ++ wd ex2Quotes iQ))))))) := by
  have hget : ex2.get "CITY".toList = some (initPlainByList ex2Cities) := by decide
  rw [show (A ++ '{' :: tCity : List Char) =
    A ++ '{' :: ("CITY".toList ++ '}' :: ('\n' :: '{' :: tCo)) from rfl]
  rw [expandGo_var ex2 (fuel + 4) A "CITY".toList ('\n' :: '{' :: tCo)
    m _ (⟨wd ex2Cities iC, ProductType.plain⟩ : Production)
    hA (by decide) hget
    (by rw [g8]; exact initPlain_get? ex2Cities iC hC)]
  rw [sep1_shift (A ++ wd ex2Cities iC) '\n' ('{' :: tCo)]
  have hres : (A ++ (wd ex2Cities iC ++ (['\n'] ++ (wd ex2Content iCo ++ (['\n'] ++ (wd ex2QuoteIntros iQi ++ ([' '] ++ wd ex2Quotes iQ)))))) : List Char) =
      ((A ++ wd ex2Cities iC) ++ ['\n']) ++ (wd ex2Content iCo ++ (['\n'] ++ (wd ex2QuoteIntros iQi ++ ([' '] ++ wd ex2Quotes iQ)))) := by simp
  rw [hres]
  exact ex2_expand_content fuel ((A ++ wd ex2Cities iC) ++ ['\n']) m iCo iQi iQ
    (noBrace_append (noBrace_append hA (ex2Cities_noBrace iC hC))
      (by decide)) hCo hQi hQ g9 g10 g11


theorem ex2_expand_date (fuel : Nat) (A : List Char) (m : Choices)
    (iD iC iCo iQi iQ : Nat) (hA : noBrace A) (hD : iD < 32) (hC : iC < 32) (hCo : iCo < 8) (hQi : iQi < 4) (hQ : iQ < 8)
    (g7 : (m "DATE".toList).getD 0 = iD)
    (g8 : (m "CITY".toList).getD 0 = iC)
    (g9 : (m "CONTENT".toList).getD 0 = iCo)
    (g10 : (m "QUOTE_INTRO".toList).getD 0 = iQi)
    (g11 : (m "QUOTE".toList).getD 0 = iQ) :
    expandGo ex2 (fuel + 6) (A ++ '{' :: tDate) m =
      some (A ++ (dD iD ++ ([' '] ++ (wd ex2Cities iC ++ (['\n'] ++ (wd ex2Content iCo ++ (['\n'] ++ (wd ex2QuoteIntros iQi ++ ([' '] ++ wd ex2Quotes iQ))))))))) := by
  have hget : ex2.get "DATE".toList = some (ex2Dates.map (fun d => (⟨d, ProductType.plain⟩ : Production))) := by decide
  rw [show (A ++ '{' :: tDate : List Char) =
    A ++ '{' :: ("DATE".toList ++ '}' :: (' ' :: '{' :: tCity)) from rfl]
  rw [expandGo_var ex2 (fuel + 5) A "DATE".toList (' ' :: '{' :: tCity)
    m _ (⟨dD iD, ProductType.plain⟩ : Production)
    hA (by decide) hget
    (by rw [g7]; exact dates_get? iD hD)]
  rw [sep1_shift (A ++ dD iD) ' ' ('{' :: tCity)]
  have hres : (A ++ (dD iD ++ ([' '] ++ (wd ex2Cities iC ++ (['\n'] ++ (wd ex2Content iCo ++ (['\n'] ++ (wd ex2QuoteIntros iQi ++ ([' '] ++ wd ex2Quotes iQ)))))))) : List Char) =
      ((A ++ dD iD) ++ [' ']) ++ (wd ex2Cities iC ++ (['\n'] ++ (wd ex2Content iCo ++ (['\n'] ++ (wd ex2QuoteIntros iQi ++ ([' '] ++ wd ex2Quotes iQ)))))) := by simp
  rw [hres]
  exact ex2_expand_city fuel ((A ++ dD iD) ++ [' ']) m iC iCo iQi iQ
    (noBrace_append (noBrace_append hA (ex2Dates_noBrace iD hD))
      (by decide)) hC hCo hQi hQ g8 g9 g10 g11


theorem ex2_expand_dateline (fuel : Nat) (A : List Char) (m : Choices)
    (iD iC iCo iQi iQ : Nat) (hA : noBrace A) (hD : iD < 32) (hC : iC < 32) (hCo : iCo < 8) (hQi : iQi < 4) (hQ : iQ < 8)
    (g6 : (m "DATELINE".toList).getD 0 = 0)
    (g7 : (m "DATE".toList).getD 0 = iD)
    (g8 : (m "CITY".toList).getD 0 = iC)
    (g9 : (m "CONTENT".toList).getD 0 = iCo)
    (g10 : (m "QUOTE_INTRO".toList).getD 0 = iQi)
    (g11 : (m "QUOTE".toList).getD 0 = iQ) :
    expandGo ex2 (fuel + 7) (A ++ '{' :: tDL) m =
      some (A ++ (dD iD ++ ([' '] ++ (wd ex2Cities iC ++ (['\n'] ++ (wd ex2Content iCo ++ (['\n'] ++ (wd ex2QuoteIntros iQi ++ ([' '] ++ wd ex2Quotes iQ))))))))) := by
  have hget : ex2.get "DATELINE".toList =
      some [(⟨"\x7bDATE\x7d \x7bCITY\x7d".toList, ProductType.plain⟩ : Production)] := by decide
  rw [show (A ++ '{' :: tDL : List Char) =
    A ++ '{' :: ("DATELINE".toList ++ '}' :: ('\n' :: '{' :: tCo)) from rfl]
  rw [expandGo_var ex2 (fuel + 6) A "DATELINE".toList ('\n' :: '{' :: tCo) m _
    (⟨"\x7bDATE\x7d \x7bCITY\x7d".toList, ProductType.plain⟩ : Production)
    hA (by decide) hget (by rw [g6]; rfl)]
  have hp2 : (A ++ "\x7bDATE\x7d \x7bCITY\x7d".toList : List Char) ++ ('\n' :: '{' :: tCo) = A ++ '{' :: tDate := by
    rw [List.append_assoc]
    congr 1
  rw [hp2]
  exact ex2_expand_date fuel A m iD iC iCo iQi iQ hA hD hC hCo hQi hQ g7 g8 g9 g10 g11


theorem ex2_expand_object (fuel : Nat) (A : List Char) (m : Choices)
    (iO iD iC iCo iQi iQ : Nat) (hA : noBrace A) (hO : iO < 32) (hD : iD < 32) (hC : iC < 32) (hCo : iCo < 8) (hQi : iQi < 4) (hQ : iQ < 8)
    (g5 : (m "OBJECT".toList).getD 0 = iO)
    (g6 : (m "DATELINE".toList).getD 0 = 0)
    (g7 : (m "DATE".toList).getD 0 = iD)
    (g8 : (m "CITY".toList).getD 0 = iC)
    (g9 : (m "CONTENT".toList).getD 0 = iCo)
    (g10 : (m "QUOTE_INTRO".toList).getD 0 = iQi)
    (g11 : (m "QUOTE".toList).getD 0 = iQ) :
    expandGo ex2 (fuel + 8) (A ++ '{' :: tO) m =
      some (A ++ (wd ex2Objects iO ++ (['\n'] ++ (dD iD ++ ([' '] ++ (wd ex2Cities iC ++ (['\n'] ++ (wd ex2Content iCo ++ (['\n'] ++ (wd ex2QuoteIntros iQi ++ ([' '] ++ wd ex2Quotes iQ))))))))))) := by
  have hget : ex2.get "OBJECT".toList = some (initPlainByList ex2Objects) := by decide
  rw [show (A ++ '{' :: tO : List Char) =
    A ++ '{' :: ("OBJECT".toList ++ '}' :: ('\n' :: '{' :: tDL)) from rfl]
  rw [expandGo_var ex2 (fuel + 7) A "OBJECT".toList ('\n' :: '{' :: tDL)
    m _ (⟨wd ex2Objects iO, ProductType.plain⟩ : Production)
    hA (by decide) hget
    (by rw [g5]; exact initPlain_get? ex2Objects iO hO)]
  rw [sep1_shift (A ++ wd ex2Objects iO) '\n' ('{' :: tDL)]
  have hres : (A ++ (wd ex2Objects iO ++ (['\n'] ++ (dD iD ++ ([' '] ++ (wd ex2Cities iC ++ (['\n'] ++ (wd ex2Content iCo ++ (['\n'] ++ (wd ex2QuoteIntros iQi ++ ([' '] ++ wd ex2Quotes iQ)))))))))) : List Char) =
      ((A ++ wd ex2Objects iO) ++ ['\n']) ++ (dD iD ++ ([' '] ++ (wd ex2Cities iC ++ (['\n'] ++ (wd ex2Content iCo ++ (['\n'] ++ (wd ex2QuoteIntros iQi ++ ([' '] ++ wd ex2Quotes iQ)))))))) := by simp
  rw [hres]
  exact ex2_expand_dateline fuel ((A ++ wd ex2Objects iO) ++ ['\n']) m iD iC iCo iQi iQ
    (noBrace_append (noBrace_append hA (ex2Objects_noBrace iO hO))
      (by decide)) hD hC hCo hQi hQ g6 g7 g8 g9 g10 g11


theorem ex2_expand_verb (fuel : Nat) (A : List Char) (m : Choices)
    (iV iO iD iC iCo iQi iQ : Nat) (hA : noBrace A) (hV : iV < 16) (hO : iO < 32) (hD : iD < 32) (hC : iC < 32) (hCo : iCo < 8) (hQi : iQi < 4) (hQ : iQ < 8)
    (g4 : (m "VERB".toList).getD 0 = iV)
    (g5 : (m "OBJECT".toList).getD 0 = iO)
    (g6 : (m "DATELINE".toList).getD 0 = 0)
    (g7 : (m "DATE".toList).getD 0 = iD)
    (g8 : (m "CITY".toList).getD 0 = iC)
    (g9 : (m "CONTENT".toList).getD 0 = iCo)
    (g10 : (m "QUOTE_INTRO".toList).getD 0 = iQi)
    (g11 : (m "QUOTE".toList).getD 0 = iQ) :
    expandGo ex2 (fuel + 9) (A ++ '{' :: tV) m =
      some (A ++ (wd ex2Verbs iV ++ ([' '] ++ (wd ex2Objects iO ++ (['\n'] ++ (dD iD ++ ([' '] ++ (wd ex2Cities iC ++ (['\n'] ++ (wd ex2Content iCo ++ (['\n'] ++ (wd ex2QuoteIntros iQi ++ ([' '] ++ wd ex2Quotes iQ))))))))))))) := by
  have hget : ex2.get "VERB".toList = some (initPlainByList ex2Verbs) := by decide
  rw [show (A ++ '{' :: tV : List Char) =
    A ++ '{' :: ("VERB".toList ++ '}' :: (' ' :: '{' :: tO)) from rfl]
  rw [expandGo_var ex2 (fuel + 8) A "VERB".toList (' ' :: '{' :: tO)
    m _ (⟨wd ex2Verbs iV, ProductType.plain⟩ : Production)
    hA (by decide) hget
    (by rw [g4]; exact initPlain_get? ex2Verbs iV hV)]
  rw [sep1_shift (A ++ wd ex2Verbs iV) ' ' ('{' :: tO)]
  have hres : (A ++ (wd ex2Verbs iV ++ ([' '] ++ (wd ex2Objects iO ++ (['\n'] ++ (dD iD ++ ([' '] ++ (wd ex2Cities iC ++ (['\n'] ++ (wd ex2Content iCo ++ (['\n'] ++ (wd ex2QuoteIntros iQi ++ ([' '] ++ wd ex2Quotes iQ)))))))))))) : List Char) =
      ((A ++ wd ex2Verbs iV) ++ [' ']) ++ (wd ex2Objects iO ++ (['\n'] ++ (dD iD ++ ([' '] ++ (wd ex2Cities iC ++ (['\n'] ++ (wd ex2Content iCo ++ (['\n'] ++ (wd ex2QuoteIntros iQi ++ ([' '] ++ wd ex2Quotes iQ)))))))))) := by simp
  rw [hres]
  exact ex2_expand_object fuel ((A ++ wd ex2Verbs iV) ++ [' ']) m iO iD iC iCo iQi iQ
    (noBrace_append (noBrace_append hA (ex2Verbs_noBrace iV hV))
      (by decide)) hO hD hC hCo hQi hQ g5 g6 g7 g8 g9 g10 g11


theorem ex2_expand_subject (fuel : Nat) (A : List Char) (m : Choices)
    (iS iV iO iD iC iCo iQi iQ : Nat) (hA : noBrace A) (hS : iS < 32) (hV : iV < 16) (hO : iO < 32) (hD : iD < 32)
    (hC : iC < 32) (hCo : iCo < 8) (hQi : iQi < 4) (hQ : iQ < 8)
    (g3 : (m "SUBJECT".toList).getD 0 = iS)
    (g4 : (m "VERB".toList).getD 0 = iV)
    (g5 : (m "OBJECT".toList).getD 0 = iO)
    (g6 : (m "DATELINE".toList).getD 0 = 0)
    (g7 : (m "DATE".toList).getD 0 = iD)
    (g8 : (m "CITY".toList).getD 0 = iC)
    (g9 : (m "CONTENT".toList).getD 0 = iCo)
    (g10 : (m "QUOTE_INTRO".toList).getD 0 = iQi)
    (g11 : (m "QUOTE".toList).getD 0 = iQ) :
    expandGo ex2 (fuel + 10) (A ++ '{' :: tS) m =
      some (A ++ (wd ex2Subjects iS ++ ([' '] ++ (wd ex2Verbs iV ++ ([' '] ++ (wd ex2Objects iO ++ (['\n'] ++ (dD iD ++ ([' '] ++ (wd ex2Cities iC ++ (['\n'] ++ (wd ex2Content iCo ++ (['\n'] ++ (wd ex2QuoteIntros iQi ++ ([' '] ++ wd ex2Quotes iQ))))))))))))))) := by
  have hget : ex2.get "SUBJECT".toList = some (initPlainByList ex2Subjects) := by decide
  rw [show (A ++ '{' :: tS : List Char) =
    A ++ '{' :: ("SUBJECT".toList ++ '}' :: (' ' :: '{' :: tV)) from rfl]
  rw [expandGo_var ex2 (fuel + 9) A "SUBJECT".toList (' ' :: '{' :: tV)
    m _ (⟨wd ex2Subjects iS, ProductType.plain⟩ : Production)
    hA (by decide) hget
    (by rw [g3]; exact initPlain_get? ex2Subjects iS hS)]
  rw [sep1_shift (A ++ wd ex2Subjects iS) ' ' ('{' :: tV)]
  have hres : (A ++ (wd ex2Subjects iS ++ ([' '] ++ (wd ex2Verbs iV ++ ([' '] ++ (wd ex2Objects iO ++ (['\n'] ++ (dD iD ++ ([' '] ++ (wd ex2Cities iC ++ (['\n'] ++ (wd ex2Content iCo ++ (['\n'] ++ (wd ex2QuoteIntros iQi ++ ([' '] ++ wd ex2Quotes iQ)))))))))))))) : List Char) =
      ((A ++ wd ex2Subjects iS) ++ [' ']) ++ (wd ex2Verbs iV ++ ([' '] ++ (wd ex2Objects iO ++ (['\n'] ++ (dD iD ++ ([' '] ++ (wd ex2Cities iC ++ (['\n'] ++ (wd ex2Content iCo ++ (['\n'] ++ (wd ex2QuoteIntros iQi ++ ([' '] ++ wd ex2Quotes iQ)))))))))))) := by simp
  rw [hres]
  exact ex2_expand_verb fuel ((A ++ wd ex2Subjects iS) ++ [' ']) m iV iO iD iC iCo iQi iQ
    (noBrace_append (noBrace_append hA (ex2Subjects_noBrace iS hS))
      (by decide)) hV hO hD hC hCo hQi hQ g4 g5 g6 g7 g8 g9 g10 g11


theorem ex2_expand_svo (fuel : Nat) (A : List Char) (m : Choices)
    (iS iV iO iD iC iCo iQi iQ : Nat) (hA : noBrace A) (hS : iS < 32) (hV : iV < 16) (hO : iO < 32) (hD : iD < 32)
    (hC : iC < 32) (hCo : iCo < 8) (hQi : iQi < 4) (hQ : iQ < 8)
    (g2 : (m "SUBJECT_VERB_OBJECT".toList).getD 0 = 0)
    (g3 : (m "SUBJECT".toList).getD 0 = iS)
    (g4 : (m "VERB".toList).getD 0 = iV)
    (g5 : (m "OBJECT".toList).getD 0 = iO)
    (g6 : (m "DATELINE".toList).getD 0 = 0)
    (g7 : (m "DATE".toList).getD 0 = iD)
    (g8 : (m "CITY".toList).getD 0 = iC)
    (g9 : (m "CONTENT".toList).getD 0 = iCo)
    (g10 : (m "QUOTE_INTRO".toList).getD 0 = iQi)
    (g11 : (m "QUOTE".toList).getD 0 = iQ) :
    expandGo ex2 (fuel + 11) (A ++ '{' :: tSVO) m =
      some (A ++ (wd ex2Subjects iS ++ ([' '] ++ (wd ex2Verbs iV ++ ([' '] ++ (wd ex2Objects iO ++ (['\n'] ++ (dD iD ++ ([' '] ++ (wd ex2Cities iC ++ (['\n'] ++ (wd ex2Content iCo ++ (['\n'] ++ (wd ex2QuoteIntros iQi ++ ([' '] ++ wd ex2Quotes iQ))))))))))))))) := by
  have hget : ex2.get "SUBJECT_VERB_OBJECT".toList =
      some [(⟨"\x7bSUBJECT\x7d \x7bVERB\x7d \x7bOBJECT\x7d".toList, ProductType.replace⟩ : Production)] := by decide
  rw [show (A ++ '{' :: tSVO : List Char) =
    A ++ '{' :: ("SUBJECT_VERB_OBJECT".toList ++ '}' :: ('\n' :: '{' :: tDL)) from rfl]
  rw [expandGo_var ex2 (fuel + 10) A "SUBJECT_VERB_OBJECT".toList ('\n' :: '{' :: tDL) m _
    (⟨"\x7bSUBJECT\x7d \x7bVERB\x7d \x7bOBJECT\x7d".toList, ProductType.replace⟩ : Production)
    hA (by decide) hget (by rw [g2]; rfl)]
  have hp2 : (A ++ "\x7bSUBJECT\x7d \x7bVERB\x7d \x7bOBJECT\x7d".toList : List Char) ++ ('\n' :: '{' :: tDL) = A ++ '{' :: tS := by
    rw [List.append_assoc]
    congr 1
  rw [hp2]
  exact ex2_expand_subject fuel A m iS iV iO iD iC iCo iQi iQ hA hS hV hO hD hC hCo hQi hQ g3 g4 g5 g6 g7 g8 g9 g10 g11


theorem ex2_expand_start (fuel : Nat) (A : List Char) (m : Choices)
    (iS iV iO iD iC iCo iQi iQ : Nat) (hA : noBrace A)
    (hS : iS < 32) (hV : iV < 16) (hO : iO < 32) (hD : iD < 32)
    (hC : iC < 32) (hCo : iCo < 8) (hQi : iQi < 4) (hQ : iQ < 8)
    (g1 : (m "start".toList).getD 0 = 0)
    (g2 : (m "SUBJECT_VERB_OBJECT".toList).getD 0 = 0)
    (g3 : (m "SUBJECT".toList).getD 0 = iS)
    (g4 : (m "VERB".toList).getD 0 = iV)
    (g5 : (m "OBJECT".toList).getD 0 = iO)
    (g6 : (m "DATELINE".toList).getD 0 = 0)
    (g7 : (m "DATE".toList).getD 0 = iD)
    (g8 : (m "CITY".toList).getD 0 = iC)
    (g9 : (m "CONTENT".toList).getD 0 = iCo)
    (g10 : (m "QUOTE_INTRO".toList).getD 0 = iQi)
    (g11 : (m "QUOTE".toList).getD 0 = iQ) :
    expandGo ex2 (fuel + 12) (A ++ '{' :: tStart) m =
      some (A ++ (wd ex2Subjects iS ++ ([' '] ++ (wd ex2Verbs iV ++ ([' '] ++ (wd ex2Objects iO ++ (['\n'] ++ (dD iD ++ ([' '] ++ (wd ex2Cities iC ++ (['\n'] ++ (wd ex2Content iCo ++ (['\n'] ++ (wd ex2QuoteIntros iQi ++ ([' '] ++ wd ex2Quotes iQ))))))))))))))) := by
  have hget : ex2.get "start".toList =
      some [(⟨"\x7bSUBJECT_VERB_OBJECT\x7d\n\x7bDATELINE\x7d\n\x7bCONTENT\x7d\n\x7bQUOTE_INTRO\x7d \x7bQUOTE\x7d".toList, ProductType.replace⟩ : Production)] := by decide
  rw [show (A ++ '{' :: tStart : List Char) =
    A ++ '{' :: ("start".toList ++ '}' :: []) from rfl]
  rw [expandGo_var ex2 (fuel + 11) A "start".toList [] m _
    (⟨"\x7bSUBJECT_VERB_OBJECT\x7d\n\x7bDATELINE\x7d\n\x7bCONTENT\x7d\n\x7bQUOTE_INTRO\x7d \x7bQUOTE\x7d".toList, ProductType.replace⟩ : Production)
    hA (by decide) hget (by rw [g1]; rfl)]
  have hp2 : (A ++ "\x7bSUBJECT_VERB_OBJECT\x7d\n\x7bDATELINE\x7d\n\x7bCONTENT\x7d\n\x7bQUOTE_INTRO\x7d \x7bQUOTE\x7d".toList : List Char) ++ [] = A ++ '{' :: tSVO := by
    rw [List.append_nil, show ("\x7bSUBJECT_VERB_OBJECT\x7d\n\x7bDATELINE\x7d\n\x7bCONTENT\x7d\n\x7bQUOTE_INTRO\x7d \x7bQUOTE\x7d".toList : List Char) = '{' :: tSVO from rfl]
  rw [hp2]
  exact ex2_expand_svo fuel A m iS iV iO iD iC iCo iQi iQ hA
    hS hV hO hD hC hCo hQi hQ g2 g3 g4 g5 g6 g7 g8 g9 g10 g11

/-- `CFG::expand` of the start pattern renders the full sentence. -/
theorem ex2_expand (fuel : Nat) (m : Choices)
    (iS iV iO iD iC iCo iQi iQ : Nat)
    (hS : iS < 32) (hV : iV < 16) (hO : iO < 32) (hD : iD < 32)
    (hC : iC < 32) (hCo : iCo < 8) (hQi : iQi < 4) (hQ : iQ < 8)
    (g1 : (m "start".toList).getD 0 = 0)
    (g2 : (m "SUBJECT_VERB_OBJECT".toList).getD 0 = 0)
    (g3 : (m "SUBJECT".toList).getD 0 = iS)
    (g4 : (m "VERB".toList).getD 0 = iV)
    (g5 : (m "OBJECT".toList).getD 0 = iO)
    (g6 : (m "DATELINE".toList).getD 0 = 0)
    (g7 : (m "DATE".toList).getD 0 = iD)
    (g8 : (m "CITY".toList).getD 0 = iC)
    (g9 : (m "CONTENT".toList).getD 0 = iCo)
    (g10 : (m "QUOTE_INTRO".toList).getD 0 = iQi)
    (g11 : (m "QUOTE".toList).getD 0 = iQ) :
    expandGo ex2 (fuel + 12) "\x7bstart\x7d".toList m =
      some (ex2Sentence iS iV iO iD iC iCo iQi iQ) := by
  rw [show ("\x7bstart\x7d".toList : List Char) = [] ++ '{' :: tStart
    from rfl]
  rw [ex2_expand_start fuel [] m iS iV iO iD iC iCo iQi iQ (by decide)
    hS hV hO hD hC hCo hQi hQ g1 g2 g3 g4 g5 g6 g7 g8 g9 g10 g11]
  congr 1

theorem tbCity (data : List Nat) (b : Nat) (hb : b < data.length) :
    takeBitsGo data 5 0 (b) 0 =
      ((((((0) * 2 + data.getD (b) 0 / 2 ^ 7 % 2) * 2 + data.getD (b) 0 / 2 ^ 6 % 2) * 2 + data.getD (b) 0 / 2 ^ 5 % 2) * 2 + data.getD (b) 0 / 2 ^ 4 % 2) * 2 + data.getD (b) 0 / 2 ^ 3 % 2, b, 5) := by
  show (if data.length ≤ (b) then ((0 : Nat), (b : Nat), (0 : Nat))
    else takeBitsGo data 4 ((0) * 2 + data.getD (b) 0 / 2 ^ 7 % 2) (b) 1) =
      ((((((0) * 2 + data.getD (b) 0 / 2 ^ 7 % 2) * 2 + data.getD (b) 0 / 2 ^ 6 % 2) * 2 + data.getD (b) 0 / 2 ^ 5 % 2) * 2 + data.getD (b) 0 / 2 ^ 4 % 2) * 2 + data.getD (b) 0 / 2 ^ 3 % 2, b, 5)
  rw [if_neg (show ¬ data.length ≤ (b) from by omega)]
  show (if data.length ≤ (b) then (((0) * 2 + data.getD (b) 0 / 2 ^ 7 % 2 : Nat), (b : Nat), (1 : Nat))
    else takeBitsGo data 3 (((0) * 2 + data.getD (b) 0 / 2 ^ 7 % 2) * 2 + data.getD (b) 0 / 2 ^ 6 % 2) (b) 2) =
      ((((((0) * 2 + data.getD (b) 0 / 2 ^ 7 % 2) * 2 + data.getD (b) 0 / 2 ^ 6 % 2) * 2 + data.getD (b) 0 / 2 ^ 5 % 2) * 2 + data.getD (b) 0 / 2 ^ 4 % 2) * 2 + data.getD (b) 0 / 2 ^ 3 % 2, b, 5)
  rw [if_neg (show ¬ data.length ≤ (b) from by omega)]
  show (if data.length ≤ (b) then ((((0) * 2 + data.getD (b) 0 / 2 ^ 7 % 2) * 2 + data.getD (b) 0 / 2 ^ 6 % 2 : Nat), (b : Nat), (2 : Nat))
    else takeBitsGo data 2 ((((0) * 2 + data.getD (b) 0 / 2 ^ 7 % 2) * 2 + data.getD (b) 0 / 2 ^ 6 % 2) * 2 + data.getD (b) 0 / 2 ^ 5 % 2) (b) 3) =
      ((((((0) * 2 + data.getD (b) 0 / 2 ^ 7 % 2) * 2 + data.getD (b) 0 / 2 ^ 6 % 2) * 2 + data.getD (b) 0 / 2 ^ 5 % 2) * 2 + data.getD (b) 0 / 2 ^ 4 % 2) * 2 + data.getD (b) 0 / 2 ^ 3 % 2, b, 5)
  rw [if_neg (show ¬ data.length ≤ (b) from by omega)]
  show (if data.length ≤ (b) then (((((0) * 2 + data.getD (b) 0 / 2 ^ 7 % 2) * 2 + data.getD (b) 0 / 2 ^ 6 % 2) * 2 + data.getD (b) 0 / 2 ^ 5 % 2 : Nat), (b : Nat), (3 : Nat))
    else takeBitsGo data 1 (((((0) * 2 + data.getD (b) 0 / 2 ^ 7 % 2) * 2 + data.getD (b) 0 / 2 ^ 6 % 2) * 2 + data.getD (b) 0 / 2 ^ 5 % 2) * 2 + data.getD (b) 0 / 2 ^ 4 % 2) (b) 4) =
      ((((((0) * 2 + data.getD (b) 0 / 2 ^ 7 % 2) * 2 + data.getD (b) 0 / 2 ^ 6 % 2) * 2 + data.getD (b) 0 / 2 ^ 5 % 2) * 2 + data.getD (b) 0 / 2 ^ 4 % 2) * 2 + data.getD (b) 0 / 2 ^ 3 % 2, b, 5)
  rw [if_neg (show ¬ data.length ≤ (b) from by omega)]
  show (if data.length ≤ (b) then ((((((0) * 2 + data.getD (b) 0 / 2 ^ 7 % 2) * 2 + data.getD (b) 0 / 2 ^ 6 % 2) * 2 + data.getD (b) 0 / 2 ^ 5 % 2) * 2 + data.getD (b) 0 / 2 ^ 4 % 2 : Nat), (b : Nat), (4 : Nat))
    else takeBitsGo data 0 ((((((0) * 2 + data.getD (b) 0 / 2 ^ 7 % 2) * 2 + data.getD (b) 0 / 2 ^ 6 % 2) * 2 + data.getD (b) 0 / 2 ^ 5 % 2) * 2 + data.getD (b) 0 / 2 ^ 4 % 2) * 2 + data.getD (b) 0 / 2 ^ 3 % 2) (b) 5) =
      ((((((0) * 2 + data.getD (b) 0 / 2 ^ 7 % 2) * 2 + data.getD (b) 0 / 2 ^ 6 % 2) * 2 + data.getD (b) 0 / 2 ^ 5 % 2) * 2 + data.getD (b) 0 / 2 ^ 4 % 2) * 2 + data.getD (b) 0 / 2 ^ 3 % 2, b, 5)
  rw [if_neg (show ¬ data.length ≤ (b) from by omega)]
  rfl

theorem tbCont (data : List Nat) (b : Nat) (hb : b < data.length) :
    takeBitsGo data 3 0 (b) 5 =
      ((((0) * 2 + data.getD (b) 0 / 2 ^ 2 % 2) * 2 + data.getD (b) 0 / 2 ^ 1 % 2) * 2 + data.getD (b) 0 / 2 ^ 0 % 2, b + 1, 0) := by
  show (if data.length ≤ (b) then ((0 : Nat), (b : Nat), (5 : Nat))
    else takeBitsGo data 2 ((0) * 2 + data.getD (b) 0 / 2 ^ 2 % 2) (b) 6) =
      ((((0) * 2 + data.getD (b) 0 / 2 ^ 2 % 2) * 2 + data.getD (b) 0 / 2 ^ 1 % 2) * 2 + data.getD (b) 0 / 2 ^ 0 % 2, b + 1, 0)
  rw [if_neg (show ¬ data.length ≤ (b) from by omega)]
  show (if data.length ≤ (b) then (((0) * 2 + data.getD (b) 0 / 2 ^ 2 % 2 : Nat), (b : Nat), (6 : Nat))
    else takeBitsGo data 1 (((0) * 2 + data.getD (b) 0 / 2 ^ 2 % 2) * 2 + data.getD (b) 0 / 2 ^ 1 % 2) (b) 7) =
      ((((0) * 2 + data.getD (b) 0 / 2 ^ 2 % 2) * 2 + data.getD (b) 0 / 2 ^ 1 % 2) * 2 + data.getD (b) 0 / 2 ^ 0 % 2, b + 1, 0)
  rw [if_neg (show ¬ data.length ≤ (b) from by omega)]
  show (if data.length ≤ (b) then ((((0) * 2 + data.getD (b) 0 / 2 ^ 2 % 2) * 2 + data.getD (b) 0 / 2 ^ 1 % 2 : Nat), (b : Nat), (7 : Nat))
    else takeBitsGo data 0 ((((0) * 2 + data.getD (b) 0 / 2 ^ 2 % 2) * 2 + data.getD (b) 0 / 2 ^ 1 % 2) * 2 + data.getD (b) 0 / 2 ^ 0 % 2) (b + 1) 0) =
      ((((0) * 2 + data.getD (b) 0 / 2 ^ 2 % 2) * 2 + data.getD (b) 0 / 2 ^ 1 % 2) * 2 + data.getD (b) 0 / 2 ^ 0 % 2, b + 1, 0)
  rw [if_neg (show ¬ data.length ≤ (b) from by omega)]
  rfl

theorem tbDate (data : List Nat) (b : Nat) (hb : b + 4 ≤ data.length) :
    takeBitsGo data 5 0 (b + 1) 0 =
      ((((((0) * 2 + data.getD (b + 1) 0 / 2 ^ 7 % 2) * 2 + data.getD (b + 1) 0 / 2 ^ 6 % 2) * 2 + data.getD (b + 1) 0 / 2 ^ 5 % 2) * 2 + data.getD (b + 1) 0 / 2 ^ 4 % 2) * 2 + data.getD (b + 1) 0 / 2 ^ 3 % 2, b + 1, 5) := by
  show (if data.length ≤ (b + 1) then ((0 : Nat), (b + 1 : Nat), (0 : Nat))
    else takeBitsGo data 4 ((0) * 2 + data.getD (b + 1) 0 / 2 ^ 7 % 2) (b + 1) 1) =
      ((((((0) * 2 + data.getD (b + 1) 0 / 2 ^ 7 % 2) * 2 + data.getD (b + 1) 0 / 2 ^ 6 % 2) * 2 + data.getD (b + 1) 0 / 2 ^ 5 % 2) * 2 + data.getD (b + 1) 0 / 2 ^ 4 % 2) * 2 + data.getD (b + 1) 0 / 2 ^ 3 % 2, b + 1, 5)
  rw [if_neg (show ¬ data.length ≤ (b + 1) from by omega)]
  show (if data.length ≤ (b + 1) then (((0) * 2 + data.getD (b + 1) 0 / 2 ^ 7 % 2 : Nat), (b + 1 : Nat), (1 : Nat))
    else takeBitsGo data 3 (((0) * 2 + data.getD (b + 1) 0 / 2 ^ 7 % 2) * 2 + data.getD (b + 1) 0 / 2 ^ 6 % 2) (b + 1) 2) =
      ((((((0) * 2 + data.getD (b + 1) 0 / 2 ^ 7 % 2) * 2 + data.getD (b + 1) 0 / 2 ^ 6 % 2) * 2 + data.getD (b + 1) 0 / 2 ^ 5 % 2) * 2 + data.getD (b + 1) 0 / 2 ^ 4 % 2) * 2 + data.getD (b + 1) 0 / 2 ^ 3 % 2, b + 1, 5)
  rw [if_neg (show ¬ data.length ≤ (b + 1) from by omega)]
  show (if data.length ≤ (b + 1) then ((((0) * 2 + data.getD (b + 1) 0 / 2 ^ 7 % 2) * 2 + data.getD (b + 1) 0 / 2 ^ 6 % 2 : Nat), (b + 1 : Nat), (2 : Nat))
    else takeBitsGo data 2 ((((0) * 2 + data.getD (b + 1) 0 / 2 ^ 7 % 2) * 2 + data.getD (b + 1) 0 / 2 ^ 6 % 2) * 2 + data.getD (b + 1) 0 / 2 ^ 5 % 2) (b + 1) 3) =
      ((((((0) * 2 + data.getD (b + 1) 0 / 2 ^ 7 % 2) * 2 + data.getD (b + 1) 0 / 2 ^ 6 % 2) * 2 + data.getD (b + 1) 0 / 2 ^ 5 % 2) * 2 + data.getD (b + 1) 0 / 2 ^ 4 % 2) * 2 + data.getD (b + 1) 0 / 2 ^ 3 % 2, b + 1, 5)
  rw [if_neg (show ¬ data.length ≤ (b + 1) from by omega)]
  show (if data.length ≤ (b + 1) then (((((0) * 2 + data.getD (b + 1) 0 / 2 ^ 7 % 2) * 2 + data.getD (b + 1) 0 / 2 ^ 6 % 2) * 2 + data.getD (b + 1) 0 / 2 ^ 5 % 2 : Nat), (b + 1 : Nat), (3 : Nat))
    else takeBitsGo data 1 (((((0) * 2 + data.getD (b + 1) 0 / 2 ^ 7 % 2) * 2 + data.getD (b + 1) 0 / 2 ^ 6 % 2) * 2 + data.getD (b + 1) 0 / 2 ^ 5 % 2) * 2 + data.getD (b + 1) 0 / 2 ^ 4 % 2) (b + 1) 4) =
      ((((((0) * 2 + data.getD (b + 1) 0 / 2 ^ 7 % 2) * 2 + data.getD (b + 1) 0 / 2 ^ 6 % 2) * 2 + data.getD (b + 1) 0 / 2 ^ 5 % 2) * 2 + data.getD (b + 1) 0 / 2 ^ 4 % 2) * 2 + data.getD (b + 1) 0 / 2 ^ 3 % 2, b + 1, 5)
  rw [if_neg (show ¬ data.length ≤ (b + 1) from by omega)]
  show (if data.length ≤ (b + 1) then ((((((0) * 2 + data.getD (b + 1) 0 / 2 ^ 7 % 2) * 2 + data.getD (b + 1) 0 / 2 ^ 6 % 2) * 2 + data.getD (b + 1) 0 / 2 ^ 5 % 2) * 2 + data.getD (b + 1) 0 / 2 ^ 4 % 2 : Nat), (b + 1 : Nat), (4 : Nat))
    else takeBitsGo data 0 ((((((0) * 2 + data.getD (b + 1) 0 / 2 ^ 7 % 2) * 2 + data.getD (b + 1) 0 / 2 ^ 6 % 2) * 2 + data.getD (b + 1) 0 / 2 ^ 5 % 2) * 2 + data.getD (b + 1) 0 / 2 ^ 4 % 2) * 2 + data.getD (b + 1) 0 / 2 ^ 3 % 2) (b + 1) 5) =
      ((((((0) * 2 + data.getD (b + 1) 0 / 2 ^ 7 % 2) * 2 + data.getD (b + 1) 0 / 2 ^ 6 % 2) * 2 + data.getD (b + 1) 0 / 2 ^ 5 % 2) * 2 + data.getD (b + 1) 0 / 2 ^ 4 % 2) * 2 + data.getD (b + 1) 0 / 2 ^ 3 % 2, b + 1, 5)
  rw [if_neg (show ¬ data.length ≤ (b + 1) from by omega)]
  rfl

theorem tbObj (data : List Nat) (b : Nat) (hb : b + 4 ≤ data.length) :
    takeBitsGo data 5 0 (b + 1) 5 =
      ((((((0) * 2 + data.getD (b + 1) 0 / 2 ^ 2 % 2) * 2 + data.getD (b + 1) 0 / 2 ^ 1 % 2) * 2 + data.getD (b + 1) 0 / 2 ^ 0 % 2) * 2 + data.getD (b + 2) 0 / 2 ^ 7 % 2) * 2 + data.getD (b + 2) 0 / 2 ^ 6 % 2, b + 2, 2) := by
  show (if data.length ≤ (b + 1) then ((0 : Nat), (b + 1 : Nat), (5 : Nat))
    else takeBitsGo data 4 ((0) * 2 + data.getD (b + 1) 0 / 2 ^ 2 % 2) (b + 1) 6) =
      ((((((0) * 2 + data.getD (b + 1) 0 / 2 ^ 2 % 2) * 2 + data.getD (b + 1) 0 / 2 ^ 1 % 2) * 2 + data.getD (b + 1) 0 / 2 ^ 0 % 2) * 2 + data.getD (b + 2) 0 / 2 ^ 7 % 2) * 2 + data.getD (b + 2) 0 / 2 ^ 6 % 2, b + 2, 2)
  rw [if_neg (show ¬ data.length ≤ (b + 1) from by omega)]
  show (if data.length ≤ (b + 1) then (((0) * 2 + data.getD (b + 1) 0 / 2 ^ 2 % 2 : Nat), (b + 1 : Nat), (6 : Nat))
    else takeBitsGo data 3 (((0) * 2 + data.getD (b + 1) 0 / 2 ^ 2 % 2) * 2 + data.getD (b + 1) 0 / 2 ^ 1 % 2) (b + 1) 7) =
      ((((((0) * 2 + data.getD (b + 1) 0 / 2 ^ 2 % 2) * 2 + data.getD (b + 1) 0 / 2 ^ 1 % 2) * 2 + data.getD (b + 1) 0 / 2 ^ 0 % 2) * 2 + data.getD (b + 2) 0 / 2 ^ 7 % 2) * 2 + data.getD (b + 2) 0 / 2 ^ 6 % 2, b + 2, 2)
  rw [if_neg (show ¬ data.length ≤ (b + 1) from by omega)]
  show (if data.length ≤ (b + 1) then ((((0) * 2 + data.getD (b + 1) 0 / 2 ^ 2 % 2) * 2 + data.getD (b + 1) 0 / 2 ^ 1 % 2 : Nat), (b + 1 : Nat), (7 : Nat))
    else takeBitsGo data 2 ((((0) * 2 + data.getD (b + 1) 0 / 2 ^ 2 % 2) * 2 + data.getD (b + 1) 0 / 2 ^ 1 % 2) * 2 + data.getD (b + 1) 0 / 2 ^ 0 % 2) (b + 2) 0) =
      ((((((0) * 2 + data.getD (b + 1) 0 / 2 ^ 2 % 2) * 2 + data.getD (b + 1) 0 / 2 ^ 1 % 2) * 2 + data.getD (b + 1) 0 / 2 ^ 0 % 2) * 2 + data.getD (b + 2) 0 / 2 ^ 7 % 2) * 2 + data.getD (b + 2) 0 / 2 ^ 6 % 2, b + 2, 2)
  rw [if_neg (show ¬ data.length ≤ (b + 1) from by omega)]
  show (if data.length ≤ (b + 2) then (((((0) * 2 + data.getD (b + 1) 0 / 2 ^ 2 % 2) * 2 + data.getD (b + 1) 0 / 2 ^ 1 % 2) * 2 + data.getD (b + 1) 0 / 2 ^ 0 % 2 : Nat), (b + 2 : Nat), (0 : Nat))
    else takeBitsGo data 1 (((((0) * 2 + data.getD (b + 1) 0 / 2 ^ 2 % 2) * 2 + data.getD (b + 1) 0 / 2 ^ 1 % 2) * 2 + data.getD (b + 1) 0 / 2 ^ 0 % 2) * 2 + data.getD (b + 2) 0 / 2 ^ 7 % 2) (b + 2) 1) =
      ((((((0) * 2 + data.getD (b + 1) 0 / 2 ^ 2 % 2) * 2 + data.getD (b + 1) 0 / 2 ^ 1 % 2) * 2 + data.getD (b + 1) 0 / 2 ^ 0 % 2) * 2 + data.getD (b + 2) 0 / 2 ^ 7 % 2) * 2 + data.getD (b + 2) 0 / 2 ^ 6 % 2, b + 2, 2)
  rw [if_neg (show ¬ data.length ≤ (b + 2) from by omega)]
  show (if data.length ≤ (b + 2) then ((((((0) * 2 + data.getD (b + 1) 0 / 2 ^ 2 % 2) * 2 + data.getD (b + 1) 0 / 2 ^ 1 % 2) * 2 + data.getD (b + 1) 0 / 2 ^ 0 % 2) * 2 + data.getD (b + 2) 0 / 2 ^ 7 % 2 : Nat), (b + 2 : Nat), (1 : Nat))
    else takeBitsGo data 0 ((((((0) * 2 + data.getD (b + 1) 0 / 2 ^ 2 % 2) * 2 + data.getD (b + 1) 0 / 2 ^ 1 % 2) * 2 + data.getD (b + 1) 0 / 2 ^ 0 % 2) * 2 + data.getD (b + 2) 0 / 2 ^ 7 % 2) * 2 + data.getD (b + 2) 0 / 2 ^ 6 % 2) (b + 2) 2) =
      ((((((0) * 2 + data.getD (b + 1) 0 / 2 ^ 2 % 2) * 2 + data.getD (b + 1) 0 / 2 ^ 1 % 2) * 2 + data.getD (b + 1) 0 / 2 ^ 0 % 2) * 2 + data.getD (b + 2) 0 / 2 ^ 7 % 2) * 2 + data.getD (b + 2) 0 / 2 ^ 6 % 2, b + 2, 2)
  rw [if_neg (show ¬ data.length ≤ (b + 2) from by omega)]
  rfl

theorem tbQuote (data : List Nat) (b : Nat) (hb : b + 4 ≤ data.length) :
    takeBitsGo data 3 0 (b + 2) 2 =
      ((((0) * 2 + data.getD (b + 2) 0 / 2 ^ 5 % 2) * 2 + data.getD (b + 2) 0 / 2 ^ 4 % 2) * 2 + data.getD (b + 2) 0 / 2 ^ 3 % 2, b + 2, 5) := by
  show (if data.length ≤ (b + 2) then ((0 : Nat), (b + 2 : Nat), (2 : Nat))
    else takeBitsGo data 2 ((0) * 2 + data.getD (b + 2) 0 / 2 ^ 5 % 2) (b + 2) 3) =
      ((((0) * 2 + data.getD (b + 2) 0 / 2 ^ 5 % 2) * 2 + data.getD (b + 2) 0 / 2 ^ 4 % 2) * 2 + data.getD (b + 2) 0 / 2 ^ 3 % 2, b + 2, 5)
  rw [if_neg (show ¬ data.length ≤ (b + 2) from by omega)]
  show (if data.length ≤ (b + 2) then (((0) * 2 + data.getD (b + 2) 0 / 2 ^ 5 % 2 : Nat), (b + 2 : Nat), (3 : Nat))
    else takeBitsGo data 1 (((0) * 2 + data.getD (b + 2) 0 / 2 ^ 5 % 2) * 2 + data.getD (b + 2) 0 / 2 ^ 4 % 2) (b + 2) 4) =
      ((((0) * 2 + data.getD (b + 2) 0 / 2 ^ 5 % 2) * 2 + data.getD (b + 2) 0 / 2 ^ 4 % 2) * 2 + data.getD (b + 2) 0 / 2 ^ 3 % 2, b + 2, 5)
  rw [if_neg (show ¬ data.length ≤ (b + 2) from by omega)]
  show (if data.length ≤ (b + 2) then ((((0) * 2 + data.getD (b + 2) 0 / 2 ^ 5 % 2) * 2 + data.getD (b + 2) 0 / 2 ^ 4 % 2 : Nat), (b + 2 : Nat), (4 : Nat))
    else takeBitsGo data 0 ((((0) * 2 + data.getD (b + 2) 0 / 2 ^ 5 % 2) * 2 + data.getD (b + 2) 0 / 2 ^ 4 % 2) * 2 + data.getD (b + 2) 0 / 2 ^ 3 % 2) (b + 2) 5) =
      ((((0) * 2 + data.getD (b + 2) 0 / 2 ^ 5 % 2) * 2 + data.getD (b + 2) 0 / 2 ^ 4 % 2) * 2 + data.getD (b + 2) 0 / 2 ^ 3 % 2, b + 2, 5)
  rw [if_neg (show ¬ data.length ≤ (b + 2) from by omega)]
  rfl

theorem tbQi (data : List Nat) (b : Nat) (hb : b + 4 ≤ data.length) :
    takeBitsGo data 2 0 (b + 2) 5 =
      (((0) * 2 + data.getD (b + 2) 0 / 2 ^ 2 % 2) * 2 + data.getD (b + 2) 0 / 2 ^ 1 % 2, b + 2, 7) := by
  show (if data.length ≤ (b + 2) then ((0 : Nat), (b + 2 : Nat), (5 : Nat))
    else takeBitsGo data 1 ((0) * 2 + data.getD (b + 2) 0 / 2 ^ 2 % 2) (b + 2) 6) =
      (((0) * 2 + data.getD (b + 2) 0 / 2 ^ 2 % 2) * 2 + data.getD (b + 2) 0 / 2 ^ 1 % 2, b + 2, 7)
  rw [if_neg (show ¬ data.length ≤ (b + 2) from by omega)]
  show (if data.length ≤ (b + 2) then (((0) * 2 + data.getD (b + 2) 0 / 2 ^ 2 % 2 : Nat), (b + 2 : Nat), (6 : Nat))
    else takeBitsGo data 0 (((0) * 2 + data.getD (b + 2) 0 / 2 ^ 2 % 2) * 2 + data.getD (b + 2) 0 / 2 ^ 1 % 2) (b + 2) 7) =
      (((0) * 2 + data.getD (b + 2) 0 / 2 ^ 2 % 2) * 2 + data.getD (b + 2) 0 / 2 ^ 1 % 2, b + 2, 7)
  rw [if_neg (show ¬ data.length ≤ (b + 2) from by omega)]
  rfl

theorem tbSubj (data : List Nat) (b : Nat) (hb : b + 4 ≤ data.length) :
    takeBitsGo data 5 0 (b + 2) 7 =
      ((((((0) * 2 + data.getD (b + 2) 0 / 2 ^ 0 % 2) * 2 + data.getD (b + 3) 0 / 2 ^ 7 % 2) * 2 + data.getD (b + 3) 0 / 2 ^ 6 % 2) * 2 + data.getD (b + 3) 0 / 2 ^ 5 % 2) * 2 + data.getD (b + 3) 0 / 2 ^ 4 % 2, b + 3, 4) := by
  show (if data.length ≤ (b + 2) then ((0 : Nat), (b + 2 : Nat), (7 : Nat))
    else takeBitsGo data 4 ((0) * 2 + data.getD (b + 2) 0 / 2 ^ 0 % 2) (b + 3) 0) =
      ((((((0) * 2 + data.getD (b + 2) 0 / 2 ^ 0 % 2) * 2 + data.getD (b + 3) 0 / 2 ^ 7 % 2) * 2 + data.getD (b + 3) 0 / 2 ^ 6 % 2) * 2 + data.getD (b + 3) 0 / 2 ^ 5 % 2) * 2 + data.getD (b + 3) 0 / 2 ^ 4 % 2, b + 3, 4)
  rw [if_neg (show ¬ data.length ≤ (b + 2) from by omega)]
  show (if data.length ≤ (b + 3) then (((0) * 2 + data.getD (b + 2) 0 / 2 ^ 0 % 2 : Nat), (b + 3 : Nat), (0 : Nat))
    else takeBitsGo data 3 (((0) * 2 + data.getD (b + 2) 0 / 2 ^ 0 % 2) * 2 + data.getD (b + 3) 0 / 2 ^ 7 % 2) (b + 3) 1) =
      ((((((0) * 2 + data.getD (b + 2) 0 / 2 ^ 0 % 2) * 2 + data.getD (b + 3) 0 / 2 ^ 7 % 2) * 2 + data.getD (b + 3) 0 / 2 ^ 6 % 2) * 2 + data.getD (b + 3) 0 / 2 ^ 5 % 2) * 2 + data.getD (b + 3) 0 / 2 ^ 4 % 2, b + 3, 4)
  rw [if_neg (show ¬ data.length ≤ (b + 3) from by omega)]
  show (if data.length ≤ (b + 3) then ((((0) * 2 + data.getD (b + 2) 0 / 2 ^ 0 % 2) * 2 + data.getD (b + 3) 0 / 2 ^ 7 % 2 : Nat), (b + 3 : Nat), (1 : Nat))
    else takeBitsGo data 2 ((((0) * 2 + data.getD (b + 2) 0 / 2 ^ 0 % 2) * 2 + data.getD (b + 3) 0 / 2 ^ 7 % 2) * 2 + data.getD (b + 3) 0 / 2 ^ 6 % 2) (b + 3) 2) =
      ((((((0) * 2 + data.getD (b + 2) 0 / 2 ^ 0 % 2) * 2 + data.getD (b + 3) 0 / 2 ^ 7 % 2) * 2 + data.getD (b + 3) 0 / 2 ^ 6 % 2) * 2 + data.getD (b + 3) 0 / 2 ^ 5 % 2) * 2 + data.getD (b + 3) 0 / 2 ^ 4 % 2, b + 3, 4)
  rw [if_neg (show ¬ data.length ≤ (b + 3) from by omega)]
  show (if data.length ≤ (b + 3) then (((((0) * 2 + data.getD (b + 2) 0 / 2 ^ 0 % 2) * 2 + data.getD (b + 3) 0 / 2 ^ 7 % 2) * 2 + data.getD (b + 3) 0 / 2 ^ 6 % 2 : Nat), (b + 3 : Nat), (2 : Nat))
    else takeBitsGo data 1 (((((0) * 2 + data.getD (b + 2) 0 / 2 ^ 0 % 2) * 2 + data.getD (b + 3) 0 / 2 ^ 7 % 2) * 2 + data.getD (b + 3) 0 / 2 ^ 6 % 2) * 2 + data.getD (b + 3) 0 / 2 ^ 5 % 2) (b + 3) 3) =
      ((((((0) * 2 + data.getD (b + 2) 0 / 2 ^ 0 % 2) * 2 + data.getD (b + 3) 0 / 2 ^ 7 % 2) * 2 + data.getD (b + 3) 0 / 2 ^ 6 % 2) * 2 + data.getD (b + 3) 0 / 2 ^ 5 % 2) * 2 + data.getD (b + 3) 0 / 2 ^ 4 % 2, b + 3, 4)
  rw [if_neg (show ¬ data.length ≤ (b + 3) from by omega)]
  show (if data.length ≤ (b + 3) then ((((((0) * 2 + data.getD (b + 2) 0 / 2 ^ 0 % 2) * 2 + data.getD (b + 3) 0 / 2 ^ 7 % 2) * 2 + data.getD (b + 3) 0 / 2 ^ 6 % 2) * 2 + data.getD (b + 3) 0 / 2 ^ 5 % 2 : Nat), (b + 3 : Nat), (3 : Nat))
    else takeBitsGo data 0 ((((((0) * 2 + data.getD (b + 2) 0 / 2 ^ 0 % 2) * 2 + data.getD (b + 3) 0 / 2 ^ 7 % 2) * 2 + data.getD (b + 3) 0 / 2 ^ 6 % 2) * 2 + data.getD (b + 3) 0 / 2 ^ 5 % 2) * 2 + data.getD (b + 3) 0 / 2 ^ 4 % 2) (b + 3) 4) =
      ((((((0) * 2 + data.getD (b + 2) 0 / 2 ^ 0 % 2) * 2 + data.getD (b + 3) 0 / 2 ^ 7 % 2) * 2 + data.getD (b + 3) 0 / 2 ^ 6 % 2) * 2 + data.getD (b + 3) 0 / 2 ^ 5 % 2) * 2 + data.getD (b + 3) 0 / 2 ^ 4 % 2, b + 3, 4)
  rw [if_neg (show ¬ data.length ≤ (b + 3) from by omega)]
  rfl

theorem tbVerb (data : List Nat) (b : Nat) (hb : b + 4 ≤ data.length) :
    takeBitsGo data 4 0 (b + 3) 4 =
      (((((0) * 2 + data.getD (b + 3) 0 / 2 ^ 3 % 2) * 2 + data.getD (b + 3) 0 / 2 ^ 2 % 2) * 2 + data.getD (b + 3) 0 / 2 ^ 1 % 2) * 2 + data.getD (b + 3) 0 / 2 ^ 0 % 2, b + 4, 0) := by
  show (if data.length ≤ (b + 3) then ((0 : Nat), (b + 3 : Nat), (4 : Nat))
    else takeBitsGo data 3 ((0) * 2 + data.getD (b + 3) 0 / 2 ^ 3 % 2) (b + 3) 5) =
      (((((0) * 2 + data.getD (b + 3) 0 / 2 ^ 3 % 2) * 2 + data.getD (b + 3) 0 / 2 ^ 2 % 2) * 2 + data.getD (b + 3) 0 / 2 ^ 1 % 2) * 2 + data.getD (b + 3) 0 / 2 ^ 0 % 2, b + 4, 0)
  rw [if_neg (show ¬ data.length ≤ (b + 3) from by omega)]
  show (if data.length ≤ (b + 3) then (((0) * 2 + data.getD (b + 3) 0 / 2 ^ 3 % 2 : Nat), (b + 3 : Nat), (5 : Nat))
    else takeBitsGo data 2 (((0) * 2 + data.getD (b + 3) 0 / 2 ^ 3 % 2) * 2 + data.getD (b + 3) 0 / 2 ^ 2 % 2) (b + 3) 6) =
      (((((0) * 2 + data.getD (b + 3) 0 / 2 ^ 3 % 2) * 2 + data.getD (b + 3) 0 / 2 ^ 2 % 2) * 2 + data.getD (b + 3) 0 / 2 ^ 1 % 2) * 2 + data.getD (b + 3) 0 / 2 ^ 0 % 2, b + 4, 0)
  rw [if_neg (show ¬ data.length ≤ (b + 3) from by omega)]
  show (if data.length ≤ (b + 3) then ((((0) * 2 + data.getD (b + 3) 0 / 2 ^ 3 % 2) * 2 + data.getD (b + 3) 0 / 2 ^ 2 % 2 : Nat), (b + 3 : Nat), (6 : Nat))
    else takeBitsGo data 1 ((((0) * 2 + data.getD (b + 3) 0 / 2 ^ 3 % 2) * 2 + data.getD (b + 3) 0 / 2 ^ 2 % 2) * 2 + data.getD (b + 3) 0 / 2 ^ 1 % 2) (b + 3) 7) =
      (((((0) * 2 + data.getD (b + 3) 0 / 2 ^ 3 % 2) * 2 + data.getD (b + 3) 0 / 2 ^ 2 % 2) * 2 + data.getD (b + 3) 0 / 2 ^ 1 % 2) * 2 + data.getD (b + 3) 0 / 2 ^ 0 % 2, b + 4, 0)
  rw [if_neg (show ¬ data.length ≤ (b + 3) from by omega)]
  show (if data.length ≤ (b + 3) then (((((0) * 2 + data.getD (b + 3) 0 / 2 ^ 3 % 2) * 2 + data.getD (b + 3) 0 / 2 ^ 2 % 2) * 2 + data.getD (b + 3) 0 / 2 ^ 1 % 2 : Nat), (b + 3 : Nat), (7 : Nat))
    else takeBitsGo data 0 (((((0) * 2 + data.getD (b + 3) 0 / 2 ^ 3 % 2) * 2 + data.getD (b + 3) 0 / 2 ^ 2 % 2) * 2 + data.getD (b + 3) 0 / 2 ^ 1 % 2) * 2 + data.getD (b + 3) 0 / 2 ^ 0 % 2) (b + 4) 0) =
      (((((0) * 2 + data.getD (b + 3) 0 / 2 ^ 3 % 2) * 2 + data.getD (b + 3) 0 / 2 ^ 2 % 2) * 2 + data.getD (b + 3) 0 / 2 ^ 1 % 2) * 2 + data.getD (b + 3) 0 / 2 ^ 0 % 2, b + 4, 0)
  rw [if_neg (show ¬ data.length ≤ (b + 3) from by omega)]
  rfl

theorem esvCity (data : List Nat)
    (rest : List (List Char × List Production)) (ch : Choices) (b o : Nat)
    (hb : ¬ data.length ≤ b) :
    encodeSentenceVars data (("CITY".toList, initPlainByList ex2Cities) :: rest) ch b o =
      encodeSentenceVars data rest
        (insertC "CITY".toList ((takeBitsGo data 5 0 b o).1 % 256 % 32) ch)
        (takeBitsGo data 5 0 b o).2.1 (takeBitsGo data 5 0 b o).2.2 := by
  show (if data.length ≤ b then (ch, b, o)
    else encodeSentenceVars data rest
      (insertC "CITY".toList ((takeBitsGo data 5 0 b o).1 % 256 % 32) ch)
      (takeBitsGo data 5 0 b o).2.1 (takeBitsGo data 5 0 b o).2.2) = _
  rw [if_neg hb]


theorem esvCont (data : List Nat)
    (rest : List (List Char × List Production)) (ch : Choices) (b o : Nat)
    (hb : ¬ data.length ≤ b) :
    encodeSentenceVars data (("CONTENT".toList, initPlainByList ex2Content) :: rest) ch b o =
      encodeSentenceVars data rest
        (insertC "CONTENT".toList ((takeBitsGo data 3 0 b o).1 % 256 % 8) ch)
        (takeBitsGo data 3 0 b o).2.1 (takeBitsGo data 3 0 b o).2.2 := by
  show (if data.length ≤ b then (ch, b, o)
    else encodeSentenceVars data rest
      (insertC "CONTENT".toList ((takeBitsGo data 3 0 b o).1 % 256 % 8) ch)
      (takeBitsGo data 3 0 b o).2.1 (takeBitsGo data 3 0 b o).2.2) = _
  rw [if_neg hb]


theorem esvDate (data : List Nat)
    (rest : List (List Char × List Production)) (ch : Choices) (b o : Nat)
    (hb : ¬ data.length ≤ b) :
    encodeSentenceVars data (("DATE".toList, ex2Dates.map (fun d => (⟨d, ProductType.plain⟩ : Production))) :: rest) ch b o =
      encodeSentenceVars data rest
        (insertC "DATE".toList ((takeBitsGo data 5 0 b o).1 % 256 % 32) ch)
        (takeBitsGo data 5 0 b o).2.1 (takeBitsGo data 5 0 b o).2.2 := by
  show (if data.length ≤ b then (ch, b, o)
    else encodeSentenceVars data rest
      (insertC "DATE".toList ((takeBitsGo data 5 0 b o).1 % 256 % 32) ch)
      (takeBitsGo data 5 0 b o).2.1 (takeBitsGo data 5 0 b o).2.2) = _
  rw [if_neg hb]


theorem esvDateline (data : List Nat)
    (rest : List (List Char × List Production)) (ch : Choices) (b o : Nat) :
    encodeSentenceVars data (("DATELINE".toList, [(⟨"\x7bDATE\x7d \x7bCITY\x7d".toList, ProductType.plain⟩ : Production)]) :: rest) ch b o =
      encodeSentenceVars data rest ch b o := rfl


theorem esvObj (data : List Nat)
    (rest : List (List Char × List Production)) (ch : Choices) (b o : Nat)
    (hb : ¬ data.length ≤ b) :
    encodeSentenceVars data (("OBJECT".toList, initPlainByList ex2Objects) :: rest) ch b o =
      encodeSentenceVars data rest
        (insertC "OBJECT".toList ((takeBitsGo data 5 0 b o).1 % 256 % 32) ch)
        (takeBitsGo data 5 0 b o).2.1 (takeBitsGo data 5 0 b o).2.2 := by
  show (if data.length ≤ b then (ch, b, o)
    else encodeSentenceVars data rest
      (insertC "OBJECT".toList ((takeBitsGo data 5 0 b o).1 % 256 % 32) ch)
      (takeBitsGo data 5 0 b o).2.1 (takeBitsGo data 5 0 b o).2.2) = _
  rw [if_neg hb]


theorem esvQuote (data : List Nat)
    (rest : List (List Char × List Production)) (ch : Choices) (b o : Nat)
    (hb : ¬ data.length ≤ b) :
    encodeSentenceVars data (("QUOTE".toList, initPlainByList ex2Quotes) :: rest) ch b o =
      encodeSentenceVars data rest
        (insertC "QUOTE".toList ((takeBitsGo data 3 0 b o).1 % 256 % 8) ch)
        (takeBitsGo data 3 0 b o).2.1 (takeBitsGo data 3 0 b o).2.2 := by
  show (if data.length ≤ b then (ch, b, o)
    else encodeSentenceVars data rest
      (insertC "QUOTE".toList ((takeBitsGo data 3 0 b o).1 % 256 % 8) ch)
      (takeBitsGo data 3 0 b o).2.1 (takeBitsGo data 3 0 b o).2.2) = _
  rw [if_neg hb]


theorem esvQi (data : List Nat)
    (rest : List (List Char × List Production)) (ch : Choices) (b o : Nat)
    (hb : ¬ data.length ≤ b) :
    encodeSentenceVars data (("QUOTE_INTRO".toList, initPlainByList ex2QuoteIntros) :: rest) ch b o =
      encodeSentenceVars data rest
        (insertC "QUOTE_INTRO".toList ((takeBitsGo data 2 0 b o).1 % 256 % 4) ch)
        (takeBitsGo data 2 0 b o).2.1 (takeBitsGo data 2 0 b o).2.2 := by
  show (if data.length ≤ b then (ch, b, o)
    else encodeSentenceVars data rest
      (insertC "QUOTE_INTRO".toList ((takeBitsGo data 2 0 b o).1 % 256 % 4) ch)
      (takeBitsGo data 2 0 b o).2.1 (takeBitsGo data 2 0 b o).2.2) = _
  rw [if_neg hb]


theorem esvSubj (data : List Nat)
    (rest : List (List Char × List Production)) (ch : Choices) (b o : Nat)
    (hb : ¬ data.length ≤ b) :
    encodeSentenceVars data (("SUBJECT".toList, initPlainByList ex2Subjects) :: rest) ch b o =
      encodeSentenceVars data rest
        (insertC "SUBJECT".toList ((takeBitsGo data 5 0 b o).1 % 256 % 32) ch)
        (takeBitsGo data 5 0 b o).2.1 (takeBitsGo data 5 0 b o).2.2 := by
  show (if data.length ≤ b then (ch, b, o)
    else encodeSentenceVars data rest
      (insertC "SUBJECT".toList ((takeBitsGo data 5 0 b o).1 % 256 % 32) ch)
      (takeBitsGo data 5 0 b o).2.1 (takeBitsGo data 5 0 b o).2.2) = _
  rw [if_neg hb]


theorem esvSvo (data : List Nat)
    (rest : List (List Char × List Production)) (ch : Choices) (b o : Nat) :
    encodeSentenceVars data (("SUBJECT_VERB_OBJECT".toList, [(⟨"\x7bSUBJECT\x7d \x7bVERB\x7d \x7bOBJECT\x7d".toList, ProductType.replace⟩ : Production)]) :: rest) ch b o =
      encodeSentenceVars data rest ch b o := rfl


theorem esvVerb (data : List Nat)
    (rest : List (List Char × List Production)) (ch : Choices) (b o : Nat)
    (hb : ¬ data.length ≤ b) :
    encodeSentenceVars data (("VERB".toList, initPlainByList ex2Verbs) :: rest) ch b o =
      encodeSentenceVars data rest
        (insertC "VERB".toList ((takeBitsGo data 4 0 b o).1 % 256 % 16) ch)
        (takeBitsGo data 4 0 b o).2.1 (takeBitsGo data 4 0 b o).2.2 := by
  show (if data.length ≤ b then (ch, b, o)
    else encodeSentenceVars data rest
      (insertC "VERB".toList ((takeBitsGo data 4 0 b o).1 % 256 % 16) ch)
      (takeBitsGo data 4 0 b o).2.1 (takeBitsGo data 4 0 b o).2.2) = _
  rw [if_neg hb]


theorem esvStart (data : List Nat)
    (rest : List (List Char × List Production)) (ch : Choices) (b o : Nat) :
    encodeSentenceVars data (("start".toList, [(⟨"\x7bSUBJECT_VERB_OBJECT\x7d\n\x7bDATELINE\x7d\n\x7bCONTENT\x7d\n\x7bQUOTE_INTRO\x7d \x7bQUOTE\x7d".toList, ProductType.replace⟩ : Production)]) :: rest) ch b o =
      encodeSentenceVars data rest ch b o := rfl


theorem esvDateBreak (data : List Nat)
    (rest : List (List Char × List Production)) (ch : Choices) (b o : Nat)
    (hb : data.length ≤ b) :
    encodeSentenceVars data (("DATE".toList, ex2Dates.map (fun d => (⟨d, ProductType.plain⟩ : Production))) :: rest) ch b o = (ch, b, o) := by
  show (if data.length ≤ b then (ch, b, o)
    else encodeSentenceVars data rest
      (insertC "DATE".toList ((takeBitsGo data 5 0 b o).1 % 256 % 32) ch)
      (takeBitsGo data 5 0 b o).2.1 (takeBitsGo data 5 0 b o).2.2) = _
  rw [if_pos hb]

/-- The per-sentence choices the encoder derives from an aligned 4-byte
group. -/
def ex2EncM (d0 d1 d2 d3 : Nat) : Choices :=
  insertC "VERB".toList (d3 % 16)
    (insertC "SUBJECT".toList (d2 % 2 * 16 + d3 / 16)
      (insertC "QUOTE_INTRO".toList (d2 / 2 % 4)
        (insertC "QUOTE".toList (d2 / 8 % 8)
          (insertC "OBJECT".toList (d1 % 8 * 4 + d2 / 64)
            (insertC "DATE".toList (d1 / 8)
              (insertC "CONTENT".toList (d0 % 8)
                (insertC "CITY".toList (d0 / 8) emptyC)))))))

theorem ex2_vars_literal : ex2.vars =
    ("CITY".toList, initPlainByList ex2Cities) :: ("CONTENT".toList, initPlainByList ex2Content) :: ("DATE".toList, ex2Dates.map (fun d => (⟨d, ProductType.plain⟩ : Production))) ::
    ("DATELINE".toList, [(⟨"\x7bDATE\x7d \x7bCITY\x7d".toList, ProductType.plain⟩ : Production)]) :: ("OBJECT".toList, initPlainByList ex2Objects) :: ("QUOTE".toList, initPlainByList ex2Quotes) ::
    ("QUOTE_INTRO".toList, initPlainByList ex2QuoteIntros) :: ("SUBJECT".toList, initPlainByList ex2Subjects) ::
    ("SUBJECT_VERB_OBJECT".toList, [(⟨"\x7bSUBJECT\x7d \x7bVERB\x7d \x7bOBJECT\x7d".toList, ProductType.replace⟩ : Production)]) :: ("VERB".toList, initPlainByList ex2Verbs) ::
    ("start".toList, [(⟨"\x7bSUBJECT_VERB_OBJECT\x7d\n\x7bDATELINE\x7d\n\x7bCONTENT\x7d\n\x7bQUOTE_INTRO\x7d \x7bQUOTE\x7d".toList, ProductType.replace⟩ : Production)]) :: [] := rfl


set_option maxHeartbeats 1000000 in
/-- One aligned sentence of `CFGEncoder::encode` on `example2`: the
variable loop consumes exactly the 4-byte group at `b`. -/
theorem esv_ex2_full (data : List Nat) (b : Nat) (hb : b + 4 ≤ data.length)
    (h0 : data.getD b 0 < 256) (h1 : data.getD (b + 1) 0 < 256)
    (h2 : data.getD (b + 2) 0 < 256) (h3 : data.getD (b + 3) 0 < 256) :
    encodeSentenceVars data ex2.vars emptyC b 0 =
      (ex2EncM (data.getD b 0) (data.getD (b + 1) 0) (data.getD (b + 2) 0)
        (data.getD (b + 3) 0), b + 4, 0) := by
  rw [ex2_vars_literal]
  rw [esvCity data _ _ _ _ (show ¬ data.length ≤ (b) from by omega)]
  rw [tbCity data b (by omega)]
  show encodeSentenceVars data
    (("CONTENT".toList, initPlainByList ex2Content) :: ("DATE".toList, ex2Dates.map (fun d => (⟨d, ProductType.plain⟩ : Production))) :: ("DATELINE".toList, [(⟨"\x7bDATE\x7d \x7bCITY\x7d".toList, ProductType.plain⟩ : Production)]) :: ("OBJECT".toList, initPlainByList ex2Objects) :: ("QUOTE".toList, initPlainByList ex2Quotes) :: ("QUOTE_INTRO".toList, initPlainByList ex2QuoteIntros) :: ("SUBJECT".toList, initPlainByList ex2Subjects) :: ("SUBJECT_VERB_OBJECT".toList, [(⟨"\x7bSUBJECT\x7d \x7bVERB\x7d \x7bOBJECT\x7d".toList, ProductType.replace⟩ : Production)]) :: ("VERB".toList, initPlainByList ex2Verbs) :: ("start".toList, [(⟨"\x7bSUBJECT_VERB_OBJECT\x7d\n\x7bDATELINE\x7d\n\x7bCONTENT\x7d\n\x7bQUOTE_INTRO\x7d \x7bQUOTE\x7d".toList, ProductType.replace⟩ : Production)]) :: [])
    (insertC "CITY".toList (((((((0) * 2 + data.getD (b) 0 / 2 ^ 7 % 2) * 2 + data.getD (b) 0 / 2 ^ 6 % 2) * 2 + data.getD (b) 0 / 2 ^ 5 % 2) * 2 + data.getD (b) 0 / 2 ^ 4 % 2) * 2 + data.getD (b) 0 / 2 ^ 3 % 2) % 256 % 32) (emptyC)) (b) 5 =
    (ex2EncM (data.getD b 0) (data.getD (b + 1) 0) (data.getD (b + 2) 0)
      (data.getD (b + 3) 0), b + 4, 0)
  rw [esvCont data _ _ _ _ (show ¬ data.length ≤ (b) from by omega)]
  rw [tbCont data b (by omega)]
  show encodeSentenceVars data
    (("DATE".toList, ex2Dates.map (fun d => (⟨d, ProductType.plain⟩ : Production))) :: ("DATELINE".toList, [(⟨"\x7bDATE\x7d \x7bCITY\x7d".toList, ProductType.plain⟩ : Production)]) :: ("OBJECT".toList, initPlainByList ex2Objects) :: ("QUOTE".toList, initPlainByList ex2Quotes) :: ("QUOTE_INTRO".toList, initPlainByList ex2QuoteIntros) :: ("SUBJECT".toList, initPlainByList ex2Subjects) :: ("SUBJECT_VERB_OBJECT".toList, [(⟨"\x7bSUBJECT\x7d \x7bVERB\x7d \x7bOBJECT\x7d".toList, ProductType.replace⟩ : Production)]) :: ("VERB".toList, initPlainByList ex2Verbs) :: ("start".toList, [(⟨"\x7bSUBJECT_VERB_OBJECT\x7d\n\x7bDATELINE\x7d\n\x7bCONTENT\x7d\n\x7bQUOTE_INTRO\x7d \x7bQUOTE\x7d".toList, ProductType.replace⟩ : Production)]) :: [])
    (insertC "CONTENT".toList (((((0) * 2 + data.getD (b) 0 / 2 ^ 2 % 2) * 2 + data.getD (b) 0 / 2 ^ 1 % 2) * 2 + data.getD (b) 0 / 2 ^ 0 % 2) % 256 % 8) (insertC "CITY".toList (((((((0) * 2 + data.getD (b) 0 / 2 ^ 7 % 2) * 2 + data.getD (b) 0 / 2 ^ 6 % 2) * 2 + data.getD (b) 0 / 2 ^ 5 % 2) * 2 + data.getD (b) 0 / 2 ^ 4 % 2) * 2 + data.getD (b) 0 / 2 ^ 3 % 2) % 256 % 32) (emptyC))) (b + 1) 0 =
    (ex2EncM (data.getD b 0) (data.getD (b + 1) 0) (data.getD (b + 2) 0)
      (data.getD (b + 3) 0), b + 4, 0)
  rw [esvDate data _ _ _ _ (show ¬ data.length ≤ (b + 1) from by omega)]
  rw [tbDate data b (by omega)]
  show encodeSentenceVars data
    (("DATELINE".toList, [(⟨"\x7bDATE\x7d \x7bCITY\x7d".toList, ProductType.plain⟩ : Production)]) :: ("OBJECT".toList, initPlainByList ex2Objects) :: ("QUOTE".toList, initPlainByList ex2Quotes) :: ("QUOTE_INTRO".toList, initPlainByList ex2QuoteIntros) :: ("SUBJECT".toList, initPlainByList ex2Subjects) :: ("SUBJECT_VERB_OBJECT".toList, [(⟨"\x7bSUBJECT\x7d \x7bVERB\x7d \x7bOBJECT\x7d".toList, ProductType.replace⟩ : Production)]) :: ("VERB".toList, initPlainByList ex2Verbs) :: ("start".toList, [(⟨"\x7bSUBJECT_VERB_OBJECT\x7d\n\x7bDATELINE\x7d\n\x7bCONTENT\x7d\n\x7bQUOTE_INTRO\x7d \x7bQUOTE\x7d".toList, ProductType.replace⟩ : Production)]) :: [])
    (insertC "DATE".toList (((((((0) * 2 + data.getD (b + 1) 0 / 2 ^ 7 % 2) * 2 + data.getD (b + 1) 0 / 2 ^ 6 % 2) * 2 + data.getD (b + 1) 0 / 2 ^ 5 % 2) * 2 + data.getD (b + 1) 0 / 2 ^ 4 % 2) * 2 + data.getD (b + 1) 0 / 2 ^ 3 % 2) % 256 % 32) (insertC "CONTENT".toList (((((0) * 2 + data.getD (b) 0 / 2 ^ 2 % 2) * 2 + data.getD (b) 0 / 2 ^ 1 % 2) * 2 + data.getD (b) 0 / 2 ^ 0 % 2) % 256 % 8) (insertC "CITY".toList (((((((0) * 2 + data.getD (b) 0 / 2 ^ 7 % 2) * 2 + data.getD (b) 0 / 2 ^ 6 % 2) * 2 + data.getD (b) 0 / 2 ^ 5 % 2) * 2 + data.getD (b) 0 / 2 ^ 4 % 2) * 2 + data.getD (b) 0 / 2 ^ 3 % 2) % 256 % 32) (emptyC)))) (b + 1) 5 =
    (ex2EncM (data.getD b 0) (data.getD (b + 1) 0) (data.getD (b + 2) 0)
      (data.getD (b + 3) 0), b + 4, 0)
  rw [esvDateline data _ _ _ _]
  rw [esvObj data _ _ _ _ (show ¬ data.length ≤ (b + 1) from by omega)]
  rw [tbObj data b (by omega)]
  show encodeSentenceVars data
    (("QUOTE".toList, initPlainByList ex2Quotes) :: ("QUOTE_INTRO".toList, initPlainByList ex2QuoteIntros) :: ("SUBJECT".toList, initPlainByList ex2Subjects) :: ("SUBJECT_VERB_OBJECT".toList, [(⟨"\x7bSUBJECT\x7d \x7bVERB\x7d \x7bOBJECT\x7d".toList, ProductType.replace⟩ : Production)]) :: ("VERB".toList, initPlainByList ex2Verbs) :: ("start".toList, [(⟨"\x7bSUBJECT_VERB_OBJECT\x7d\n\x7bDATELINE\x7d\n\x7bCONTENT\x7d\n\x7bQUOTE_INTRO\x7d \x7bQUOTE\x7d".toList, ProductType.replace⟩ : Production)]) :: [])
    (insertC "OBJECT".toList (((((((0) * 2 + data.getD (b + 1) 0 / 2 ^ 2 % 2) * 2 + data.getD (b + 1) 0 / 2 ^ 1 % 2) * 2 + data.getD (b + 1) 0 / 2 ^ 0 % 2) * 2 + data.getD (b + 2) 0 / 2 ^ 7 % 2) * 2 + data.getD (b + 2) 0 / 2 ^ 6 % 2) % 256 % 32) (insertC "DATE".toList (((((((0) * 2 + data.getD (b + 1) 0 / 2 ^ 7 % 2) * 2 + data.getD (b + 1) 0 / 2 ^ 6 % 2) * 2 + data.getD (b + 1) 0 / 2 ^ 5 % 2) * 2 + data.getD (b + 1) 0 / 2 ^ 4 % 2) * 2 + data.getD (b + 1) 0 / 2 ^ 3 % 2) % 256 % 32) (insertC "CONTENT".toList (((((0) * 2 + data.getD (b) 0 / 2 ^ 2 % 2) * 2 + data.getD (b) 0 / 2 ^ 1 % 2) * 2 + data.getD (b) 0 / 2 ^ 0 % 2) % 256 % 8) (insertC "CITY".toList (((((((0) * 2 + data.getD (b) 0 / 2 ^ 7 % 2) * 2 + data.getD (b) 0 / 2 ^ 6 % 2) * 2 + data.getD (b) 0 / 2 ^ 5 % 2) * 2 + data.getD (b) 0 / 2 ^ 4 % 2) * 2 + data.getD (b) 0 / 2 ^ 3 % 2) % 256 % 32) (emptyC))))) (b + 2) 2 =
    (ex2EncM (data.getD b 0) (data.getD (b + 1) 0) (data.getD (b + 2) 0)
      (data.getD (b + 3) 0), b + 4, 0)
  rw [esvQuote data _ _ _ _ (show ¬ data.length ≤ (b + 2) from by omega)]
  rw [tbQuote data b (by omega)]
  show encodeSentenceVars data
    (("QUOTE_INTRO".toList, initPlainByList ex2QuoteIntros) :: ("SUBJECT".toList, initPlainByList ex2Subjects) :: ("SUBJECT_VERB_OBJECT".toList, [(⟨"\x7bSUBJECT\x7d \x7bVERB\x7d \x7bOBJECT\x7d".toList, ProductType.replace⟩ : Production)]) :: ("VERB".toList, initPlainByList ex2Verbs) :: ("start".toList, [(⟨"\x7bSUBJECT_VERB_OBJECT\x7d\n\x7bDATELINE\x7d\n\x7bCONTENT\x7d\n\x7bQUOTE_INTRO\x7d \x7bQUOTE\x7d".toList, ProductType.replace⟩ : Production)]) :: [])
    (insertC "QUOTE".toList (((((0) * 2 + data.getD (b + 2) 0 / 2 ^ 5 % 2) * 2 + data.getD (b + 2) 0 / 2 ^ 4 % 2) * 2 + data.getD (b + 2) 0 / 2 ^ 3 % 2) % 256 % 8) (insertC "OBJECT".toList (((((((0) * 2 + data.getD (b + 1) 0 / 2 ^ 2 % 2) * 2 + data.getD (b + 1) 0 / 2 ^ 1 % 2) * 2 + data.getD (b + 1) 0 / 2 ^ 0 % 2) * 2 + data.getD (b + 2) 0 / 2 ^ 7 % 2) * 2 + data.getD (b + 2) 0 / 2 ^ 6 % 2) % 256 % 32) (insertC "DATE".toList (((((((0) * 2 + data.getD (b + 1) 0 / 2 ^ 7 % 2) * 2 + data.getD (b + 1) 0 / 2 ^ 6 % 2) * 2 + data.getD (b + 1) 0 / 2 ^ 5 % 2) * 2 + data.getD (b + 1) 0 / 2 ^ 4 % 2) * 2 + data.getD (b + 1) 0 / 2 ^ 3 % 2) % 256 % 32) (insertC "CONTENT".toList (((((0) * 2 + data.getD (b) 0 / 2 ^ 2 % 2) * 2 + data.getD (b) 0 / 2 ^ 1 % 2) * 2 + data.getD (b) 0 / 2 ^ 0 % 2) % 256 % 8) (insertC "CITY".toList (((((((0) * 2 + data.getD (b) 0 / 2 ^ 7 % 2) * 2 + data.getD (b) 0 / 2 ^ 6 % 2) * 2 + data.getD (b) 0 / 2 ^ 5 % 2) * 2 + data.getD (b) 0 / 2 ^ 4 % 2) * 2 + data.getD (b) 0 / 2 ^ 3 % 2) % 256 % 32) (emptyC)))))) (b + 2) 5 =
    (ex2EncM (data.getD b 0) (data.getD (b + 1) 0) (data.getD (b + 2) 0)
      (data.getD (b + 3) 0), b + 4, 0)
  rw [esvQi data _ _ _ _ (show ¬ data.length ≤ (b + 2) from by omega)]
  rw [tbQi data b (by omega)]
  show encodeSentenceVars data
    (("SUBJECT".toList, initPlainByList ex2Subjects) :: ("SUBJECT_VERB_OBJECT".toList, [(⟨"\x7bSUBJECT\x7d \x7bVERB\x7d \x7bOBJECT\x7d".toList, ProductType.replace⟩ : Production)]) :: ("VERB".toList, initPlainByList ex2Verbs) :: ("start".toList, [(⟨"\x7bSUBJECT_VERB_OBJECT\x7d\n\x7bDATELINE\x7d\n\x7bCONTENT\x7d\n\x7bQUOTE_INTRO\x7d \x7bQUOTE\x7d".toList, ProductType.replace⟩ : Production)]) :: [])
    (insertC "QUOTE_INTRO".toList ((((0) * 2 + data.getD (b + 2) 0 / 2 ^ 2 % 2) * 2 + data.getD (b + 2) 0 / 2 ^ 1 % 2) % 256 % 4) (insertC "QUOTE".toList (((((0) * 2 + data.getD (b + 2) 0 / 2 ^ 5 % 2) * 2 + data.getD (b + 2) 0 / 2 ^ 4 % 2) * 2 + data.getD (b + 2) 0 / 2 ^ 3 % 2) % 256 % 8) (insertC "OBJECT".toList (((((((0) * 2 + data.getD (b + 1) 0 / 2 ^ 2 % 2) * 2 + data.getD (b + 1) 0 / 2 ^ 1 % 2) * 2 + data.getD (b + 1) 0 / 2 ^ 0 % 2) * 2 + data.getD (b + 2) 0 / 2 ^ 7 % 2) * 2 + data.getD (b + 2) 0 / 2 ^ 6 % 2) % 256 % 32) (insertC "DATE".toList (((((((0) * 2 + data.getD (b + 1) 0 / 2 ^ 7 % 2) * 2 + data.getD (b + 1) 0 / 2 ^ 6 % 2) * 2 + data.getD (b + 1) 0 / 2 ^ 5 % 2) * 2 + data.getD (b + 1) 0 / 2 ^ 4 % 2) * 2 + data.getD (b + 1) 0 / 2 ^ 3 % 2) % 256 % 32) (insertC "CONTENT".toList (((((0) * 2 + data.getD (b) 0 / 2 ^ 2 % 2) * 2 + data.getD (b) 0 / 2 ^ 1 % 2) * 2 + data.getD (b) 0 / 2 ^ 0 % 2) % 256 % 8) (insertC "CITY".toList (((((((0) * 2 + data.getD (b) 0 / 2 ^ 7 % 2) * 2 + data.getD (b) 0 / 2 ^ 6 % 2) * 2 + data.getD (b) 0 / 2 ^ 5 % 2) * 2 + data.getD (b) 0 / 2 ^ 4 % 2) * 2 + data.getD (b) 0 / 2 ^ 3 % 2) % 256 % 32) (emptyC))))))) (b + 2) 7 =
    (ex2EncM (data.getD b 0) (data.getD (b + 1) 0) (data.getD (b + 2) 0)
      (data.getD (b + 3) 0), b + 4, 0)
  rw [esvSubj data _ _ _ _ (show ¬ data.length ≤ (b + 2) from by omega)]
  rw [tbSubj data b (by omega)]
  show encodeSentenceVars data
    (("SUBJECT_VERB_OBJECT".toList, [(⟨"\x7bSUBJECT\x7d \x7bVERB\x7d \x7bOBJECT\x7d".toList, ProductType.replace⟩ : Production)]) :: ("VERB".toList, initPlainByList ex2Verbs) :: ("start".toList, [(⟨"\x7bSUBJECT_VERB_OBJECT\x7d\n\x7bDATELINE\x7d\n\x7bCONTENT\x7d\n\x7bQUOTE_INTRO\x7d \x7bQUOTE\x7d".toList, ProductType.replace⟩ : Production)]) :: [])
    (insertC "SUBJECT".toList (((((((0) * 2 + data.getD (b + 2) 0 / 2 ^ 0 % 2) * 2 + data.getD (b + 3) 0 / 2 ^ 7 % 2) * 2 + data.getD (b + 3) 0 / 2 ^ 6 % 2) * 2 + data.getD (b + 3) 0 / 2 ^ 5 % 2) * 2 + data.getD (b + 3) 0 / 2 ^ 4 % 2) % 256 % 32) (insertC "QUOTE_INTRO".toList ((((0) * 2 + data.getD (b + 2) 0 / 2 ^ 2 % 2) * 2 + data.getD (b + 2) 0 / 2 ^ 1 % 2) % 256 % 4) (insertC "QUOTE".toList (((((0) * 2 + data.getD (b + 2) 0 / 2 ^ 5 % 2) * 2 + data.getD (b + 2) 0 / 2 ^ 4 % 2) * 2 + data.getD (b + 2) 0 / 2 ^ 3 % 2) % 256 % 8) (insertC "OBJECT".toList (((((((0) * 2 + data.getD (b + 1) 0 / 2 ^ 2 % 2) * 2 + data.getD (b + 1) 0 / 2 ^ 1 % 2) * 2 + data.getD (b + 1) 0 / 2 ^ 0 % 2) * 2 + data.getD (b + 2) 0 / 2 ^ 7 % 2) * 2 + data.getD (b + 2) 0 / 2 ^ 6 % 2) % 256 % 32) (insertC "DATE".toList (((((((0) * 2 + data.getD (b + 1) 0 / 2 ^ 7 % 2) * 2 + data.getD (b + 1) 0 / 2 ^ 6 % 2) * 2 + data.getD (b + 1) 0 / 2 ^ 5 % 2) * 2 + data.getD (b + 1) 0 / 2 ^ 4 % 2) * 2 + data.getD (b + 1) 0 / 2 ^ 3 % 2) % 256 % 32) (insertC "CONTENT".toList (((((0) * 2 + data.getD (b) 0 / 2 ^ 2 % 2) * 2 + data.getD (b) 0 / 2 ^ 1 % 2) * 2 + data.getD (b) 0 / 2 ^ 0 % 2) % 256 % 8) (insertC "CITY".toList (((((((0) * 2 + data.getD (b) 0 / 2 ^ 7 % 2) * 2 + data.getD (b) 0 / 2 ^ 6 % 2) * 2 + data.getD (b) 0 / 2 ^ 5 % 2) * 2 + data.getD (b) 0 / 2 ^ 4 % 2) * 2 + data.getD (b) 0 / 2 ^ 3 % 2) % 256 % 32) (emptyC)))))))) (b + 3) 4 =
    (ex2EncM (data.getD b 0) (data.getD (b + 1) 0) (data.getD (b + 2) 0)
      (data.getD (b + 3) 0), b + 4, 0)
  rw [esvSvo data _ _ _ _]
  rw [esvVerb data _ _ _ _ (show ¬ data.length ≤ (b + 3) from by omega)]
  rw [tbVerb data b (by omega)]
  show encodeSentenceVars data
    (("start".toList, [(⟨"\x7bSUBJECT_VERB_OBJECT\x7d\n\x7bDATELINE\x7d\n\x7bCONTENT\x7d\n\x7bQUOTE_INTRO\x7d \x7bQUOTE\x7d".toList, ProductType.replace⟩ : Production)]) :: [])
    (insertC "VERB".toList ((((((0) * 2 + data.getD (b + 3) 0 / 2 ^ 3 % 2) * 2 + data.getD (b + 3) 0 / 2 ^ 2 % 2) * 2 + data.getD (b + 3) 0 / 2 ^ 1 % 2) * 2 + data.getD (b + 3) 0 / 2 ^ 0 % 2) % 256 % 16) (insertC "SUBJECT".toList (((((((0) * 2 + data.getD (b + 2) 0 / 2 ^ 0 % 2) * 2 + data.getD (b + 3) 0 / 2 ^ 7 % 2) * 2 + data.getD (b + 3) 0 / 2 ^ 6 % 2) * 2 + data.getD (b + 3) 0 / 2 ^ 5 % 2) * 2 + data.getD (b + 3) 0 / 2 ^ 4 % 2) % 256 % 32) (insertC "QUOTE_INTRO".toList ((((0) * 2 + data.getD (b + 2) 0 / 2 ^ 2 % 2) * 2 + data.getD (b + 2) 0 / 2 ^ 1 % 2) % 256 % 4) (insertC "QUOTE".toList (((((0) * 2 + data.getD (b + 2) 0 / 2 ^ 5 % 2) * 2 + data.getD (b + 2) 0 / 2 ^ 4 % 2) * 2 + data.getD (b + 2) 0 / 2 ^ 3 % 2) % 256 % 8) (insertC "OBJECT".toList (((((((0) * 2 + data.getD (b + 1) 0 / 2 ^ 2 % 2) * 2 + data.getD (b + 1) 0 / 2 ^ 1 % 2) * 2 + data.getD (b + 1) 0 / 2 ^ 0 % 2) * 2 + data.getD (b + 2) 0 / 2 ^ 7 % 2) * 2 + data.getD (b + 2) 0 / 2 ^ 6 % 2) % 256 % 32) (insertC "DATE".toList (((((((0) * 2 + data.getD (b + 1) 0 / 2 ^ 7 % 2) * 2 + data.getD (b + 1) 0 / 2 ^ 6 % 2) * 2 + data.getD (b + 1) 0 / 2 ^ 5 % 2) * 2 + data.getD (b + 1) 0 / 2 ^ 4 % 2) * 2 + data.getD (b + 1) 0 / 2 ^ 3 % 2) % 256 % 32) (insertC "CONTENT".toList (((((0) * 2 + data.getD (b) 0 / 2 ^ 2 % 2) * 2 + data.getD (b) 0 / 2 ^ 1 % 2) * 2 + data.getD (b) 0 / 2 ^ 0 % 2) % 256 % 8) (insertC "CITY".toList (((((((0) * 2 + data.getD (b) 0 / 2 ^ 7 % 2) * 2 + data.getD (b) 0 / 2 ^ 6 % 2) * 2 + data.getD (b) 0 / 2 ^ 5 % 2) * 2 + data.getD (b) 0 / 2 ^ 4 % 2) * 2 + data.getD (b) 0 / 2 ^ 3 % 2) % 256 % 32) (emptyC))))))))) (b + 4) 0 =
    (ex2EncM (data.getD b 0) (data.getD (b + 1) 0) (data.getD (b + 2) 0)
      (data.getD (b + 3) 0), b + 4, 0)
  rw [esvStart data _ _ _ _]
  show ((insertC "VERB".toList ((((((0) * 2 + data.getD (b + 3) 0 / 2 ^ 3 % 2) * 2 + data.getD (b + 3) 0 / 2 ^ 2 % 2) * 2 + data.getD (b + 3) 0 / 2 ^ 1 % 2) * 2 + data.getD (b + 3) 0 / 2 ^ 0 % 2) % 256 % 16) (insertC "SUBJECT".toList (((((((0) * 2 + data.getD (b + 2) 0 / 2 ^ 0 % 2) * 2 + data.getD (b + 3) 0 / 2 ^ 7 % 2) * 2 + data.getD (b + 3) 0 / 2 ^ 6 % 2) * 2 + data.getD (b + 3) 0 / 2 ^ 5 % 2) * 2 + data.getD (b + 3) 0 / 2 ^ 4 % 2) % 256 % 32) (insertC "QUOTE_INTRO".toList ((((0) * 2 + data.getD (b + 2) 0 / 2 ^ 2 % 2) * 2 + data.getD (b + 2) 0 / 2 ^ 1 % 2) % 256 % 4) (insertC "QUOTE".toList (((((0) * 2 + data.getD (b + 2) 0 / 2 ^ 5 % 2) * 2 + data.getD (b + 2) 0 / 2 ^ 4 % 2) * 2 + data.getD (b + 2) 0 / 2 ^ 3 % 2) % 256 % 8) (insertC "OBJECT".toList (((((((0) * 2 + data.getD (b + 1) 0 / 2 ^ 2 % 2) * 2 + data.getD (b + 1) 0 / 2 ^ 1 % 2) * 2 + data.getD (b + 1) 0 / 2 ^ 0 % 2) * 2 + data.getD (b + 2) 0 / 2 ^ 7 % 2) * 2 + data.getD (b + 2) 0 / 2 ^ 6 % 2) % 256 % 32) (insertC "DATE".toList (((((((0) * 2 + data.getD (b + 1) 0 / 2 ^ 7 % 2) * 2 + data.getD (b + 1) 0 / 2 ^ 6 % 2) * 2 + data.getD (b + 1) 0 / 2 ^ 5 % 2) * 2 + data.getD (b + 1) 0 / 2 ^ 4 % 2) * 2 + data.getD (b + 1) 0 / 2 ^ 3 % 2) % 256 % 32) (insertC "CONTENT".toList (((((0) * 2 + data.getD (b) 0 / 2 ^ 2 % 2) * 2 + data.getD (b) 0 / 2 ^ 1 % 2) * 2 + data.getD (b) 0 / 2 ^ 0 % 2) % 256 % 8) (insertC "CITY".toList (((((((0) * 2 + data.getD (b) 0 / 2 ^ 7 % 2) * 2 + data.getD (b) 0 / 2 ^ 6 % 2) * 2 + data.getD (b) 0 / 2 ^ 5 % 2) * 2 + data.getD (b) 0 / 2 ^ 4 % 2) * 2 + data.getD (b) 0 / 2 ^ 3 % 2) % 256 % 32) (emptyC))))))))), b + 4, (0 : Nat)) =
    (ex2EncM (data.getD b 0) (data.getD (b + 1) 0) (data.getD (b + 2) 0)
      (data.getD (b + 3) 0), b + 4, 0)
  have e1 : ((((((0) * 2 + data.getD (b) 0 / 2 ^ 7 % 2) * 2 + data.getD (b) 0 / 2 ^ 6 % 2) * 2 + data.getD (b) 0 / 2 ^ 5 % 2) * 2 + data.getD (b) 0 / 2 ^ 4 % 2) * 2 + data.getD (b) 0 / 2 ^ 3 % 2) % 256 % 32 = data.getD b 0 / 8 := by omega
  have e2 : ((((0) * 2 + data.getD (b) 0 / 2 ^ 2 % 2) * 2 + data.getD (b) 0 / 2 ^ 1 % 2) * 2 + data.getD (b) 0 / 2 ^ 0 % 2) % 256 % 8 = data.getD b 0 % 8 := by omega
  have e3 : ((((((0) * 2 + data.getD (b + 1) 0 / 2 ^ 7 % 2) * 2 + data.getD (b + 1) 0 / 2 ^ 6 % 2) * 2 + data.getD (b + 1) 0 / 2 ^ 5 % 2) * 2 + data.getD (b + 1) 0 / 2 ^ 4 % 2) * 2 + data.getD (b + 1) 0 / 2 ^ 3 % 2) % 256 % 32 = data.getD (b + 1) 0 / 8 := by omega
  have e4 : ((((((0) * 2 + data.getD (b + 1) 0 / 2 ^ 2 % 2) * 2 + data.getD (b + 1) 0 / 2 ^ 1 % 2) * 2 + data.getD (b + 1) 0 / 2 ^ 0 % 2) * 2 + data.getD (b + 2) 0 / 2 ^ 7 % 2) * 2 + data.getD (b + 2) 0 / 2 ^ 6 % 2) % 256 % 32 = data.getD (b + 1) 0 % 8 * 4 + data.getD (b + 2) 0 / 64 := by omega
  have e5 : ((((0) * 2 + data.getD (b + 2) 0 / 2 ^ 5 % 2) * 2 + data.getD (b + 2) 0 / 2 ^ 4 % 2) * 2 + data.getD (b + 2) 0 / 2 ^ 3 % 2) % 256 % 8 = data.getD (b + 2) 0 / 8 % 8 := by omega
  have e6 : (((0) * 2 + data.getD (b + 2) 0 / 2 ^ 2 % 2) * 2 + data.getD (b + 2) 0 / 2 ^ 1 % 2) % 256 % 4 = data.getD (b + 2) 0 / 2 % 4 := by omega
  have e7 : ((((((0) * 2 + data.getD (b + 2) 0 / 2 ^ 0 % 2) * 2 + data.getD (b + 3) 0 / 2 ^ 7 % 2) * 2 + data.getD (b + 3) 0 / 2 ^ 6 % 2) * 2 + data.getD (b + 3) 0 / 2 ^ 5 % 2) * 2 + data.getD (b + 3) 0 / 2 ^ 4 % 2) % 256 % 32 = data.getD (b + 2) 0 % 2 * 16 + data.getD (b + 3) 0 / 16 := by omega
  have e8 : (((((0) * 2 + data.getD (b + 3) 0 / 2 ^ 3 % 2) * 2 + data.getD (b + 3) 0 / 2 ^ 2 % 2) * 2 + data.getD (b + 3) 0 / 2 ^ 1 % 2) * 2 + data.getD (b + 3) 0 / 2 ^ 0 % 2) % 256 % 16 = data.getD (b + 3) 0 % 16 := by omega
  rw [e1, e2, e3, e4, e5, e6, e7, e8]
  rfl

set_option maxHeartbeats 1000000 in
/-- The trailing sentence of `CFGEncoder::encode` on `example2` when one
byte remains: CITY and CONTENT consume its 8 bits and the loop breaks at
DATE. -/
theorem esv_ex2_part (data : List Nat) (b : Nat)
    (hlast : data.length = b + 1) (h0 : data.getD b 0 < 256) :
    encodeSentenceVars data ex2.vars emptyC b 0 =
      (insertC "CONTENT".toList (data.getD b 0 % 8)
        (insertC "CITY".toList (data.getD b 0 / 8) emptyC), b + 1, 0) := by
  rw [ex2_vars_literal]
  rw [esvCity data _ _ _ _ (show ¬ data.length ≤ b from by omega)]
  rw [tbCity data b (by omega)]
  show encodeSentenceVars data
    (("CONTENT".toList, initPlainByList ex2Content) :: ("DATE".toList, ex2Dates.map (fun d => (⟨d, ProductType.plain⟩ : Production))) :: ("DATELINE".toList, [(⟨"\x7bDATE\x7d \x7bCITY\x7d".toList, ProductType.plain⟩ : Production)]) :: ("OBJECT".toList, initPlainByList ex2Objects) :: ("QUOTE".toList, initPlainByList ex2Quotes) :: ("QUOTE_INTRO".toList, initPlainByList ex2QuoteIntros) :: ("SUBJECT".toList, initPlainByList ex2Subjects) :: ("SUBJECT_VERB_OBJECT".toList, [(⟨"\x7bSUBJECT\x7d \x7bVERB\x7d \x7bOBJECT\x7d".toList, ProductType.replace⟩ : Production)]) :: ("VERB".toList, initPlainByList ex2Verbs) :: ("start".toList, [(⟨"\x7bSUBJECT_VERB_OBJECT\x7d\n\x7bDATELINE\x7d\n\x7bCONTENT\x7d\n\x7bQUOTE_INTRO\x7d \x7bQUOTE\x7d".toList, ProductType.replace⟩ : Production)]) :: [])
    (insertC "CITY".toList (((((((0) * 2 + data.getD (b) 0 / 2 ^ 7 % 2) * 2 + data.getD (b) 0 / 2 ^ 6 % 2) * 2 + data.getD (b) 0 / 2 ^ 5 % 2) * 2 + data.getD (b) 0 / 2 ^ 4 % 2) * 2 + data.getD (b) 0 / 2 ^ 3 % 2) % 256 % 32) (emptyC)) b 5 =
    (insertC "CONTENT".toList (data.getD b 0 % 8)
      (insertC "CITY".toList (data.getD b 0 / 8) emptyC), b + 1, 0)
  rw [esvCont data _ _ _ _ (show ¬ data.length ≤ b from by omega)]
  rw [tbCont data b (by omega)]
  show encodeSentenceVars data
    (("DATE".toList, ex2Dates.map (fun d => (⟨d, ProductType.plain⟩ : Production))) :: ("DATELINE".toList, [(⟨"\x7bDATE\x7d \x7bCITY\x7d".toList, ProductType.plain⟩ : Production)]) :: ("OBJECT".toList, initPlainByList ex2Objects) :: ("QUOTE".toList, initPlainByList ex2Quotes) :: ("QUOTE_INTRO".toList, initPlainByList ex2QuoteIntros) :: ("SUBJECT".toList, initPlainByList ex2Subjects) :: ("SUBJECT_VERB_OBJECT".toList, [(⟨"\x7bSUBJECT\x7d \x7bVERB\x7d \x7bOBJECT\x7d".toList, ProductType.replace⟩ : Production)]) :: ("VERB".toList, initPlainByList ex2Verbs) :: ("start".toList, [(⟨"\x7bSUBJECT_VERB_OBJECT\x7d\n\x7bDATELINE\x7d\n\x7bCONTENT\x7d\n\x7bQUOTE_INTRO\x7d \x7bQUOTE\x7d".toList, ProductType.replace⟩ : Production)]) :: [])
    (insertC "CONTENT".toList (((((0) * 2 + data.getD (b) 0 / 2 ^ 2 % 2) * 2 + data.getD (b) 0 / 2 ^ 1 % 2) * 2 + data.getD (b) 0 / 2 ^ 0 % 2) % 256 % 8) (insertC "CITY".toList (((((((0) * 2 + data.getD (b) 0 / 2 ^ 7 % 2) * 2 + data.getD (b) 0 / 2 ^ 6 % 2) * 2 + data.getD (b) 0 / 2 ^ 5 % 2) * 2 + data.getD (b) 0 / 2 ^ 4 % 2) * 2 + data.getD (b) 0 / 2 ^ 3 % 2) % 256 % 32) (emptyC))) (b + 1) 0 =
    (insertC "CONTENT".toList (data.getD b 0 % 8)
      (insertC "CITY".toList (data.getD b 0 / 8) emptyC), b + 1, 0)
  rw [esvDateBreak data _ _ _ _ (by omega)]
  have e1 : ((((((0) * 2 + data.getD (b) 0 / 2 ^ 7 % 2) * 2 + data.getD (b) 0 / 2 ^ 6 % 2) * 2 + data.getD (b) 0 / 2 ^ 5 % 2) * 2 + data.getD (b) 0 / 2 ^ 4 % 2) * 2 + data.getD (b) 0 / 2 ^ 3 % 2) % 256 % 32 = data.getD b 0 / 8 := by omega
  have e2 : ((((0) * 2 + data.getD (b) 0 / 2 ^ 2 % 2) * 2 + data.getD (b) 0 / 2 ^ 1 % 2) * 2 + data.getD (b) 0 / 2 ^ 0 % 2) % 256 % 8 = data.getD b 0 % 8 := by omega
  rw [e1, e2]

theorem ex2M_get_QUOTE (iS iV iO iD iC iCo iQi iQ : Nat) (m : Choices) :
    ex2M iS iV iO iD iC iCo iQi iQ m "QUOTE".toList = some iQ := by
  simp only [ex2M]
  exact insertC_get_same _ _ _


theorem ex2M_get_QUOTE_INTRO (iS iV iO iD iC iCo iQi iQ : Nat) (m : Choices) :
    ex2M iS iV iO iD iC iCo iQi iQ m "QUOTE_INTRO".toList = some iQi := by
  simp only [ex2M]
  rw [insertC_get_other _ _ _ _ (by decide)]
  exact insertC_get_same _ _ _


theorem ex2M_get_CONTENT (iS iV iO iD iC iCo iQi iQ : Nat) (m : Choices) :
    ex2M iS iV iO iD iC iCo iQi iQ m "CONTENT".toList = some iCo := by
  simp only [ex2M]
  rw [insertC_get_other _ _ _ _ (by decide)]
  rw [insertC_get_other _ _ _ _ (by decide)]
  exact insertC_get_same _ _ _


theorem ex2M_get_CITY (iS iV iO iD iC iCo iQi iQ : Nat) (m : Choices) :
    ex2M iS iV iO iD iC iCo iQi iQ m "CITY".toList = some iC := by
  simp only [ex2M]
  rw [insertC_get_other _ _ _ _ (by decide)]
  rw [insertC_get_other _ _ _ _ (by decide)]
  rw [insertC_get_other _ _ _ _ (by decide)]
  exact insertC_get_same _ _ _


theorem ex2M_get_DATE (iS iV iO iD iC iCo iQi iQ : Nat) (m : Choices) :
    ex2M iS iV iO iD iC iCo iQi iQ m "DATE".toList = some iD := by
  simp only [ex2M]
  rw [insertC_get_other _ _ _ _ (by decide)]
  rw [insertC_get_other _ _ _ _ (by decide)]
  rw [insertC_get_other _ _ _ _ (by decide)]
  rw [insertC_get_other _ _ _ _ (by decide)]
  exact insertC_get_same _ _ _


theorem ex2M_get_DATELINE (iS iV iO iD iC iCo iQi iQ : Nat) (m : Choices) :
    ex2M iS iV iO iD iC iCo iQi iQ m "DATELINE".toList = some 0 := by
  simp only [ex2M]
  rw [insertC_get_other _ _ _ _ (by decide)]
  rw [insertC_get_other _ _ _ _ (by decide)]
  rw [insertC_get_other _ _ _ _ (by decide)]
  rw [insertC_get_other _ _ _ _ (by decide)]
  rw [insertC_get_other _ _ _ _ (by decide)]
  exact insertC_get_same _ _ _


theorem ex2M_get_OBJECT (iS iV iO iD iC iCo iQi iQ : Nat) (m : Choices) :
    ex2M iS iV iO iD iC iCo iQi iQ m "OBJECT".toList = some iO := by
  simp only [ex2M]
  rw [insertC_get_other _ _ _ _ (by decide)]
  rw [insertC_get_other _ _ _ _ (by decide)]
  rw [insertC_get_other _ _ _ _ (by decide)]
  rw [insertC_get_other _ _ _ _ (by decide)]
  rw [insertC_get_other _ _ _ _ (by decide)]
  rw [insertC_get_other _ _ _ _ (by decide)]
  exact insertC_get_same _ _ _


theorem ex2M_get_VERB (iS iV iO iD iC iCo iQi iQ : Nat) (m : Choices) :
    ex2M iS iV iO iD iC iCo iQi iQ m "VERB".toList = some iV := by
  simp only [ex2M]
  rw [insertC_get_other _ _ _ _ (by decide)]
  rw [insertC_get_other _ _ _ _ (by decide)]
  rw [insertC_get_other _ _ _ _ (by decide)]
  rw [insertC_get_other _ _ _ _ (by decide)]
  rw [insertC_get_other _ _ _ _ (by decide)]
  rw [insertC_get_other _ _ _ _ (by decide)]
  rw [insertC_get_other _ _ _ _ (by decide)]
  exact insertC_get_same _ _ _


theorem ex2M_get_SUBJECT (iS iV iO iD iC iCo iQi iQ : Nat) (m : Choices) :
    ex2M iS iV iO iD iC iCo iQi iQ m "SUBJECT".toList = some iS := by
  simp only [ex2M]
  rw [insertC_get_other _ _ _ _ (by decide)]
  rw [insertC_get_other _ _ _ _ (by decide)]
  rw [insertC_get_other _ _ _ _ (by decide)]
  rw [insertC_get_other _ _ _ _ (by decide)]
  rw [insertC_get_other _ _ _ _ (by decide)]
  rw [insertC_get_other _ _ _ _ (by decide)]
  rw [insertC_get_other _ _ _ _ (by decide)]
  rw [insertC_get_other _ _ _ _ (by decide)]
  exact insertC_get_same _ _ _


theorem ex2M_get_SVO (iS iV iO iD iC iCo iQi iQ : Nat) (m : Choices) :
    ex2M iS iV iO iD iC iCo iQi iQ m "SUBJECT_VERB_OBJECT".toList = some 0 := by
  simp only [ex2M]
  rw [insertC_get_other _ _ _ _ (by decide)]
  rw [insertC_get_other _ _ _ _ (by decide)]
  rw [insertC_get_other _ _ _ _ (by decide)]
  rw [insertC_get_other _ _ _ _ (by decide)]
  rw [insertC_get_other _ _ _ _ (by decide)]
  rw [insertC_get_other _ _ _ _ (by decide)]
  rw [insertC_get_other _ _ _ _ (by decide)]
  rw [insertC_get_other _ _ _ _ (by decide)]
  rw [insertC_get_other _ _ _ _ (by decide)]
  exact insertC_get_same _ _ _


theorem ex2M_get_start (iS iV iO iD iC iCo iQi iQ : Nat) (m : Choices) :
    ex2M iS iV iO iD iC iCo iQi iQ m "start".toList = some 0 := by
  simp only [ex2M]
  rw [insertC_get_other _ _ _ _ (by decide)]
  rw [insertC_get_other _ _ _ _ (by decide)]
  rw [insertC_get_other _ _ _ _ (by decide)]
  rw [insertC_get_other _ _ _ _ (by decide)]
  rw [insertC_get_other _ _ _ _ (by decide)]
  rw [insertC_get_other _ _ _ _ (by decide)]
  rw [insertC_get_other _ _ _ _ (by decide)]
  rw [insertC_get_other _ _ _ _ (by decide)]
  rw [insertC_get_other _ _ _ _ (by decide)]
  rw [insertC_get_other _ _ _ _ (by decide)]
  exact insertC_get_same _ _ _


theorem ex2EncM_get_VERB (d0 d1 d2 d3 : Nat) :
    ex2EncM d0 d1 d2 d3 "VERB".toList = some (d3 % 16) := by
  simp only [ex2EncM]
  exact insertC_get_same _ _ _


theorem ex2EncM_get_SUBJECT (d0 d1 d2 d3 : Nat) :
    ex2EncM d0 d1 d2 d3 "SUBJECT".toList = some (d2 % 2 * 16 + d3 / 16) := by
  simp only [ex2EncM]
  rw [insertC_get_other _ _ _ _ (by decide)]
  exact insertC_get_same _ _ _


theorem ex2EncM_get_QUOTE_INTRO (d0 d1 d2 d3 : Nat) :
    ex2EncM d0 d1 d2 d3 "QUOTE_INTRO".toList = some (d2 / 2 % 4) := by
  simp only [ex2EncM]
  rw [insertC_get_other _ _ _ _ (by decide)]
  rw [insertC_get_other _ _ _ _ (by decide)]
  exact insertC_get_same _ _ _


theorem ex2EncM_get_QUOTE (d0 d1 d2 d3 : Nat) :
    ex2EncM d0 d1 d2 d3 "QUOTE".toList = some (d2 / 8 % 8) := by
  simp only [ex2EncM]
  rw [insertC_get_other _ _ _ _ (by decide)]
  rw [insertC_get_other _ _ _ _ (by decide)]
  rw [insertC_get_other _ _ _ _ (by decide)]
  exact insertC_get_same _ _ _


theorem ex2EncM_get_OBJECT (d0 d1 d2 d3 : Nat) :
    ex2EncM d0 d1 d2 d3 "OBJECT".toList = some (d1 % 8 * 4 + d2 / 64) := by
  simp only [ex2EncM]
  rw [insertC_get_other _ _ _ _ (by decide)]
  rw [insertC_get_other _ _ _ _ (by decide)]
  rw [insertC_get_other _ _ _ _ (by decide)]
  rw [insertC_get_other _ _ _ _ (by decide)]
  exact insertC_get_same _ _ _


theorem ex2EncM_get_DATE (d0 d1 d2 d3 : Nat) :
    ex2EncM d0 d1 d2 d3 "DATE".toList = some (d1 / 8) := by
  simp only [ex2EncM]
  rw [insertC_get_other _ _ _ _ (by decide)]
  rw [insertC_get_other _ _ _ _ (by decide)]
  rw [insertC_get_other _ _ _ _ (by decide)]
  rw [insertC_get_other _ _ _ _ (by decide)]
  rw [insertC_get_other _ _ _ _ (by decide)]
  exact insertC_get_same _ _ _


theorem ex2EncM_get_CONTENT (d0 d1 d2 d3 : Nat) :
    ex2EncM d0 d1 d2 d3 "CONTENT".toList = some (d0 % 8) := by
  simp only [ex2EncM]
  rw [insertC_get_other _ _ _ _ (by decide)]
  rw [insertC_get_other _ _ _ _ (by decide)]
  rw [insertC_get_other _ _ _ _ (by decide)]
  rw [insertC_get_other _ _ _ _ (by decide)]
  rw [insertC_get_other _ _ _ _ (by decide)]
  rw [insertC_get_other _ _ _ _ (by decide)]
  exact insertC_get_same _ _ _


theorem ex2EncM_get_CITY (d0 d1 d2 d3 : Nat) :
    ex2EncM d0 d1 d2 d3 "CITY".toList = some (d0 / 8) := by
  simp only [ex2EncM]
  rw [insertC_get_other _ _ _ _ (by decide)]
  rw [insertC_get_other _ _ _ _ (by decide)]
  rw [insertC_get_other _ _ _ _ (by decide)]
  rw [insertC_get_other _ _ _ _ (by decide)]
  rw [insertC_get_other _ _ _ _ (by decide)]
  rw [insertC_get_other _ _ _ _ (by decide)]
  rw [insertC_get_other _ _ _ _ (by decide)]
  exact insertC_get_same _ _ _


theorem ex2EncM_get_start (d0 d1 d2 d3 : Nat) :
    ex2EncM d0 d1 d2 d3 "start".toList = none := by
  simp only [ex2EncM]
  rw [insertC_get_other _ _ _ _ (by decide)]
  rw [insertC_get_other _ _ _ _ (by decide)]
  rw [insertC_get_other _ _ _ _ (by decide)]
  rw [insertC_get_other _ _ _ _ (by decide)]
  rw [insertC_get_other _ _ _ _ (by decide)]
  rw [insertC_get_other _ _ _ _ (by decide)]
  rw [insertC_get_other _ _ _ _ (by decide)]
  rw [insertC_get_other _ _ _ _ (by decide)]
  rfl


theorem ex2EncM_get_SVO (d0 d1 d2 d3 : Nat) :
    ex2EncM d0 d1 d2 d3 "SUBJECT_VERB_OBJECT".toList = none := by
  simp only [ex2EncM]
  rw [insertC_get_other _ _ _ _ (by decide)]
  rw [insertC_get_other _ _ _ _ (by decide)]
  rw [insertC_get_other _ _ _ _ (by decide)]
  rw [insertC_get_other _ _ _ _ (by decide)]
  rw [insertC_get_other _ _ _ _ (by decide)]
  rw [insertC_get_other _ _ _ _ (by decide)]
  rw [insertC_get_other _ _ _ _ (by decide)]
  rw [insertC_get_other _ _ _ _ (by decide)]
  rfl


theorem ex2EncM_get_DATELINE (d0 d1 d2 d3 : Nat) :
    ex2EncM d0 d1 d2 d3 "DATELINE".toList = none := by
  simp only [ex2EncM]
  rw [insertC_get_other _ _ _ _ (by decide)]
  rw [insertC_get_other _ _ _ _ (by decide)]
  rw [insertC_get_other _ _ _ _ (by decide)]
  rw [insertC_get_other _ _ _ _ (by decide)]
  rw [insertC_get_other _ _ _ _ (by decide)]
  rw [insertC_get_other _ _ _ _ (by decide)]
  rw [insertC_get_other _ _ _ _ (by decide)]
  rw [insertC_get_other _ _ _ _ (by decide)]
  rfl

/-- The fold body of `choices_to_bytes`, named for stepwise evaluation. -/
def ctbF (choices : Choices) (st : List Nat × Nat × Nat)
    (pair : List Char × List Production) : List Nat × Nat × Nat :=
  let n := pair.2.length
  if n ≤ 1 then st
  else
    let w := floorLog2 n
    if w = 0 then st
    else
      let choice := (choices pair.1).getD 0
      let value := choice % 256 % (n % 256)
      (bitsMsb w value).foldl pushBit st

theorem ctb_body (g : CFG) (choices : Choices) :
    CFG.choicesToBytes g choices =
      (if (g.vars.foldl (ctbF choices) ([], 0, 0)).2.2 > 0
       then (g.vars.foldl (ctbF choices) ([], 0, 0)).1 ++
         [(g.vars.foldl (ctbF choices) ([], 0, 0)).2.1 *
           2 ^ (8 - (g.vars.foldl (ctbF choices) ([], 0, 0)).2.2)]
       else (g.vars.foldl (ctbF choices) ([], 0, 0)).1) := rfl

theorem bitsMsb5 (v : Nat) : bitsMsb 5 v =
    [v / 2 ^ 4 % 2, v / 2 ^ 3 % 2, v / 2 ^ 2 % 2, v / 2 ^ 1 % 2,
     v / 2 ^ 0 % 2] := rfl

theorem bitsMsb4 (v : Nat) : bitsMsb 4 v =
    [v / 2 ^ 3 % 2, v / 2 ^ 2 % 2, v / 2 ^ 1 % 2, v / 2 ^ 0 % 2] := rfl

theorem bitsMsb3 (v : Nat) : bitsMsb 3 v =
    [v / 2 ^ 2 % 2, v / 2 ^ 1 % 2, v / 2 ^ 0 % 2] := rfl

theorem bitsMsb2 (v : Nat) : bitsMsb 2 v =
    [v / 2 ^ 1 % 2, v / 2 ^ 0 % 2] := rfl

theorem pbRun_0_5 (res : List Nat) (cur b1 b2 b3 b4 b5 : Nat) :
    List.foldl pushBit (res, cur, 0) [b1, b2, b3, b4, b5] =
      (res, ((((cur * 2 + b1) * 2 + b2) * 2 + b3) * 2 + b4) * 2 + b5, 5) :=
  rfl

theorem pbRun_5_3 (res : List Nat) (cur b1 b2 b3 : Nat) :
    List.foldl pushBit (res, cur, 5) [b1, b2, b3] =
      (res ++ [((cur * 2 + b1) * 2 + b2) * 2 + b3], 0, 0) := rfl

theorem pbRun_5_5 (res : List Nat) (cur b1 b2 b3 b4 b5 : Nat) :
    List.foldl pushBit (res, cur, 5) [b1, b2, b3, b4, b5] =
      (res ++ [((cur * 2 + b1) * 2 + b2) * 2 + b3],
        (0 * 2 + b4) * 2 + b5, 2) := rfl

theorem pbRun_2_3 (res : List Nat) (cur b1 b2 b3 : Nat) :
    List.foldl pushBit (res, cur, 2) [b1, b2, b3] =
      (res, ((cur * 2 + b1) * 2 + b2) * 2 + b3, 5) := rfl

theorem pbRun_5_2 (res : List Nat) (cur b1 b2 : Nat) :
    List.foldl pushBit (res, cur, 5) [b1, b2] =
      (res, (cur * 2 + b1) * 2 + b2, 7) := rfl

theorem pbRun_7_5 (res : List Nat) (cur b1 b2 b3 b4 b5 : Nat) :
    List.foldl pushBit (res, cur, 7) [b1, b2, b3, b4, b5] =
      (res ++ [cur * 2 + b1],
        (((0 * 2 + b2) * 2 + b3) * 2 + b4) * 2 + b5, 4) := rfl

theorem pbRun_4_4 (res : List Nat) (cur b1 b2 b3 b4 : Nat) :
    List.foldl pushBit (res, cur, 4) [b1, b2, b3, b4] =
      (res ++ [(((cur * 2 + b1) * 2 + b2) * 2 + b3) * 2 + b4], 0, 0) := rfl

theorem ctbF_City (choices : Choices) (st : List Nat × Nat × Nat) :
    ctbF choices st ("CITY".toList, initPlainByList ex2Cities) =
      (bitsMsb 5 ((choices "CITY".toList).getD 0 % 256 % 32)).foldl
        pushBit st := rfl


theorem ctbF_Cont (choices : Choices) (st : List Nat × Nat × Nat) :
    ctbF choices st ("CONTENT".toList, initPlainByList ex2Content) =
      (bitsMsb 3 ((choices "CONTENT".toList).getD 0 % 256 % 8)).foldl
        pushBit st := rfl


theorem ctbF_Date (choices : Choices) (st : List Nat × Nat × Nat) :
    ctbF choices st ("DATE".toList, ex2Dates.map (fun d => (⟨d, ProductType.plain⟩ : Production))) =
      (bitsMsb 5 ((choices "DATE".toList).getD 0 % 256 % 32)).foldl
        pushBit st := rfl


theorem ctbF_Obj (choices : Choices) (st : List Nat × Nat × Nat) :
    ctbF choices st ("OBJECT".toList, initPlainByList ex2Objects) =
      (bitsMsb 5 ((choices "OBJECT".toList).getD 0 % 256 % 32)).foldl
        pushBit st := rfl


theorem ctbF_Quote (choices : Choices) (st : List Nat × Nat × Nat) :
    ctbF choices st ("QUOTE".toList, initPlainByList ex2Quotes) =
      (bitsMsb 3 ((choices "QUOTE".toList).getD 0 % 256 % 8)).foldl
        pushBit st := rfl


theorem ctbF_Qi (choices : Choices) (st : List Nat × Nat × Nat) :
    ctbF choices st ("QUOTE_INTRO".toList, initPlainByList ex2QuoteIntros) =
      (bitsMsb 2 ((choices "QUOTE_INTRO".toList).getD 0 % 256 % 4)).foldl
        pushBit st := rfl


theorem ctbF_Subj (choices : Choices) (st : List Nat × Nat × Nat) :
    ctbF choices st ("SUBJECT".toList, initPlainByList ex2Subjects) =
      (bitsMsb 5 ((choices "SUBJECT".toList).getD 0 % 256 % 32)).foldl
        pushBit st := rfl


theorem ctbF_Verb (choices : Choices) (st : List Nat × Nat × Nat) :
    ctbF choices st ("VERB".toList, initPlainByList ex2Verbs) =
      (bitsMsb 4 ((choices "VERB".toList).getD 0 % 256 % 16)).foldl
        pushBit st := rfl


theorem ctbF_Dl (choices : Choices) (st : List Nat × Nat × Nat) :
    ctbF choices st ("DATELINE".toList, [(⟨"\x7bDATE\x7d \x7bCITY\x7d".toList, ProductType.plain⟩ : Production)]) = st := rfl


theorem ctbF_Svo (choices : Choices) (st : List Nat × Nat × Nat) :
    ctbF choices st ("SUBJECT_VERB_OBJECT".toList, [(⟨"\x7bSUBJECT\x7d \x7bVERB\x7d \x7bOBJECT\x7d".toList, ProductType.replace⟩ : Production)]) = st := rfl


theorem ctbF_Start (choices : Choices) (st : List Nat × Nat × Nat) :
    ctbF choices st ("start".toList, [(⟨"\x7bSUBJECT_VERB_OBJECT\x7d\n\x7bDATELINE\x7d\n\x7bCONTENT\x7d\n\x7bQUOTE_INTRO\x7d \x7bQUOTE\x7d".toList, ProductType.replace⟩ : Production)]) = st := rfl

set_option maxHeartbeats 1000000 in
/-- `choices_to_bytes` on the matcher's sentence map re-emits the 32-bit
group as 4 bytes. -/
theorem ex2_bytes (iS iV iO iD iC iCo iQi iQ : Nat)
    (hS : iS < 32) (hV : iV < 16) (hO : iO < 32) (hD : iD < 32)
    (hC : iC < 32) (hCo : iCo < 8) (hQi : iQi < 4) (hQ : iQ < 8) :
    CFG.choicesToBytes ex2 (ex2M iS iV iO iD iC iCo iQi iQ emptyC) =
      [iC * 8 + iCo, iD * 8 + iO / 4,
       iO % 4 * 64 + iQ * 8 + iQi * 2 + iS / 16, iS % 16 * 16 + iV] := by
  have m1 : iC % 256 % 32 = iC := by omega
  have m2 : iCo % 256 % 8 = iCo := by omega
  have m3 : iD % 256 % 32 = iD := by omega
  have m4 : iO % 256 % 32 = iO := by omega
  have m5 : iQ % 256 % 8 = iQ := by omega
  have m6 : iQi % 256 % 4 = iQi := by omega
  have m7 : iS % 256 % 32 = iS := by omega
  have m8 : iV % 256 % 16 = iV := by omega
  have hst : List.foldl (ctbF (ex2M iS iV iO iD iC iCo iQi iQ emptyC))
      ([], 0, 0) ex2.vars =
      (((([] ++ [(((((((0 * 2 + iC / 2 ^ 4 % 2) * 2 + iC / 2 ^ 3 % 2) * 2 + iC / 2 ^ 2 % 2) * 2 + iC / 2 ^ 1 % 2) * 2 + iC / 2 ^ 0 % 2) * 2 + iCo / 2 ^ 2 % 2) * 2 + iCo / 2 ^ 1 % 2) * 2 + iCo / 2 ^ 0 % 2]) ++ [(((((((0 * 2 + iD / 2 ^ 4 % 2) * 2 + iD / 2 ^ 3 % 2) * 2 + iD / 2 ^ 2 % 2) * 2 + iD / 2 ^ 1 % 2) * 2 + iD / 2 ^ 0 % 2) * 2 + iO / 2 ^ 4 % 2) * 2 + iO / 2 ^ 3 % 2) * 2 + iO / 2 ^ 2 % 2]) ++ [(((((((0 * 2 + iO / 2 ^ 1 % 2) * 2 + iO / 2 ^ 0 % 2) * 2 + iQ / 2 ^ 2 % 2) * 2 + iQ / 2 ^ 1 % 2) * 2 + iQ / 2 ^ 0 % 2) * 2 + iQi / 2 ^ 1 % 2) * 2 + iQi / 2 ^ 0 % 2) * 2 + iS / 2 ^ 4 % 2]) ++ [(((((((0 * 2 + iS / 2 ^ 3 % 2) * 2 + iS / 2 ^ 2 % 2) * 2 + iS / 2 ^ 1 % 2) * 2 + iS / 2 ^ 0 % 2) * 2 + iV / 2 ^ 3 % 2) * 2 + iV / 2 ^ 2 % 2) * 2 + iV / 2 ^ 1 % 2) * 2 + iV / 2 ^ 0 % 2], 0, 0) := by
    rw [ex2_vars_literal]
    rw [List.foldl_cons, ctbF_City, ex2M_get_CITY iS iV iO iD iC iCo iQi iQ emptyC,
      Option.getD_some, m1, bitsMsb5, pbRun_0_5]
    rw [List.foldl_cons, ctbF_Cont, ex2M_get_CONTENT iS iV iO iD iC iCo iQi iQ emptyC,
      Option.getD_some, m2, bitsMsb3, pbRun_5_3]
    rw [List.foldl_cons, ctbF_Date, ex2M_get_DATE iS iV iO iD iC iCo iQi iQ emptyC,
      Option.getD_some, m3, bitsMsb5, pbRun_0_5]
    rw [List.foldl_cons, ctbF_Dl]
    rw [List.foldl_cons, ctbF_Obj, ex2M_get_OBJECT iS iV iO iD iC iCo iQi iQ emptyC,
      Option.getD_some, m4, bitsMsb5, pbRun_5_5]
    rw [List.foldl_cons, ctbF_Quote, ex2M_get_QUOTE iS iV iO iD iC iCo iQi iQ emptyC,
      Option.getD_some, m5, bitsMsb3, pbRun_2_3]
    rw [List.foldl_cons, ctbF_Qi, ex2M_get_QUOTE_INTRO iS iV iO iD iC iCo iQi iQ emptyC,
      Option.getD_some, m6, bitsMsb2, pbRun_5_2]
    rw [List.foldl_cons, ctbF_Subj, ex2M_get_SUBJECT iS iV iO iD iC iCo iQi iQ emptyC,
      Option.getD_some, m7, bitsMsb5, pbRun_7_5]
    rw [List.foldl_cons, ctbF_Svo]
    rw [List.foldl_cons, ctbF_Verb, ex2M_get_VERB iS iV iO iD iC iCo iQi iQ emptyC,
      Option.getD_some, m8, bitsMsb4, pbRun_4_4]
    rw [List.foldl_cons, ctbF_Start]
    rfl
  rw [ctb_body, hst]
  show (((([] ++ [(((((((0 * 2 + iC / 2 ^ 4 % 2) * 2 + iC / 2 ^ 3 % 2) * 2 + iC / 2 ^ 2 % 2) * 2 + iC / 2 ^ 1 % 2) * 2 + iC / 2 ^ 0 % 2) * 2 + iCo / 2 ^ 2 % 2) * 2 + iCo / 2 ^ 1 % 2) * 2 + iCo / 2 ^ 0 % 2]) ++ [(((((((0 * 2 + iD / 2 ^ 4 % 2) * 2 + iD / 2 ^ 3 % 2) * 2 + iD / 2 ^ 2 % 2) * 2 + iD / 2 ^ 1 % 2) * 2 + iD / 2 ^ 0 % 2) * 2 + iO / 2 ^ 4 % 2) * 2 + iO / 2 ^ 3 % 2) * 2 + iO / 2 ^ 2 % 2]) ++ [(((((((0 * 2 + iO / 2 ^ 1 % 2) * 2 + iO / 2 ^ 0 % 2) * 2 + iQ / 2 ^ 2 % 2) * 2 + iQ / 2 ^ 1 % 2) * 2 + iQ / 2 ^ 0 % 2) * 2 + iQi / 2 ^ 1 % 2) * 2 + iQi / 2 ^ 0 % 2) * 2 + iS / 2 ^ 4 % 2]) ++ [(((((((0 * 2 + iS / 2 ^ 3 % 2) * 2 + iS / 2 ^ 2 % 2) * 2 + iS / 2 ^ 1 % 2) * 2 + iS / 2 ^ 0 % 2) * 2 + iV / 2 ^ 3 % 2) * 2 + iV / 2 ^ 2 % 2) * 2 + iV / 2 ^ 1 % 2) * 2 + iV / 2 ^ 0 % 2] : List Nat) =
    [iC * 8 + iCo, iD * 8 + iO / 4, iO % 4 * 64 + iQ * 8 + iQi * 2 + iS / 16, iS % 16 * 16 + iV]
  have f0 : ((((((((0 * 2 + iC / 2 ^ 4 % 2) * 2 + iC / 2 ^ 3 % 2) * 2 + iC / 2 ^ 2 % 2) * 2 + iC / 2 ^ 1 % 2) * 2 + iC / 2 ^ 0 % 2) * 2 + iCo / 2 ^ 2 % 2) * 2 + iCo / 2 ^ 1 % 2) * 2 + iCo / 2 ^ 0 % 2) = iC * 8 + iCo := by omega
  have f1 : ((((((((0 * 2 + iD / 2 ^ 4 % 2) * 2 + iD / 2 ^ 3 % 2) * 2 + iD / 2 ^ 2 % 2) * 2 + iD / 2 ^ 1 % 2) * 2 + iD / 2 ^ 0 % 2) * 2 + iO / 2 ^ 4 % 2) * 2 + iO / 2 ^ 3 % 2) * 2 + iO / 2 ^ 2 % 2) = iD * 8 + iO / 4 := by omega
  have f2 : ((((((((0 * 2 + iO / 2 ^ 1 % 2) * 2 + iO / 2 ^ 0 % 2) * 2 + iQ / 2 ^ 2 % 2) * 2 + iQ / 2 ^ 1 % 2) * 2 + iQ / 2 ^ 0 % 2) * 2 + iQi / 2 ^ 1 % 2) * 2 + iQi / 2 ^ 0 % 2) * 2 + iS / 2 ^ 4 % 2) = iO % 4 * 64 + iQ * 8 + iQi * 2 + iS / 16 := by omega
  have f3 : ((((((((0 * 2 + iS / 2 ^ 3 % 2) * 2 + iS / 2 ^ 2 % 2) * 2 + iS / 2 ^ 1 % 2) * 2 + iS / 2 ^ 0 % 2) * 2 + iV / 2 ^ 3 % 2) * 2 + iV / 2 ^ 2 % 2) * 2 + iV / 2 ^ 1 % 2) * 2 + iV / 2 ^ 0 % 2) = iS % 16 * 16 + iV := by omega
  rw [f0, f1, f2, f3]
  rfl

/-! ### Sentence/text assembly for the `example2` round-trip -/

/-- The sentence the encoder emits for the aligned 4-byte group at `b`. -/
def ex2SentenceAt (data : List Nat) (b : Nat) : List Char :=
  ex2Sentence (data.getD (b + 2) 0 % 2 * 16 + data.getD (b + 3) 0 / 16)
    (data.getD (b + 3) 0 % 16)
    (data.getD (b + 1) 0 % 8 * 4 + data.getD (b + 2) 0 / 64)
    (data.getD (b + 1) 0 / 8) (data.getD b 0 / 8) (data.getD b 0 % 8)
    (data.getD (b + 2) 0 / 2 % 4) (data.getD (b + 2) 0 / 8 % 8)

/-- The sentence the encoder emits for a trailing single byte. -/
def ex2SentenceLast (data : List Nat) (b : Nat) : List Char :=
  ex2Sentence 0 0 0 0 (data.getD b 0 / 8) (data.getD b 0 % 8) 0 0

/-- The accumulator fold of the encoder's sentence loop. -/
def joinSp (acc : List Char) : List (List Char) → List Char
  | [] => acc
  | s :: rest => joinSp (acc ++ (if acc.isEmpty then [] else " ".toList) ++ s)
      rest

/-- `" s1 s2 ..."`: the text of the groups after the first. -/
def tailJoin : List (List Char) → List Char
  | [] => []
  | s :: rest => ' ' :: (s ++ tailJoin rest)

/-- The `k` aligned sentences starting at byte `b`. -/
def ex2Groups (data : List Nat) : Nat → Nat → List (List Char)
  | _, 0 => []
  | b, k + 1 => ex2SentenceAt data b :: ex2Groups data (b + 4) k

/-- The bytes the decoder accumulates for those `k` sentences. -/
def bytesOf (data : List Nat) : Nat → Nat → List Nat
  | _, 0 => []
  | b, k + 1 => data.getD b 0 :: data.getD (b + 1) 0 :: data.getD (b + 2) 0 ::
      data.getD (b + 3) 0 :: bytesOf data (b + 4) k

theorem joinSp_ne : ∀ (groups : List (List Char)) (acc : List Char),
    acc.isEmpty = false → joinSp acc groups = acc ++ tailJoin groups := by
  intro groups
  induction groups with
  | nil => intro acc _; simp [joinSp, tailJoin]
  | cons s rest ih =>
      intro acc hacc
      show joinSp (acc ++ (if acc.isEmpty then [] else " ".toList) ++ s)
        rest = _
      rw [hacc]
      simp only [Bool.false_eq_true, if_false]
      have hne : ((acc ++ " ".toList) ++ s).isEmpty = false := by
        cases acc with
        | nil => simp at hacc
        | cons c cs => rfl
      have h2 : acc ++ " ".toList ++ s = (acc ++ " ".toList) ++ s := rfl
      rw [h2, ih _ hne]
      show ((acc ++ [' ']) ++ s) ++ tailJoin rest = acc ++ tailJoin (s :: rest)
      simp [tailJoin]

theorem joinSp_nil (s : List Char) (rest : List (List Char))
    (hs : s.isEmpty = false) :
    joinSp [] (s :: rest) = s ++ tailJoin rest := by
  show joinSp (([] : List Char) ++
    (if ([] : List Char).isEmpty then [] else " ".toList) ++ s) rest = _
  have h1 : ([] : List Char) ++
      (if ([] : List Char).isEmpty then [] else " ".toList) ++ s = s := by
    simp
  rw [h1, joinSp_ne rest s hs]

theorem trimStart_space (X : List Char) : trimStart (' ' :: X) = trimStart X := by
  show List.dropWhile isRustWhitespace (' ' :: X) = _
  rw [List.dropWhile_cons,
    if_pos (show isRustWhitespace ' ' = true from by decide)]
  rfl

theorem trimStart_nows (c : Char) (X : List Char)
    (h : isRustWhitespace c = false) : trimStart (c :: X) = c :: X := by
  show List.dropWhile isRustWhitespace (c :: X) = _
  rw [List.dropWhile_cons, if_neg (by rw [h]; exact Bool.false_ne_true)]

/-- The first character of every subject word is not whitespace, and no
word list of `example2` is empty at any index. -/
theorem ex2Subjects_head : ∀ i, i < 32 → 0 < (wd ex2Subjects i).length ∧
    isRustWhitespace ((wd ex2Subjects i).getD 0 ' ') = false := by decide

theorem ex2Sentence_shape (iS iV iO iD iC iCo iQi iQ : Nat) (hS : iS < 32) :
    ∃ c cs, ex2Sentence iS iV iO iD iC iCo iQi iQ = c :: cs ∧
      isRustWhitespace c = false := by
  obtain ⟨hlen, hws⟩ := ex2Subjects_head iS hS
  cases hwd : wd ex2Subjects iS with
  | nil => rw [hwd] at hlen; simp at hlen
  | cons c cs =>
      refine ⟨c, cs ++ (' ' :: (wd ex2Verbs iV ++ (' ' ::
        (wd ex2Objects iO ++ ('\n' :: (dD iD ++ (' ' ::
          (wd ex2Cities iC ++ ('\n' :: (wd ex2Content iCo ++ ('\n' ::
            (wd ex2QuoteIntros iQi ++
              (' ' :: wd ex2Quotes iQ))))))))))))), ?_, ?_⟩
      · show wd ex2Subjects iS ++ _ = _
        rw [hwd]
        rfl
      · rw [hwd] at hws
        simpa using hws

/-! ### The encoder's sentence loop on `example2` -/

theorem encGo_step (g : CFG) (data : List Nat) (fuel b o : Nat)
    (acc : List Char) (h : b < data.length) :
    cfgEncodeGo g data (fuel + 1) b o acc =
      (match g.expand "\x7bstart\x7d".toList
          (encodeSentenceVars data g.vars emptyC b o).1 with
       | none => none
       | some sentence =>
           cfgEncodeGo g data fuel
             (encodeSentenceVars data g.vars emptyC b o).2.1
             (encodeSentenceVars data g.vars emptyC b o).2.2
             (acc ++ (if acc.isEmpty then [] else " ".toList) ++
               sentence)) := by
  show (if b < data.length then
      (match g.expand "\x7bstart\x7d".toList
          (encodeSentenceVars data g.vars emptyC b o).1 with
       | none => none
       | some sentence =>
           cfgEncodeGo g data fuel
             (encodeSentenceVars data g.vars emptyC b o).2.1
             (encodeSentenceVars data g.vars emptyC b o).2.2
             (acc ++ (if acc.isEmpty then [] else " ".toList) ++ sentence))
    else some acc) = _
  rw [if_pos h]

theorem encGo_done (g : CFG) (data : List Nat) (fuel b o : Nat)
    (acc : List Char) (h : ¬ b < data.length) :
    cfgEncodeGo g data (fuel + 1) b o acc = some acc := by
  show (if b < data.length then
      (match g.expand "\x7bstart\x7d".toList
          (encodeSentenceVars data g.vars emptyC b o).1 with
       | none => none
       | some sentence =>
           cfgEncodeGo g data fuel
             (encodeSentenceVars data g.vars emptyC b o).2.1
             (encodeSentenceVars data g.vars emptyC b o).2.2
             (acc ++ (if acc.isEmpty then [] else " ".toList) ++ sentence))
    else some acc) = _
  rw [if_neg h]

/-- One aligned sentence of the encoder loop. -/
theorem encGo_sentence (data : List Nat) (fuel b : Nat) (acc : List Char)
    (hb : b + 4 ≤ data.length)
    (h0 : data.getD b 0 < 256) (h1 : data.getD (b + 1) 0 < 256)
    (h2 : data.getD (b + 2) 0 < 256) (h3 : data.getD (b + 3) 0 < 256) :
    cfgEncodeGo ex2 data (fuel + 1) b 0 acc =
      cfgEncodeGo ex2 data fuel (b + 4) 0
        (acc ++ (if acc.isEmpty then [] else " ".toList) ++
          ex2SentenceAt data b) := by
  rw [encGo_step ex2 data fuel b 0 acc (by omega)]
  rw [esv_ex2_full data b hb h0 h1 h2 h3]
  rw [show CFG.expand ex2 "\x7bstart\x7d".toList
      (ex2EncM (data.getD b 0) (data.getD (b + 1) 0) (data.getD (b + 2) 0)
        (data.getD (b + 3) 0), b + 4, 0).1 =
    expandGo ex2 (52 + 12) "\x7bstart\x7d".toList
      (ex2EncM (data.getD b 0) (data.getD (b + 1) 0) (data.getD (b + 2) 0)
        (data.getD (b + 3) 0)) from rfl]
  rw [ex2_expand 52
    (ex2EncM (data.getD b 0) (data.getD (b + 1) 0) (data.getD (b + 2) 0)
      (data.getD (b + 3) 0))
    (data.getD (b + 2) 0 % 2 * 16 + data.getD (b + 3) 0 / 16)
    (data.getD (b + 3) 0 % 16)
    (data.getD (b + 1) 0 % 8 * 4 + data.getD (b + 2) 0 / 64)
    (data.getD (b + 1) 0 / 8) (data.getD b 0 / 8) (data.getD b 0 % 8)
    (data.getD (b + 2) 0 / 2 % 4) (data.getD (b + 2) 0 / 8 % 8)
    (by omega) (by omega) (by omega) (by omega) (by omega) (by omega)
    (by omega) (by omega)
    (by rw [ex2EncM_get_start]; rfl)
    (by rw [ex2EncM_get_SVO]; rfl)
    (by rw [ex2EncM_get_SUBJECT]; rfl)
    (by rw [ex2EncM_get_VERB]; rfl)
    (by rw [ex2EncM_get_OBJECT]; rfl)
    (by rw [ex2EncM_get_DATELINE]; rfl)
    (by rw [ex2EncM_get_DATE]; rfl)
    (by rw [ex2EncM_get_CITY]; rfl)
    (by rw [ex2EncM_get_CONTENT]; rfl)
    (by rw [ex2EncM_get_QUOTE_INTRO]; rfl)
    (by rw [ex2EncM_get_QUOTE]; rfl)]
  rfl

/-- The aligned encoder loop renders the joined sentences. -/
theorem encLoop (k : Nat) : ∀ (data : List Nat) (b : Nat) (acc : List Char)
    (fuel : Nat), data.length = b + 4 * k →
    (∀ i, i < data.length → data.getD i 0 < 256) →
    cfgEncodeGo ex2 data (fuel + k + 1) b 0 acc =
      some (joinSp acc (ex2Groups data b k)) := by
  induction k with
  | zero =>
      intro data b acc fuel hlen _
      rw [show fuel + 0 + 1 = fuel + 1 from by omega]
      rw [encGo_done ex2 data fuel b 0 acc (by omega)]
      rfl
  | succ k ih =>
      intro data b acc fuel hlen hbd
      have hget : ∀ j, j < data.length → data.getD j 0 < 256 := hbd
      rw [show fuel + (k + 1) + 1 = (fuel + k + 1) + 1 from by omega]
      rw [encGo_sentence data (fuel + k + 1) b acc (by omega)
        (hget b (by omega)) (hget (b + 1) (by omega))
        (hget (b + 2) (by omega)) (hget (b + 3) (by omega))]
      rw [ih data (b + 4) _ fuel (by omega) hbd]
      rfl

/-- The trailing one-byte sentence of the encoder loop, then termination. -/
theorem encGo_last (data : List Nat) (fuel b : Nat) (acc : List Char)
    (hb : data.length = b + 1) (h0 : data.getD b 0 < 256) :
    cfgEncodeGo ex2 data (fuel + 1 + 1) b 0 acc =
      some (acc ++ (if acc.isEmpty then [] else " ".toList) ++
        ex2SentenceLast data b) := by
  rw [encGo_step ex2 data (fuel + 1) b 0 acc (by omega)]
  rw [esv_ex2_part data b hb h0]
  rw [show CFG.expand ex2 "\x7bstart\x7d".toList
      (insertC "CONTENT".toList (data.getD b 0 % 8)
        (insertC "CITY".toList (data.getD b 0 / 8) emptyC), b + 1, 0).1 =
    expandGo ex2 (52 + 12) "\x7bstart\x7d".toList
      (insertC "CONTENT".toList (data.getD b 0 % 8)
        (insertC "CITY".toList (data.getD b 0 / 8) emptyC)) from rfl]
  rw [ex2_expand 52
    (insertC "CONTENT".toList (data.getD b 0 % 8)
      (insertC "CITY".toList (data.getD b 0 / 8) emptyC))
    0 0 0 0 (data.getD b 0 / 8) (data.getD b 0 % 8) 0 0
    (by omega) (by omega) (by omega) (by omega) (by omega) (by omega)
    (by omega) (by omega)
    (by rw [insertC_get_other _ _ _ _ (by decide), insertC_get_other _ _ _ _ (by decide)]; rfl) (by rw [insertC_get_other _ _ _ _ (by decide), insertC_get_other _ _ _ _ (by decide)]; rfl) (by rw [insertC_get_other _ _ _ _ (by decide), insertC_get_other _ _ _ _ (by decide)]; rfl) (by rw [insertC_get_other _ _ _ _ (by decide), insertC_get_other _ _ _ _ (by decide)]; rfl) (by rw [insertC_get_other _ _ _ _ (by decide), insertC_get_other _ _ _ _ (by decide)]; rfl) (by rw [insertC_get_other _ _ _ _ (by decide), insertC_get_other _ _ _ _ (by decide)]; rfl) (by rw [insertC_get_other _ _ _ _ (by decide), insertC_get_other _ _ _ _ (by decide)]; rfl)
    (by rw [insertC_get_other _ _ _ _ (by decide), insertC_get_same]; rfl)
    (by rw [insertC_get_same]; rfl)
    (by rw [insertC_get_other _ _ _ _ (by decide), insertC_get_other _ _ _ _ (by decide)]; rfl) (by rw [insertC_get_other _ _ _ _ (by decide), insertC_get_other _ _ _ _ (by decide)]; rfl)]
  show cfgEncodeGo ex2 data (fuel + 1) (b + 1) 0 _ = _
  rw [encGo_done ex2 data fuel (b + 1) 0 _ (by omega)]
  rfl

/-! ### The decoder's sentence loop on `example2` -/

theorem rbsw_of_match (g : CFG) (target : List Char) (m' : Choices)
    (h : matchRecGo g true 32 target "\x7bstart\x7d".toList emptyC =
      some (true, m')) :
    g.reverseByStartWith target = some (some m') := by
  show (match matchRecGo g true 32 target "\x7bstart\x7d".toList emptyC with
    | none => none
    | some (true, m) => some (some m)
    | some (false, _) => some none) = _
  rw [h]

theorem decLoop_step (g : CFG) (cap fuel : Nat) (remaining : List Char)
    (res : List Nat) (r : Nat) (hne : remaining.isEmpty = false) :
    cfgDecodeLoop g cap (fuel + 1) remaining res r =
      (match g.reverseByStartWith (trimStart remaining) with
       | none => DOut.panics "find_matching_brace unwrap in match_recursive"
       | some none =>
           DOut.err (RErr.invalidData "reverse_by_start_with failed")
       | some (some choices) =>
           let bytes := g.choicesToBytes choices
           let next : Option (List Nat × Nat) :=
             if cap < 8 then
               if bytes.length ≠ 1 then none
               else
                 let thisByte := bytes.getD 0 0
                 if r = 0 then
                   some (res ++ [thisByte], 8 / cap - 1)
                 else
                   match res.getLast? with
                   | none => none
                   | some lastB =>
                       let real := thisByte / 2 ^ (cap * (8 / cap - r))
                       some (res.dropLast ++ [(lastB + real) % 256], r - 1)
             else some (res ++ bytes, r)
           match next with
           | none => DOut.panics "assert or unwrap in short-fill handling"
           | some (result, rsfc) =>
               match g.expand "\x7bstart\x7d".toList choices with
               | none => DOut.panics "expand unwrap"
               | some expanded =>
                   cfgDecodeLoop g cap fuel
                     ((trimStart remaining).drop expanded.length) result
                     rsfc) := by
  show (if remaining.isEmpty then DOut.ok res else _) = _
  rw [if_neg (by rw [hne]; exact Bool.false_ne_true)]

theorem decLoop_step32 (fuel : Nat) (remaining : List Char) (res : List Nat)
    (r : Nat) (M : Choices) (hne : remaining.isEmpty = false)
    (hrb : ex2.reverseByStartWith (trimStart remaining) = some (some M)) :
    cfgDecodeLoop ex2 32 (fuel + 1) remaining res r =
      (match ex2.expand "\x7bstart\x7d".toList M with
       | none => DOut.panics "expand unwrap"
       | some expanded =>
           cfgDecodeLoop ex2 32 fuel
             ((trimStart remaining).drop expanded.length)
             (res ++ ex2.choicesToBytes M) r) := by
  rw [decLoop_step ex2 32 fuel remaining res r hne, hrb]
  rfl

/-- One aligned sentence consumed by the decoder loop. -/
theorem decStep (data : List Nat) (b : Nat) (TAIL : List Char)
    (res : List Nat) (r fuel : Nat) (remaining0 : List Char)
    (h0 : data.getD b 0 < 256) (h1 : data.getD (b + 1) 0 < 256)
    (h2 : data.getD (b + 2) 0 < 256) (h3 : data.getD (b + 3) 0 < 256)
    (hE : remaining0.isEmpty = false)
    (htrim : trimStart remaining0 =
      ex2Sentence (data.getD (b + 2) 0 % 2 * 16 + data.getD (b + 3) 0 / 16)
    (data.getD (b + 3) 0 % 16)
    (data.getD (b + 1) 0 % 8 * 4 + data.getD (b + 2) 0 / 64)
    (data.getD (b + 1) 0 / 8) (data.getD b 0 / 8) (data.getD b 0 % 8)
    (data.getD (b + 2) 0 / 2 % 4) (data.getD (b + 2) 0 / 8 % 8) ++ TAIL) :
    cfgDecodeLoop ex2 32 (fuel + 1) remaining0 res r =
      cfgDecodeLoop ex2 32 fuel TAIL
        (res ++ [data.getD b 0, data.getD (b + 1) 0, data.getD (b + 2) 0,
          data.getD (b + 3) 0]) r := by
  rw [decLoop_step32 fuel remaining0 res r
    (ex2M (data.getD (b + 2) 0 % 2 * 16 + data.getD (b + 3) 0 / 16)
    (data.getD (b + 3) 0 % 16)
    (data.getD (b + 1) 0 % 8 * 4 + data.getD (b + 2) 0 / 64)
    (data.getD (b + 1) 0 / 8) (data.getD b 0 / 8) (data.getD b 0 % 8)
    (data.getD (b + 2) 0 / 2 % 4) (data.getD (b + 2) 0 / 8 % 8) emptyC)
    hE
    (by rw [htrim]
        exact rbsw_of_match ex2 _ _
          (ex2_match 20 (data.getD (b + 2) 0 % 2 * 16 + data.getD (b + 3) 0 / 16)
    (data.getD (b + 3) 0 % 16)
    (data.getD (b + 1) 0 % 8 * 4 + data.getD (b + 2) 0 / 64)
    (data.getD (b + 1) 0 / 8) (data.getD b 0 / 8) (data.getD b 0 % 8)
    (data.getD (b + 2) 0 / 2 % 4) (data.getD (b + 2) 0 / 8 % 8) TAIL emptyC
            (by omega) (by omega) (by omega) (by omega) (by omega) (by omega)
            (by omega) (by omega) rfl))]
  rw [show ex2.expand "\x7bstart\x7d".toList
      (ex2M (data.getD (b + 2) 0 % 2 * 16 + data.getD (b + 3) 0 / 16)
    (data.getD (b + 3) 0 % 16)
    (data.getD (b + 1) 0 % 8 * 4 + data.getD (b + 2) 0 / 64)
    (data.getD (b + 1) 0 / 8) (data.getD b 0 / 8) (data.getD b 0 % 8)
    (data.getD (b + 2) 0 / 2 % 4) (data.getD (b + 2) 0 / 8 % 8) emptyC) =
    expandGo ex2 (52 + 12) "\x7bstart\x7d".toList
      (ex2M (data.getD (b + 2) 0 % 2 * 16 + data.getD (b + 3) 0 / 16)
    (data.getD (b + 3) 0 % 16)
    (data.getD (b + 1) 0 % 8 * 4 + data.getD (b + 2) 0 / 64)
    (data.getD (b + 1) 0 / 8) (data.getD b 0 / 8) (data.getD b 0 % 8)
    (data.getD (b + 2) 0 / 2 % 4) (data.getD (b + 2) 0 / 8 % 8) emptyC) from rfl]
  rw [ex2_expand 52
    (ex2M (data.getD (b + 2) 0 % 2 * 16 + data.getD (b + 3) 0 / 16)
    (data.getD (b + 3) 0 % 16)
    (data.getD (b + 1) 0 % 8 * 4 + data.getD (b + 2) 0 / 64)
    (data.getD (b + 1) 0 / 8) (data.getD b 0 / 8) (data.getD b 0 % 8)
    (data.getD (b + 2) 0 / 2 % 4) (data.getD (b + 2) 0 / 8 % 8) emptyC)
    (data.getD (b + 2) 0 % 2 * 16 + data.getD (b + 3) 0 / 16)
    (data.getD (b + 3) 0 % 16)
    (data.getD (b + 1) 0 % 8 * 4 + data.getD (b + 2) 0 / 64)
    (data.getD (b + 1) 0 / 8) (data.getD b 0 / 8) (data.getD b 0 % 8)
    (data.getD (b + 2) 0 / 2 % 4) (data.getD (b + 2) 0 / 8 % 8)
    (by omega) (by omega) (by omega) (by omega) (by omega) (by omega)
    (by omega) (by omega)
    (by rw [ex2M_get_start]; rfl)
    (by rw [ex2M_get_SVO]; rfl)
    (by rw [ex2M_get_SUBJECT]; rfl)
    (by rw [ex2M_get_VERB]; rfl)
    (by rw [ex2M_get_OBJECT]; rfl)
    (by rw [ex2M_get_DATELINE]; rfl)
    (by rw [ex2M_get_DATE]; rfl)
    (by rw [ex2M_get_CITY]; rfl)
    (by rw [ex2M_get_CONTENT]; rfl)
    (by rw [ex2M_get_QUOTE_INTRO]; rfl)
    (by rw [ex2M_get_QUOTE]; rfl)]
  show cfgDecodeLoop ex2 32 fuel
    ((trimStart remaining0).drop
      (ex2Sentence (data.getD (b + 2) 0 % 2 * 16 + data.getD (b + 3) 0 / 16)
    (data.getD (b + 3) 0 % 16)
    (data.getD (b + 1) 0 % 8 * 4 + data.getD (b + 2) 0 / 64)
    (data.getD (b + 1) 0 / 8) (data.getD b 0 / 8) (data.getD b 0 % 8)
    (data.getD (b + 2) 0 / 2 % 4) (data.getD (b + 2) 0 / 8 % 8)).length)
    (res ++ ex2.choicesToBytes (ex2M (data.getD (b + 2) 0 % 2 * 16 + data.getD (b + 3) 0 / 16)
    (data.getD (b + 3) 0 % 16)
    (data.getD (b + 1) 0 % 8 * 4 + data.getD (b + 2) 0 / 64)
    (data.getD (b + 1) 0 / 8) (data.getD b 0 / 8) (data.getD b 0 % 8)
    (data.getD (b + 2) 0 / 2 % 4) (data.getD (b + 2) 0 / 8 % 8) emptyC)) r = _
  rw [htrim, List.drop_left]
  rw [ex2_bytes (data.getD (b + 2) 0 % 2 * 16 + data.getD (b + 3) 0 / 16)
    (data.getD (b + 3) 0 % 16)
    (data.getD (b + 1) 0 % 8 * 4 + data.getD (b + 2) 0 / 64)
    (data.getD (b + 1) 0 / 8) (data.getD b 0 / 8) (data.getD b 0 % 8)
    (data.getD (b + 2) 0 / 2 % 4) (data.getD (b + 2) 0 / 8 % 8)
    (by omega) (by omega) (by omega) (by omega) (by omega) (by omega)
    (by omega) (by omega)]
  have g0 : data.getD b 0 / 8 * 8 + data.getD b 0 % 8 = data.getD b 0 := by
    omega
  have g1 : data.getD (b + 1) 0 / 8 * 8 +
      (data.getD (b + 1) 0 % 8 * 4 + data.getD (b + 2) 0 / 64) / 4 =
      data.getD (b + 1) 0 := by omega
  have g2 : (data.getD (b + 1) 0 % 8 * 4 + data.getD (b + 2) 0 / 64) % 4 *
      64 + data.getD (b + 2) 0 / 8 % 8 * 8 + data.getD (b + 2) 0 / 2 % 4 *
      2 + (data.getD (b + 2) 0 % 2 * 16 + data.getD (b + 3) 0 / 16) / 16 =
      data.getD (b + 2) 0 := by omega
  have g3 : (data.getD (b + 2) 0 % 2 * 16 + data.getD (b + 3) 0 / 16) % 16 *
      16 + data.getD (b + 3) 0 % 16 = data.getD (b + 3) 0 := by omega
  rw [g0, g1, g2, g3]

/-- The trailing partial sentence consumed by the decoder loop: it
contributes the leftover byte and three zero bytes. -/
theorem decStepLast (data : List Nat) (b : Nat) (TAIL : List Char)
    (res : List Nat) (r fuel : Nat) (remaining0 : List Char)
    (h0 : data.getD b 0 < 256)
    (hE : remaining0.isEmpty = false)
    (htrim : trimStart remaining0 = ex2Sentence 0 0 0 0 (data.getD b 0 / 8) (data.getD b 0 % 8) 0 0 ++ TAIL) :
    cfgDecodeLoop ex2 32 (fuel + 1) remaining0 res r =
      cfgDecodeLoop ex2 32 fuel TAIL
        (res ++ [data.getD b 0, 0, 0, 0]) r := by
  rw [decLoop_step32 fuel remaining0 res r
    (ex2M 0 0 0 0 (data.getD b 0 / 8) (data.getD b 0 % 8) 0 0 emptyC)
    hE
    (by rw [htrim]
        exact rbsw_of_match ex2 _ _
          (ex2_match 20 0 0 0 0 (data.getD b 0 / 8) (data.getD b 0 % 8) 0 0 TAIL emptyC
            (by omega) (by omega) (by omega) (by omega) (by omega) (by omega)
            (by omega) (by omega) rfl))]
  rw [show ex2.expand "\x7bstart\x7d".toList (ex2M 0 0 0 0 (data.getD b 0 / 8) (data.getD b 0 % 8) 0 0 emptyC) =
    expandGo ex2 (52 + 12) "\x7bstart\x7d".toList
      (ex2M 0 0 0 0 (data.getD b 0 / 8) (data.getD b 0 % 8) 0 0 emptyC) from rfl]
  rw [ex2_expand 52 (ex2M 0 0 0 0 (data.getD b 0 / 8) (data.getD b 0 % 8) 0 0 emptyC) 0 0 0 0 (data.getD b 0 / 8) (data.getD b 0 % 8) 0 0
    (by omega) (by omega) (by omega) (by omega) (by omega) (by omega)
    (by omega) (by omega)
    (by rw [ex2M_get_start]; rfl)
    (by rw [ex2M_get_SVO]; rfl)
    (by rw [ex2M_get_SUBJECT]; rfl)
    (by rw [ex2M_get_VERB]; rfl)
    (by rw [ex2M_get_OBJECT]; rfl)
    (by rw [ex2M_get_DATELINE]; rfl)
    (by rw [ex2M_get_DATE]; rfl)
    (by rw [ex2M_get_CITY]; rfl)
    (by rw [ex2M_get_CONTENT]; rfl)
    (by rw [ex2M_get_QUOTE_INTRO]; rfl)
    (by rw [ex2M_get_QUOTE]; rfl)]
  show cfgDecodeLoop ex2 32 fuel
    ((trimStart remaining0).drop (ex2Sentence 0 0 0 0 (data.getD b 0 / 8) (data.getD b 0 % 8) 0 0).length)
    (res ++ ex2.choicesToBytes (ex2M 0 0 0 0 (data.getD b 0 / 8) (data.getD b 0 % 8) 0 0 emptyC)) r = _
  rw [htrim, List.drop_left]
  rw [ex2_bytes 0 0 0 0 (data.getD b 0 / 8) (data.getD b 0 % 8) 0 0
    (by omega) (by omega) (by omega) (by omega) (by omega) (by omega)
    (by omega) (by omega)]
  have g0 : data.getD b 0 / 8 * 8 + data.getD b 0 % 8 = data.getD b 0 := by
    omega
  rw [g0]

theorem decLoop_nil (g : CFG) (cap fuel : Nat) (res : List Nat) (r : Nat) :
    cfgDecodeLoop g cap (fuel + 1) [] res r = DOut.ok res := rfl

/-- The decoder loop over the space-prefixed tail of aligned sentences. -/
theorem decLoopTail (k : Nat) : ∀ (data : List Nat) (b : Nat)
    (res : List Nat) (r fuel : Nat), data.length = b + 4 * k →
    (∀ i, i < data.length → data.getD i 0 < 256) →
    cfgDecodeLoop ex2 32 (fuel + k + 1) (tailJoin (ex2Groups data b k)) res
      r = DOut.ok (res ++ bytesOf data b k) := by
  induction k with
  | zero =>
      intro data b res r fuel _ _
      rw [show fuel + 0 + 1 = fuel + 1 from by omega]
      show cfgDecodeLoop ex2 32 (fuel + 1) [] res r = _
      rw [decLoop_nil]
      show DOut.ok res = DOut.ok (res ++ [])
      rw [List.append_nil]
  | succ k ih =>
      intro data b res r fuel hlen hbd
      have hbb0 := hbd b (by omega)
      have hbb1 := hbd (b + 1) (by omega)
      have hbb2 := hbd (b + 2) (by omega)
      have hbb3 := hbd (b + 3) (by omega)
      obtain ⟨c, cs, hsent, hws⟩ := ex2Sentence_shape
        (data.getD (b + 2) 0 % 2 * 16 + data.getD (b + 3) 0 / 16)
        (data.getD (b + 3) 0 % 16)
        (data.getD (b + 1) 0 % 8 * 4 + data.getD (b + 2) 0 / 64)
        (data.getD (b + 1) 0 / 8) (data.getD b 0 / 8) (data.getD b 0 % 8)
        (data.getD (b + 2) 0 / 2 % 4) (data.getD (b + 2) 0 / 8 % 8)
        (by omega)
      rw [show fuel + (k + 1) + 1 = (fuel + k + 1) + 1 from by omega]
      show cfgDecodeLoop ex2 32 ((fuel + k + 1) + 1)
        (' ' :: (ex2SentenceAt data b ++ tailJoin (ex2Groups data (b + 4) k)))
        res r = _
      rw [decStep data b (tailJoin (ex2Groups data (b + 4) k)) res r
        (fuel + k + 1)
        (' ' :: (ex2SentenceAt data b ++ tailJoin (ex2Groups data (b + 4) k)))
        (hbd b (by omega)) (hbd (b + 1) (by omega)) (hbd (b + 2) (by omega))
        (hbd (b + 3) (by omega)) rfl
        (by rw [trimStart_space]
            show trimStart (ex2Sentence _ _ _ _ _ _ _ _ ++ _) = _
            rw [hsent, List.cons_append,
              trimStart_nows c _ hws])]
      rw [ih data (b + 4) _ r fuel (by omega) hbd]
      show DOut.ok _ = _
      have : (res ++ [data.getD b 0, data.getD (b + 1) 0, data.getD (b + 2) 0,
          data.getD (b + 3) 0]) ++ bytesOf data (b + 4) k =
          res ++ bytesOf data b (k + 1) := by
        show _ = res ++ (data.getD b 0 :: data.getD (b + 1) 0 ::
          data.getD (b + 2) 0 :: data.getD (b + 3) 0 :: bytesOf data (b + 4) k)
        simp
      rw [this]

/-- Groups plus the trailing partial sentence. -/
def ex2GroupsP (data : List Nat) (b k : Nat) : List (List Char) :=
  ex2Groups data b k ++ [ex2SentenceLast data (b + 4 * k)]

theorem tailJoin_append (g1 g2 : List (List Char)) :
    tailJoin (g1 ++ g2) = tailJoin g1 ++ tailJoin g2 := by
  induction g1 with
  | nil => rfl
  | cons s rest ih =>
      show ' ' :: (s ++ tailJoin (rest ++ g2)) = _
      rw [ih]
      simp [tailJoin]

/-- The decoder loop over the space-prefixed tail: aligned sentences and
then the partial one. -/
theorem decLoopTailP (k : Nat) : ∀ (data : List Nat) (b : Nat)
    (res : List Nat) (r fuel : Nat), data.length = b + 4 * k + 1 →
    (∀ i, i < data.length → data.getD i 0 < 256) →
    cfgDecodeLoop ex2 32 (fuel + k + 2) (tailJoin (ex2GroupsP data b k)) res
      r = DOut.ok (res ++ (bytesOf data b k ++
        [data.getD (b + 4 * k) 0, 0, 0, 0])) := by
  induction k with
  | zero =>
      intro data b res r fuel hlen hbd
      obtain ⟨c, cs, hsent, hws⟩ := ex2Sentence_shape
        0 0 0 0 (data.getD b 0 / 8) (data.getD b 0 % 8) 0 0 (by omega)
      rw [show fuel + 0 + 2 = (fuel + 1) + 1 from by omega]
      show cfgDecodeLoop ex2 32 ((fuel + 1) + 1)
        (' ' :: (ex2SentenceLast data b ++ [])) res r = _
      rw [decStepLast data b [] res r (fuel + 1)
        (' ' :: (ex2SentenceLast data b ++ []))
        (hbd b (by omega)) rfl
        (by rw [trimStart_space]
            show trimStart (ex2Sentence _ _ _ _ _ _ _ _ ++ _) = _
            rw [hsent, List.cons_append, trimStart_nows c _ hws])]
      rw [decLoop_nil]
      show DOut.ok (res ++ [data.getD b 0, 0, 0, 0]) = _
      have hx : res ++ [data.getD b 0, 0, 0, 0] =
          res ++ (bytesOf data b 0 ++ [data.getD (b + 4 * 0) 0, 0, 0, 0]) := by
        show _ = res ++ ([] ++ [data.getD (b + 4 * 0) 0, 0, 0, 0])
        rw [show b + 4 * 0 = b from by omega]
        rfl
      rw [hx]
  | succ k ih =>
      intro data b res r fuel hlen hbd
      have hbb0 := hbd b (by omega)
      have hbb1 := hbd (b + 1) (by omega)
      have hbb2 := hbd (b + 2) (by omega)
      have hbb3 := hbd (b + 3) (by omega)
      obtain ⟨c, cs, hsent, hws⟩ := ex2Sentence_shape
        (data.getD (b + 2) 0 % 2 * 16 + data.getD (b + 3) 0 / 16)
        (data.getD (b + 3) 0 % 16)
        (data.getD (b + 1) 0 % 8 * 4 + data.getD (b + 2) 0 / 64)
        (data.getD (b + 1) 0 / 8) (data.getD b 0 / 8) (data.getD b 0 % 8)
        (data.getD (b + 2) 0 / 2 % 4) (data.getD (b + 2) 0 / 8 % 8)
        (by omega)
      rw [show fuel + (k + 1) + 2 = (fuel + k + 2) + 1 from by omega]
      have hsplit : tailJoin (ex2GroupsP data b (k + 1)) =
          ' ' :: (ex2SentenceAt data b ++
            tailJoin (ex2GroupsP data (b + 4) k)) := by
        show tailJoin ((ex2SentenceAt data b :: ex2Groups data (b + 4) k) ++
          [ex2SentenceLast data (b + 4 * (k + 1))]) = _
        rw [List.cons_append]
        show ' ' :: (ex2SentenceAt data b ++ tailJoin (ex2Groups data (b + 4)
          k ++ [ex2SentenceLast data (b + 4 * (k + 1))])) = _
        rw [show b + 4 * (k + 1) = (b + 4) + 4 * k from by omega]
        rfl
      rw [hsplit]
      rw [decStep data b (tailJoin (ex2GroupsP data (b + 4) k)) res r
        (fuel + k + 2)
        (' ' :: (ex2SentenceAt data b ++ tailJoin (ex2GroupsP data (b + 4) k)))
        (hbd b (by omega)) (hbd (b + 1) (by omega)) (hbd (b + 2) (by omega))
        (hbd (b + 3) (by omega)) rfl
        (by rw [trimStart_space]
            show trimStart (ex2Sentence _ _ _ _ _ _ _ _ ++ _) = _
            rw [hsent, List.cons_append, trimStart_nows c _ hws])]
      rw [ih data (b + 4) _ r fuel (by omega) hbd]
      show DOut.ok _ = _
      have harith : b + 4 + 4 * k = b + 4 * (k + 1) := by omega
      rw [harith]
      have : (res ++ [data.getD b 0, data.getD (b + 1) 0, data.getD (b + 2) 0,
          data.getD (b + 3) 0]) ++ (bytesOf data (b + 4) k ++
            [data.getD (b + 4 * (k + 1)) 0, 0, 0, 0]) =
          res ++ (bytesOf data b (k + 1) ++
            [data.getD (b + 4 * (k + 1)) 0, 0, 0, 0]) := by
        show _ = res ++ ((data.getD b 0 :: data.getD (b + 1) 0 ::
          data.getD (b + 2) 0 :: data.getD (b + 3) 0 ::
            bytesOf data (b + 4) k) ++ _)
        simp
      rw [this]

/-! ### ASCII facts and the UTF-8 round-trip for `example2` text -/

theorem utf8_roundtrip_ascii (s : List Char) (h : ∀ c ∈ s, c.toNat < 0x80) :
    utf8Lossy (utf8Encode s) = s := by
  rw [utf8Encode_ascii s h, utf8Lossy_ascii _ (by
    intro b hb
    obtain ⟨c, hc, rfl⟩ := List.mem_map.1 hb
    exact h c hc)]
  rw [List.map_map]
  have h2 : List.map (Char.ofNat ∘ Char.toNat) s = List.map id s :=
    List.map_congr_left (fun c _ => Char.ofNat_toNat c)
  rw [h2, List.map_id]

theorem ex2Subjects_ascii : ∀ i, i < 32 →
    ∀ c ∈ wd ex2Subjects i, c.toNat < 0x80 := by decide

theorem ex2Verbs_ascii : ∀ i, i < 16 →
    ∀ c ∈ wd ex2Verbs i, c.toNat < 0x80 := by decide

theorem ex2Objects_ascii : ∀ i, i < 32 →
    ∀ c ∈ wd ex2Objects i, c.toNat < 0x80 := by decide

theorem ex2Cities_ascii : ∀ i, i < 32 →
    ∀ c ∈ wd ex2Cities i, c.toNat < 0x80 := by decide

theorem ex2Content_ascii : ∀ i, i < 8 →
    ∀ c ∈ wd ex2Content i, c.toNat < 0x80 := by decide

theorem ex2Quotes_ascii : ∀ i, i < 8 →
    ∀ c ∈ wd ex2Quotes i, c.toNat < 0x80 := by decide

theorem ex2QuoteIntros_ascii : ∀ i, i < 4 →
    ∀ c ∈ wd ex2QuoteIntros i, c.toNat < 0x80 := by decide

theorem ex2Dates_ascii : ∀ i, i < 32 →
    ∀ c ∈ dD i, c.toNat < 0x80 := by decide

theorem ex2Sentence_ascii (iS iV iO iD iC iCo iQi iQ : Nat)
    (hS : iS < 32) (hV : iV < 16) (hO : iO < 32) (hD : iD < 32)
    (hC : iC < 32) (hCo : iCo < 8) (hQi : iQi < 4) (hQ : iQ < 8) :
    ∀ c ∈ ex2Sentence iS iV iO iD iC iCo iQi iQ, c.toNat < 0x80 := by
  intro c hc
  simp only [ex2Sentence, List.mem_append, List.mem_cons] at hc
  rcases hc with h | h | h | h | h | h | h | h | h | h | h | h | h | h | h
  · exact ex2Subjects_ascii iS hS c h
  · rw [h]; decide
  · exact ex2Verbs_ascii iV hV c h
  · rw [h]; decide
  · exact ex2Objects_ascii iO hO c h
  · rw [h]; decide
  · exact ex2Dates_ascii iD hD c h
  · rw [h]; decide
  · exact ex2Cities_ascii iC hC c h
  · rw [h]; decide
  · exact ex2Content_ascii iCo hCo c h
  · rw [h]; decide
  · exact ex2QuoteIntros_ascii iQi hQi c h
  · rw [h]; decide
  · exact ex2Quotes_ascii iQ hQ c h

theorem ex2SentenceAt_ascii (data : List Nat) (b : Nat)
    (h0 : data.getD b 0 < 256) (h1 : data.getD (b + 1) 0 < 256)
    (h2 : data.getD (b + 2) 0 < 256) (h3 : data.getD (b + 3) 0 < 256) :
    ∀ c ∈ ex2SentenceAt data b, c.toNat < 0x80 :=
  ex2Sentence_ascii _ _ _ _ _ _ _ _
    (by omega) (by omega) (by omega) (by omega) (by omega) (by omega)
    (by omega) (by omega)

theorem tailJoin_ascii (groups : List (List Char))
    (h : ∀ s ∈ groups, ∀ c ∈ s, c.toNat < 0x80) :
    ∀ c ∈ tailJoin groups, c.toNat < 0x80 := by
  induction groups with
  | nil => intro c hc; simp [tailJoin] at hc
  | cons s rest ih =>
      intro c hc
      show c.toNat < 0x80
      rcases List.mem_cons.1 hc with h1 | h1
      · rw [h1]; decide
      · rcases List.mem_append.1 h1 with h2 | h2
        · exact h s (List.mem_cons_self ..) c h2
        · exact ih (fun t ht => h t (List.mem_cons_of_mem _ ht)) c h2

theorem ex2Groups_ascii (k : Nat) : ∀ (data : List Nat) (b : Nat),
    data.length = b + 4 * k →
    (∀ i, i < data.length → data.getD i 0 < 256) →
    ∀ s ∈ ex2Groups data b k, ∀ c ∈ s, c.toNat < 0x80 := by
  induction k with
  | zero => intro data b _ _ s hs; simp [ex2Groups] at hs
  | succ k ih =>
      intro data b hlen hbd s hs
      rcases List.mem_cons.1 hs with h1 | h1
      · rw [h1]
        exact ex2SentenceAt_ascii data b (hbd b (by omega))
          (hbd (b + 1) (by omega)) (hbd (b + 2) (by omega))
          (hbd (b + 3) (by omega))
      · exact ih data (b + 4) (by omega) hbd s h1

theorem ex2GroupsP_ascii (k : Nat) (data : List Nat) (b : Nat)
    (hlen : data.length = b + 4 * k + 1)
    (hbd : ∀ i, i < data.length → data.getD i 0 < 256) :
    ∀ s ∈ ex2GroupsP data b k, ∀ c ∈ s, c.toNat < 0x80 := by
  intro s hs
  rcases List.mem_append.1 hs with h1 | h1
  · -- the aligned part is ascii even with a trailing byte
    clear hs
    revert b
    induction k with
    | zero => intro b _ h1; simp [ex2Groups] at h1
    | succ k ih =>
        intro b hlen h1
        rcases List.mem_cons.1 h1 with h2 | h2
        · rw [h2]
          exact ex2SentenceAt_ascii data b (hbd b (by omega))
            (hbd (b + 1) (by omega)) (hbd (b + 2) (by omega))
            (hbd (b + 3) (by omega))
        · exact ih (b + 4) (by omega) h2
  · rcases List.mem_singleton.1 h1 with rfl
    exact ex2Sentence_ascii _ _ _ _ _ _ _ _
      (by omega) (by omega) (by omega) (by omega)
      (by have := hbd (b + 4 * k) (by omega); omega)
      (by have := hbd (b + 4 * k) (by omega); omega) (by omega) (by omega)

/-- The decoder's main loop on the aligned text (first sentence has no
leading space). -/
theorem decLoopMainA (k : Nat) (data : List Nat) (res : List Nat)
    (r fuel : Nat) (hlen : data.length = 4 * (k + 1))
    (hbd : ∀ i, i < data.length → data.getD i 0 < 256) :
    cfgDecodeLoop ex2 32 ((fuel + k + 1) + 1)
      (joinSp [] (ex2Groups data 0 (k + 1))) res r =
      DOut.ok (res ++ bytesOf data 0 (k + 1)) := by
  have hbb0 := hbd 0 (by omega)
  have hbb1 := hbd (0 + 1) (by omega)
  have hbb2 := hbd (0 + 2) (by omega)
  have hbb3 := hbd (0 + 3) (by omega)
  obtain ⟨c, cs, hsent, hws⟩ := ex2Sentence_shape
    (data.getD (0 + 2) 0 % 2 * 16 + data.getD (0 + 3) 0 / 16)
    (data.getD (0 + 3) 0 % 16)
    (data.getD (0 + 1) 0 % 8 * 4 + data.getD (0 + 2) 0 / 64)
    (data.getD (0 + 1) 0 / 8)
    (data.getD 0 0 / 8) (data.getD 0 0 % 8) (data.getD (0 + 2) 0 / 2 % 4)
    (data.getD (0 + 2) 0 / 8 % 8) (by omega)
  have hsent2 : ex2SentenceAt data 0 = c :: cs := hsent
  have hjoin : joinSp [] (ex2Groups data 0 (k + 1)) =
      ex2SentenceAt data 0 ++ tailJoin (ex2Groups data 4 k) := by
    show joinSp [] (ex2SentenceAt data 0 :: ex2Groups data 4 k) = _
    exact joinSp_nil _ _ (by rw [hsent2]; rfl)
  rw [hjoin]
  rw [decStep data 0 (tailJoin (ex2Groups data 4 k)) res r (fuel + k + 1)
    (ex2SentenceAt data 0 ++ tailJoin (ex2Groups data 4 k))
    hbb0 hbb1 hbb2 hbb3
    (by rw [hsent2]; rfl)
    (by show trimStart (ex2SentenceAt data 0 ++ _) = _
        rw [hsent2, List.cons_append, trimStart_nows c _ hws]
        rw [← List.cons_append, ← hsent2]
        rfl)]
  rw [show (4 : Nat) = 0 + 4 from rfl] at hlen ⊢
  rw [decLoopTail k data (0 + 4) _ r fuel (by omega) hbd]
  show DOut.ok _ = _
  have hx : (res ++ [data.getD 0 0, data.getD (0 + 1) 0, data.getD (0 + 2) 0,
      data.getD (0 + 3) 0]) ++ bytesOf data (0 + 4) k =
      res ++ bytesOf data 0 (k + 1) := by
    show _ = res ++ (data.getD 0 0 :: data.getD (0 + 1) 0 ::
      data.getD (0 + 2) 0 :: data.getD (0 + 3) 0 :: bytesOf data (0 + 4) k)
    simp
  rw [hx]

/-- The decoder's main loop on the partial text. -/
theorem decLoopMainP (k : Nat) (data : List Nat) (res : List Nat)
    (r fuel : Nat) (hlen : data.length = 4 * (k + 1) + 1)
    (hbd : ∀ i, i < data.length → data.getD i 0 < 256) :
    cfgDecodeLoop ex2 32 ((fuel + k + 2) + 1)
      (joinSp [] (ex2GroupsP data 0 (k + 1))) res r =
      DOut.ok (res ++ (bytesOf data 0 (k + 1) ++
        [data.getD (0 + 4 * (k + 1)) 0, 0, 0, 0])) := by
  have hbb0 := hbd 0 (by omega)
  have hbb1 := hbd (0 + 1) (by omega)
  have hbb2 := hbd (0 + 2) (by omega)
  have hbb3 := hbd (0 + 3) (by omega)
  obtain ⟨c, cs, hsent, hws⟩ := ex2Sentence_shape
    (data.getD (0 + 2) 0 % 2 * 16 + data.getD (0 + 3) 0 / 16)
    (data.getD (0 + 3) 0 % 16)
    (data.getD (0 + 1) 0 % 8 * 4 + data.getD (0 + 2) 0 / 64)
    (data.getD (0 + 1) 0 / 8)
    (data.getD 0 0 / 8) (data.getD 0 0 % 8) (data.getD (0 + 2) 0 / 2 % 4)
    (data.getD (0 + 2) 0 / 8 % 8) (by omega)
  have hsent2 : ex2SentenceAt data 0 = c :: cs := hsent
  have hsplit : ex2Groups data (0 + 4) k ++
      [ex2SentenceLast data (0 + 4 * (k + 1))] = ex2GroupsP data (0 + 4) k := by
    show _ = ex2Groups data (0 + 4) k ++ [ex2SentenceLast data (0 + 4 + 4 * k)]
    rw [show 0 + 4 + 4 * k = 0 + 4 * (k + 1) from by omega]
  have hjoin : joinSp [] (ex2GroupsP data 0 (k + 1)) =
      ex2SentenceAt data 0 ++ tailJoin (ex2GroupsP data (0 + 4) k) := by
    show joinSp [] (ex2SentenceAt data 0 :: (ex2Groups data (0 + 4) k ++
      [ex2SentenceLast data (0 + 4 * (k + 1))])) = _
    rw [joinSp_nil _ _ (by rw [hsent2]; rfl), hsplit]
  rw [hjoin]
  rw [decStep data 0 (tailJoin (ex2GroupsP data (0 + 4) k)) res r (fuel + k + 2)
    (ex2SentenceAt data 0 ++ tailJoin (ex2GroupsP data (0 + 4) k))
    hbb0 hbb1 hbb2 hbb3
    (by rw [hsent2]; rfl)
    (by show trimStart (ex2SentenceAt data 0 ++ _) = _
        rw [hsent2, List.cons_append, trimStart_nows c _ hws]
        rw [← List.cons_append, ← hsent2]
        rfl)]
  rw [decLoopTailP k data (0 + 4) _ r fuel (by omega) hbd]
  show DOut.ok _ = _
  have hx : (res ++ [data.getD 0 0, data.getD (0 + 1) 0, data.getD (0 + 2) 0,
      data.getD (0 + 3) 0]) ++ (bytesOf data (0 + 4) k ++
        [data.getD (0 + 4 + 4 * k) 0, 0, 0, 0]) =
      res ++ (bytesOf data 0 (k + 1) ++
        [data.getD (0 + 4 * (k + 1)) 0, 0, 0, 0]) := by
    rw [show 0 + 4 + 4 * k = 0 + 4 * (k + 1) from by omega]
    show _ = res ++ ((data.getD 0 0 :: data.getD (0 + 1) 0 ::
      data.getD (0 + 2) 0 :: data.getD (0 + 3) 0 :: bytesOf data (0 + 4) k) ++
        [data.getD (0 + 4 * (k + 1)) 0, 0, 0, 0])
    simp
  rw [hx]

theorem ex2_capacity : CFG.bitsCapacity ex2 = 32 := by decide

/-- The encoder's sentence loop on a buffer with a trailing partial byte. -/
theorem encLoopP (k : Nat) : ∀ (data : List Nat) (b : Nat) (acc : List Char)
    (fuel : Nat), data.length = b + 4 * k + 1 →
    (∀ i, i < data.length → data.getD i 0 < 256) →
    cfgEncodeGo ex2 data (fuel + k + 2) b 0 acc =
      some (joinSp acc (ex2GroupsP data b k)) := by
  induction k with
  | zero =>
      intro data b acc fuel hlen hbd
      rw [show fuel + 0 + 2 = fuel + 1 + 1 from by omega]
      rw [encGo_last data fuel b acc (by omega) (hbd b (by omega))]
      show some _ = some (joinSp (acc ++ (if acc.isEmpty then [] else
        " ".toList) ++ ex2SentenceLast data (b + 4 * 0)) [])
      rw [show b + 4 * 0 = b from by omega]
      rfl
  | succ k ih =>
      intro data b acc fuel hlen hbd
      rw [show fuel + (k + 1) + 2 = (fuel + k + 2) + 1 from by omega]
      rw [encGo_sentence data (fuel + k + 2) b acc (by omega)
        (hbd b (by omega)) (hbd (b + 1) (by omega))
        (hbd (b + 2) (by omega)) (hbd (b + 3) (by omega))]
      rw [ih data (b + 4) _ fuel (by omega) hbd]
      have hsplit : ex2Groups data (b + 4) k ++
          [ex2SentenceLast data (b + 4 + 4 * k)] =
          ex2Groups data (b + 4) k ++
          [ex2SentenceLast data (b + 4 * (k + 1))] := by
        rw [show b + 4 + 4 * k = b + 4 * (k + 1) from by omega]
      show some (joinSp _ (ex2GroupsP data (b + 4) k)) = _
      show some (joinSp _ (ex2Groups data (b + 4) k ++
        [ex2SentenceLast data (b + 4 + 4 * k)])) = _
      rw [hsplit]
      rfl

/-- The decoder's per-sentence byte list is exactly the encoded buffer. -/
theorem bytesOf_eq (k : Nat) : ∀ (data : List Nat) (b : Nat),
    data.length = b + 4 * k → bytesOf data b k = data.drop b := by
  induction k with
  | zero =>
      intro data b hlen
      show ([] : List Nat) = _
      rw [List.drop_of_length_le (by omega)]
  | succ k ih =>
      intro data b hlen
      show data.getD b 0 :: data.getD (b + 1) 0 :: data.getD (b + 2) 0 ::
        data.getD (b + 3) 0 :: bytesOf data (b + 4) k = _
      rw [ih data (b + 4) (by omega)]
      have h0 : b < data.length := by omega
      have h1 : b + 1 < data.length := by omega
      have h2 : b + 2 < data.length := by omega
      have h3 : b + 3 < data.length := by omega
      rw [List.getD_eq_getElem data 0 h0, List.getD_eq_getElem data 0 h1,
        List.getD_eq_getElem data 0 h2, List.getD_eq_getElem data 0 h3]
      rw [List.drop_eq_getElem_cons h0, List.drop_eq_getElem_cons h1,
        List.drop_eq_getElem_cons h2, List.drop_eq_getElem_cons h3]

theorem be32_length (n : Nat) : (be32 n).length = 4 := rfl

theorem be32_bound (n : Nat) : ∀ a ∈ be32 n, a < 256 := by
  intro a ha
  rcases List.mem_cons.1 ha with h | h
  · subst h; omega
  rcases List.mem_cons.1 h with h | h
  · subst h; omega
  rcases List.mem_cons.1 h with h | h
  · subst h; omega
  rcases List.mem_singleton.1 h with rfl
  omega

theorem be32val_be32 (n : Nat) (h : n < 2 ^ 32) : be32val (be32 n) = n := by
  show n % 2 ^ 32 / 2 ^ 24 * 2 ^ 24 + n % 2 ^ 24 / 2 ^ 16 * 2 ^ 16 +
    n % 2 ^ 16 / 2 ^ 8 * 2 ^ 8 + n % 2 ^ 8 = n
  omega

theorem getD_bound (l : List Nat) (h : ∀ a ∈ l, a < 256) :
    ∀ i, i < l.length → l.getD i 0 < 256 := by
  intro i hi
  rw [List.getD_eq_getElem l 0 hi]
  exact h _ (List.getElem_mem hi)

theorem tailJoin_length (groups : List (List Char)) :
    groups.length ≤ (tailJoin groups).length := by
  induction groups with
  | nil => exact Nat.le_refl 0
  | cons s rest ih =>
      show rest.length + 1 ≤ (' ' :: (s ++ tailJoin rest)).length
      have : (tailJoin rest).length ≤ (s ++ tailJoin rest).length := by
        rw [List.length_append]; omega
      simp only [List.length_cons]
      omega

/-- `cfgEncode` with a small capacity pads the header to exactly 4 bytes. -/
theorem cfgEncode_unfold (g : CFG) (x : List Nat)
    (h : ¬ 4 < CFG.bitsCapacity g / 8) :
    cfgEncode g x = cfgEncodeGo g (be32 x.length ++ x)
      (8 * (be32 x.length ++ x).length + 1) 0 0 [] := by
  show cfgEncodeGo g
      (if 4 < CFG.bitsCapacity g / 8 then
        be32 x.length ++ List.replicate (CFG.bitsCapacity g / 8 - 4) 0 ++ x
       else be32 x.length ++ x)
      (8 * (if 4 < CFG.bitsCapacity g / 8 then
        be32 x.length ++ List.replicate (CFG.bitsCapacity g / 8 - 4) 0 ++ x
       else be32 x.length ++ x).length + 1) 0 0 [] = _
  rw [if_neg h]

/-- The successful exit of `CFGEncoder::decode`, spelled out. -/
theorem cfgDecode_ok (g : CFG) (content : List Nat) (result : List Nat)
    (hp : (! isPow2 (CFG.bitsCapacity g)) = false)
    (hloop : cfgDecodeLoop g (CFG.bitsCapacity g)
      ((utf8Lossy content).length + 1) (utf8Lossy content) [] 0 =
      DOut.ok result)
    (h4 : ¬ result.length < 4)
    (hstart : ¬ 4 < CFG.bitsCapacity g / 8)
    (hfit : ¬ result.length < 4 + be32val (result.take 4)) :
    cfgDecode g content = DOut.ok ((result.drop 4).take
      (be32val (result.take 4))) := by
  show (if ! isPow2 (CFG.bitsCapacity g) then
      DOut.panics "assert capacity.is_power_of_two()"
    else
      match cfgDecodeLoop g (CFG.bitsCapacity g)
          ((utf8Lossy content).length + 1) (utf8Lossy content) [] 0 with
      | DOut.ok result =>
          if result.length < 4 then DOut.panics "slice [..4] out of range"
          else
            if result.length < (if 4 < CFG.bitsCapacity g / 8 then
                CFG.bitsCapacity g / 8 else 4) + be32val (result.take 4) then
              DOut.panics "slice [start_at..start_at+data_length] out of range"
            else DOut.ok ((result.drop (if 4 < CFG.bitsCapacity g / 8 then
                CFG.bitsCapacity g / 8 else 4)).take
                  (be32val (result.take 4)))
      | r => r) = _
  rw [hp]
  rw [if_neg (show ¬ (false = true) from by simp)]
  rw [hloop]
  show (if result.length < 4 then DOut.panics "slice [..4] out of range"
    else
      if result.length < (if 4 < CFG.bitsCapacity g / 8 then
          CFG.bitsCapacity g / 8 else 4) + be32val (result.take 4) then
        DOut.panics "slice [start_at..start_at+data_length] out of range"
      else DOut.ok ((result.drop (if 4 < CFG.bitsCapacity g / 8 then
          CFG.bitsCapacity g / 8 else 4)).take
            (be32val (result.take 4)))) = _
  rw [if_neg h4, if_neg hstart, if_neg hfit]

theorem ex2Groups_length (k : Nat) : ∀ (data : List Nat) (b : Nat),
    (ex2Groups data b k).length = k := by
  induction k with
  | zero => intro data b; rfl
  | succ k ih =>
      intro data b
      show (ex2Groups data (b + 4) k).length + 1 = k + 1
      rw [ih]

theorem cfgEncDec_some (g : CFG) (data : List Nat) (text : List Char)
    (h : cfgEncode g data = some text) :
    cfgEncDec g data = cfgDecode g (utf8Encode text) := by
  show (match cfgEncode g data with
    | none => DOut.nofuel
    | some t => cfgDecode g (utf8Encode t)) = _
  rw [h]

/-- CFG round-trip on example2 for aligned payload lengths. -/
theorem c4_ex2_aligned (j : Nat) (x : List Nat)
    (hlen : x.length = 4 * j) (hbd : ∀ a ∈ x, a < 256)
    (h32 : x.length < 2 ^ 32) :
    cfgEncDec ex2 x = DOut.ok x := by
  have hfb : ∀ a ∈ be32 x.length ++ x, a < 256 := by
    intro a ha
    rcases List.mem_append.1 ha with h | h
    · exact be32_bound _ a h
    · exact hbd a h
  have hfgd := getD_bound _ hfb
  have hfl : (be32 x.length ++ x).length = 0 + 4 * (j + 1) := by
    rw [List.length_append, be32_length]; omega
  have henc : cfgEncode ex2 x = some (joinSp []
      (ex2Groups (be32 x.length ++ x) 0 (j + 1))) := by
    rw [cfgEncode_unfold ex2 x (by decide)]
    rw [show 8 * (be32 x.length ++ x).length + 1 =
      (8 * (be32 x.length ++ x).length - (j + 1)) + (j + 1) + 1 from by
        omega]
    exact encLoop (j + 1) _ 0 [] _ hfl hfgd
  have hg2 := hfgd (0 + 2) (by omega)
  have hg3 := hfgd (0 + 3) (by omega)
  obtain ⟨c, cs, hsent, hws⟩ := ex2Sentence_shape
    ((be32 x.length ++ x).getD (0 + 2) 0 % 2 * 16 +
      (be32 x.length ++ x).getD (0 + 3) 0 / 16)
    ((be32 x.length ++ x).getD (0 + 3) 0 % 16)
    ((be32 x.length ++ x).getD (0 + 1) 0 % 8 * 4 +
      (be32 x.length ++ x).getD (0 + 2) 0 / 64)
    ((be32 x.length ++ x).getD (0 + 1) 0 / 8)
    ((be32 x.length ++ x).getD 0 0 / 8) ((be32 x.length ++ x).getD 0 0 % 8)
    ((be32 x.length ++ x).getD (0 + 2) 0 / 2 % 4)
    ((be32 x.length ++ x).getD (0 + 2) 0 / 8 % 8) (by omega)
  have hsent2 : ex2SentenceAt (be32 x.length ++ x) 0 = c :: cs := hsent
  have hjoin : joinSp [] (ex2Groups (be32 x.length ++ x) 0 (j + 1)) =
      ex2SentenceAt (be32 x.length ++ x) 0 ++
        tailJoin (ex2Groups (be32 x.length ++ x) (0 + 4) j) := by
    show joinSp [] (ex2SentenceAt (be32 x.length ++ x) 0 ::
      ex2Groups (be32 x.length ++ x) (0 + 4) j) = _
    exact joinSp_nil _ _ (by rw [hsent2]; rfl)
  have hascii : ∀ ch ∈ joinSp [] (ex2Groups (be32 x.length ++ x) 0 (j + 1)),
      ch.toNat < 0x80 := by
    rw [hjoin]
    intro ch hch
    rcases List.mem_append.1 hch with h | h
    · exact ex2SentenceAt_ascii _ 0 (hfgd 0 (by omega))
        (hfgd (0 + 1) (by omega)) (hfgd (0 + 2) (by omega))
        (hfgd (0 + 3) (by omega)) ch h
    · exact tailJoin_ascii _
        (ex2Groups_ascii j (be32 x.length ++ x) (0 + 4) (by omega) hfgd)
        ch h
  have hTlen : j + 1 ≤
      (joinSp [] (ex2Groups (be32 x.length ++ x) 0 (j + 1))).length := by
    rw [hjoin, List.length_append, hsent2]
    have h1 := tailJoin_length (ex2Groups (be32 x.length ++ x) (0 + 4) j)
    rw [ex2Groups_length j] at h1
    simp only [List.length_cons]
    omega
  have hloop : cfgDecodeLoop ex2 32
      ((joinSp [] (ex2Groups (be32 x.length ++ x) 0 (j + 1))).length + 1)
      (joinSp [] (ex2Groups (be32 x.length ++ x) 0 (j + 1))) [] 0 =
      DOut.ok (be32 x.length ++ x) := by
    rw [show (joinSp [] (ex2Groups (be32 x.length ++ x) 0 (j + 1))).length +
      1 = (((joinSp [] (ex2Groups (be32 x.length ++ x) 0 (j + 1))).length -
        (j + 1)) + j + 1) + 1 from by omega]
    rw [decLoopMainA j (be32 x.length ++ x) [] 0 _ (by omega) hfgd]
    rw [bytesOf_eq (j + 1) (be32 x.length ++ x) 0 (by omega)]
    rw [List.drop_zero, List.nil_append]
  have htake : (be32 x.length ++ x).take 4 = be32 x.length := by
    rw [show (4 : Nat) = (be32 x.length).length from rfl]
    exact List.take_left _ _
  have hdrop : (be32 x.length ++ x).drop 4 = x := by
    rw [show (4 : Nat) = (be32 x.length).length from rfl]
    exact List.drop_left _ _
  rw [cfgEncDec_some ex2 x _ henc]
  rw [cfgDecode_ok ex2 _ (be32 x.length ++ x) (by decide)
    (by rw [ex2_capacity, utf8_roundtrip_ascii _ hascii]; exact hloop)
    (by omega) (by decide)
    (by rw [htake, be32val_be32 _ h32]; omega)]
  rw [htake, be32val_be32 _ h32, hdrop, List.take_length]

theorem bytesOf_eq_part (k : Nat) : ∀ (data : List Nat) (b : Nat),
    data.length = b + 4 * k + 1 →
    bytesOf data b k ++ [data.getD (b + 4 * k) 0, 0, 0, 0] =
      data.drop b ++ [0, 0, 0] := by
  induction k with
  | zero =>
      intro data b hlen
      have h0 : b < data.length := by omega
      show [data.getD (b + 4 * 0) 0, 0, 0, 0] = _
      rw [show b + 4 * 0 = b from by omega]
      rw [List.getD_eq_getElem data 0 h0]
      rw [List.drop_eq_getElem_cons h0, List.drop_of_length_le (by omega)]
      rfl
  | succ k ih =>
      intro data b hlen
      have h0 : b < data.length := by omega
      have h1 : b + 1 < data.length := by omega
      have h2 : b + 2 < data.length := by omega
      have h3 : b + 3 < data.length := by omega
      show (data.getD b 0 :: data.getD (b + 1) 0 :: data.getD (b + 2) 0 ::
        data.getD (b + 3) 0 :: bytesOf data (b + 4) k) ++
          [data.getD (b + 4 * (k + 1)) 0, 0, 0, 0] = _
      rw [show b + 4 * (k + 1) = b + 4 + 4 * k from by omega]
      have hih := ih data (b + 4) (by omega)
      rw [List.getD_eq_getElem data 0 h0, List.getD_eq_getElem data 0 h1,
        List.getD_eq_getElem data 0 h2, List.getD_eq_getElem data 0 h3]
      rw [List.drop_eq_getElem_cons h0, List.drop_eq_getElem_cons h1,
        List.drop_eq_getElem_cons h2, List.drop_eq_getElem_cons h3]
      simp only [List.cons_append]
      rw [hih]

/-- CFG round-trip on example2 for payload lengths that are 1 mod 4. -/
theorem c4_ex2_partial (j : Nat) (x : List Nat)
    (hlen : x.length = 4 * j + 1) (hbd : ∀ a ∈ x, a < 256)
    (h32 : x.length < 2 ^ 32) :
    cfgEncDec ex2 x = DOut.ok x := by
  have hfb : ∀ a ∈ be32 x.length ++ x, a < 256 := by
    intro a ha
    rcases List.mem_append.1 ha with h | h
    · exact be32_bound _ a h
    · exact hbd a h
  have hfgd := getD_bound _ hfb
  have hfl : (be32 x.length ++ x).length = 0 + 4 * (j + 1) + 1 := by
    rw [List.length_append, be32_length]; omega
  have henc : cfgEncode ex2 x = some (joinSp []
      (ex2GroupsP (be32 x.length ++ x) 0 (j + 1))) := by
    rw [cfgEncode_unfold ex2 x (by decide)]
    rw [show 8 * (be32 x.length ++ x).length + 1 =
      (8 * (be32 x.length ++ x).length - (j + 2)) + (j + 1) + 2 from by
        omega]
    exact encLoopP (j + 1) _ 0 [] _ hfl hfgd
  have hg2 := hfgd (0 + 2) (by omega)
  have hg3 := hfgd (0 + 3) (by omega)
  obtain ⟨c, cs, hsent, hws⟩ := ex2Sentence_shape
    ((be32 x.length ++ x).getD (0 + 2) 0 % 2 * 16 +
      (be32 x.length ++ x).getD (0 + 3) 0 / 16)
    ((be32 x.length ++ x).getD (0 + 3) 0 % 16)
    ((be32 x.length ++ x).getD (0 + 1) 0 % 8 * 4 +
      (be32 x.length ++ x).getD (0 + 2) 0 / 64)
    ((be32 x.length ++ x).getD (0 + 1) 0 / 8)
    ((be32 x.length ++ x).getD 0 0 / 8) ((be32 x.length ++ x).getD 0 0 % 8)
    ((be32 x.length ++ x).getD (0 + 2) 0 / 2 % 4)
    ((be32 x.length ++ x).getD (0 + 2) 0 / 8 % 8) (by omega)
  have hsent2 : ex2SentenceAt (be32 x.length ++ x) 0 = c :: cs := hsent
  have hsplit : ex2Groups (be32 x.length ++ x) (0 + 4) j ++
      [ex2SentenceLast (be32 x.length ++ x) (0 + 4 * (j + 1))] =
      ex2GroupsP (be32 x.length ++ x) (0 + 4) j := by
    show _ = ex2Groups (be32 x.length ++ x) (0 + 4) j ++
      [ex2SentenceLast (be32 x.length ++ x) (0 + 4 + 4 * j)]
    rw [show 0 + 4 + 4 * j = 0 + 4 * (j + 1) from by omega]
  have hjoin : joinSp [] (ex2GroupsP (be32 x.length ++ x) 0 (j + 1)) =
      ex2SentenceAt (be32 x.length ++ x) 0 ++
        tailJoin (ex2GroupsP (be32 x.length ++ x) (0 + 4) j) := by
    show joinSp [] (ex2SentenceAt (be32 x.length ++ x) 0 ::
      (ex2Groups (be32 x.length ++ x) (0 + 4) j ++
        [ex2SentenceLast (be32 x.length ++ x) (0 + 4 * (j + 1))])) = _
    rw [joinSp_nil _ _ (by rw [hsent2]; rfl), hsplit]
  have hascii : ∀ ch ∈ joinSp []
      (ex2GroupsP (be32 x.length ++ x) 0 (j + 1)), ch.toNat < 0x80 := by
    rw [hjoin]
    intro ch hch
    rcases List.mem_append.1 hch with h | h
    · exact ex2SentenceAt_ascii _ 0 (hfgd 0 (by omega))
        (hfgd (0 + 1) (by omega)) (hfgd (0 + 2) (by omega))
        (hfgd (0 + 3) (by omega)) ch h
    · exact tailJoin_ascii _
        (ex2GroupsP_ascii j (be32 x.length ++ x) (0 + 4) (by omega) hfgd)
        ch h
  have hTlen : j + 2 ≤
      (joinSp [] (ex2GroupsP (be32 x.length ++ x) 0 (j + 1))).length := by
    rw [hjoin, List.length_append, hsent2]
    have h1 := tailJoin_length (ex2GroupsP (be32 x.length ++ x) (0 + 4) j)
    have h2 : (ex2GroupsP (be32 x.length ++ x) (0 + 4) j).length =
        j + 1 := by
      show (ex2Groups (be32 x.length ++ x) (0 + 4) j ++ _).length = _
      rw [List.length_append, ex2Groups_length j]
      rfl
    rw [h2] at h1
    simp only [List.length_cons]
    omega
  have hloop : cfgDecodeLoop ex2 32
      ((joinSp [] (ex2GroupsP (be32 x.length ++ x) 0 (j + 1))).length + 1)
      (joinSp [] (ex2GroupsP (be32 x.length ++ x) 0 (j + 1))) [] 0 =
      DOut.ok ((be32 x.length ++ x) ++ [0, 0, 0]) := by
    rw [show (joinSp [] (ex2GroupsP (be32 x.length ++ x) 0 (j + 1))).length
      + 1 = (((joinSp []
        (ex2GroupsP (be32 x.length ++ x) 0 (j + 1))).length -
        (j + 2)) + j + 2) + 1 from by omega]
    rw [decLoopMainP j (be32 x.length ++ x) [] 0 _ (by omega) hfgd]
    rw [bytesOf_eq_part (j + 1) (be32 x.length ++ x) 0 (by omega)]
    rw [List.drop_zero, List.nil_append]
  have htake : ((be32 x.length ++ x) ++ [0, 0, 0]).take 4 =
      be32 x.length := by
    rw [List.append_assoc]
    rw [show (4 : Nat) = (be32 x.length).length from rfl]
    exact List.take_left _ _
  have hdrop : ((be32 x.length ++ x) ++ [0, 0, 0]).drop 4 =
      x ++ [0, 0, 0] := by
    rw [List.append_assoc]
    rw [show (4 : Nat) = (be32 x.length).length from rfl]
    exact List.drop_left _ _
  rw [cfgEncDec_some ex2 x _ henc]
  rw [cfgDecode_ok ex2 _ ((be32 x.length ++ x) ++ [0, 0, 0]) (by decide)
    (by rw [ex2_capacity, utf8_roundtrip_ascii _ hascii]; exact hloop)
    (by rw [List.length_append, List.length_append, be32_length]
        show ¬ 4 + x.length + 3 < 4
        omega)
    (by decide)
    (by rw [htake, be32val_be32 _ h32, List.length_append,
          List.length_append, be32_length]
        show ¬ 4 + x.length + 3 < 4 + x.length
        omega)]
  rw [htake, be32val_be32 _ h32, hdrop, List.take_left]

/-! ### example1: generic additions -/

theorem prunedB_true_mid (target A t1 t2 B : List Char)
    (hA : noBrace A) (ht1 : noBrace t1) (hne : 0 < A.length + t1.length)
    (hpre : ¬ (A ++ t1) <+: target) :
    prunedB target A B (t1 ++ '{' :: t2) = true := by
  unfold prunedB
  have hsh : A ++ (t1 ++ '{' :: t2) ++ B =
      (A ++ t1) ++ '{' :: (t2 ++ B) := by simp
  rw [hsh, findIdx?_brace (t2 ++ B) (noBrace_append hA ht1)]
  show (decide ((A ++ t1).length ≠ 0) &&
    ! (((A ++ t1) ++ '{' :: (t2 ++ B)).take
        (A ++ t1).length).isPrefixOf target) = true
  rw [List.take_left, isPrefixOf_false_of _ _ hpre]
  have hlen : (A ++ t1).length ≠ 0 := by rw [List.length_append]; omega
  simp only [Bool.not_false, Bool.and_true, decide_eq_true_eq]
  exact hlen

/-- All productions of a slot fail their recursive calls without
touching the map: the loop fails and restores the incoming map. -/
theorem mrLoop_fail (target pattern : List Char) (start stop : Nat)
    (N : List Char) (rec : List Char → Choices → Option (Bool × Choices))
    (tkA dpB : List Char) (htk : pattern.take start = tkA)
    (hdp : pattern.drop (stop + 1) = dpB) :
    ∀ (prods : List Production) (idx : Nat) (m : Choices),
    m N = none →
    (∀ prod ∈ prods, prunedB target tkA dpB prod.text = false ∧
      ∀ mm : Choices, rec (tkA ++ prod.text ++ dpB) mm = some (false, mm)) →
    mrLoop target pattern start stop N rec idx prods m =
      some (false, m) := by
  intro prods
  induction prods with
  | nil => intro idx m _ _; rfl
  | cons p rest ih =>
      intro idx m hm hall
      obtain ⟨hpr, hrec⟩ := hall p (List.mem_cons_self ..)
      rw [mrLoop_step_rec target pattern start stop N rec idx p rest m
        tkA dpB htk hdp hpr]
      rw [hrec (insertC N idx m)]
      show mrLoop target pattern start stop N rec (idx + 1) rest
        (removeC N (insertC N idx m)) = some (false, m)
      rw [removeC_insertC, removeC_absent _ _ hm]
      exact ih (idx + 1) m hm
        (fun prod hp => hall prod (List.mem_cons_of_mem _ hp))

/-- Backtracking over one failing first production whose recursive call
returns `false` with the map intact. -/
theorem mrLoop_backtrack_one (target pattern : List Char)
    (start stop : Nat) (N : List Char)
    (rec : List Char → Choices → Option (Bool × Choices))
    (p0 cprod : Production) (rest : List Production) (m m' : Choices)
    (tkA dpB : List Char) (htk : pattern.take start = tkA)
    (hdp : pattern.drop (stop + 1) = dpB)
    (hm : m N = none)
    (h0pr : prunedB target tkA dpB p0.text = false)
    (h0 : rec (tkA ++ p0.text ++ dpB) (insertC N 0 m) =
      some (false, insertC N 0 m))
    (hcpr : prunedB target tkA dpB cprod.text = false)
    (hsucc : rec (tkA ++ cprod.text ++ dpB) (insertC N 1 m) =
      some (true, m')) :
    mrLoop target pattern start stop N rec 0 (p0 :: cprod :: rest) m =
      some (true, m') := by
  rw [mrLoop_step_rec target pattern start stop N rec 0 p0
    (cprod :: rest) m tkA dpB htk hdp h0pr]
  rw [h0]
  show mrLoop target pattern start stop N rec (0 + 1) (cprod :: rest)
    (removeC N (insertC N 0 m)) = some (true, m')
  rw [removeC_insertC, removeC_absent _ _ hm]
  rw [mrLoop_step_rec target pattern start stop N rec (0 + 1) cprod rest m
    tkA dpB htk hdp hcpr]
  rw [show (0 + 1 : Nat) = 1 from rfl, hsucc]

theorem not_prefix_head (c1 c2 : Char) (xs ys : List Char) (h : c1 ≠ c2) :
    ¬ (c1 :: xs) <+: (c2 :: ys) := by
  intro hpre
  obtain ⟨t, ht⟩ := hpre
  rw [List.cons_append] at ht
  injection ht with h1 _
  exact h h1

/-! ### UTF-8 round-trip allowing the ligature in example1 -/

theorem utf8EncodeChar_ascii (c : Char) (h : c.toNat < 0x80) :
    utf8EncodeChar c = [c.toNat] := by
  unfold utf8EncodeChar
  rw [if_pos h]

theorem utf8Go_ascii_step (c : Char) (h : c.toNat < 0x80) (rest : List Nat)
    (fuel : Nat) :
    utf8LossyGo (fuel + 1) (c.toNat :: rest) =
      c :: utf8LossyGo fuel rest := by
  have hstep : utf8LossyStep c.toNat rest = (c, 0) := by
    unfold utf8LossyStep
    rw [if_pos h, Char.ofNat_toNat]
  show (utf8LossyStep c.toNat rest).1 ::
    utf8LossyGo fuel (rest.drop (utf8LossyStep c.toNat rest).2) = _
  rw [hstep]
  rfl

theorem utf8Go_fi_step (rest : List Nat) (fuel : Nat) :
    utf8LossyGo (fuel + 1) (0xEF :: 0xAC :: 0x81 :: rest) =
      Char.ofNat 0xFB01 :: utf8LossyGo fuel rest := by
  show (utf8LossyStep 0xEF (0xAC :: 0x81 :: rest)).1 ::
    utf8LossyGo fuel ((0xAC :: 0x81 :: rest).drop
      (utf8LossyStep 0xEF (0xAC :: 0x81 :: rest)).2) = _
  rw [show utf8LossyStep 0xEF (0xAC :: 0x81 :: rest) =
    (Char.ofNat 0xFB01, 2) from rfl]
  rfl

theorem utf8EncodeChar_fi :
    utf8EncodeChar (Char.ofNat 0xFB01) = [0xEF, 0xAC, 0x81] := by decide

theorem utf8Go_roundtrip_fi : ∀ (s : List Char) (fuel : Nat),
    (∀ c ∈ s, c.toNat < 0x80 ∨ c = Char.ofNat 0xFB01) →
    (utf8Encode s).length ≤ fuel →
    utf8LossyGo fuel (utf8Encode s) = s := by
  intro s
  induction s with
  | nil =>
      intro fuel _ _
      rw [show utf8Encode [] = [] from by simp [utf8Encode]]
      cases fuel <;> rfl
  | cons c s2 ih =>
      intro fuel h hfuel
      have hs2 : ∀ x ∈ s2, x.toNat < 0x80 ∨ x = Char.ofNat 0xFB01 :=
        fun x hx => h x (List.mem_cons_of_mem _ hx)
      have henc : utf8Encode (c :: s2) =
          utf8EncodeChar c ++ utf8Encode s2 := rfl
      rcases h c (List.mem_cons_self ..) with hc | hc
      · rw [henc, utf8EncodeChar_ascii c hc] at hfuel ⊢
        simp only [List.cons_append, List.nil_append, List.length_cons]
          at hfuel ⊢
        obtain ⟨f, rfl⟩ : ∃ f, fuel = f + 1 := ⟨fuel - 1, by omega⟩
        rw [utf8Go_ascii_step c hc]
        rw [ih f hs2 (by omega)]
      · subst hc
        rw [henc, utf8EncodeChar_fi] at hfuel ⊢
        simp only [List.cons_append, List.nil_append, List.length_cons]
          at hfuel ⊢
        obtain ⟨f, rfl⟩ : ∃ f, fuel = f + 1 := ⟨fuel - 1, by omega⟩
        rw [utf8Go_fi_step]
        rw [ih f hs2 (by omega)]

theorem utf8_roundtrip_fi (s : List Char)
    (h : ∀ c ∈ s, c.toNat < 0x80 ∨ c = Char.ofNat 0xFB01) :
    utf8Lossy (utf8Encode s) = s :=
  utf8Go_roundtrip_fi s (utf8Encode s).length h (Nat.le_refl _)

/-! ### example1 words -/

def ex1NounW (n : Nat) : List Char :=
  if n = 0 then "Fred".toList else "Barney".toList

def ex1VerbPre (v : Nat) : List Char :=
  if v = 0 then "went ﬁshing ".toList else "went bowling ".toList

def ex1DirW (d : Nat) : List Char :=
  if d = 0 then "northern".toList else "southern".toList

def ex1StW (w : Nat) : List Char :=
  if w = 0 then " Iowa.".toList else " Minnesota.".toList

/-- The sentence example1 renders for choices
direction `d`, noun `n`, verb `v`, where-state `w`. -/
def ex1Sentence (d n v w : Nat) : List Char :=
  ex1NounW n ++ (' ' :: (ex1VerbPre v ++ ("in ".toList ++
    (ex1DirW d ++ ex1StW w))))

theorem ex1NounW_noBrace : ∀ n, noBrace (ex1NounW n) = true := by
  intro n
  by_cases h : n = 0 <;> simp only [ex1NounW, h, if_true, if_false] <;>
    decide

theorem ex1VerbPre_noBrace : ∀ v, noBrace (ex1VerbPre v) = true := by
  intro v
  by_cases h : v = 0 <;> simp only [ex1VerbPre, h, if_true, if_false] <;>
    decide

theorem ex1DirW_noBrace : ∀ d, noBrace (ex1DirW d) = true := by
  intro d
  by_cases h : d = 0 <;> simp only [ex1DirW, h, if_true, if_false] <;>
    decide

theorem ex1StW_noBrace : ∀ w, noBrace (ex1StW w) = true := by
  intro w
  by_cases h : w = 0 <;> simp only [ex1StW, h, if_true, if_false] <;>
    decide

def pNorth : Production := ⟨"northern".toList, ProductType.plain⟩
def pSouth : Production := ⟨"southern".toList, ProductType.plain⟩

theorem ex1_get_direction : ex1.get "direction".toList =
    some [pNorth, pSouth] := by decide

/-- The direction slot of example1: choice `d` matched, leaf
backtracking over the wrong word. -/
theorem ex1_step_direction (fuel : Nat) (A W tail : List Char) (m : Choices)
    (d : Nat) (hA : noBrace A) (hW : noBrace W) (hd : d < 2)
    (hm : m "direction".toList = none) :
    matchRecGo ex1 true (fuel + 2)
      (A ++ (ex1DirW d ++ (W ++ tail)))
      (A ++ '{' :: ("direction".toList ++ '}' :: W)) m =
      some (true, insertC "direction".toList d m) := by
  rw [matchRecGo_var ex1 true (fuel + 1) (A ++ (ex1DirW d ++ (W ++ tail)))
    A "direction".toList W m [pNorth, pSouth] hA (by decide)
    ex1_get_direction]
  interval_cases d
  · apply mrLoop_prefix_success (A ++ (ex1DirW 0 ++ (W ++ tail)))
      (A ++ '{' :: ("direction".toList ++ '}' :: W)) A.length
      (A.length + 1 + ("direction".toList).length) "direction".toList
      (matchRecGo ex1 true (fuel + 1) (A ++ (ex1DirW 0 ++ (W ++ tail))))
      [pSouth] (insertC "direction".toList 0 m) A W
      (pattern_take_A "direction".toList W)
      (pattern_drop_B "direction".toList W)
      [] pNorth 0 m (by intro prod hp; simp at hp)
    · show prunedB (A ++ (ex1DirW 0 ++ (W ++ tail))) A W
        "northern".toList = false
      apply prunedB_false_noBrace
      exact noBrace_append (noBrace_append hA (by decide)) hW
    · show matchRecGo ex1 true (fuel + 1) (A ++ (ex1DirW 0 ++ (W ++ tail)))
        (A ++ "northern".toList ++ W) (insertC "direction".toList 0 m) =
        some (true, insertC "direction".toList 0 m)
      rw [matchRecGo_leaf ex1 true fuel _ _ _
        (noBrace_append (noBrace_append hA (by decide)) hW)]
      rw [isPrefixOf_true_of _ _ ⟨tail, by
        show (A ++ "northern".toList ++ W) ++ tail =
          A ++ (ex1DirW 0 ++ (W ++ tail))
        rw [show ex1DirW 0 = "northern".toList from rfl]
        simp⟩]
      rfl
  · apply mrLoop_leaf_success (A ++ (ex1DirW 1 ++ (W ++ tail)))
      (A ++ '{' :: ("direction".toList ++ '}' :: W)) A.length
      (A.length + 1 + ("direction".toList).length) "direction".toList
      (matchRecGo ex1 true (fuel + 1) (A ++ (ex1DirW 1 ++ (W ++ tail))))
      [] (insertC "direction".toList 1 m) A W
      (pattern_take_A "direction".toList W)
      (pattern_drop_B "direction".toList W)
      [pNorth] pSouth 0 m hm
    · intro prod hp
      rw [List.mem_singleton.1 hp]
      constructor
      · show prunedB (A ++ (ex1DirW 1 ++ (W ++ tail))) A W
          "northern".toList = false
        apply prunedB_false_noBrace
        exact noBrace_append (noBrace_append hA (by decide)) hW
      · intro mm
        show matchRecGo ex1 true (fuel + 1) (A ++ (ex1DirW 1 ++ (W ++ tail)))
          (A ++ "northern".toList ++ W) mm = some (false, mm)
        rw [matchRecGo_leaf ex1 true fuel _ _ _
          (noBrace_append (noBrace_append hA (by decide)) hW)]
        rw [isPrefixOf_false_of _ _ (by
          rw [show ex1DirW 1 = "southern".toList from rfl,
            List.append_assoc]
          exact not_prefix_of_pairwise A ("northern".toList ++ W)
            "southern".toList (W ++ tail)
            (by rw [show ("northern".toList : List Char) =
                'n' :: "orthern".toList from rfl, List.cons_append]
                exact not_prefix_head _ _ _ _ (by decide))
            (by rw [show ("northern".toList : List Char) =
                'n' :: "orthern".toList from rfl, List.cons_append]
                exact not_prefix_head _ _ _ _ (by decide)))]
        rfl
    · show prunedB (A ++ (ex1DirW 1 ++ (W ++ tail))) A W
        "southern".toList = false
      apply prunedB_false_noBrace
      exact noBrace_append (noBrace_append hA (by decide)) hW
    · show matchRecGo ex1 true (fuel + 1) (A ++ (ex1DirW 1 ++ (W ++ tail)))
        (A ++ "southern".toList ++ W) (insertC "direction".toList 1 m) =
        some (true, insertC "direction".toList 1 m)
      rw [matchRecGo_leaf ex1 true fuel _ _ _
        (noBrace_append (noBrace_append hA (by decide)) hW)]
      rw [isPrefixOf_true_of _ _ ⟨tail, by
        show (A ++ "southern".toList ++ W) ++ tail =
          A ++ (ex1DirW 1 ++ (W ++ tail))
        rw [show ex1DirW 1 = "southern".toList from rfl]
        simp⟩]
      rfl

theorem not_prefix_append_right (A x y T : List Char)
    (h : ¬ x <+: (y ++ T)) : ¬ (A ++ x) <+: (A ++ (y ++ T)) := by
  intro hp
  rw [List.prefix_append_right_inj] at hp
  exact h hp

theorem iowa_not_pref (tail : List Char) :
    ¬ (" Iowa.".toList : List Char) <+: (" Minnesota.".toList ++ tail) := by
  intro h
  obtain ⟨-, h2⟩ := List.cons_prefix_cons.1 h
  exact not_prefix_head 'I' 'M' "owa.".toList
    ("innesota.".toList ++ tail) (by decide) h2

def pIowa : Production :=
  ⟨"in \x7bdirection\x7d Iowa.".toList, ProductType.replace⟩
def pMinn : Production :=
  ⟨"in \x7bdirection\x7d Minnesota.".toList, ProductType.replace⟩

theorem ex1_get_where : ex1.get "where".toList = some [pIowa, pMinn] := by
  decide

theorem pIowa_text : pIowa.text = "in ".toList ++
    '{' :: ("direction".toList ++ '}' :: " Iowa.".toList) := rfl

theorem pMinn_text : pMinn.text = "in ".toList ++
    '{' :: ("direction".toList ++ '}' :: " Minnesota.".toList) := rfl

theorem ex1_leaf_iowa_same (A dw tail : List Char) :
    ¬ (A ++ dw ++ " Iowa.".toList) <+:
      (A ++ (dw ++ (" Minnesota.".toList ++ tail))) := by
  intro hp
  rw [← List.append_assoc A dw (" Minnesota.".toList ++ tail)] at hp
  exact not_prefix_append_right (A ++ dw) " Iowa.".toList
    " Minnesota.".toList tail (iowa_not_pref tail) hp

theorem ex1_leaf_dir_diff (A tail : List Char) (i d : Nat) (hne : i ≠ d)
    (hi : i < 2) (hd : d < 2) :
    ¬ (A ++ ex1DirW i ++ " Iowa.".toList) <+:
      (A ++ (ex1DirW d ++ (" Minnesota.".toList ++ tail))) := by
  rw [List.append_assoc]
  refine not_prefix_of_pairwise A (ex1DirW i ++ " Iowa.".toList)
    (ex1DirW d) (" Minnesota.".toList ++ tail) ?_ ?_ <;>
    interval_cases i <;> interval_cases d <;>
      first
      | exact absurd rfl hne
      | decide

/-- The wrong where-branch (`Iowa`) fails against a `Minnesota` target
and leaves the map unchanged. -/
theorem ex1_where_iowa_fails (fuel : Nat) (A tail : List Char)
    (mm : Choices) (d : Nat) (hA : noBrace A) (hd : d < 2)
    (hmm : mm "direction".toList = none) :
    matchRecGo ex1 true (fuel + 2)
      (A ++ (ex1DirW d ++ (" Minnesota.".toList ++ tail)))
      (A ++ '{' :: ("direction".toList ++ '}' :: " Iowa.".toList)) mm =
      some (false, mm) := by
  rw [matchRecGo_var ex1 true (fuel + 1)
    (A ++ (ex1DirW d ++ (" Minnesota.".toList ++ tail)))
    A "direction".toList " Iowa.".toList mm [pNorth, pSouth] hA (by decide)
    ex1_get_direction]
  apply mrLoop_fail (A ++ (ex1DirW d ++ (" Minnesota.".toList ++ tail)))
    (A ++ '{' :: ("direction".toList ++ '}' :: " Iowa.".toList)) A.length
    (A.length + 1 + ("direction".toList).length) "direction".toList
    (matchRecGo ex1 true (fuel + 1)
      (A ++ (ex1DirW d ++ (" Minnesota.".toList ++ tail))))
    A " Iowa.".toList
    (pattern_take_A "direction".toList " Iowa.".toList)
    (pattern_drop_B "direction".toList " Iowa.".toList)
    [pNorth, pSouth] 0 mm hmm
  intro prod hp
  have hdir : ∃ i, i < 2 ∧ prod.text = ex1DirW i := by
    rcases List.mem_cons.1 hp with h | h
    · exact ⟨0, by omega, by rw [h]; rfl⟩
    · rw [List.mem_singleton.1 h]
      exact ⟨1, by omega, rfl⟩
  obtain ⟨i, hi, htext⟩ := hdir
  rw [htext]
  constructor
  · apply prunedB_false_noBrace
    exact noBrace_append (noBrace_append hA (ex1DirW_noBrace i)) (by decide)
  · intro mm2
    rw [matchRecGo_leaf ex1 true fuel _ _ _
      (noBrace_append (noBrace_append hA (ex1DirW_noBrace i)) (by decide))]
    rw [isPrefixOf_false_of _ _ (by
      by_cases hie : i = d
      · subst hie
        exact ex1_leaf_iowa_same A (ex1DirW i) tail
      · exact ex1_leaf_dir_diff A tail i d hie hi hd)]
    rfl

/-- The where slot of example1, including the backtrack out of the
wrong branch. -/
theorem ex1_step_where (fuel : Nat) (A tail : List Char) (m : Choices)
    (w d : Nat) (hA : noBrace A) (hw : w < 2) (hd : d < 2)
    (hmw : m "where".toList = none) (hmd : m "direction".toList = none) :
    matchRecGo ex1 true (fuel + 3)
      (A ++ ("in ".toList ++ (ex1DirW d ++ (ex1StW w ++ tail))))
      (A ++ '{' :: ("where".toList ++ '}' :: [])) m =
      some (true, insertC "direction".toList d
        (insertC "where".toList w m)) := by
  have hget : ex1.get "where".toList = some [pIowa, pMinn] := ex1_get_where
  have hmdw : ∀ j, (insertC "where".toList j m) "direction".toList =
      none := by
    intro j
    rw [insertC_get_other _ _ _ _ (by decide)]
    exact hmd
  rw [matchRecGo_var ex1 true (fuel + 2)
    (A ++ ("in ".toList ++ (ex1DirW d ++ (ex1StW w ++ tail))))
    A "where".toList [] m [pIowa, pMinn] hA (by decide) hget]
  interval_cases w
  · apply mrLoop_prefix_success
      (A ++ ("in ".toList ++ (ex1DirW d ++ (ex1StW 0 ++ tail))))
      (A ++ '{' :: ("where".toList ++ '}' :: [])) A.length
      (A.length + 1 + ("where".toList).length) "where".toList
      (matchRecGo ex1 true (fuel + 2)
        (A ++ ("in ".toList ++ (ex1DirW d ++ (ex1StW 0 ++ tail)))))
      [pMinn] (insertC "direction".toList d (insertC "where".toList 0 m))
      A [] (pattern_take_A "where".toList [])
      (pattern_drop_B "where".toList [])
      [] pIowa 0 m (by intro prod hp; simp at hp)
    · show prunedB (A ++ ("in ".toList ++ (ex1DirW d ++ (ex1StW 0 ++
        tail)))) A [] pIowa.text = false
      rw [pIowa_text]
      apply prunedB_false_mid _ _ _ _ _ hA (by decide)
      exact ⟨ex1DirW d ++ (ex1StW 0 ++ tail), by simp⟩
    · show matchRecGo ex1 true (fuel + 2)
        (A ++ ("in ".toList ++ (ex1DirW d ++ (ex1StW 0 ++ tail))))
        (A ++ pIowa.text ++ []) (insertC "where".toList 0 m) =
        some (true, insertC "direction".toList d
          (insertC "where".toList 0 m))
      rw [show A ++ pIowa.text ++ [] = (A ++ "in ".toList) ++
        '{' :: ("direction".toList ++ '}' :: " Iowa.".toList) from by
          rw [pIowa_text]; simp]
      rw [show A ++ ("in ".toList ++ (ex1DirW d ++ (ex1StW 0 ++ tail))) =
        (A ++ "in ".toList) ++ (ex1DirW d ++ (" Iowa.".toList ++ tail))
        from by rw [show ex1StW 0 = " Iowa.".toList from rfl]; simp]
      exact ex1_step_direction fuel (A ++ "in ".toList) " Iowa.".toList
        tail (insertC "where".toList 0 m) d
        (noBrace_append hA (by decide)) (by decide) hd (hmdw 0)
  · apply mrLoop_backtrack_one
      (A ++ ("in ".toList ++ (ex1DirW d ++ (ex1StW 1 ++ tail))))
      (A ++ '{' :: ("where".toList ++ '}' :: [])) A.length
      (A.length + 1 + ("where".toList).length) "where".toList
      (matchRecGo ex1 true (fuel + 2)
        (A ++ ("in ".toList ++ (ex1DirW d ++ (ex1StW 1 ++ tail)))))
      pIowa pMinn [] m
      (insertC "direction".toList d (insertC "where".toList 1 m))
      A [] (pattern_take_A "where".toList [])
      (pattern_drop_B "where".toList []) hmw
    · show prunedB (A ++ ("in ".toList ++ (ex1DirW d ++ (ex1StW 1 ++
        tail)))) A [] pIowa.text = false
      rw [pIowa_text]
      apply prunedB_false_mid _ _ _ _ _ hA (by decide)
      exact ⟨ex1DirW d ++ (ex1StW 1 ++ tail), by simp⟩
    · show matchRecGo ex1 true (fuel + 2)
        (A ++ ("in ".toList ++ (ex1DirW d ++ (ex1StW 1 ++ tail))))
        (A ++ pIowa.text ++ []) (insertC "where".toList 0 m) =
        some (false, insertC "where".toList 0 m)
      rw [show A ++ pIowa.text ++ [] = (A ++ "in ".toList) ++
        '{' :: ("direction".toList ++ '}' :: " Iowa.".toList) from by
          rw [pIowa_text]; simp]
      rw [show A ++ ("in ".toList ++ (ex1DirW d ++ (ex1StW 1 ++ tail))) =
        (A ++ "in ".toList) ++ (ex1DirW d ++ (" Minnesota.".toList ++
          tail)) from by rw [show ex1StW 1 = " Minnesota.".toList from rfl]
                         simp]
      exact ex1_where_iowa_fails fuel (A ++ "in ".toList) tail
        (insertC "where".toList 0 m) d (noBrace_append hA (by decide)) hd
        (hmdw 0)
    · show prunedB (A ++ ("in ".toList ++ (ex1DirW d ++ (ex1StW 1 ++
        tail)))) A [] pMinn.text = false
      rw [pMinn_text]
      apply prunedB_false_mid _ _ _ _ _ hA (by decide)
      exact ⟨ex1DirW d ++ (ex1StW 1 ++ tail), by simp⟩
    · show matchRecGo ex1 true (fuel + 2)
        (A ++ ("in ".toList ++ (ex1DirW d ++ (ex1StW 1 ++ tail))))
        (A ++ pMinn.text ++ []) (insertC "where".toList 1 m) =
        some (true, insertC "direction".toList d
          (insertC "where".toList 1 m))
      rw [show A ++ pMinn.text ++ [] = (A ++ "in ".toList) ++
        '{' :: ("direction".toList ++ '}' :: " Minnesota.".toList) from by
          rw [pMinn_text]; simp]
      rw [show A ++ ("in ".toList ++ (ex1DirW d ++ (ex1StW 1 ++ tail))) =
        (A ++ "in ".toList) ++ (ex1DirW d ++ (" Minnesota.".toList ++
          tail)) from by rw [show ex1StW 1 = " Minnesota.".toList from rfl]
                         simp]
      exact ex1_step_direction fuel (A ++ "in ".toList)
        " Minnesota.".toList tail (insertC "where".toList 1 m) d
        (noBrace_append hA (by decide)) (by decide) hd (hmdw 1)

def pVF : Production :=
  ⟨"went ﬁshing \x7bwhere\x7d".toList, ProductType.replace⟩
def pVB : Production :=
  ⟨"went bowling \x7bwhere\x7d".toList, ProductType.replace⟩

theorem ex1_get_verb : ex1.get "verb".toList = some [pVF, pVB] := by decide

theorem pVF_text : pVF.text = "went ﬁshing ".toList ++
    '{' :: ("where".toList ++ '}' :: []) := rfl

theorem pVB_text : pVB.text = "went bowling ".toList ++
    '{' :: ("where".toList ++ '}' :: []) := rfl

theorem ex1VerbPre_eq : ∀ v, v < 2 → ex1VerbPre v =
    (if v = 0 then "went ﬁshing ".toList else "went bowling ".toList) :=
  fun _ _ => rfl

/-- The verb slot of example1: the wrong verb is pruned at the prefix
test. -/
theorem ex1_step_verb (fuel : Nat) (A tail : List Char) (m : Choices)
    (v w d : Nat) (hA : noBrace A) (hv : v < 2) (hw : w < 2) (hd : d < 2)
    (hmw : m "where".toList = none) (hmd : m "direction".toList = none) :
    matchRecGo ex1 true (fuel + 4)
      (A ++ (ex1VerbPre v ++ ("in ".toList ++ (ex1DirW d ++
        (ex1StW w ++ tail)))))
      (A ++ '{' :: ("verb".toList ++ '}' :: [])) m =
      some (true, insertC "direction".toList d
        (insertC "where".toList w (insertC "verb".toList v m))) := by
  have hmwv : ∀ j, (insertC "verb".toList j m) "where".toList = none := by
    intro j
    rw [insertC_get_other _ _ _ _ (by decide)]
    exact hmw
  have hmdv : ∀ j, (insertC "verb".toList j m) "direction".toList =
      none := by
    intro j
    rw [insertC_get_other _ _ _ _ (by decide)]
    exact hmd
  rw [matchRecGo_var ex1 true (fuel + 3)
    (A ++ (ex1VerbPre v ++ ("in ".toList ++ (ex1DirW d ++
      (ex1StW w ++ tail)))))
    A "verb".toList [] m [pVF, pVB] hA (by decide) ex1_get_verb]
  interval_cases v
  · apply mrLoop_prefix_success
      (A ++ (ex1VerbPre 0 ++ ("in ".toList ++ (ex1DirW d ++
        (ex1StW w ++ tail)))))
      (A ++ '{' :: ("verb".toList ++ '}' :: [])) A.length
      (A.length + 1 + ("verb".toList).length) "verb".toList
      (matchRecGo ex1 true (fuel + 3)
        (A ++ (ex1VerbPre 0 ++ ("in ".toList ++ (ex1DirW d ++
          (ex1StW w ++ tail))))))
      [pVB] (insertC "direction".toList d
        (insertC "where".toList w (insertC "verb".toList 0 m)))
      A [] (pattern_take_A "verb".toList [])
      (pattern_drop_B "verb".toList [])
      [] pVF 0 m (by intro prod hp; simp at hp)
    · show prunedB (A ++ (ex1VerbPre 0 ++ ("in ".toList ++ (ex1DirW d ++
        (ex1StW w ++ tail))))) A [] pVF.text = false
      rw [pVF_text]
      apply prunedB_false_mid _ _ _ _ _ hA (by decide)
      exact ⟨"in ".toList ++ (ex1DirW d ++ (ex1StW w ++ tail)), by
        rw [show ex1VerbPre 0 = "went ﬁshing ".toList from rfl]
        simp⟩
    · show matchRecGo ex1 true (fuel + 3)
        (A ++ (ex1VerbPre 0 ++ ("in ".toList ++ (ex1DirW d ++
          (ex1StW w ++ tail)))))
        (A ++ pVF.text ++ []) (insertC "verb".toList 0 m) =
        some (true, insertC "direction".toList d
          (insertC "where".toList w (insertC "verb".toList 0 m)))
      rw [show A ++ pVF.text ++ [] = (A ++ "went ﬁshing ".toList) ++
        '{' :: ("where".toList ++ '}' :: []) from by
          rw [pVF_text]; simp]
      rw [show A ++ (ex1VerbPre 0 ++ ("in ".toList ++ (ex1DirW d ++
        (ex1StW w ++ tail)))) = (A ++ "went ﬁshing ".toList) ++
          ("in ".toList ++ (ex1DirW d ++ (ex1StW w ++ tail))) from by
            rw [show ex1VerbPre 0 = "went ﬁshing ".toList from rfl]
            simp]
      exact ex1_step_where fuel (A ++ "went ﬁshing ".toList) tail
        (insertC "verb".toList 0 m) w d
        (noBrace_append hA (by decide)) hw hd (hmwv 0) (hmdv 0)
  · apply mrLoop_prefix_success
      (A ++ (ex1VerbPre 1 ++ ("in ".toList ++ (ex1DirW d ++
        (ex1StW w ++ tail)))))
      (A ++ '{' :: ("verb".toList ++ '}' :: [])) A.length
      (A.length + 1 + ("verb".toList).length) "verb".toList
      (matchRecGo ex1 true (fuel + 3)
        (A ++ (ex1VerbPre 1 ++ ("in ".toList ++ (ex1DirW d ++
          (ex1StW w ++ tail))))))
      [] (insertC "direction".toList d
        (insertC "where".toList w (insertC "verb".toList 1 m)))
      A [] (pattern_take_A "verb".toList [])
      (pattern_drop_B "verb".toList [])
      [pVF] pVB 0 m
    · intro prod hp
      rw [List.mem_singleton.1 hp]
      show prunedB (A ++ (ex1VerbPre 1 ++ ("in ".toList ++ (ex1DirW d ++
        (ex1StW w ++ tail))))) A [] pVF.text = true
      rw [pVF_text]
      apply prunedB_true_mid _ _ _ _ _ hA (by decide)
        (by simp [List.length_append])
      rw [show ex1VerbPre 1 = "went bowling ".toList from rfl]
      exact not_prefix_of_pairwise A "went ﬁshing ".toList
        "went bowling ".toList _ (by decide) (by decide)
    · show prunedB (A ++ (ex1VerbPre 1 ++ ("in ".toList ++ (ex1DirW d ++
        (ex1StW w ++ tail))))) A [] pVB.text = false
      rw [pVB_text]
      apply prunedB_false_mid _ _ _ _ _ hA (by decide)
      exact ⟨"in ".toList ++ (ex1DirW d ++ (ex1StW w ++ tail)), by
        rw [show ex1VerbPre 1 = "went bowling ".toList from rfl]
        simp⟩
    · show matchRecGo ex1 true (fuel + 3)
        (A ++ (ex1VerbPre 1 ++ ("in ".toList ++ (ex1DirW d ++
          (ex1StW w ++ tail)))))
        (A ++ pVB.text ++ []) (insertC "verb".toList 1 m) =
        some (true, insertC "direction".toList d
          (insertC "where".toList w (insertC "verb".toList 1 m)))
      rw [show A ++ pVB.text ++ [] = (A ++ "went bowling ".toList) ++
        '{' :: ("where".toList ++ '}' :: []) from by
          rw [pVB_text]; simp]
      rw [show A ++ (ex1VerbPre 1 ++ ("in ".toList ++ (ex1DirW d ++
        (ex1StW w ++ tail)))) = (A ++ "went bowling ".toList) ++
          ("in ".toList ++ (ex1DirW d ++ (ex1StW w ++ tail))) from by
            rw [show ex1VerbPre 1 = "went bowling ".toList from rfl]
            simp]
      exact ex1_step_where fuel (A ++ "went bowling ".toList) tail
        (insertC "verb".toList 1 m) w d
        (noBrace_append hA (by decide)) hw hd (hmwv 1) (hmdv 1)

def pFred : Production := ⟨"Fred".toList, ProductType.plain⟩
def pBarney : Production := ⟨"Barney".toList, ProductType.plain⟩

theorem ex1_get_noun : ex1.get "noun".toList = some [pFred, pBarney] := by
  decide

/-- The noun slot of example1. -/
theorem ex1_step_noun (fuel : Nat) (A tail : List Char) (m : Choices)
    (n v w d : Nat) (hA : noBrace A) (hn : n < 2) (hv : v < 2) (hw : w < 2)
    (hd : d < 2) (hmw : m "where".toList = none)
    (hmd : m "direction".toList = none) :
    matchRecGo ex1 true (fuel + 5)
      (A ++ (ex1NounW n ++ (' ' :: (ex1VerbPre v ++ ("in ".toList ++
        (ex1DirW d ++ (ex1StW w ++ tail)))))))
      (A ++ '{' :: ("noun".toList ++ '}' ::
        (' ' :: '{' :: ("verb".toList ++ '}' :: [])))) m =
      some (true, insertC "direction".toList d
        (insertC "where".toList w (insertC "verb".toList v
          (insertC "noun".toList n m)))) := by
  have hmwn : ∀ j, (insertC "noun".toList j m) "where".toList = none := by
    intro j
    rw [insertC_get_other _ _ _ _ (by decide)]
    exact hmw
  have hmdn : ∀ j, (insertC "noun".toList j m) "direction".toList =
      none := by
    intro j
    rw [insertC_get_other _ _ _ _ (by decide)]
    exact hmd
  rw [matchRecGo_var ex1 true (fuel + 4)
    (A ++ (ex1NounW n ++ (' ' :: (ex1VerbPre v ++ ("in ".toList ++
      (ex1DirW d ++ (ex1StW w ++ tail)))))))
    A "noun".toList (' ' :: '{' :: ("verb".toList ++ '}' :: [])) m
    [pFred, pBarney] hA (by decide) ex1_get_noun]
  interval_cases n
  · apply mrLoop_prefix_success
      (A ++ (ex1NounW 0 ++ (' ' :: (ex1VerbPre v ++ ("in ".toList ++
        (ex1DirW d ++ (ex1StW w ++ tail)))))))
      (A ++ '{' :: ("noun".toList ++ '}' ::
        (' ' :: '{' :: ("verb".toList ++ '}' :: [])))) A.length
      (A.length + 1 + ("noun".toList).length) "noun".toList
      (matchRecGo ex1 true (fuel + 4)
        (A ++ (ex1NounW 0 ++ (' ' :: (ex1VerbPre v ++ ("in ".toList ++
          (ex1DirW d ++ (ex1StW w ++ tail))))))))
      [pBarney] (insertC "direction".toList d
        (insertC "where".toList w (insertC "verb".toList v
          (insertC "noun".toList 0 m))))
      A (' ' :: '{' :: ("verb".toList ++ '}' :: []))
      (pattern_take_A "noun".toList _) (pattern_drop_B "noun".toList _)
      [] pFred 0 m (by intro prod hp; simp at hp)
    · show prunedB (A ++ (ex1NounW 0 ++ (' ' :: (ex1VerbPre v ++
        ("in ".toList ++ (ex1DirW d ++ (ex1StW w ++ tail)))))))
        A (' ' :: '{' :: ("verb".toList ++ '}' :: []))
        pFred.text = false
      apply prunedB_false_sep1 _ _ _ _ _ hA (by decide) (by decide)
      refine ⟨ex1VerbPre v ++ ("in ".toList ++ (ex1DirW d ++
        (ex1StW w ++ tail))), ?_⟩
      rw [show ex1NounW 0 = "Fred".toList from rfl]
      simp [pFred]
    · show matchRecGo ex1 true (fuel + 4)
        (A ++ (ex1NounW 0 ++ (' ' :: (ex1VerbPre v ++ ("in ".toList ++
          (ex1DirW d ++ (ex1StW w ++ tail)))))))
        (A ++ pFred.text ++ (' ' :: '{' :: ("verb".toList ++ '}' :: [])))
        (insertC "noun".toList 0 m) =
        some (true, insertC "direction".toList d
          (insertC "where".toList w (insertC "verb".toList v
            (insertC "noun".toList 0 m))))
      rw [show A ++ pFred.text ++ (' ' :: '{' ::
        ("verb".toList ++ '}' :: [])) =
        ((A ++ "Fred".toList) ++ [' ']) ++
          '{' :: ("verb".toList ++ '}' :: []) from by simp [pFred]]
      rw [show A ++ (ex1NounW 0 ++ (' ' :: (ex1VerbPre v ++
        ("in ".toList ++ (ex1DirW d ++ (ex1StW w ++ tail)))))) =
        ((A ++ "Fred".toList) ++ [' ']) ++ (ex1VerbPre v ++
          ("in ".toList ++ (ex1DirW d ++ (ex1StW w ++ tail)))) from by
            rw [show ex1NounW 0 = "Fred".toList from rfl]
            simp]
      exact ex1_step_verb fuel ((A ++ "Fred".toList) ++ [' ']) tail
        (insertC "noun".toList 0 m) v w d
        (noBrace_append (noBrace_append hA (by decide)) (by decide))
        hv hw hd (hmwn 0) (hmdn 0)
  · apply mrLoop_prefix_success
      (A ++ (ex1NounW 1 ++ (' ' :: (ex1VerbPre v ++ ("in ".toList ++
        (ex1DirW d ++ (ex1StW w ++ tail)))))))
      (A ++ '{' :: ("noun".toList ++ '}' ::
        (' ' :: '{' :: ("verb".toList ++ '}' :: [])))) A.length
      (A.length + 1 + ("noun".toList).length) "noun".toList
      (matchRecGo ex1 true (fuel + 4)
        (A ++ (ex1NounW 1 ++ (' ' :: (ex1VerbPre v ++ ("in ".toList ++
          (ex1DirW d ++ (ex1StW w ++ tail))))))))
      [] (insertC "direction".toList d
        (insertC "where".toList w (insertC "verb".toList v
          (insertC "noun".toList 1 m))))
      A (' ' :: '{' :: ("verb".toList ++ '}' :: []))
      (pattern_take_A "noun".toList _) (pattern_drop_B "noun".toList _)
      [pFred] pBarney 0 m
    · intro prod hp
      rw [List.mem_singleton.1 hp]
      show prunedB (A ++ (ex1NounW 1 ++ (' ' :: (ex1VerbPre v ++
        ("in ".toList ++ (ex1DirW d ++ (ex1StW w ++ tail)))))))
        A (' ' :: '{' :: ("verb".toList ++ '}' :: []))
        pFred.text = true
      apply prunedB_true_of1 _ _ _ _ _ hA (by decide) (by decide)
      rw [show ex1NounW 1 = "Barney".toList from rfl]
      rw [show (A ++ ("Barney".toList ++ (' ' :: (ex1VerbPre v ++
        ("in ".toList ++ (ex1DirW d ++ (ex1StW w ++ tail))))))) =
        A ++ (("Barney".toList ++ [' ']) ++ (ex1VerbPre v ++
          ("in ".toList ++ (ex1DirW d ++ (ex1StW w ++ tail))))) from by
            simp]
      exact not_prefix_of_pairwise A ("Fred".toList ++ [' '])
        ("Barney".toList ++ [' ']) _ (by decide) (by decide)
    · show prunedB (A ++ (ex1NounW 1 ++ (' ' :: (ex1VerbPre v ++
        ("in ".toList ++ (ex1DirW d ++ (ex1StW w ++ tail)))))))
        A (' ' :: '{' :: ("verb".toList ++ '}' :: []))
        pBarney.text = false
      apply prunedB_false_sep1 _ _ _ _ _ hA (by decide) (by decide)
      refine ⟨ex1VerbPre v ++ ("in ".toList ++ (ex1DirW d ++
        (ex1StW w ++ tail))), ?_⟩
      rw [show ex1NounW 1 = "Barney".toList from rfl]
      simp [pBarney]
    · show matchRecGo ex1 true (fuel + 4)
        (A ++ (ex1NounW 1 ++ (' ' :: (ex1VerbPre v ++ ("in ".toList ++
          (ex1DirW d ++ (ex1StW w ++ tail)))))))
        (A ++ pBarney.text ++ (' ' :: '{' :: ("verb".toList ++ '}' :: [])))
        (insertC "noun".toList 1 m) =
        some (true, insertC "direction".toList d
          (insertC "where".toList w (insertC "verb".toList v
            (insertC "noun".toList 1 m))))
      rw [show A ++ pBarney.text ++ (' ' :: '{' ::
        ("verb".toList ++ '}' :: [])) =
        ((A ++ "Barney".toList) ++ [' ']) ++
          '{' :: ("verb".toList ++ '}' :: []) from by simp [pBarney]]
      rw [show A ++ (ex1NounW 1 ++ (' ' :: (ex1VerbPre v ++
        ("in ".toList ++ (ex1DirW d ++ (ex1StW w ++ tail)))))) =
        ((A ++ "Barney".toList) ++ [' ']) ++ (ex1VerbPre v ++
          ("in ".toList ++ (ex1DirW d ++ (ex1StW w ++ tail)))) from by
            rw [show ex1NounW 1 = "Barney".toList from rfl]
            simp]
      exact ex1_step_verb fuel ((A ++ "Barney".toList) ++ [' ']) tail
        (insertC "noun".toList 1 m) v w d
        (noBrace_append (noBrace_append hA (by decide)) (by decide))
        hv hw hd (hmwn 1) (hmdn 1)

def pStart : Production :=
  ⟨"\x7bnoun\x7d \x7bverb\x7d".toList, ProductType.replace⟩

theorem ex1_get_start : ex1.get "start".toList = some [pStart] := by decide

/-- The map example1's matcher recovers. -/
def ex1M (d n v w : Nat) (m : Choices) : Choices :=
  insertC "direction".toList d (insertC "where".toList w
    (insertC "verb".toList v (insertC "noun".toList n
      (insertC "start".toList 0 m))))

/-- `match_recursive` on a full rendered example1 sentence (plus any
tail) recovers exactly the four choices. -/
theorem ex1_match (fuel : Nat) (d n v w : Nat) (tail : List Char)
    (m : Choices) (hd : d < 2) (hn : n < 2) (hv : v < 2) (hw : w < 2)
    (hmw : m "where".toList = none) (hmd : m "direction".toList = none) :
    matchRecGo ex1 true (fuel + 6) (ex1Sentence d n v w ++ tail)
      "\x7bstart\x7d".toList m = some (true, ex1M d n v w m) := by
  have hmws : (insertC "start".toList 0 m) "where".toList = none := by
    rw [insertC_get_other _ _ _ _ (by decide)]
    exact hmw
  have hmds : (insertC "start".toList 0 m) "direction".toList = none := by
    rw [insertC_get_other _ _ _ _ (by decide)]
    exact hmd
  have htarget : ex1Sentence d n v w ++ tail =
      [] ++ (ex1NounW n ++ (' ' :: (ex1VerbPre v ++ ("in ".toList ++
        (ex1DirW d ++ (ex1StW w ++ tail)))))) := by
    show (ex1NounW n ++ (' ' :: (ex1VerbPre v ++ ("in ".toList ++
      (ex1DirW d ++ ex1StW w))))) ++ tail = _
    simp
  rw [htarget]
  rw [show ("\x7bstart\x7d".toList : List Char) =
    [] ++ '{' :: ("start".toList ++ '}' :: []) from rfl]
  rw [matchRecGo_var ex1 true (fuel + 5)
    ([] ++ (ex1NounW n ++ (' ' :: (ex1VerbPre v ++ ("in ".toList ++
      (ex1DirW d ++ (ex1StW w ++ tail)))))))
    [] "start".toList [] m [pStart] (by decide) (by decide) ex1_get_start]
  apply mrLoop_prefix_success
    ([] ++ (ex1NounW n ++ (' ' :: (ex1VerbPre v ++ ("in ".toList ++
      (ex1DirW d ++ (ex1StW w ++ tail)))))))
    ([] ++ '{' :: ("start".toList ++ '}' :: [])) ([] : List Char).length
    (([] : List Char).length + 1 + ("start".toList).length)
    "start".toList
    (matchRecGo ex1 true (fuel + 5)
      ([] ++ (ex1NounW n ++ (' ' :: (ex1VerbPre v ++ ("in ".toList ++
        (ex1DirW d ++ (ex1StW w ++ tail))))))))
    [] (ex1M d n v w m) [] [] (pattern_take_A "start".toList [])
    (pattern_drop_B "start".toList [])
    [] pStart 0 m (by intro prod hp; simp at hp)
  · show prunedB ([] ++ (ex1NounW n ++ (' ' :: (ex1VerbPre v ++
      ("in ".toList ++ (ex1DirW d ++ (ex1StW w ++ tail)))))))
      [] [] pStart.text = false
    rw [show pStart.text = '{' :: ("noun".toList ++ '}' ::
      (' ' :: '{' :: ("verb".toList ++ '}' :: []))) from rfl]
    exact prunedB_false_brace0 _ [] [] _ (by decide) (List.nil_prefix)
  · show matchRecGo ex1 true (fuel + 5)
      ([] ++ (ex1NounW n ++ (' ' :: (ex1VerbPre v ++ ("in ".toList ++
        (ex1DirW d ++ (ex1StW w ++ tail)))))))
      ([] ++ pStart.text ++ []) (insertC "start".toList 0 m) =
      some (true, ex1M d n v w m)
    rw [show ([] ++ pStart.text ++ [] : List Char) =
      [] ++ '{' :: ("noun".toList ++ '}' ::
        (' ' :: '{' :: ("verb".toList ++ '}' :: []))) from by
          simp [pStart]]
    exact ex1_step_noun fuel [] tail (insertC "start".toList 0 m)
      n v w d (by decide) hn hv hw hd hmws hmds

theorem ex1_noun_get (n : Nat) (hn : n < 2) :
    [pFred, pBarney].get? n =
      some (⟨ex1NounW n, ProductType.plain⟩ : Production) := by
  interval_cases n <;> rfl

theorem ex1_verb_get (v : Nat) (hv : v < 2) :
    [pVF, pVB].get? v = some (if v = 0 then pVF else pVB) := by
  interval_cases v <;> rfl

theorem ex1_verb_text (v : Nat) (hv : v < 2) :
    (if v = 0 then pVF else pVB).text =
      ex1VerbPre v ++ '{' :: ("where".toList ++ '}' :: []) := by
  interval_cases v <;> rfl

theorem ex1_where_get (w : Nat) (hw : w < 2) :
    [pIowa, pMinn].get? w = some (if w = 0 then pIowa else pMinn) := by
  interval_cases w <;> rfl

theorem ex1_where_text (w : Nat) (hw : w < 2) :
    (if w = 0 then pIowa else pMinn).text =
      "in ".toList ++ '{' :: ("direction".toList ++ '}' :: ex1StW w) := by
  interval_cases w <;> rfl

theorem ex1_dir_get (d : Nat) (hd : d < 2) :
    [pNorth, pSouth].get? d =
      some (⟨ex1DirW d, ProductType.plain⟩ : Production) := by
  interval_cases d <;> rfl

/-- Expanding `\x7bstart\x7d` of example1 under the matcher map renders the
sentence. -/
theorem ex1_expand (fuel : Nat) (m : Choices) (d n v w : Nat)
    (hd : d < 2) (hn : n < 2) (hv : v < 2) (hw : w < 2)
    (g1 : (m "start".toList).getD 0 = 0)
    (g2 : (m "noun".toList).getD 0 = n)
    (g3 : (m "verb".toList).getD 0 = v)
    (g4 : (m "where".toList).getD 0 = w)
    (g5 : (m "direction".toList).getD 0 = d) :
    expandGo ex1 (fuel + 6) "\x7bstart\x7d".toList m =
      some (ex1Sentence d n v w) := by
  rw [show ("\x7bstart\x7d".toList : List Char) =
    [] ++ '{' :: ("start".toList ++ '}' :: []) from rfl]
  rw [expandGo_var ex1 (fuel + 5) [] "start".toList [] m [pStart] pStart
    (by decide) (by decide) ex1_get_start (by rw [g1]; rfl)]
  rw [show (([] ++ pStart.text) ++ [] : List Char) =
    [] ++ '{' :: ("noun".toList ++ '}' ::
      (' ' :: '{' :: ("verb".toList ++ '}' :: []))) from by simp [pStart]]
  rw [expandGo_var ex1 (fuel + 4) [] "noun".toList
    (' ' :: '{' :: ("verb".toList ++ '}' :: [])) m [pFred, pBarney]
    (⟨ex1NounW n, ProductType.plain⟩ : Production)
    (by decide) (by decide) ex1_get_noun
    (by rw [g2]; exact ex1_noun_get n hn)]
  rw [show (([] ++ ex1NounW n) ++ (' ' :: '{' ::
      ("verb".toList ++ '}' :: [])) : List Char) =
    (ex1NounW n ++ [' ']) ++ '{' :: ("verb".toList ++ '}' :: [])
    from by simp]
  rw [expandGo_var ex1 (fuel + 3) (ex1NounW n ++ [' ']) "verb".toList []
    m [pVF, pVB] (if v = 0 then pVF else pVB)
    (noBrace_append (ex1NounW_noBrace n) (by decide)) (by decide)
    ex1_get_verb (by rw [g3]; exact ex1_verb_get v hv)]
  rw [ex1_verb_text v hv]
  rw [show (((ex1NounW n ++ [' ']) ++ (ex1VerbPre v ++ '{' ::
      ("where".toList ++ '}' :: []))) ++ [] : List Char) =
    ((ex1NounW n ++ [' ']) ++ ex1VerbPre v) ++
      '{' :: ("where".toList ++ '}' :: []) from by simp]
  rw [expandGo_var ex1 (fuel + 2) ((ex1NounW n ++ [' ']) ++ ex1VerbPre v)
    "where".toList [] m [pIowa, pMinn] (if w = 0 then pIowa else pMinn)
    (noBrace_append (noBrace_append (ex1NounW_noBrace n) (by decide))
      (ex1VerbPre_noBrace v)) (by decide)
    ex1_get_where (by rw [g4]; exact ex1_where_get w hw)]
  rw [ex1_where_text w hw]
  rw [show ((((ex1NounW n ++ [' ']) ++ ex1VerbPre v) ++
      ("in ".toList ++ '{' :: ("direction".toList ++ '}' :: ex1StW w))) ++
      [] : List Char) =
    (((ex1NounW n ++ [' ']) ++ ex1VerbPre v) ++ "in ".toList) ++
      '{' :: ("direction".toList ++ '}' :: ex1StW w) from by simp]
  rw [expandGo_var ex1 (fuel + 1)
    (((ex1NounW n ++ [' ']) ++ ex1VerbPre v) ++ "in ".toList)
    "direction".toList (ex1StW w) m [pNorth, pSouth]
    (⟨ex1DirW d, ProductType.plain⟩ : Production)
    (noBrace_append (noBrace_append (noBrace_append
      (ex1NounW_noBrace n) (by decide)) (ex1VerbPre_noBrace v))
      (by decide)) (by decide)
    ex1_get_direction (by rw [g5]; exact ex1_dir_get d hd)]
  rw [expandGo_done ex1 fuel _ m (by
    apply noBrace_append
    apply noBrace_append
    · apply noBrace_append
      apply noBrace_append
      · apply noBrace_append (ex1NounW_noBrace n)
        decide
      · exact ex1VerbPre_noBrace v
      · decide
    · exact ex1DirW_noBrace d
    · exact ex1StW_noBrace w)]
  show some _ = some (ex1Sentence d n v w)
  rw [show ((((((ex1NounW n ++ [' ']) ++ ex1VerbPre v) ++ "in ".toList) ++
      ex1DirW d) ++ ex1StW w : List Char)) = ex1Sentence d n v w from by
    show _ = ex1NounW n ++ (' ' :: (ex1VerbPre v ++ ("in ".toList ++
      (ex1DirW d ++ ex1StW w))))
    simp]

theorem ex1M_get_direction (d n v w : Nat) (m : Choices) :
    ex1M d n v w m "direction".toList = some d := insertC_get_same _ _ _

theorem ex1M_get_where (d n v w : Nat) (m : Choices) :
    ex1M d n v w m "where".toList = some w := by
  show insertC "direction".toList d _ "where".toList = _
  rw [insertC_get_other _ _ _ _ (by decide)]
  exact insertC_get_same _ _ _

theorem ex1M_get_verb (d n v w : Nat) (m : Choices) :
    ex1M d n v w m "verb".toList = some v := by
  show insertC "direction".toList d _ "verb".toList = _
  rw [insertC_get_other _ _ _ _ (by decide),
    insertC_get_other _ _ _ _ (by decide)]
  exact insertC_get_same _ _ _

theorem ex1M_get_noun (d n v w : Nat) (m : Choices) :
    ex1M d n v w m "noun".toList = some n := by
  show insertC "direction".toList d _ "noun".toList = _
  rw [insertC_get_other _ _ _ _ (by decide),
    insertC_get_other _ _ _ _ (by decide),
    insertC_get_other _ _ _ _ (by decide)]
  exact insertC_get_same _ _ _

theorem ex1M_get_start (d n v w : Nat) (m : Choices) :
    ex1M d n v w m "start".toList = some 0 := by
  show insertC "direction".toList d _ "start".toList = _
  rw [insertC_get_other _ _ _ _ (by decide),
    insertC_get_other _ _ _ _ (by decide),
    insertC_get_other _ _ _ _ (by decide),
    insertC_get_other _ _ _ _ (by decide)]
  exact insertC_get_same _ _ _

theorem ex1_vars_literal : ex1.vars =
    [("direction".toList, [pNorth, pSouth]),
     ("noun".toList, [pFred, pBarney]),
     ("start".toList, [pStart]),
     ("verb".toList, [pVF, pVB]),
     ("where".toList, [pIowa, pMinn])] := rfl

theorem ctbF_ex1Dir (choices : Choices) (st : List Nat × Nat × Nat) :
    ctbF choices st ("direction".toList, [pNorth, pSouth]) =
      (bitsMsb 1 ((choices "direction".toList).getD 0 % 256 % 2)).foldl
        pushBit st := rfl

theorem ctbF_ex1Noun (choices : Choices) (st : List Nat × Nat × Nat) :
    ctbF choices st ("noun".toList, [pFred, pBarney]) =
      (bitsMsb 1 ((choices "noun".toList).getD 0 % 256 % 2)).foldl
        pushBit st := rfl

theorem ctbF_ex1Start (choices : Choices) (st : List Nat × Nat × Nat) :
    ctbF choices st ("start".toList, [pStart]) = st := rfl

theorem ctbF_ex1Verb (choices : Choices) (st : List Nat × Nat × Nat) :
    ctbF choices st ("verb".toList, [pVF, pVB]) =
      (bitsMsb 1 ((choices "verb".toList).getD 0 % 256 % 2)).foldl
        pushBit st := rfl

theorem ctbF_ex1Where (choices : Choices) (st : List Nat × Nat × Nat) :
    ctbF choices st ("where".toList, [pIowa, pMinn]) =
      (bitsMsb 1 ((choices "where".toList).getD 0 % 256 % 2)).foldl
        pushBit st := rfl

theorem bitsMsb1 (v : Nat) : bitsMsb 1 v = [v / 2 ^ 0 % 2] := rfl

theorem pb1_k0 (acc : List Nat) (cur b : Nat) :
    List.foldl pushBit (acc, cur, 0) [b] = (acc, cur * 2 + b, 1) := rfl

theorem pb1_k1 (acc : List Nat) (cur b : Nat) :
    List.foldl pushBit (acc, cur, 1) [b] = (acc, cur * 2 + b, 2) := rfl

theorem pb1_k2 (acc : List Nat) (cur b : Nat) :
    List.foldl pushBit (acc, cur, 2) [b] = (acc, cur * 2 + b, 3) := rfl

theorem pb1_k3 (acc : List Nat) (cur b : Nat) :
    List.foldl pushBit (acc, cur, 3) [b] = (acc, cur * 2 + b, 4) := rfl

/-- `choices_to_bytes` of an example1 sentence map: one byte, the
nibble left-aligned. -/
theorem ex1_bytes (d n v w : Nat) (hd : d < 2) (hn : n < 2) (hv : v < 2)
    (hw : w < 2) :
    CFG.choicesToBytes ex1 (ex1M d n v w emptyC) =
      [(d * 8 + n * 4 + v * 2 + w) * 16] := by
  have m1 : d % 256 % 2 = d := by omega
  have m2 : n % 256 % 2 = n := by omega
  have m3 : v % 256 % 2 = v := by omega
  have m4 : w % 256 % 2 = w := by omega
  have e1 : d / 2 ^ 0 % 2 = d := by omega
  have e2 : n / 2 ^ 0 % 2 = n := by omega
  have e3 : v / 2 ^ 0 % 2 = v := by omega
  have e4 : w / 2 ^ 0 % 2 = w := by omega
  have hst : List.foldl (ctbF (ex1M d n v w emptyC)) ([], 0, 0) ex1.vars =
      ([], ((((0 * 2 + d) * 2 + n) * 2 + v) * 2 + w), 4) := by
    rw [ex1_vars_literal]
    rw [List.foldl_cons, ctbF_ex1Dir, ex1M_get_direction d n v w emptyC,
      Option.getD_some, m1, bitsMsb1, e1, pb1_k0]
    rw [List.foldl_cons, ctbF_ex1Noun, ex1M_get_noun d n v w emptyC,
      Option.getD_some, m2, bitsMsb1, e2, pb1_k1]
    rw [List.foldl_cons, ctbF_ex1Start]
    rw [List.foldl_cons, ctbF_ex1Verb, ex1M_get_verb d n v w emptyC,
      Option.getD_some, m3, bitsMsb1, e3, pb1_k2]
    rw [List.foldl_cons, ctbF_ex1Where, ex1M_get_where d n v w emptyC,
      Option.getD_some, m4, bitsMsb1, e4, pb1_k3]
    rfl
  rw [ctb_body, hst]
  show (if 4 > 0 then
    ([] : List Nat) ++ [((((0 * 2 + d) * 2 + n) * 2 + v) * 2 + w) *
      2 ^ (8 - 4)]
    else ([] : List Nat)) = _
  rw [if_pos (by omega)]
  rw [show ((((0 * 2 + d) * 2 + n) * 2 + v) * 2 + w) * 2 ^ (8 - 4) =
    (d * 8 + n * 4 + v * 2 + w) * 16 from by
      show _ * 16 = _
      ring]
  rfl

theorem esvEx1Dir (data : List Nat)
    (rest : List (List Char × List Production)) (ch : Choices) (b o : Nat)
    (hb : ¬ data.length ≤ b) :
    encodeSentenceVars data (("direction".toList, [pNorth, pSouth]) :: rest) ch
      b o =
      encodeSentenceVars data rest
        (insertC "direction".toList ((takeBitsGo data 1 0 b o).1 % 256 % 2) ch)
        (takeBitsGo data 1 0 b o).2.1 (takeBitsGo data 1 0 b o).2.2 := by
  show (if data.length ≤ b then (ch, b, o)
    else encodeSentenceVars data rest
      (insertC "direction".toList ((takeBitsGo data 1 0 b o).1 % 256 % 2) ch)
      (takeBitsGo data 1 0 b o).2.1 (takeBitsGo data 1 0 b o).2.2) = _
  rw [if_neg hb]

theorem esvEx1Noun (data : List Nat)
    (rest : List (List Char × List Production)) (ch : Choices) (b o : Nat)
    (hb : ¬ data.length ≤ b) :
    encodeSentenceVars data (("noun".toList, [pFred, pBarney]) :: rest) ch
      b o =
      encodeSentenceVars data rest
        (insertC "noun".toList ((takeBitsGo data 1 0 b o).1 % 256 % 2) ch)
        (takeBitsGo data 1 0 b o).2.1 (takeBitsGo data 1 0 b o).2.2 := by
  show (if data.length ≤ b then (ch, b, o)
    else encodeSentenceVars data rest
      (insertC "noun".toList ((takeBitsGo data 1 0 b o).1 % 256 % 2) ch)
      (takeBitsGo data 1 0 b o).2.1 (takeBitsGo data 1 0 b o).2.2) = _
  rw [if_neg hb]

theorem esvEx1Verb (data : List Nat)
    (rest : List (List Char × List Production)) (ch : Choices) (b o : Nat)
    (hb : ¬ data.length ≤ b) :
    encodeSentenceVars data (("verb".toList, [pVF, pVB]) :: rest) ch
      b o =
      encodeSentenceVars data rest
        (insertC "verb".toList ((takeBitsGo data 1 0 b o).1 % 256 % 2) ch)
        (takeBitsGo data 1 0 b o).2.1 (takeBitsGo data 1 0 b o).2.2 := by
  show (if data.length ≤ b then (ch, b, o)
    else encodeSentenceVars data rest
      (insertC "verb".toList ((takeBitsGo data 1 0 b o).1 % 256 % 2) ch)
      (takeBitsGo data 1 0 b o).2.1 (takeBitsGo data 1 0 b o).2.2) = _
  rw [if_neg hb]

theorem esvEx1Where (data : List Nat)
    (rest : List (List Char × List Production)) (ch : Choices) (b o : Nat)
    (hb : ¬ data.length ≤ b) :
    encodeSentenceVars data (("where".toList, [pIowa, pMinn]) :: rest) ch
      b o =
      encodeSentenceVars data rest
        (insertC "where".toList ((takeBitsGo data 1 0 b o).1 % 256 % 2) ch)
        (takeBitsGo data 1 0 b o).2.1 (takeBitsGo data 1 0 b o).2.2 := by
  show (if data.length ≤ b then (ch, b, o)
    else encodeSentenceVars data rest
      (insertC "where".toList ((takeBitsGo data 1 0 b o).1 % 256 % 2) ch)
      (takeBitsGo data 1 0 b o).2.1 (takeBitsGo data 1 0 b o).2.2) = _
  rw [if_neg hb]

theorem esvEx1Start (data : List Nat)
    (rest : List (List Char × List Production)) (ch : Choices)
    (b o : Nat) :
    encodeSentenceVars data (("start".toList, [pStart]) :: rest) ch b o =
      encodeSentenceVars data rest ch b o := rfl


theorem tb1_mid (data : List Nat) (b o : Nat) (hb : b < data.length)
    (ho : ¬ o + 1 = 8) :
    takeBitsGo data 1 0 b o =
      (0 * 2 + data.getD b 0 / 2 ^ (7 - o) % 2, b, o + 1) := by
  show (if data.length ≤ b then ((0 : Nat), b, o)
    else if o + 1 = 8 then
      takeBitsGo data 0 (0 * 2 + data.getD b 0 / 2 ^ (7 - o) % 2) (b + 1) 0
    else takeBitsGo data 0 (0 * 2 + data.getD b 0 / 2 ^ (7 - o) % 2) b
      (o + 1)) = _
  rw [if_neg (by omega), if_neg ho]
  rfl

theorem tb1_end (data : List Nat) (b : Nat) (hb : b < data.length) :
    takeBitsGo data 1 0 b 7 =
      (0 * 2 + data.getD b 0 / 2 ^ (7 - 7) % 2, b + 1, 0) := by
  show (if data.length ≤ b then ((0 : Nat), b, 7)
    else if (7 : Nat) + 1 = 8 then
      takeBitsGo data 0 (0 * 2 + data.getD b 0 / 2 ^ (7 - 7) % 2) (b + 1) 0
    else takeBitsGo data 0 (0 * 2 + data.getD b 0 / 2 ^ (7 - 7) % 2) b
      (7 + 1)) = _
  rw [if_neg (by omega), if_pos rfl]
  rfl

/-- The per-sentence encoder pass of example1 at bit offset 0: the high
nibble of the current byte. -/
theorem esv_ex1_hi (data : List Nat) (b : Nat) (hb : b < data.length)
    (h0 : data.getD b 0 < 256) :
    encodeSentenceVars data ex1.vars emptyC b 0 =
      (insertC "where".toList (data.getD b 0 / 16 % 2)
        (insertC "verb".toList (data.getD b 0 / 32 % 2)
          (insertC "noun".toList (data.getD b 0 / 64 % 2)
            (insertC "direction".toList (data.getD b 0 / 128) emptyC))),
       b, 4) := by
  have p7 : (2 : Nat) ^ (7 - 0) = 128 := by norm_num
  have p6 : (2 : Nat) ^ (7 - 1) = 64 := by norm_num
  have p5 : (2 : Nat) ^ (7 - 2) = 32 := by norm_num
  have p4 : (2 : Nat) ^ (7 - 3) = 16 := by norm_num
  rw [ex1_vars_literal]
  have s1 : encodeSentenceVars data
      [("direction".toList, [pNorth, pSouth]),
       ("noun".toList, [pFred, pBarney]), ("start".toList, [pStart]),
       ("verb".toList, [pVF, pVB]), ("where".toList, [pIowa, pMinn])]
      emptyC b 0 =
    encodeSentenceVars data
      [("noun".toList, [pFred, pBarney]), ("start".toList, [pStart]),
       ("verb".toList, [pVF, pVB]), ("where".toList, [pIowa, pMinn])]
      (insertC "direction".toList
        ((0 * 2 + data.getD b 0 / 2 ^ (7 - 0) % 2) % 256 % 2) emptyC)
      b 1 := by
    rw [esvEx1Dir data _ emptyC b 0 (by omega),
      tb1_mid data b 0 hb (by omega)]
  have s2 : encodeSentenceVars data
      [("noun".toList, [pFred, pBarney]), ("start".toList, [pStart]),
       ("verb".toList, [pVF, pVB]), ("where".toList, [pIowa, pMinn])]
      (insertC "direction".toList
        ((0 * 2 + data.getD b 0 / 2 ^ (7 - 0) % 2) % 256 % 2) emptyC)
      b 1 =
    encodeSentenceVars data
      [("start".toList, [pStart]), ("verb".toList, [pVF, pVB]),
       ("where".toList, [pIowa, pMinn])]
      (insertC "noun".toList
        ((0 * 2 + data.getD b 0 / 2 ^ (7 - 1) % 2) % 256 % 2)
        (insertC "direction".toList
          ((0 * 2 + data.getD b 0 / 2 ^ (7 - 0) % 2) % 256 % 2) emptyC))
      b 2 := by
    rw [esvEx1Noun data _ _ b 1 (by omega),
      tb1_mid data b 1 hb (by omega)]
  have s3 : encodeSentenceVars data
      [("start".toList, [pStart]), ("verb".toList, [pVF, pVB]),
       ("where".toList, [pIowa, pMinn])]
      (insertC "noun".toList
        ((0 * 2 + data.getD b 0 / 2 ^ (7 - 1) % 2) % 256 % 2)
        (insertC "direction".toList
          ((0 * 2 + data.getD b 0 / 2 ^ (7 - 0) % 2) % 256 % 2) emptyC))
      b 2 =
    encodeSentenceVars data
      [("where".toList, [pIowa, pMinn])]
      (insertC "verb".toList
        ((0 * 2 + data.getD b 0 / 2 ^ (7 - 2) % 2) % 256 % 2)
        (insertC "noun".toList
          ((0 * 2 + data.getD b 0 / 2 ^ (7 - 1) % 2) % 256 % 2)
          (insertC "direction".toList
            ((0 * 2 + data.getD b 0 / 2 ^ (7 - 0) % 2) % 256 % 2) emptyC)))
      b 3 := by
    rw [esvEx1Start]
    rw [esvEx1Verb data _ _ b 2 (by omega),
      tb1_mid data b 2 hb (by omega)]
  have s4 : encodeSentenceVars data
      [("where".toList, [pIowa, pMinn])]
      (insertC "verb".toList
        ((0 * 2 + data.getD b 0 / 2 ^ (7 - 2) % 2) % 256 % 2)
        (insertC "noun".toList
          ((0 * 2 + data.getD b 0 / 2 ^ (7 - 1) % 2) % 256 % 2)
          (insertC "direction".toList
            ((0 * 2 + data.getD b 0 / 2 ^ (7 - 0) % 2) % 256 % 2) emptyC)))
      b 3 =
    ((insertC "where".toList
        ((0 * 2 + data.getD b 0 / 2 ^ (7 - 3) % 2) % 256 % 2)
        (insertC "verb".toList
          ((0 * 2 + data.getD b 0 / 2 ^ (7 - 2) % 2) % 256 % 2)
          (insertC "noun".toList
            ((0 * 2 + data.getD b 0 / 2 ^ (7 - 1) % 2) % 256 % 2)
            (insertC "direction".toList
              ((0 * 2 + data.getD b 0 / 2 ^ (7 - 0) % 2) % 256 % 2)
              emptyC)))),
      b, 4) := by
    rw [esvEx1Where data _ _ b 3 (by omega),
      tb1_mid data b 3 hb (by omega)]
    rfl
  rw [s1, s2, s3, s4]
  rw [show (0 * 2 + data.getD b 0 / 2 ^ (7 - 0) % 2) % 256 % 2 =
    data.getD b 0 / 128 from by rw [p7]; omega]
  rw [show (0 * 2 + data.getD b 0 / 2 ^ (7 - 1) % 2) % 256 % 2 =
    data.getD b 0 / 64 % 2 from by rw [p6]; omega]
  rw [show (0 * 2 + data.getD b 0 / 2 ^ (7 - 2) % 2) % 256 % 2 =
    data.getD b 0 / 32 % 2 from by rw [p5]; omega]
  rw [show (0 * 2 + data.getD b 0 / 2 ^ (7 - 3) % 2) % 256 % 2 =
    data.getD b 0 / 16 % 2 from by rw [p4]; omega]

/-- The per-sentence encoder pass of example1 at bit offset 4: the low
nibble, ending on the next byte boundary. -/
theorem esv_ex1_lo (data : List Nat) (b : Nat) (hb : b < data.length)
    (h0 : data.getD b 0 < 256) :
    encodeSentenceVars data ex1.vars emptyC b 4 =
      (insertC "where".toList (data.getD b 0 % 2)
        (insertC "verb".toList (data.getD b 0 / 2 % 2)
          (insertC "noun".toList (data.getD b 0 / 4 % 2)
            (insertC "direction".toList (data.getD b 0 / 8 % 2) emptyC))),
       b + 1, 0) := by
  have p3 : (2 : Nat) ^ (7 - 4) = 8 := by norm_num
  have p2 : (2 : Nat) ^ (7 - 5) = 4 := by norm_num
  have p1 : (2 : Nat) ^ (7 - 6) = 2 := by norm_num
  have p0 : (2 : Nat) ^ (7 - 7) = 1 := by norm_num
  rw [ex1_vars_literal]
  have s1 : encodeSentenceVars data
      [("direction".toList, [pNorth, pSouth]),
       ("noun".toList, [pFred, pBarney]), ("start".toList, [pStart]),
       ("verb".toList, [pVF, pVB]), ("where".toList, [pIowa, pMinn])]
      emptyC b 4 =
    encodeSentenceVars data
      [("noun".toList, [pFred, pBarney]), ("start".toList, [pStart]),
       ("verb".toList, [pVF, pVB]), ("where".toList, [pIowa, pMinn])]
      (insertC "direction".toList
        ((0 * 2 + data.getD b 0 / 2 ^ (7 - 4) % 2) % 256 % 2) emptyC)
      b 5 := by
    rw [esvEx1Dir data _ emptyC b 4 (by omega),
      tb1_mid data b 4 hb (by omega)]
  have s2 : encodeSentenceVars data
      [("noun".toList, [pFred, pBarney]), ("start".toList, [pStart]),
       ("verb".toList, [pVF, pVB]), ("where".toList, [pIowa, pMinn])]
      (insertC "direction".toList
        ((0 * 2 + data.getD b 0 / 2 ^ (7 - 4) % 2) % 256 % 2) emptyC)
      b 5 =
    encodeSentenceVars data
      [("start".toList, [pStart]), ("verb".toList, [pVF, pVB]),
       ("where".toList, [pIowa, pMinn])]
      (insertC "noun".toList
        ((0 * 2 + data.getD b 0 / 2 ^ (7 - 5) % 2) % 256 % 2)
        (insertC "direction".toList
          ((0 * 2 + data.getD b 0 / 2 ^ (7 - 4) % 2) % 256 % 2) emptyC))
      b 6 := by
    rw [esvEx1Noun data _ _ b 5 (by omega),
      tb1_mid data b 5 hb (by omega)]
  have s3 : encodeSentenceVars data
      [("start".toList, [pStart]), ("verb".toList, [pVF, pVB]),
       ("where".toList, [pIowa, pMinn])]
      (insertC "noun".toList
        ((0 * 2 + data.getD b 0 / 2 ^ (7 - 5) % 2) % 256 % 2)
        (insertC "direction".toList
          ((0 * 2 + data.getD b 0 / 2 ^ (7 - 4) % 2) % 256 % 2) emptyC))
      b 6 =
    encodeSentenceVars data
      [("where".toList, [pIowa, pMinn])]
      (insertC "verb".toList
        ((0 * 2 + data.getD b 0 / 2 ^ (7 - 6) % 2) % 256 % 2)
        (insertC "noun".toList
          ((0 * 2 + data.getD b 0 / 2 ^ (7 - 5) % 2) % 256 % 2)
          (insertC "direction".toList
            ((0 * 2 + data.getD b 0 / 2 ^ (7 - 4) % 2) % 256 % 2) emptyC)))
      b 7 := by
    rw [esvEx1Start]
    rw [esvEx1Verb data _ _ b 6 (by omega),
      tb1_mid data b 6 hb (by omega)]
  have s4 : encodeSentenceVars data
      [("where".toList, [pIowa, pMinn])]
      (insertC "verb".toList
        ((0 * 2 + data.getD b 0 / 2 ^ (7 - 6) % 2) % 256 % 2)
        (insertC "noun".toList
          ((0 * 2 + data.getD b 0 / 2 ^ (7 - 5) % 2) % 256 % 2)
          (insertC "direction".toList
            ((0 * 2 + data.getD b 0 / 2 ^ (7 - 4) % 2) % 256 % 2) emptyC)))
      b 7 =
    ((insertC "where".toList
        ((0 * 2 + data.getD b 0 / 2 ^ (7 - 7) % 2) % 256 % 2)
        (insertC "verb".toList
          ((0 * 2 + data.getD b 0 / 2 ^ (7 - 6) % 2) % 256 % 2)
          (insertC "noun".toList
            ((0 * 2 + data.getD b 0 / 2 ^ (7 - 5) % 2) % 256 % 2)
            (insertC "direction".toList
              ((0 * 2 + data.getD b 0 / 2 ^ (7 - 4) % 2) % 256 % 2)
              emptyC)))),
      b + 1, 0) := by
    rw [esvEx1Where data _ _ b 7 (by omega),
      tb1_end data b hb]
    rfl
  rw [s1, s2, s3, s4]
  rw [show (0 * 2 + data.getD b 0 / 2 ^ (7 - 4) % 2) % 256 % 2 =
    data.getD b 0 / 8 % 2 from by rw [p3]; omega]
  rw [show (0 * 2 + data.getD b 0 / 2 ^ (7 - 5) % 2) % 256 % 2 =
    data.getD b 0 / 4 % 2 from by rw [p2]; omega]
  rw [show (0 * 2 + data.getD b 0 / 2 ^ (7 - 6) % 2) % 256 % 2 =
    data.getD b 0 / 2 % 2 from by rw [p1]; omega]
  rw [show (0 * 2 + data.getD b 0 / 2 ^ (7 - 7) % 2) % 256 % 2 =
    data.getD b 0 % 2 from by rw [p0]; omega]

theorem decLoop_step4 (fuel : Nat) (remaining : List Char) (res : List Nat)
    (r : Nat) (M : Choices) (hne : remaining.isEmpty = false)
    (hrb : ex1.reverseByStartWith (trimStart remaining) = some (some M)) :
    cfgDecodeLoop ex1 4 (fuel + 1) remaining res r =
      (match (if (ex1.choicesToBytes M).length ≠ 1 then
          (none : Option (List Nat × Nat))
        else if r = 0 then
          some (res ++ [(ex1.choicesToBytes M).getD 0 0], 8 / 4 - 1)
        else match res.getLast? with
          | none => none
          | some lastB => some (res.dropLast ++
              [(lastB + (ex1.choicesToBytes M).getD 0 0 /
                2 ^ (4 * (8 / 4 - r))) % 256], r - 1)) with
       | none => DOut.panics "assert or unwrap in short-fill handling"
       | some (result, rsfc) =>
           match ex1.expand "\x7bstart\x7d".toList M with
           | none => DOut.panics "expand unwrap"
           | some expanded =>
               cfgDecodeLoop ex1 4 fuel
                 ((trimStart remaining).drop expanded.length) result
                 rsfc) := by
  rw [decLoop_step ex1 4 fuel remaining res r hne, hrb]
  rfl

/-- One example1 sentence consumed with `required_short_fill_count = 0`:
its nibble is appended as a half-filled byte. -/
theorem ex1DecSentHi (fuel : Nat) (remaining0 TAIL : List Char)
    (res : List Nat) (d n v w : Nat)
    (hd : d < 2) (hn : n < 2) (hv : v < 2) (hw : w < 2)
    (hE : remaining0.isEmpty = false)
    (htrim : trimStart remaining0 = ex1Sentence d n v w ++ TAIL) :
    cfgDecodeLoop ex1 4 (fuel + 1) remaining0 res 0 =
      cfgDecodeLoop ex1 4 fuel TAIL
        (res ++ [(d * 8 + n * 4 + v * 2 + w) * 16]) 1 := by
  rw [decLoop_step4 fuel remaining0 res 0 (ex1M d n v w emptyC) hE
    (by rw [htrim]
        exact rbsw_of_match ex1 _ _
          (ex1_match 26 d n v w TAIL emptyC hd hn hv hw rfl rfl))]
  rw [ex1_bytes d n v w hd hn hv hw]
  show (match ex1.expand "\x7bstart\x7d".toList (ex1M d n v w emptyC) with
    | none => DOut.panics "expand unwrap"
    | some expanded =>
        cfgDecodeLoop ex1 4 fuel
          ((trimStart remaining0).drop expanded.length)
          (res ++ [(d * 8 + n * 4 + v * 2 + w) * 16]) (8 / 4 - 1)) = _
  rw [show CFG.expand ex1 "\x7bstart\x7d".toList (ex1M d n v w emptyC) =
    expandGo ex1 (58 + 6) "\x7bstart\x7d".toList (ex1M d n v w emptyC)
    from rfl]
  rw [ex1_expand 58 (ex1M d n v w emptyC) d n v w hd hn hv hw
    (by rw [ex1M_get_start]; rfl) (by rw [ex1M_get_noun]; rfl)
    (by rw [ex1M_get_verb]; rfl) (by rw [ex1M_get_where]; rfl)
    (by rw [ex1M_get_direction]; rfl)]
  show cfgDecodeLoop ex1 4 fuel
    ((trimStart remaining0).drop (ex1Sentence d n v w).length)
    (res ++ [(d * 8 + n * 4 + v * 2 + w) * 16]) (8 / 4 - 1) = _
  rw [htrim, List.drop_left]

/-- One example1 sentence consumed with `required_short_fill_count = 1`:
its nibble is merged into the pending byte. -/
theorem ex1DecSentLo (fuel : Nat) (remaining0 TAIL : List Char)
    (res0 : List Nat) (lastB : Nat) (d n v w : Nat)
    (hd : d < 2) (hn : n < 2) (hv : v < 2) (hw : w < 2)
    (hE : remaining0.isEmpty = false)
    (htrim : trimStart remaining0 = ex1Sentence d n v w ++ TAIL) :
    cfgDecodeLoop ex1 4 (fuel + 1) remaining0 (res0 ++ [lastB]) 1 =
      cfgDecodeLoop ex1 4 fuel TAIL
        (res0 ++ [(lastB + (d * 8 + n * 4 + v * 2 + w)) % 256]) 0 := by
  rw [decLoop_step4 fuel remaining0 (res0 ++ [lastB]) 1
    (ex1M d n v w emptyC) hE
    (by rw [htrim]
        exact rbsw_of_match ex1 _ _
          (ex1_match 26 d n v w TAIL emptyC hd hn hv hw rfl rfl))]
  rw [ex1_bytes d n v w hd hn hv hw]
  rw [show ((res0 ++ [lastB]).getLast?) = some lastB from by
    rw [List.getLast?_concat]]
  show (match ex1.expand "\x7bstart\x7d".toList (ex1M d n v w emptyC) with
    | none => DOut.panics "expand unwrap"
    | some expanded =>
        cfgDecodeLoop ex1 4 fuel
          ((trimStart remaining0).drop expanded.length)
          ((res0 ++ [lastB]).dropLast ++
            [(lastB + (d * 8 + n * 4 + v * 2 + w) * 16 /
              2 ^ (4 * (8 / 4 - 1))) % 256]) (1 - 1)) = _
  rw [show (res0 ++ [lastB]).dropLast = res0 from by
    rw [List.dropLast_concat]]
  rw [show (d * 8 + n * 4 + v * 2 + w) * 16 / 2 ^ (4 * (8 / 4 - 1)) =
    d * 8 + n * 4 + v * 2 + w from by norm_num]
  rw [show CFG.expand ex1 "\x7bstart\x7d".toList (ex1M d n v w emptyC) =
    expandGo ex1 (58 + 6) "\x7bstart\x7d".toList (ex1M d n v w emptyC)
    from rfl]
  rw [ex1_expand 58 (ex1M d n v w emptyC) d n v w hd hn hv hw
    (by rw [ex1M_get_start]; rfl) (by rw [ex1M_get_noun]; rfl)
    (by rw [ex1M_get_verb]; rfl) (by rw [ex1M_get_where]; rfl)
    (by rw [ex1M_get_direction]; rfl)]
  show cfgDecodeLoop ex1 4 fuel
    ((trimStart remaining0).drop (ex1Sentence d n v w).length)
    (res0 ++ [(lastB + (d * 8 + n * 4 + v * 2 + w)) % 256]) (1 - 1) = _
  rw [htrim, List.drop_left]

def ex1SentenceHi (data : List Nat) (b : Nat) : List Char :=
  ex1Sentence (data.getD b 0 / 128) (data.getD b 0 / 64 % 2)
    (data.getD b 0 / 32 % 2) (data.getD b 0 / 16 % 2)

def ex1SentenceLo (data : List Nat) (b : Nat) : List Char :=
  ex1Sentence (data.getD b 0 / 8 % 2) (data.getD b 0 / 4 % 2)
    (data.getD b 0 / 2 % 2) (data.getD b 0 % 2)

/-- The two sentences per byte of the example1 encoder, for `k` bytes
from `b`. -/
def ex1Groups (data : List Nat) : Nat → Nat → List (List Char)
  | _, 0 => []
  | b, k + 1 => ex1SentenceHi data b :: ex1SentenceLo data b ::
      ex1Groups data (b + 1) k

theorem ex1Groups_length (k : Nat) : ∀ (data : List Nat) (b : Nat),
    (ex1Groups data b k).length = 2 * k := by
  induction k with
  | zero => intro data b; rfl
  | succ k ih =>
      intro data b
      show (ex1Groups data (b + 1) k).length + 1 + 1 = 2 * (k + 1)
      rw [ih]
      omega

theorem ex1Sentence_shape (d n v w : Nat) (hn : n < 2) :
    ∃ c cs, ex1Sentence d n v w = c :: cs ∧
      isRustWhitespace c = false := by
  interval_cases n
  · exact ⟨'F', "red".toList ++ (' ' :: (ex1VerbPre v ++ ("in ".toList ++
      (ex1DirW d ++ ex1StW w)))), rfl, by decide⟩
  · exact ⟨'B', "arney".toList ++ (' ' :: (ex1VerbPre v ++ ("in ".toList ++
      (ex1DirW d ++ ex1StW w)))), rfl, by decide⟩

def ex1EncM (d n v w : Nat) : Choices :=
  insertC "where".toList w (insertC "verb".toList v
    (insertC "noun".toList n (insertC "direction".toList d emptyC)))

theorem ex1EncM_getD_where (d n v w : Nat) :
    (ex1EncM d n v w "where".toList).getD 0 = w := by
  show ((insertC "where".toList w _) "where".toList).getD 0 = w
  rw [insertC_get_same]
  rfl

theorem ex1EncM_getD_verb (d n v w : Nat) :
    (ex1EncM d n v w "verb".toList).getD 0 = v := by
  show ((insertC "where".toList w _) "verb".toList).getD 0 = v
  rw [insertC_get_other _ _ _ _ (by decide), insertC_get_same]
  rfl

theorem ex1EncM_getD_noun (d n v w : Nat) :
    (ex1EncM d n v w "noun".toList).getD 0 = n := by
  show ((insertC "where".toList w _) "noun".toList).getD 0 = n
  rw [insertC_get_other _ _ _ _ (by decide),
    insertC_get_other _ _ _ _ (by decide), insertC_get_same]
  rfl

theorem ex1EncM_getD_direction (d n v w : Nat) :
    (ex1EncM d n v w "direction".toList).getD 0 = d := by
  show ((insertC "where".toList w _) "direction".toList).getD 0 = d
  rw [insertC_get_other _ _ _ _ (by decide),
    insertC_get_other _ _ _ _ (by decide),
    insertC_get_other _ _ _ _ (by decide), insertC_get_same]
  rfl

theorem ex1EncM_getD_start (d n v w : Nat) :
    (ex1EncM d n v w "start".toList).getD 0 = 0 := by
  show ((insertC "where".toList w _) "start".toList).getD 0 = 0
  rw [insertC_get_other _ _ _ _ (by decide),
    insertC_get_other _ _ _ _ (by decide),
    insertC_get_other _ _ _ _ (by decide),
    insertC_get_other _ _ _ _ (by decide)]
  rfl

/-- One high-nibble sentence of the example1 encoder. -/
theorem encGo_ex1_hi (data : List Nat) (fuel b : Nat) (acc : List Char)
    (hb : b < data.length) (h0 : data.getD b 0 < 256) :
    cfgEncodeGo ex1 data (fuel + 1) b 0 acc =
      cfgEncodeGo ex1 data fuel b 4
        (acc ++ (if acc.isEmpty then [] else " ".toList) ++
          ex1SentenceHi data b) := by
  rw [encGo_step ex1 data fuel b 0 acc hb]
  rw [esv_ex1_hi data b hb h0]
  rw [show CFG.expand ex1 "\x7bstart\x7d".toList
      (insertC "where".toList (data.getD b 0 / 16 % 2)
        (insertC "verb".toList (data.getD b 0 / 32 % 2)
          (insertC "noun".toList (data.getD b 0 / 64 % 2)
            (insertC "direction".toList (data.getD b 0 / 128) emptyC))),
        b, 4).1 =
    expandGo ex1 (58 + 6) "\x7bstart\x7d".toList
      (ex1EncM (data.getD b 0 / 128) (data.getD b 0 / 64 % 2)
        (data.getD b 0 / 32 % 2) (data.getD b 0 / 16 % 2)) from rfl]
  rw [ex1_expand 58 _ (data.getD b 0 / 128) (data.getD b 0 / 64 % 2)
    (data.getD b 0 / 32 % 2) (data.getD b 0 / 16 % 2)
    (by omega) (by omega) (by omega) (by omega)
    (ex1EncM_getD_start _ _ _ _) (ex1EncM_getD_noun _ _ _ _)
    (ex1EncM_getD_verb _ _ _ _) (ex1EncM_getD_where _ _ _ _)
    (ex1EncM_getD_direction _ _ _ _)]
  rfl

/-- One low-nibble sentence of the example1 encoder, advancing to the
next byte. -/
theorem encGo_ex1_lo (data : List Nat) (fuel b : Nat) (acc : List Char)
    (hb : b < data.length) (h0 : data.getD b 0 < 256) :
    cfgEncodeGo ex1 data (fuel + 1) b 4 acc =
      cfgEncodeGo ex1 data fuel (b + 1) 0
        (acc ++ (if acc.isEmpty then [] else " ".toList) ++
          ex1SentenceLo data b) := by
  rw [encGo_step ex1 data fuel b 4 acc hb]
  rw [esv_ex1_lo data b hb h0]
  rw [show CFG.expand ex1 "\x7bstart\x7d".toList
      (insertC "where".toList (data.getD b 0 % 2)
        (insertC "verb".toList (data.getD b 0 / 2 % 2)
          (insertC "noun".toList (data.getD b 0 / 4 % 2)
            (insertC "direction".toList (data.getD b 0 / 8 % 2) emptyC))),
        b + 1, 0).1 =
    expandGo ex1 (58 + 6) "\x7bstart\x7d".toList
      (ex1EncM (data.getD b 0 / 8 % 2) (data.getD b 0 / 4 % 2)
        (data.getD b 0 / 2 % 2) (data.getD b 0 % 2)) from rfl]
  rw [ex1_expand 58 _ (data.getD b 0 / 8 % 2) (data.getD b 0 / 4 % 2)
    (data.getD b 0 / 2 % 2) (data.getD b 0 % 2)
    (by omega) (by omega) (by omega) (by omega)
    (ex1EncM_getD_start _ _ _ _) (ex1EncM_getD_noun _ _ _ _)
    (ex1EncM_getD_verb _ _ _ _) (ex1EncM_getD_where _ _ _ _)
    (ex1EncM_getD_direction _ _ _ _)]
  rfl

/-- The example1 encoder loop: two sentences per byte. -/
theorem ex1EncLoop (k : Nat) : ∀ (data : List Nat) (b : Nat)
    (acc : List Char) (fuel : Nat), data.length = b + k →
    (∀ i, i < data.length → data.getD i 0 < 256) →
    cfgEncodeGo ex1 data (fuel + 2 * k + 1) b 0 acc =
      some (joinSp acc (ex1Groups data b k)) := by
  induction k with
  | zero =>
      intro data b acc fuel hlen _
      rw [show fuel + 2 * 0 + 1 = fuel + 1 from by omega]
      rw [encGo_done ex1 data fuel b 0 acc (by omega)]
      rfl
  | succ k ih =>
      intro data b acc fuel hlen hbd
      rw [show fuel + 2 * (k + 1) + 1 = ((fuel + 2 * k + 1) + 1) + 1
        from by omega]
      rw [encGo_ex1_hi data ((fuel + 2 * k + 1) + 1) b acc (by omega)
        (hbd b (by omega))]
      rw [encGo_ex1_lo data (fuel + 2 * k + 1) b _ (by omega)
        (hbd b (by omega))]
      rw [ih data (b + 1) _ fuel (by omega) hbd]
      rfl

/-- The example1 decoder loop over space-prefixed sentences, starting at
a byte boundary: two sentences rebuild each byte. -/
theorem ex1DecLoopTail (k : Nat) : ∀ (data : List Nat) (b : Nat)
    (res : List Nat) (fuel : Nat), data.length = b + k →
    (∀ i, i < data.length → data.getD i 0 < 256) →
    cfgDecodeLoop ex1 4 (fuel + 2 * k + 1) (tailJoin (ex1Groups data b k))
      res 0 = DOut.ok (res ++ data.drop b) := by
  induction k with
  | zero =>
      intro data b res fuel hlen _
      rw [show fuel + 2 * 0 + 1 = fuel + 1 from by omega]
      show cfgDecodeLoop ex1 4 (fuel + 1) [] res 0 = _
      rw [decLoop_nil]
      rw [List.drop_of_length_le (by omega), List.append_nil]
  | succ k ih =>
      intro data b res fuel hlen hbd
      have h0 : data.getD b 0 < 256 := hbd b (by omega)
      obtain ⟨c1, cs1, hs1, hw1⟩ := ex1Sentence_shape
        (data.getD b 0 / 128) (data.getD b 0 / 64 % 2)
        (data.getD b 0 / 32 % 2) (data.getD b 0 / 16 % 2) (by omega)
      obtain ⟨c2, cs2, hs2, hw2⟩ := ex1Sentence_shape
        (data.getD b 0 / 8 % 2) (data.getD b 0 / 4 % 2)
        (data.getD b 0 / 2 % 2) (data.getD b 0 % 2) (by omega)
      have hs1b : ex1SentenceHi data b = c1 :: cs1 := hs1
      have hs2b : ex1SentenceLo data b = c2 :: cs2 := hs2
      rw [show fuel + 2 * (k + 1) + 1 = ((fuel + 2 * k + 1) + 1) + 1
        from by omega]
      show cfgDecodeLoop ex1 4 (((fuel + 2 * k + 1) + 1) + 1)
        (' ' :: (ex1SentenceHi data b ++
          tailJoin (ex1SentenceLo data b :: ex1Groups data (b + 1) k)))
        res 0 = _
      rw [ex1DecSentHi ((fuel + 2 * k + 1) + 1)
        (' ' :: (ex1SentenceHi data b ++
          tailJoin (ex1SentenceLo data b :: ex1Groups data (b + 1) k)))
        (tailJoin (ex1SentenceLo data b :: ex1Groups data (b + 1) k))
        res (data.getD b 0 / 128) (data.getD b 0 / 64 % 2)
        (data.getD b 0 / 32 % 2) (data.getD b 0 / 16 % 2)
        (by omega) (by omega) (by omega) (by omega) rfl
        (by rw [trimStart_space]
            show trimStart (ex1SentenceHi data b ++ _) = _
            rw [hs1b, List.cons_append, trimStart_nows c1 _ hw1,
              ← List.cons_append, ← hs1b]
            rfl)]
      show cfgDecodeLoop ex1 4 ((fuel + 2 * k + 1) + 1)
        (' ' :: (ex1SentenceLo data b ++ tailJoin (ex1Groups data (b + 1)
          k)))
        (res ++ [(data.getD b 0 / 128 * 8 + data.getD b 0 / 64 % 2 * 4 +
          data.getD b 0 / 32 % 2 * 2 + data.getD b 0 / 16 % 2) * 16]) 1 = _
      rw [ex1DecSentLo (fuel + 2 * k + 1)
        (' ' :: (ex1SentenceLo data b ++
          tailJoin (ex1Groups data (b + 1) k)))
        (tailJoin (ex1Groups data (b + 1) k)) res _
        (data.getD b 0 / 8 % 2) (data.getD b 0 / 4 % 2)
        (data.getD b 0 / 2 % 2) (data.getD b 0 % 2)
        (by omega) (by omega) (by omega) (by omega) rfl
        (by rw [trimStart_space]
            show trimStart (ex1SentenceLo data b ++ _) = _
            rw [hs2b, List.cons_append, trimStart_nows c2 _ hw2,
              ← List.cons_append, ← hs2b]
            rfl)]
      rw [show ((data.getD b 0 / 128 * 8 + data.getD b 0 / 64 % 2 * 4 +
          data.getD b 0 / 32 % 2 * 2 + data.getD b 0 / 16 % 2) * 16 +
          (data.getD b 0 / 8 % 2 * 8 + data.getD b 0 / 4 % 2 * 4 +
            data.getD b 0 / 2 % 2 * 2 + data.getD b 0 % 2)) % 256 =
        data.getD b 0 from by omega]
      rw [ih data (b + 1) (res ++ [data.getD b 0]) fuel (by omega) hbd]
      have h0b : b < data.length := by omega
      rw [List.drop_eq_getElem_cons h0b,
        ← List.getD_eq_getElem data 0 h0b]
      simp

/-- The example1 decoder's main run: first sentence without a leading
space. -/
theorem ex1DecLoopMain (k : Nat) (data : List Nat) (res : List Nat)
    (fuel : Nat) (hlen : data.length = k + 1)
    (hbd : ∀ i, i < data.length → data.getD i 0 < 256) :
    cfgDecodeLoop ex1 4 (((fuel + 2 * k + 1) + 1) + 1)
      (joinSp [] (ex1Groups data 0 (k + 1))) res 0 =
      DOut.ok (res ++ data) := by
  have h0 : data.getD 0 0 < 256 := hbd 0 (by omega)
  have h0b : 0 < data.length := by omega
  obtain ⟨c1, cs1, hs1, hw1⟩ := ex1Sentence_shape
    (data.getD 0 0 / 128) (data.getD 0 0 / 64 % 2)
    (data.getD 0 0 / 32 % 2) (data.getD 0 0 / 16 % 2) (by omega)
  obtain ⟨c2, cs2, hs2, hw2⟩ := ex1Sentence_shape
    (data.getD 0 0 / 8 % 2) (data.getD 0 0 / 4 % 2)
    (data.getD 0 0 / 2 % 2) (data.getD 0 0 % 2) (by omega)
  have hs1b : ex1SentenceHi data 0 = c1 :: cs1 := hs1
  have hs2b : ex1SentenceLo data 0 = c2 :: cs2 := hs2
  have hjoin : joinSp [] (ex1Groups data 0 (k + 1)) =
      ex1SentenceHi data 0 ++
        tailJoin (ex1SentenceLo data 0 :: ex1Groups data (0 + 1) k) := by
    show joinSp [] (ex1SentenceHi data 0 :: ex1SentenceLo data 0 ::
      ex1Groups data (0 + 1) k) = _
    exact joinSp_nil _ _ (by rw [hs1b]; rfl)
  rw [hjoin]
  rw [ex1DecSentHi ((fuel + 2 * k + 1) + 1)
    (ex1SentenceHi data 0 ++
      tailJoin (ex1SentenceLo data 0 :: ex1Groups data (0 + 1) k))
    (tailJoin (ex1SentenceLo data 0 :: ex1Groups data (0 + 1) k))
    res (data.getD 0 0 / 128) (data.getD 0 0 / 64 % 2)
    (data.getD 0 0 / 32 % 2) (data.getD 0 0 / 16 % 2)
    (by omega) (by omega) (by omega) (by omega)
    (by rw [hs1b]; rfl)
    (by show trimStart (ex1SentenceHi data 0 ++ _) = _
        rw [hs1b, List.cons_append, trimStart_nows c1 _ hw1,
          ← List.cons_append, ← hs1b]
        rfl)]
  show cfgDecodeLoop ex1 4 ((fuel + 2 * k + 1) + 1)
    (' ' :: (ex1SentenceLo data 0 ++ tailJoin (ex1Groups data (0 + 1) k)))
    (res ++ [(data.getD 0 0 / 128 * 8 + data.getD 0 0 / 64 % 2 * 4 +
      data.getD 0 0 / 32 % 2 * 2 + data.getD 0 0 / 16 % 2) * 16]) 1 = _
  rw [ex1DecSentLo (fuel + 2 * k + 1)
    (' ' :: (ex1SentenceLo data 0 ++ tailJoin (ex1Groups data (0 + 1) k)))
    (tailJoin (ex1Groups data (0 + 1) k)) res _
    (data.getD 0 0 / 8 % 2) (data.getD 0 0 / 4 % 2)
    (data.getD 0 0 / 2 % 2) (data.getD 0 0 % 2)
    (by omega) (by omega) (by omega) (by omega) rfl
    (by rw [trimStart_space]
        show trimStart (ex1SentenceLo data 0 ++ _) = _
        rw [hs2b, List.cons_append, trimStart_nows c2 _ hw2,
          ← List.cons_append, ← hs2b]
        rfl)]
  rw [show ((data.getD 0 0 / 128 * 8 + data.getD 0 0 / 64 % 2 * 4 +
      data.getD 0 0 / 32 % 2 * 2 + data.getD 0 0 / 16 % 2) * 16 +
      (data.getD 0 0 / 8 % 2 * 8 + data.getD 0 0 / 4 % 2 * 4 +
        data.getD 0 0 / 2 % 2 * 2 + data.getD 0 0 % 2)) % 256 =
    data.getD 0 0 from by omega]
  rw [ex1DecLoopTail k data (0 + 1) (res ++ [data.getD 0 0]) fuel
    (by omega) hbd]
  have hdata : data.getD 0 0 :: data.drop (0 + 1) = data := by
    rw [List.getD_eq_getElem data 0 h0b]
    rw [← List.drop_eq_getElem_cons h0b]
    exact List.drop_zero data
  rw [show (res ++ [data.getD 0 0]) ++ data.drop (0 + 1) =
    res ++ (data.getD 0 0 :: data.drop (0 + 1)) from by simp]
  rw [hdata]

theorem ex1Sentence_chars (d n v w : Nat) (hd : d < 2) (hn : n < 2)
    (hv : v < 2) (hw : w < 2) :
    ∀ c ∈ ex1Sentence d n v w, c.toNat < 0x80 ∨ c = Char.ofNat 0xFB01 := by
  interval_cases d <;> interval_cases n <;> interval_cases v <;>
    interval_cases w <;> decide

theorem tailJoin_chars (groups : List (List Char))
    (h : ∀ s ∈ groups, ∀ c ∈ s, c.toNat < 0x80 ∨ c = Char.ofNat 0xFB01) :
    ∀ c ∈ tailJoin groups, c.toNat < 0x80 ∨ c = Char.ofNat 0xFB01 := by
  induction groups with
  | nil => intro c hc; simp [tailJoin] at hc
  | cons s rest ih =>
      intro c hc
      rcases List.mem_cons.1 hc with h1 | h1
      · rw [h1]; exact Or.inl (by decide)
      · rcases List.mem_append.1 h1 with h2 | h2
        · exact h s (List.mem_cons_self ..) c h2
        · exact ih (fun t ht => h t (List.mem_cons_of_mem _ ht)) c h2

theorem ex1SentenceHi_chars (data : List Nat) (b : Nat)
    (h0 : data.getD b 0 < 256) :
    ∀ c ∈ ex1SentenceHi data b, c.toNat < 0x80 ∨ c = Char.ofNat 0xFB01 :=
  ex1Sentence_chars _ _ _ _ (by omega) (by omega) (by omega) (by omega)

theorem ex1SentenceLo_chars (data : List Nat) (b : Nat)
    (h0 : data.getD b 0 < 256) :
    ∀ c ∈ ex1SentenceLo data b, c.toNat < 0x80 ∨ c = Char.ofNat 0xFB01 :=
  ex1Sentence_chars _ _ _ _ (by omega) (by omega) (by omega) (by omega)

theorem ex1Groups_chars (k : Nat) : ∀ (data : List Nat) (b : Nat),
    data.length = b + k →
    (∀ i, i < data.length → data.getD i 0 < 256) →
    ∀ s ∈ ex1Groups data b k, ∀ c ∈ s,
      c.toNat < 0x80 ∨ c = Char.ofNat 0xFB01 := by
  induction k with
  | zero => intro data b _ _ s hs; simp [ex1Groups] at hs
  | succ k ih =>
      intro data b hlen hbd s hs
      rcases List.mem_cons.1 hs with h1 | h1
      · rw [h1]
        exact ex1SentenceHi_chars data b (hbd b (by omega))
      rcases List.mem_cons.1 h1 with h2 | h2
      · rw [h2]
        exact ex1SentenceLo_chars data b (hbd b (by omega))
      · exact ih data (b + 1) (by omega) hbd s h2

theorem ex1_capacity : CFG.bitsCapacity ex1 = 4 := by decide

/-- CFG round-trip on example1 for every payload. -/
theorem c4_ex1 (x : List Nat) (hbd : ∀ a ∈ x, a < 256)
    (h32 : x.length < 2 ^ 32) : cfgEncDec ex1 x = DOut.ok x := by
  have hfb : ∀ a ∈ be32 x.length ++ x, a < 256 := by
    intro a ha
    rcases List.mem_append.1 ha with h | h
    · exact be32_bound _ a h
    · exact hbd a h
  have hfgd := getD_bound _ hfb
  have hfl : (be32 x.length ++ x).length = (3 + x.length) + 1 := by
    rw [List.length_append, be32_length]; omega
  have henc : cfgEncode ex1 x = some (joinSp []
      (ex1Groups (be32 x.length ++ x) 0 ((3 + x.length) + 1))) := by
    rw [cfgEncode_unfold ex1 x (by decide)]
    rw [show 8 * (be32 x.length ++ x).length + 1 =
      (6 * (be32 x.length ++ x).length) +
        2 * ((3 + x.length) + 1) + 1 from by omega]
    exact ex1EncLoop ((3 + x.length) + 1) _ 0 [] _ (by omega) hfgd
  have h00 : (be32 x.length ++ x).getD 0 0 < 256 := hfgd 0 (by omega)
  obtain ⟨c1, cs1, hs1, hw1⟩ := ex1Sentence_shape
    ((be32 x.length ++ x).getD 0 0 / 128)
    ((be32 x.length ++ x).getD 0 0 / 64 % 2)
    ((be32 x.length ++ x).getD 0 0 / 32 % 2)
    ((be32 x.length ++ x).getD 0 0 / 16 % 2) (by omega)
  have hs1b : ex1SentenceHi (be32 x.length ++ x) 0 = c1 :: cs1 := hs1
  have hjoin : joinSp []
      (ex1Groups (be32 x.length ++ x) 0 ((3 + x.length) + 1)) =
      ex1SentenceHi (be32 x.length ++ x) 0 ++
        tailJoin (ex1SentenceLo (be32 x.length ++ x) 0 ::
          ex1Groups (be32 x.length ++ x) (0 + 1) (3 + x.length)) := by
    show joinSp [] (ex1SentenceHi (be32 x.length ++ x) 0 ::
      ex1SentenceLo (be32 x.length ++ x) 0 ::
        ex1Groups (be32 x.length ++ x) (0 + 1) (3 + x.length)) = _
    exact joinSp_nil _ _ (by rw [hs1b]; rfl)
  have hchars : ∀ ch ∈ joinSp []
      (ex1Groups (be32 x.length ++ x) 0 ((3 + x.length) + 1)),
      ch.toNat < 0x80 ∨ ch = Char.ofNat 0xFB01 := by
    rw [hjoin]
    intro ch hch
    rcases List.mem_append.1 hch with h | h
    · exact ex1SentenceHi_chars _ 0 h00 ch h
    · refine tailJoin_chars _ ?_ ch h
      intro s hs
      rcases List.mem_cons.1 hs with h1 | h1
      · rw [h1]
        exact ex1SentenceLo_chars _ 0 h00
      · exact ex1Groups_chars (3 + x.length) (be32 x.length ++ x) (0 + 1)
          (by omega) hfgd s h1
  have hTlen : 2 * ((3 + x.length) + 1) ≤ (joinSp []
      (ex1Groups (be32 x.length ++ x) 0 ((3 + x.length) + 1))).length := by
    rw [hjoin, List.length_append, hs1b]
    have h1 := tailJoin_length (ex1SentenceLo (be32 x.length ++ x) 0 ::
      ex1Groups (be32 x.length ++ x) (0 + 1) (3 + x.length))
    rw [List.length_cons, ex1Groups_length (3 + x.length)] at h1
    simp only [List.length_cons]
    omega
  have hloop : cfgDecodeLoop ex1 4 ((joinSp []
      (ex1Groups (be32 x.length ++ x) 0 ((3 + x.length) + 1))).length + 1)
      (joinSp [] (ex1Groups (be32 x.length ++ x) 0 ((3 + x.length) + 1)))
      [] 0 = DOut.ok (be32 x.length ++ x) := by
    rw [show (joinSp []
        (ex1Groups (be32 x.length ++ x) 0 ((3 + x.length) + 1))).length +
        1 = ((((joinSp [] (ex1Groups (be32 x.length ++ x) 0
          ((3 + x.length) + 1))).length - (2 * (3 + x.length) + 2)) +
          2 * (3 + x.length) + 1) + 1) + 1 from by omega]
    rw [ex1DecLoopMain (3 + x.length) (be32 x.length ++ x) [] _
      (by omega) hfgd]
    rw [List.nil_append]
  have htake : (be32 x.length ++ x).take 4 = be32 x.length := by
    rw [show (4 : Nat) = (be32 x.length).length from rfl]
    exact List.take_left _ _
  have hdrop : (be32 x.length ++ x).drop 4 = x := by
    rw [show (4 : Nat) = (be32 x.length).length from rfl]
    exact List.drop_left _ _
  rw [cfgEncDec_some ex1 x _ henc]
  rw [cfgDecode_ok ex1 _ (be32 x.length ++ x) (by decide)
    (by rw [ex1_capacity, utf8_roundtrip_fi _ hchars]; exact hloop)
    (by omega) (by decide)
    (by rw [htake, be32val_be32 _ h32]; omega)]
  rw [htake, be32val_be32 _ h32, hdrop, List.take_length]

/-- C4 (amended): the CFG round-trip holds for example1 on every byte
sequence, and for example2 whenever the payload length is 0 or 1 mod 4. -/
theorem c4_amended (x : List Nat) (hbd : ∀ a ∈ x, a < 256)
    (h32 : x.length < 2 ^ 32) :
    cfgEncDec ex1 x = DOut.ok x ∧
    (x.length % 4 = 0 ∨ x.length % 4 = 1 →
      cfgEncDec ex2 x = DOut.ok x) := by
  refine ⟨c4_ex1 x hbd h32, ?_⟩
  intro h
  rcases h with h | h
  · exact c4_ex2_aligned (x.length / 4) x (by omega) hbd h32
  · exact c4_ex2_partial (x.length / 4) x (by omega) hbd h32

theorem c4_amended_witness :
    (∀ a ∈ ([0, 4] : List Nat), a < 256) ∧
    ([0, 4] : List Nat).length < 2 ^ 32 ∧
    (cfgEncDec ex1 [0, 4] = DOut.ok [0, 4] ∧
      (([0, 4] : List Nat).length % 4 = 0 ∨
          ([0, 4] : List Nat).length % 4 = 1 →
        cfgEncDec ex2 [0, 4] = DOut.ok [0, 4])) :=
  ⟨by decide, by decide, c4_amended [0, 4] (by decide) (by decide)⟩

/-- An empty grammar: no variable has two productions, so the bit
capacity is `0`, which is not a power of two. -/
def emptyCFG : CFG := ⟨[]⟩

/-- C10 (amended): `CFGEncoder::decode` with example2 panics at the
4-byte header slice when the sentence loop yields fewer than 4 result
bytes (in particular on empty input) and at the final slice when
`4 + declared length` exceeds the result; it returns `Ok` when the
header is in range and propagates the loop's error otherwise; a grammar
whose capacity is not a power of two dies on the capacity assertion. -/
theorem c10_amended :
    (∀ (g : CFG) (content : List Nat),
      isPow2 (CFG.bitsCapacity g) = false →
      cfgDecode g content =
        DOut.panics "assert capacity.is_power_of_two()") ∧
    cfgDecode ex2 [] = DOut.panics "slice [..4] out of range" ∧
    (∀ (content result : List Nat),
      cfgDecodeLoop ex2 32 ((utf8Lossy content).length + 1)
        (utf8Lossy content) [] 0 = DOut.ok result →
      (result.length < 4 →
        cfgDecode ex2 content = DOut.panics "slice [..4] out of range") ∧
      (4 ≤ result.length →
        result.length < 4 + be32val (result.take 4) →
        cfgDecode ex2 content =
          DOut.panics "slice [start_at..start_at+data_length] out of range") ∧
      (4 ≤ result.length →
        ¬ result.length < 4 + be32val (result.take 4) →
        cfgDecode ex2 content =
          DOut.ok ((result.drop 4).take (be32val (result.take 4))))) ∧
    (∀ (content : List Nat) (e : RErr),
      cfgDecodeLoop ex2 32 ((utf8Lossy content).length + 1)
        (utf8Lossy content) [] 0 = DOut.err e →
      cfgDecode ex2 content = DOut.err e) := by
  refine ⟨?_, ?_, ?_, ?_⟩
  · intro g content hp
    show (if ! isPow2 (CFG.bitsCapacity g) then
        DOut.panics "assert capacity.is_power_of_two()"
      else
        match cfgDecodeLoop g (CFG.bitsCapacity g)
            ((utf8Lossy content).length + 1) (utf8Lossy content) [] 0 with
        | DOut.ok result =>
            if result.length < 4 then
              DOut.panics "slice [..4] out of range"
            else
              if result.length < (if 4 < CFG.bitsCapacity g / 8 then
                  CFG.bitsCapacity g / 8 else 4) +
                  be32val (result.take 4) then
                DOut.panics
                  "slice [start_at..start_at+data_length] out of range"
              else DOut.ok ((result.drop (if 4 < CFG.bitsCapacity g / 8
                then CFG.bitsCapacity g / 8 else 4)).take
                  (be32val (result.take 4)))
        | r => r) = _
    rw [hp]
    rfl
  · decide
  · intro content result hloop
    refine ⟨?_, ?_, ?_⟩
    · intro h4
      show (if ! isPow2 (CFG.bitsCapacity ex2) then
          DOut.panics "assert capacity.is_power_of_two()"
        else
          match cfgDecodeLoop ex2 (CFG.bitsCapacity ex2)
              ((utf8Lossy content).length + 1) (utf8Lossy content) [] 0
            with
          | DOut.ok result =>
              if result.length < 4 then
                DOut.panics "slice [..4] out of range"
              else
                if result.length < (if 4 < CFG.bitsCapacity ex2 / 8 then
                    CFG.bitsCapacity ex2 / 8 else 4) +
                    be32val (result.take 4) then
                  DOut.panics
                    "slice [start_at..start_at+data_length] out of range"
                else DOut.ok ((result.drop
                  (if 4 < CFG.bitsCapacity ex2 / 8
                    then CFG.bitsCapacity ex2 / 8 else 4)).take
                    (be32val (result.take 4)))
          | r => r) = _
      rw [show (! isPow2 (CFG.bitsCapacity ex2)) = false from by decide]
      rw [if_neg (show ¬ (false = true) from by simp)]
      rw [ex2_capacity]
      rw [hloop]
      show (if result.length < 4 then
          DOut.panics "slice [..4] out of range"
        else _) = _
      rw [if_pos h4]
    · intro h4 hov
      show (if ! isPow2 (CFG.bitsCapacity ex2) then
          DOut.panics "assert capacity.is_power_of_two()"
        else
          match cfgDecodeLoop ex2 (CFG.bitsCapacity ex2)
              ((utf8Lossy content).length + 1) (utf8Lossy content) [] 0
            with
          | DOut.ok result =>
              if result.length < 4 then
                DOut.panics "slice [..4] out of range"
              else
                if result.length < (if 4 < CFG.bitsCapacity ex2 / 8 then
                    CFG.bitsCapacity ex2 / 8 else 4) +
                    be32val (result.take 4) then
                  DOut.panics
                    "slice [start_at..start_at+data_length] out of range"
                else DOut.ok ((result.drop
                  (if 4 < CFG.bitsCapacity ex2 / 8
                    then CFG.bitsCapacity ex2 / 8 else 4)).take
                    (be32val (result.take 4)))
          | r => r) = _
      rw [show (! isPow2 (CFG.bitsCapacity ex2)) = false from by decide]
      rw [if_neg (show ¬ (false = true) from by simp)]
      rw [ex2_capacity]
      rw [hloop]
      show (if result.length < 4 then
          DOut.panics "slice [..4] out of range"
        else
          if result.length < (if 4 < 32 / 8 then 32 / 8 else 4) +
              be32val (result.take 4) then
            DOut.panics
              "slice [start_at..start_at+data_length] out of range"
          else DOut.ok ((result.drop (if 4 < 32 / 8 then 32 / 8
            else 4)).take (be32val (result.take 4)))) = _
      rw [show (if 4 < 32 / 8 then 32 / 8 else 4 : Nat) = 4 from rfl]
      rw [if_neg (by omega), if_pos hov]
    · intro h4 hov
      have := cfgDecode_ok ex2 content result (by decide)
        (by rw [ex2_capacity]; exact hloop) (by omega) (by decide) hov
      exact this
  · intro content e hloop
    show (if ! isPow2 (CFG.bitsCapacity ex2) then
        DOut.panics "assert capacity.is_power_of_two()"
      else
        match cfgDecodeLoop ex2 (CFG.bitsCapacity ex2)
            ((utf8Lossy content).length + 1) (utf8Lossy content) [] 0
          with
        | DOut.ok result =>
            if result.length < 4 then
              DOut.panics "slice [..4] out of range"
            else
              if result.length < (if 4 < CFG.bitsCapacity ex2 / 8 then
                  CFG.bitsCapacity ex2 / 8 else 4) +
                  be32val (result.take 4) then
                DOut.panics
                  "slice [start_at..start_at+data_length] out of range"
              else DOut.ok ((result.drop (if 4 < CFG.bitsCapacity ex2 / 8
                then CFG.bitsCapacity ex2 / 8 else 4)).take
                  (be32val (result.take 4)))
        | r => r) = _
    rw [show (! isPow2 (CFG.bitsCapacity ex2)) = false from by decide]
    rw [if_neg (show ¬ (false = true) from by simp)]
    rw [ex2_capacity]
    rw [hloop]

theorem c10_amended_witness :
    (isPow2 (CFG.bitsCapacity emptyCFG) = false ∧
      cfgDecode emptyCFG [] =
        DOut.panics "assert capacity.is_power_of_two()") ∧
    cfgDecode ex2 [] = DOut.panics "slice [..4] out of range" ∧
    (cfgDecodeLoop ex2 32 ((utf8Lossy []).length + 1) (utf8Lossy [])
        [] 0 = DOut.ok [] ∧
      (([] : List Nat).length < 4 →
        cfgDecode ex2 [] = DOut.panics "slice [..4] out of range")) :=
  ⟨⟨by decide, c10_amended.1 emptyCFG [] (by decide)⟩,
   c10_amended.2.1,
   ⟨by decide, fun h4 => (c10_amended.2.2.1 [] [] (by decide)).1 h4⟩⟩



/-! ### Window arithmetic for the LSB channel writes -/

theorem clearAdd_mod_low (v o w c : Nat) :
    (v - v / 2 ^ o % 2 ^ w * 2 ^ o + c * 2 ^ o) % 2 ^ o = v % 2 ^ o := by
  have hm : 0 < 2 ^ o := Nat.pos_pow_of_pos o (by omega)
  have hqr := Nat.div_add_mod v (2 ^ o)
  have hA : v / 2 ^ o % 2 ^ w ≤ v / 2 ^ o := Nat.mod_le _ _
  have hAm : v / 2 ^ o % 2 ^ w * 2 ^ o ≤ v / 2 ^ o * 2 ^ o :=
    Nat.mul_le_mul_right _ hA
  have e1 : v / 2 ^ o * 2 ^ o + v % 2 ^ o = v := Nat.div_add_mod' v _
  have hsplit : v - v / 2 ^ o % 2 ^ w * 2 ^ o + c * 2 ^ o =
      v % 2 ^ o + (v / 2 ^ o - v / 2 ^ o % 2 ^ w + c) * 2 ^ o := by
    rw [Nat.add_mul, Nat.sub_mul]
    omega
  rw [hsplit, Nat.add_mul_mod_self_right]
  rw [Nat.mod_mod_of_dvd _ (dvd_refl _)]

theorem clearAdd_window (v o w c : Nat) (hc : c < 2 ^ w) :
    (v - v / 2 ^ o % 2 ^ w * 2 ^ o + c * 2 ^ o) / 2 ^ o % 2 ^ w = c := by
  have hm : 0 < 2 ^ o := Nat.pos_pow_of_pos o (by omega)
  have hqr := Nat.div_add_mod v (2 ^ o)
  have hA : v / 2 ^ o % 2 ^ w ≤ v / 2 ^ o := Nat.mod_le _ _
  have hr : v % 2 ^ o < 2 ^ o := Nat.mod_lt _ hm
  have e1 : v / 2 ^ o * 2 ^ o + v % 2 ^ o = v := Nat.div_add_mod' v _
  have hsplit : v - v / 2 ^ o % 2 ^ w * 2 ^ o + c * 2 ^ o =
      v % 2 ^ o + (v / 2 ^ o - v / 2 ^ o % 2 ^ w + c) * 2 ^ o := by
    have hAm : v / 2 ^ o % 2 ^ w * 2 ^ o ≤ v / 2 ^ o * 2 ^ o :=
      Nat.mul_le_mul_right _ hA
    rw [Nat.add_mul, Nat.sub_mul]
    omega
  rw [hsplit, Nat.add_mul_div_right _ _ hm, Nat.div_eq_of_lt hr,
    Nat.zero_add]
  have hqw := Nat.div_add_mod (v / 2 ^ o) (2 ^ w)
  have hsub : v / 2 ^ o - v / 2 ^ o % 2 ^ w + c =
      2 ^ w * (v / 2 ^ o / 2 ^ w) + c := by omega
  rw [hsub, Nat.mul_add_mod, Nat.mod_eq_of_lt hc]

theorem clearAdd_high (v o w c o2 w2 : Nat) (hc : c < 2 ^ w)
    (h : o + w ≤ o2) :
    (v - v / 2 ^ o % 2 ^ w * 2 ^ o + c * 2 ^ o) / 2 ^ o2 % 2 ^ w2 =
      v / 2 ^ o2 % 2 ^ w2 := by
  have hdiv : (v - v / 2 ^ o % 2 ^ w * 2 ^ o + c * 2 ^ o) / 2 ^ (o + w) =
      v / 2 ^ (o + w) := by
    have hm : 0 < 2 ^ o := Nat.pos_pow_of_pos o (by omega)
    have hw : 0 < 2 ^ w := Nat.pos_pow_of_pos w (by omega)
    have hqr := Nat.div_add_mod v (2 ^ o)
    have hA : v / 2 ^ o % 2 ^ w ≤ v / 2 ^ o := Nat.mod_le _ _
    have hr : v % 2 ^ o < 2 ^ o := Nat.mod_lt _ hm
    have e1 : v / 2 ^ o * 2 ^ o + v % 2 ^ o = v := Nat.div_add_mod' v _
    have hsplit : v - v / 2 ^ o % 2 ^ w * 2 ^ o + c * 2 ^ o =
        v % 2 ^ o + (v / 2 ^ o - v / 2 ^ o % 2 ^ w + c) * 2 ^ o := by
      have hAm : v / 2 ^ o % 2 ^ w * 2 ^ o ≤ v / 2 ^ o * 2 ^ o :=
        Nat.mul_le_mul_right _ hA
      rw [Nat.add_mul, Nat.sub_mul]
      omega
    have hqw := Nat.div_add_mod (v / 2 ^ o) (2 ^ w)
    have hsub : v / 2 ^ o - v / 2 ^ o % 2 ^ w + c =
        2 ^ w * (v / 2 ^ o / 2 ^ w) + c := by omega
    rw [hsplit, hsub, pow_add]
    rw [show v % 2 ^ o + (2 ^ w * (v / 2 ^ o / 2 ^ w) + c) * 2 ^ o =
      v % 2 ^ o + c * 2 ^ o + v / 2 ^ o / 2 ^ w * (2 ^ o * 2 ^ w) from by
        ring]
    rw [Nat.add_mul_div_right _ _ (by positivity)]
    have hlt : v % 2 ^ o + c * 2 ^ o < 2 ^ o * 2 ^ w := by
      have h1 : c * 2 ^ o ≤ (2 ^ w - 1) * 2 ^ o :=
        Nat.mul_le_mul_right _ (by omega)
      have h2 : (2 ^ w - 1) * 2 ^ o + 2 ^ o = 2 ^ o * 2 ^ w := by
        rw [Nat.sub_mul]
        have h3 : 2 ^ o ≤ 2 ^ w * 2 ^ o :=
          Nat.le_mul_of_pos_left _ (by positivity)
        rw [Nat.mul_comm (2 ^ w) (2 ^ o)] at h3 ⊢
        omega
      omega
    rw [Nat.div_eq_of_lt hlt, Nat.zero_add]
    rw [← Nat.div_div_eq_div_mul]
  obtain ⟨d, rfl⟩ : ∃ d, o2 = (o + w) + d := ⟨o2 - (o + w), by omega⟩
  rw [pow_add (2 : Nat) (o + w) d]
  rw [← Nat.div_div_eq_div_mul, ← Nat.div_div_eq_div_mul, hdiv]

theorem window_of_mod_eq (x y o o2 w2 : Nat) (hxy : x % 2 ^ o = y % 2 ^ o)
    (h : o2 + w2 ≤ o) :
    x / 2 ^ o2 % 2 ^ w2 = y / 2 ^ o2 % 2 ^ w2 := by
  have key : ∀ z : Nat, z / 2 ^ o2 % 2 ^ w2 =
      (z % 2 ^ o) / 2 ^ o2 % 2 ^ w2 := by
    intro z
    have hqr := Nat.div_add_mod z (2 ^ o)
    rw [show z = 2 ^ o * (z / 2 ^ o) + z % 2 ^ o from by omega]
    rw [Nat.mul_add_mod]
    rw [show (2 : Nat) ^ o = 2 ^ o2 * 2 ^ (o - o2) from by
      rw [← pow_add]
      congr 1
      omega]
    rw [show 2 ^ o2 * 2 ^ (o - o2) * (z / (2 ^ o2 * 2 ^ (o - o2))) +
        z % (2 ^ o2 * 2 ^ (o - o2)) =
      z % (2 ^ o2 * 2 ^ (o - o2)) +
        2 ^ (o - o2) * (z / (2 ^ o2 * 2 ^ (o - o2))) * 2 ^ o2 from by
        ring]
    rw [Nat.add_mul_div_right _ _ (by positivity)]
    rw [show (2 : Nat) ^ (o - o2) = 2 ^ w2 * 2 ^ (o - o2 - w2) from by
      rw [← pow_add]
      congr 1
      omega]
    rw [show z % (2 ^ o2 * (2 ^ w2 * 2 ^ (o - o2 - w2))) / 2 ^ o2 +
        2 ^ w2 * 2 ^ (o - o2 - w2) * (z / (2 ^ o2 *
          (2 ^ w2 * 2 ^ (o - o2 - w2)))) =
      z % (2 ^ o2 * (2 ^ w2 * 2 ^ (o - o2 - w2))) / 2 ^ o2 +
        2 ^ w2 * (2 ^ (o - o2 - w2) * (z / (2 ^ o2 *
          (2 ^ w2 * 2 ^ (o - o2 - w2))))) from by ring]
    rw [Nat.add_mul_mod_self_left]
    rw [Nat.mod_mod_of_dvd z (dvd_refl _)]
  rw [key x, key y, hxy]


/-! ### Cell agreement below a stream position -/

/-- Two images agree on every channel-bit window lying strictly below
stream bit position `B` (cell `c` holds stream bits
`[c*k, c*k+k)`; channel of cell `c` is `c % 3`, pixel `c / 3`). -/
def agreesBelow (k B : Nat) (i1 i2 : Img) : Prop :=
  ∀ c o w, c * k + o + w ≤ B →
    i1.pixels (c / 3) (c % 3) / 2 ^ o % 2 ^ w =
    i2.pixels (c / 3) (c % 3) / 2 ^ o % 2 ^ w

theorem agreesBelow_refl (k B : Nat) (i : Img) : agreesBelow k B i i :=
  fun _ _ _ _ => rfl

theorem agreesBelow_trans {k B : Nat} {i1 i2 i3 : Img}
    (h1 : agreesBelow k B i1 i2) (h2 : agreesBelow k B i2 i3) :
    agreesBelow k B i1 i3 :=
  fun c o w h => (h1 c o w h).trans (h2 c o w h)

theorem agreesBelow_mono {k B B' : Nat} {i1 i2 : Img} (hB : B' ≤ B)
    (h : agreesBelow k B i1 i2) : agreesBelow k B' i1 i2 :=
  fun c o w hc => h c o w (le_trans hc hB)

@[simp] theorem setChannel_pixels (img : Img) (pix ch p c v : Nat) :
    (setChannel img pix ch v).pixels p c =
      if p = pix ∧ c = ch then v else img.pixels p c := rfl

@[simp] theorem setChannel_width (img : Img) (pix ch v : Nat) :
    (setChannel img pix ch v).width = img.width := rfl

@[simp] theorem setChannel_height (img : Img) (pix ch v : Nat) :
    (setChannel img pix ch v).height = img.height := rfl

/-! ### Write plans: each byte embeds as a list of channel-window writes -/

/-- One channel-window write/read: bits `[off, off+wid)` of channel `ch`
of pixel `pix` carry `b / 2 ^ sh % 2 ^ wid` of the byte `b`. -/
structure WSpec where
  pix : Nat
  ch : Nat
  off : Nat
  wid : Nat
  sh : Nat

/-- The value a channel write leaves: clear bits `[o, o+w)` of `v`, then
add `bits` there (the shape of every write in `embed_bytes`). -/
def clearAdd (v o w bits : Nat) : Nat :=
  v - v / 2 ^ o % 2 ^ w * 2 ^ o + bits * 2 ^ o

def applyWrites (b : Nat) : List WSpec → Img → Img
  | [], img => img
  | ws :: rest, img =>
      applyWrites b rest
        (setChannel img ws.pix ws.ch
          (clearAdd (img.pixels ws.pix ws.ch) ws.off ws.wid
            (b / 2 ^ ws.sh % 2 ^ ws.wid)))

def readSum (img : Img) : List WSpec → Nat
  | [] => 0
  | ws :: rest =>
      img.pixels ws.pix ws.ch / 2 ^ ws.off % 2 ^ ws.wid * 2 ^ ws.sh +
        readSum img rest

theorem applyWrites_width (b : Nat) :
    ∀ (plan : List WSpec) (img : Img), (applyWrites b plan img).width = img.width
  | [], _ => rfl
  | _ :: rest, img => applyWrites_width b rest _

theorem applyWrites_height (b : Nat) :
    ∀ (plan : List WSpec) (img : Img), (applyWrites b plan img).height = img.height
  | [], _ => rfl
  | _ :: rest, img => applyWrites_height b rest _

theorem applyWrites_pixels_notin (b : Nat) :
    ∀ (plan : List WSpec) (img : Img) (p c : Nat),
      (∀ ws ∈ plan, ¬(p = ws.pix ∧ c = ws.ch)) →
      (applyWrites b plan img).pixels p c = img.pixels p c
  | [], _, _, _, _ => rfl
  | ws :: rest, img, p, c, h => by
      rw [applyWrites, applyWrites_pixels_notin b rest _ p c
        (fun w hw => h w (List.mem_cons_of_mem _ hw)),
        setChannel_pixels, if_neg (h ws (List.mem_cons_self _ _))]

/-- After a plan of pairwise-distinct-cell writes, reading back any of
the plan's windows recovers the corresponding bits of `b`. -/
theorem applyWrites_read (b : Nat) :
    ∀ (plan : List WSpec) (img : Img),
      plan.Pairwise (fun x y => ¬(x.pix = y.pix ∧ x.ch = y.ch)) →
      ∀ ws ∈ plan,
        (applyWrites b plan img).pixels ws.pix ws.ch / 2 ^ ws.off % 2 ^ ws.wid =
          b / 2 ^ ws.sh % 2 ^ ws.wid
  | [], _, _, _, h => absurd h (List.not_mem_nil _)
  | ws :: rest, img, hpw, ws', hmem => by
      rcases List.mem_cons.mp hmem with rfl | hmem'
      · rw [applyWrites, applyWrites_pixels_notin b rest _ _ _
          (fun w hw h => (List.pairwise_cons.mp hpw).1 w hw h),
          setChannel_pixels, if_pos ⟨rfl, rfl⟩]
        exact clearAdd_window _ _ _ _ (Nat.mod_lt _ (Nat.pos_pow_of_pos _ (by omega)))
      · exact applyWrites_read b rest _ (List.pairwise_cons.mp hpw).2 ws' hmem'

theorem agreesBelow_setChannel (k B : Nat) (img : Img) (pix ch o w bits : Nat)
    (hch : ch < 3) (hB : B ≤ (3 * pix + ch) * k + o) :
    agreesBelow k B img
      (setChannel img pix ch (clearAdd (img.pixels pix ch) o w bits)) := by
  intro c o' w' hc
  rw [setChannel_pixels]
  by_cases hcc : c / 3 = pix ∧ c % 3 = ch
  · rw [if_pos hcc, hcc.1, hcc.2]
    have hce : c = 3 * pix + ch := by omega
    have how : o' + w' ≤ o := by
      have hc' := hc
      rw [hce] at hc'
      by_cases hk0 : k = 0
      · omega
      · nlinarith [hB, hc']
    exact window_of_mod_eq _ _ o o' w'
      (clearAdd_mod_low (img.pixels pix ch) o w bits).symm how
  · rw [if_neg hcc]

theorem applyWrites_agrees (k B b : Nat) :
    ∀ (plan : List WSpec) (img : Img),
      (∀ ws ∈ plan, ws.ch < 3 ∧ B ≤ (3 * ws.pix + ws.ch) * k + ws.off) →
      agreesBelow k B img (applyWrites b plan img)
  | [], img, _ => agreesBelow_refl k B img
  | ws :: rest, img, h => by
      rw [applyWrites]
      exact agreesBelow_trans
        (agreesBelow_setChannel k B img ws.pix ws.ch ws.off ws.wid _
          (h ws (List.mem_cons_self _ _)).1 (h ws (List.mem_cons_self _ _)).2)
        (applyWrites_agrees k B b rest _
          (fun w hw => h w (List.mem_cons_of_mem _ hw)))

theorem readSum_congr (k B : Nat) (i1 i2 : Img)
    (ha : agreesBelow k B i1 i2) :
    ∀ plan : List WSpec,
      (∀ ws ∈ plan, ws.ch < 3 ∧ (3 * ws.pix + ws.ch) * k + ws.off + ws.wid ≤ B) →
      readSum i1 plan = readSum i2 plan
  | [], _ => rfl
  | ws :: rest, h => by
      rw [readSum, readSum, readSum_congr k B i1 i2 ha rest
        (fun w hw => h w (List.mem_cons_of_mem _ hw))]
      have hch := (h ws (List.mem_cons_self _ _)).1
      have hws := ha (3 * ws.pix + ws.ch) ws.off ws.wid
        (h ws (List.mem_cons_self _ _)).2
      rw [show (3 * ws.pix + ws.ch) / 3 = ws.pix from by omega,
        show (3 * ws.pix + ws.ch) % 3 = ws.ch from by omega] at hws
      rw [hws]


/-! ### Per-case byte lemmas, k = 3 -/

def plan3_5 (q : Nat) : List WSpec :=
  [⟨q, 1, 2, 1, 7⟩, ⟨q, 2, 0, 3, 4⟩, ⟨q + 1, 0, 0, 3, 1⟩, ⟨q + 1, 1, 0, 1, 0⟩]

theorem embK3_5 (b startBit idx q : Nat) (img : Img)
    (hP : startBit + idx * 8 = 9 * q + 5) :
    embedByte 3 b startBit idx img =
      if img.height ≤ q / img.width then
        .error (RErr.other "Image too small to store data")
      else if img.height ≤ (q + 1) / img.width then
        .error (RErr.other "Image too small to store data")
      else .ok (applyWrites b (plan3_5 q) img) := by
  simp only [embedByte, hP]
  norm_num
  rw [Nat.mul_add_div (by norm_num), Nat.mul_add_mod]
  norm_num
  rw [show List.range' 1 2 = [1, 2] from rfl,
    show (9 * q + 5) % 3 = 2 from by omega]
  simp only [embedKChans, plan3_5, applyWrites, clearAdd]
  norm_num

theorem extK3_5 (startBit idx q : Nat) (img : Img)
    (hP : startBit + idx * 8 = 9 * q + 5)
    (h1 : ¬ img.height ≤ q / img.width)
    (h2 : ¬ img.height ≤ (q + 1) / img.width) :
    extractByte 3 startBit idx img = .ok (readSum img (plan3_5 q)) := by
  simp only [extractByte, hP]
  norm_num
  rw [Nat.mul_add_div (by norm_num), Nat.mul_add_mod]
  norm_num
  rw [if_neg h1]
  rw [show List.range' 1 2 = [1, 2] from rfl,
    show (9 * q + 5) % 3 = 2 from by omega]
  simp only [extractKChans, plan3_5, readSum]
  norm_num
  rw [if_neg h2]
  first
  | ring
  | (congr 1; ring)


/-! ### Remaining per-case byte lemmas, k = 3 -/

def plan3_0 (q : Nat) : List WSpec :=
  [⟨q, 0, 0, 3, 5⟩, ⟨q, 1, 0, 3, 2⟩, ⟨q, 2, 0, 2, 0⟩]

theorem embK3_0 (b startBit idx q : Nat) (img : Img)
    (hP : startBit + idx * 8 = 9 * q + 0) :
    embedByte 3 b startBit idx img =
      if img.height ≤ q / img.width then
        .error (RErr.other "Image too small to store data")
      else .ok (applyWrites b (plan3_0 q) img) := by
  simp only [embedByte, hP]
  norm_num
  rw [show (List.range 3) = [0, 1, 2] from rfl]
  simp only [embedKChans, plan3_0, applyWrites, clearAdd]
  norm_num

theorem extK3_0 (startBit idx q : Nat) (img : Img)
    (hP : startBit + idx * 8 = 9 * q + 0)
    (h1 : ¬ img.height ≤ q / img.width) :
    extractByte 3 startBit idx img = .ok (readSum img (plan3_0 q)) := by
  simp only [extractByte, hP]
  norm_num
  rw [if_neg h1]
  rw [show (List.range 3) = [0, 1, 2] from rfl]
  simp only [extractKChans, plan3_0, readSum]
  norm_num
  first
  | ring
  | (congr 1; ring)

def plan3_1 (q : Nat) : List WSpec :=
  [⟨q, 0, 1, 2, 6⟩, ⟨q, 1, 0, 3, 3⟩, ⟨q, 2, 0, 3, 0⟩]

theorem embK3_1 (b startBit idx q : Nat) (img : Img)
    (hP : startBit + idx * 8 = 9 * q + 1) :
    embedByte 3 b startBit idx img =
      if img.height ≤ q / img.width then
        .error (RErr.other "Image too small to store data")
      else .ok (applyWrites b (plan3_1 q) img) := by
  simp only [embedByte, hP]
  norm_num
  rw [Nat.mul_add_div (by norm_num), Nat.mul_add_mod]
  norm_num
  rw [show (9 * q + 1) % 3 = 1 from by omega]
  simp only [embedKChans, plan3_1, applyWrites, clearAdd]
  norm_num

theorem extK3_1 (startBit idx q : Nat) (img : Img)
    (hP : startBit + idx * 8 = 9 * q + 1)
    (h1 : ¬ img.height ≤ q / img.width) :
    extractByte 3 startBit idx img = .ok (readSum img (plan3_1 q)) := by
  simp only [extractByte, hP]
  norm_num
  rw [Nat.mul_add_div (by norm_num), Nat.mul_add_mod]
  norm_num
  rw [if_neg h1]
  rw [show (9 * q + 1) % 3 = 1 from by omega]
  simp only [extractKChans, plan3_1, readSum]
  norm_num
  first
  | ring
  | (congr 1; ring)

def plan3_2 (q : Nat) : List WSpec :=
  [⟨q, 0, 2, 1, 7⟩, ⟨q, 1, 0, 3, 4⟩, ⟨q, 2, 0, 3, 1⟩, ⟨q + 1, 0, 0, 1, 0⟩]

theorem embK3_2 (b startBit idx q : Nat) (img : Img)
    (hP : startBit + idx * 8 = 9 * q + 2) :
    embedByte 3 b startBit idx img =
      if img.height ≤ q / img.width then
        .error (RErr.other "Image too small to store data")
      else if img.height ≤ (q + 1) / img.width then
        .error (RErr.other "Image too small to store data")
      else .ok (applyWrites b (plan3_2 q) img) := by
  simp only [embedByte, hP]
  norm_num
  rw [Nat.mul_add_div (by norm_num), Nat.mul_add_mod]
  norm_num
  rw [show (9 * q + 2) % 3 = 2 from by omega]
  simp only [embedKChans, plan3_2, applyWrites, clearAdd]
  norm_num

theorem extK3_2 (startBit idx q : Nat) (img : Img)
    (hP : startBit + idx * 8 = 9 * q + 2)
    (h1 : ¬ img.height ≤ q / img.width)
    (h2 : ¬ img.height ≤ (q + 1) / img.width) :
    extractByte 3 startBit idx img = .ok (readSum img (plan3_2 q)) := by
  simp only [extractByte, hP]
  norm_num
  rw [Nat.mul_add_div (by norm_num), Nat.mul_add_mod]
  norm_num
  rw [if_neg h1]
  rw [show (9 * q + 2) % 3 = 2 from by omega]
  simp only [extractKChans, plan3_2, readSum]
  norm_num
  rw [if_neg h2]
  first
  | ring
  | (congr 1; ring)

def plan3_3 (q : Nat) : List WSpec :=
  [⟨q, 1, 0, 3, 5⟩, ⟨q, 2, 0, 3, 2⟩, ⟨q + 1, 0, 0, 2, 0⟩]

theorem embK3_3 (b startBit idx q : Nat) (img : Img)
    (hP : startBit + idx * 8 = 9 * q + 3) :
    embedByte 3 b startBit idx img =
      if img.height ≤ q / img.width then
        .error (RErr.other "Image too small to store data")
      else if img.height ≤ (q + 1) / img.width then
        .error (RErr.other "Image too small to store data")
      else .ok (applyWrites b (plan3_3 q) img) := by
  simp only [embedByte, hP]
  norm_num
  rw [Nat.mul_add_div (by norm_num), Nat.mul_add_mod]
  norm_num
  rw [show List.range' 1 2 = [1, 2] from rfl, show 9 * q % 3 = 0 from by omega]
  simp only [embedKChans, plan3_3, applyWrites, clearAdd]
  norm_num

theorem extK3_3 (startBit idx q : Nat) (img : Img)
    (hP : startBit + idx * 8 = 9 * q + 3)
    (h1 : ¬ img.height ≤ q / img.width)
    (h2 : ¬ img.height ≤ (q + 1) / img.width) :
    extractByte 3 startBit idx img = .ok (readSum img (plan3_3 q)) := by
  simp only [extractByte, hP]
  norm_num
  rw [Nat.mul_add_div (by norm_num), Nat.mul_add_mod]
  norm_num
  rw [if_neg h1]
  rw [show List.range' 1 2 = [1, 2] from rfl, show 9 * q % 3 = 0 from by omega]
  simp only [extractKChans, plan3_3, readSum]
  norm_num
  rw [if_neg h2]
  first
  | ring
  | (congr 1; ring)

def plan3_4 (q : Nat) : List WSpec :=
  [⟨q, 1, 1, 2, 6⟩, ⟨q, 2, 0, 3, 3⟩, ⟨q + 1, 0, 0, 3, 0⟩]

theorem embK3_4 (b startBit idx q : Nat) (img : Img)
    (hP : startBit + idx * 8 = 9 * q + 4) :
    embedByte 3 b startBit idx img =
      if img.height ≤ q / img.width then
        .error (RErr.other "Image too small to store data")
      else if img.height ≤ (q + 1) / img.width then
        .error (RErr.other "Image too small to store data")
      else .ok (applyWrites b (plan3_4 q) img) := by
  simp only [embedByte, hP]
  norm_num
  rw [Nat.mul_add_div (by norm_num), Nat.mul_add_mod]
  norm_num
  rw [show List.range' 1 2 = [1, 2] from rfl, show (9 * q + 4) % 3 = 1 from by omega]
  simp only [embedKChans, plan3_4, applyWrites, clearAdd]
  norm_num

theorem extK3_4 (startBit idx q : Nat) (img : Img)
    (hP : startBit + idx * 8 = 9 * q + 4)
    (h1 : ¬ img.height ≤ q / img.width)
    (h2 : ¬ img.height ≤ (q + 1) / img.width) :
    extractByte 3 startBit idx img = .ok (readSum img (plan3_4 q)) := by
  simp only [extractByte, hP]
  norm_num
  rw [Nat.mul_add_div (by norm_num), Nat.mul_add_mod]
  norm_num
  rw [if_neg h1]
  rw [show List.range' 1 2 = [1, 2] from rfl, show (9 * q + 4) % 3 = 1 from by omega]
  simp only [extractKChans, plan3_4, readSum]
  norm_num
  rw [if_neg h2]
  first
  | ring
  | (congr 1; ring)

def plan3_6 (q : Nat) : List WSpec :=
  [⟨q, 2, 0, 3, 5⟩, ⟨q + 1, 0, 0, 3, 2⟩, ⟨q + 1, 1, 0, 2, 0⟩]

theorem embK3_6 (b startBit idx q : Nat) (img : Img)
    (hP : startBit + idx * 8 = 9 * q + 6) :
    embedByte 3 b startBit idx img =
      if img.height ≤ q / img.width then
        .error (RErr.other "Image too small to store data")
      else if img.height ≤ (q + 1) / img.width then
        .error (RErr.other "Image too small to store data")
      else .ok (applyWrites b (plan3_6 q) img) := by
  simp only [embedByte, hP]
  norm_num
  rw [Nat.mul_add_div (by norm_num), Nat.mul_add_mod]
  norm_num
  rw [show List.drop 2 (List.range 3) = [2] from rfl, show (9 * q + 6) % 3 = 0 from by omega]
  simp only [embedKChans, plan3_6, applyWrites, clearAdd]
  norm_num

theorem extK3_6 (startBit idx q : Nat) (img : Img)
    (hP : startBit + idx * 8 = 9 * q + 6)
    (h1 : ¬ img.height ≤ q / img.width)
    (h2 : ¬ img.height ≤ (q + 1) / img.width) :
    extractByte 3 startBit idx img = .ok (readSum img (plan3_6 q)) := by
  simp only [extractByte, hP]
  norm_num
  rw [Nat.mul_add_div (by norm_num), Nat.mul_add_mod]
  norm_num
  rw [if_neg h1]
  rw [show List.drop 2 (List.range 3) = [2] from rfl, show (9 * q + 6) % 3 = 0 from by omega]
  simp only [extractKChans, plan3_6, readSum]
  norm_num
  rw [if_neg h2]
  first
  | ring
  | (congr 1; ring)

def plan3_7 (q : Nat) : List WSpec :=
  [⟨q, 2, 1, 2, 6⟩, ⟨q + 1, 0, 0, 3, 3⟩, ⟨q + 1, 1, 0, 3, 0⟩]

theorem embK3_7 (b startBit idx q : Nat) (img : Img)
    (hP : startBit + idx * 8 = 9 * q + 7) :
    embedByte 3 b startBit idx img =
      if img.height ≤ q / img.width then
        .error (RErr.other "Image too small to store data")
      else if img.height ≤ (q + 1) / img.width then
        .error (RErr.other "Image too small to store data")
      else .ok (applyWrites b (plan3_7 q) img) := by
  simp only [embedByte, hP]
  norm_num
  rw [Nat.mul_add_div (by norm_num), Nat.mul_add_mod]
  norm_num
  rw [show List.drop 2 (List.range 3) = [2] from rfl, show (9 * q + 7) % 3 = 1 from by omega]
  simp only [embedKChans, plan3_7, applyWrites, clearAdd]
  norm_num

theorem extK3_7 (startBit idx q : Nat) (img : Img)
    (hP : startBit + idx * 8 = 9 * q + 7)
    (h1 : ¬ img.height ≤ q / img.width)
    (h2 : ¬ img.height ≤ (q + 1) / img.width) :
    extractByte 3 startBit idx img = .ok (readSum img (plan3_7 q)) := by
  simp only [extractByte, hP]
  norm_num
  rw [Nat.mul_add_div (by norm_num), Nat.mul_add_mod]
  norm_num
  rw [if_neg h1]
  rw [show List.drop 2 (List.range 3) = [2] from rfl, show (9 * q + 7) % 3 = 1 from by omega]
  simp only [extractKChans, plan3_7, readSum]
  norm_num
  rw [if_neg h2]
  first
  | ring
  | (congr 1; ring)

def plan3_8 (q : Nat) : List WSpec :=
  [⟨q, 2, 2, 1, 7⟩, ⟨q + 1, 0, 0, 3, 4⟩, ⟨q + 1, 1, 0, 3, 1⟩, ⟨q + 1, 2, 0, 1, 0⟩]

theorem embK3_8 (b startBit idx q : Nat) (img : Img)
    (hP : startBit + idx * 8 = 9 * q + 8) :
    embedByte 3 b startBit idx img =
      if img.height ≤ q / img.width then
        .error (RErr.other "Image too small to store data")
      else if img.height ≤ (q + 1) / img.width then
        .error (RErr.other "Image too small to store data")
      else .ok (applyWrites b (plan3_8 q) img) := by
  simp only [embedByte, hP]
  norm_num
  rw [Nat.mul_add_div (by norm_num), Nat.mul_add_mod]
  norm_num
  rw [show List.drop 2 (List.range 3) = [2] from rfl, show (9 * q + 8) % 3 = 2 from by omega]
  simp only [embedKChans, plan3_8, applyWrites, clearAdd]
  norm_num

theorem extK3_8 (startBit idx q : Nat) (img : Img)
    (hP : startBit + idx * 8 = 9 * q + 8)
    (h1 : ¬ img.height ≤ q / img.width)
    (h2 : ¬ img.height ≤ (q + 1) / img.width) :
    extractByte 3 startBit idx img = .ok (readSum img (plan3_8 q)) := by
  simp only [extractByte, hP]
  norm_num
  rw [Nat.mul_add_div (by norm_num), Nat.mul_add_mod]
  norm_num
  rw [if_neg h1]
  rw [show List.drop 2 (List.range 3) = [2] from rfl, show (9 * q + 8) % 3 = 2 from by omega]
  simp only [extractKChans, plan3_8, readSum]
  norm_num
  rw [if_neg h2]
  first
  | ring
  | (congr 1; ring)


/-! ### Per-case byte lemmas, k = 2 -/

def plan2_0 (q : Nat) : List WSpec :=
  [⟨q, 0, 0, 2, 6⟩, ⟨q, 1, 0, 2, 4⟩, ⟨q, 2, 0, 2, 2⟩, ⟨q + 1, 0, 0, 2, 0⟩]

theorem embK2_0 (b startBit idx q : Nat) (img : Img)
    (hP : startBit + idx * 8 = 6 * q + 0) :
    embedByte 2 b startBit idx img =
      if img.height ≤ q / img.width then
        .error (RErr.other "Image too small to store data")
      else if img.height ≤ (q + 1) / img.width then
        .error (RErr.other "Image too small to store data")
      else .ok (applyWrites b (plan2_0 q) img) := by
  simp only [embedByte, hP]
  norm_num
  rw [show (List.range 3) = [0, 1, 2] from rfl]
  simp only [embedKChans, plan2_0, applyWrites, clearAdd]
  norm_num

theorem extK2_0 (startBit idx q : Nat) (img : Img)
    (hP : startBit + idx * 8 = 6 * q + 0)
    (h1 : ¬ img.height ≤ q / img.width)
    (h2 : ¬ img.height ≤ (q + 1) / img.width) :
    extractByte 2 startBit idx img = .ok (readSum img (plan2_0 q)) := by
  simp only [extractByte, hP]
  norm_num
  rw [if_neg h1]
  rw [show (List.range 3) = [0, 1, 2] from rfl]
  simp only [extractKChans, plan2_0, readSum]
  norm_num
  rw [if_neg h2]
  first
  | ring
  | (congr 1; ring)

def plan2_2 (q : Nat) : List WSpec :=
  [⟨q, 1, 0, 2, 6⟩, ⟨q, 2, 0, 2, 4⟩, ⟨q + 1, 0, 0, 2, 2⟩, ⟨q + 1, 1, 0, 2, 0⟩]

theorem embK2_2 (b startBit idx q : Nat) (img : Img)
    (hP : startBit + idx * 8 = 6 * q + 2) :
    embedByte 2 b startBit idx img =
      if img.height ≤ q / img.width then
        .error (RErr.other "Image too small to store data")
      else if img.height ≤ (q + 1) / img.width then
        .error (RErr.other "Image too small to store data")
      else .ok (applyWrites b (plan2_2 q) img) := by
  simp only [embedByte, hP]
  norm_num
  rw [Nat.mul_add_div (by norm_num), Nat.mul_add_mod]
  norm_num
  rw [show List.range' 1 2 = [1, 2] from rfl,
    show 6 * q % 2 = 0 from by omega]
  simp only [embedKChans, plan2_2, applyWrites, clearAdd]
  norm_num

theorem extK2_2 (startBit idx q : Nat) (img : Img)
    (hP : startBit + idx * 8 = 6 * q + 2)
    (h1 : ¬ img.height ≤ q / img.width)
    (h2 : ¬ img.height ≤ (q + 1) / img.width) :
    extractByte 2 startBit idx img = .ok (readSum img (plan2_2 q)) := by
  simp only [extractByte, hP]
  norm_num
  rw [Nat.mul_add_div (by norm_num), Nat.mul_add_mod]
  norm_num
  rw [if_neg h1]
  rw [show List.range' 1 2 = [1, 2] from rfl,
    show 6 * q % 2 = 0 from by omega]
  simp only [extractKChans, plan2_2, readSum]
  norm_num
  rw [if_neg h2]
  first
  | ring
  | (congr 1; ring)

def plan2_4 (q : Nat) : List WSpec :=
  [⟨q, 2, 0, 2, 6⟩, ⟨q + 1, 0, 0, 2, 4⟩, ⟨q + 1, 1, 0, 2, 2⟩, ⟨q + 1, 2, 0, 2, 0⟩]

theorem embK2_4 (b startBit idx q : Nat) (img : Img)
    (hP : startBit + idx * 8 = 6 * q + 4) :
    embedByte 2 b startBit idx img =
      if img.height ≤ q / img.width then
        .error (RErr.other "Image too small to store data")
      else if img.height ≤ (q + 1) / img.width then
        .error (RErr.other "Image too small to store data")
      else .ok (applyWrites b (plan2_4 q) img) := by
  simp only [embedByte, hP]
  norm_num
  rw [Nat.mul_add_div (by norm_num), Nat.mul_add_mod]
  norm_num
  rw [show List.drop 2 (List.range 3) = [2] from rfl,
    show (6 * q + 4) % 2 = 0 from by omega]
  simp only [embedKChans, plan2_4, applyWrites, clearAdd]
  norm_num

theorem extK2_4 (startBit idx q : Nat) (img : Img)
    (hP : startBit + idx * 8 = 6 * q + 4)
    (h1 : ¬ img.height ≤ q / img.width)
    (h2 : ¬ img.height ≤ (q + 1) / img.width) :
    extractByte 2 startBit idx img = .ok (readSum img (plan2_4 q)) := by
  simp only [extractByte, hP]
  norm_num
  rw [Nat.mul_add_div (by norm_num), Nat.mul_add_mod]
  norm_num
  rw [if_neg h1]
  rw [show List.drop 2 (List.range 3) = [2] from rfl,
    show (6 * q + 4) % 2 = 0 from by omega]
  simp only [extractKChans, plan2_4, readSum]
  norm_num
  rw [if_neg h2]
  first
  | ring
  | (congr 1; ring)


/-! ### Per-case byte lemmas, k = 1 (bit-per-channel path) -/

theorem nadd2 (q : Nat) : ¬(q + 1 + 1 = q) := by omega
theorem nadd21 (q : Nat) : ¬(q + 1 + 1 = q + 1) := by omega
theorem nadd3 (q : Nat) : ¬(q + 1 + 1 + 1 = q) := by omega
theorem nadd31 (q : Nat) : ¬(q + 1 + 1 + 1 = q + 1) := by omega
theorem nadd32 (q : Nat) : ¬(q + 1 + 1 + 1 = q + 1 + 1) := by omega
theorem add11 (q : Nat) : q + 1 + 1 = q + 2 := by omega
theorem add111 (q : Nat) : q + 1 + 1 + 1 = q + 3 := by omega
theorem k1t2 (b : Nat) : b * 2 / 64 % 2 = b / 32 % 2 := by omega
theorem k1t3 (b : Nat) : b * 2 * 2 / 64 % 2 = b / 16 % 2 := by omega
theorem k1t4 (b : Nat) : b * 2 * 2 * 2 / 64 % 2 = b / 8 % 2 := by omega
theorem k1t5 (b : Nat) : b * 2 * 2 * 2 * 2 / 64 % 2 = b / 4 % 2 := by omega
theorem k1t6 (b : Nat) : b * 2 * 2 * 2 * 2 * 2 / 64 % 2 = b / 2 % 2 := by omega
theorem k1t7 (b : Nat) : b * 2 * 2 * 2 * 2 * 2 * 2 / 64 % 2 = b % 2 := by omega
theorem k1u3 (b : Nat) : b * 2 / 32 % 2 = b / 16 % 2 := by omega
theorem k1u4 (b : Nat) : b * 2 * 2 / 32 % 2 = b / 8 % 2 := by omega
theorem k1u5 (b : Nat) : b * 2 * 2 * 2 / 32 % 2 = b / 4 % 2 := by omega
theorem k1u6 (b : Nat) : b * 2 * 2 * 2 * 2 / 32 % 2 = b / 2 % 2 := by omega
theorem k1u7 (b : Nat) : b * 2 * 2 * 2 * 2 * 2 / 32 % 2 = b % 2 := by omega
theorem k1s1 (b : Nat) : b * 2 % 256 / 128 % 2 = b / 64 % 2 := by omega
theorem k1s2 (b : Nat) : b * 2 * 2 % 256 / 128 % 2 = b / 32 % 2 := by omega
theorem k1s3 (b : Nat) : b * 2 * 2 * 2 % 256 / 128 % 2 = b / 16 % 2 := by omega
theorem k1s4 (b : Nat) : b * 2 * 2 * 2 * 2 % 256 / 128 % 2 = b / 8 % 2 := by omega
theorem k1s5 (b : Nat) : b * 2 * 2 * 2 * 2 * 2 % 256 / 128 % 2 = b / 4 % 2 := by omega
theorem k1s6 (b : Nat) : b * 2 * 2 * 2 * 2 * 2 * 2 % 256 / 128 % 2 = b / 2 % 2 := by omega
theorem k1s7 (b : Nat) : b * 2 * 2 * 2 * 2 * 2 * 2 * 2 % 256 / 128 % 2 = b % 2 := by omega

def plan1_0 (q : Nat) : List WSpec :=
  [⟨q, 0, 0, 1, 7⟩, ⟨q, 1, 0, 1, 6⟩, ⟨q, 2, 0, 1, 5⟩,
   ⟨q + 1, 0, 0, 1, 4⟩, ⟨q + 1, 1, 0, 1, 3⟩, ⟨q + 1, 2, 0, 1, 2⟩,
   ⟨q + 2, 0, 0, 1, 1⟩, ⟨q + 2, 1, 0, 1, 0⟩]

def plan1_1 (q : Nat) : List WSpec :=
  [⟨q, 1, 0, 1, 7⟩, ⟨q, 2, 0, 1, 6⟩,
   ⟨q + 1, 0, 0, 1, 5⟩, ⟨q + 1, 1, 0, 1, 4⟩, ⟨q + 1, 2, 0, 1, 3⟩,
   ⟨q + 2, 0, 0, 1, 2⟩, ⟨q + 2, 1, 0, 1, 1⟩, ⟨q + 2, 2, 0, 1, 0⟩]

def plan1_2 (q : Nat) : List WSpec :=
  [⟨q, 2, 0, 1, 7⟩,
   ⟨q + 1, 0, 0, 1, 6⟩, ⟨q + 1, 1, 0, 1, 5⟩, ⟨q + 1, 2, 0, 1, 4⟩,
   ⟨q + 2, 0, 0, 1, 3⟩, ⟨q + 2, 1, 0, 1, 2⟩, ⟨q + 2, 2, 0, 1, 1⟩,
   ⟨q + 3, 0, 0, 1, 0⟩]


/-! ### Single-pixel steps of the 1-bit embed loop -/

theorem e1s_8 (f pix byte : Nat) (img : Img) :
    embed1Go (f + 1) pix 0 byte 8 img =
      if img.height ≤ pix / img.width then
        .error (RErr.other "Image too small to store data")
      else
        embed1Go f (pix + 1) 0 (byte * 2 % 256 * 2 % 256 * 2 % 256) 5
          (setChannel (setChannel (setChannel img pix 0
              (img.pixels pix 0 - img.pixels pix 0 % 2 + byte / 128 % 2))
            pix 1
            (img.pixels pix 1 - img.pixels pix 1 % 2 +
              byte * 2 % 256 / 128 % 2))
            pix 2
            (img.pixels pix 2 - img.pixels pix 2 % 2 +
              byte * 2 % 256 * 2 % 256 / 128 % 2)) := by
  simp only [embed1Go, embed1Chans, setChannel_pixels]
  norm_num

theorem e1s_7 (f pix byte : Nat) (img : Img) :
    embed1Go (f + 1) pix 0 byte 7 img =
      if img.height ≤ pix / img.width then
        .error (RErr.other "Image too small to store data")
      else
        embed1Go f (pix + 1) 0 (byte * 2 % 256 * 2 % 256 * 2 % 256) 4
          (setChannel (setChannel (setChannel img pix 0
              (img.pixels pix 0 - img.pixels pix 0 % 2 + byte / 128 % 2))
            pix 1
            (img.pixels pix 1 - img.pixels pix 1 % 2 +
              byte * 2 % 256 / 128 % 2))
            pix 2
            (img.pixels pix 2 - img.pixels pix 2 % 2 +
              byte * 2 % 256 * 2 % 256 / 128 % 2)) := by
  simp only [embed1Go, embed1Chans, setChannel_pixels]
  norm_num

theorem e1s_6 (f pix byte : Nat) (img : Img) :
    embed1Go (f + 1) pix 0 byte 6 img =
      if img.height ≤ pix / img.width then
        .error (RErr.other "Image too small to store data")
      else
        embed1Go f (pix + 1) 0 (byte * 2 % 256 * 2 % 256 * 2 % 256) 3
          (setChannel (setChannel (setChannel img pix 0
              (img.pixels pix 0 - img.pixels pix 0 % 2 + byte / 128 % 2))
            pix 1
            (img.pixels pix 1 - img.pixels pix 1 % 2 +
              byte * 2 % 256 / 128 % 2))
            pix 2
            (img.pixels pix 2 - img.pixels pix 2 % 2 +
              byte * 2 % 256 * 2 % 256 / 128 % 2)) := by
  simp only [embed1Go, embed1Chans, setChannel_pixels]
  norm_num

theorem e1s_5 (f pix byte : Nat) (img : Img) :
    embed1Go (f + 1) pix 0 byte 5 img =
      if img.height ≤ pix / img.width then
        .error (RErr.other "Image too small to store data")
      else
        embed1Go f (pix + 1) 0 (byte * 2 % 256 * 2 % 256 * 2 % 256) 2
          (setChannel (setChannel (setChannel img pix 0
              (img.pixels pix 0 - img.pixels pix 0 % 2 + byte / 128 % 2))
            pix 1
            (img.pixels pix 1 - img.pixels pix 1 % 2 +
              byte * 2 % 256 / 128 % 2))
            pix 2
            (img.pixels pix 2 - img.pixels pix 2 % 2 +
              byte * 2 % 256 * 2 % 256 / 128 % 2)) := by
  simp only [embed1Go, embed1Chans, setChannel_pixels]
  norm_num

theorem e1s_4 (f pix byte : Nat) (img : Img) :
    embed1Go (f + 1) pix 0 byte 4 img =
      if img.height ≤ pix / img.width then
        .error (RErr.other "Image too small to store data")
      else
        embed1Go f (pix + 1) 0 (byte * 2 % 256 * 2 % 256 * 2 % 256) 1
          (setChannel (setChannel (setChannel img pix 0
              (img.pixels pix 0 - img.pixels pix 0 % 2 + byte / 128 % 2))
            pix 1
            (img.pixels pix 1 - img.pixels pix 1 % 2 +
              byte * 2 % 256 / 128 % 2))
            pix 2
            (img.pixels pix 2 - img.pixels pix 2 % 2 +
              byte * 2 % 256 * 2 % 256 / 128 % 2)) := by
  simp only [embed1Go, embed1Chans, setChannel_pixels]
  norm_num

theorem e1f_3 (f pix byte : Nat) (img : Img) :
    embed1Go (f + 1) pix 0 byte 3 img =
      if img.height ≤ pix / img.width then
        .error (RErr.other "Image too small to store data")
      else
        .ok (setChannel (setChannel (setChannel img pix 0
              (img.pixels pix 0 - img.pixels pix 0 % 2 + byte / 128 % 2))
            pix 1
            (img.pixels pix 1 - img.pixels pix 1 % 2 +
              byte * 2 % 256 / 128 % 2))
            pix 2
            (img.pixels pix 2 - img.pixels pix 2 % 2 +
              byte * 2 % 256 * 2 % 256 / 128 % 2)) := by
  simp only [embed1Go, embed1Chans, setChannel_pixels]
  norm_num

theorem e1f_2 (f pix byte : Nat) (img : Img) :
    embed1Go (f + 1) pix 0 byte 2 img =
      if img.height ≤ pix / img.width then
        .error (RErr.other "Image too small to store data")
      else
        .ok (setChannel (setChannel img pix 0
            (img.pixels pix 0 - img.pixels pix 0 % 2 + byte / 128 % 2))
          pix 1
          (img.pixels pix 1 - img.pixels pix 1 % 2 +
            byte * 2 % 256 / 128 % 2)) := by
  simp only [embed1Go, embed1Chans, setChannel_pixels]
  norm_num

theorem e1f_1 (f pix byte : Nat) (img : Img) :
    embed1Go (f + 1) pix 0 byte 1 img =
      if img.height ≤ pix / img.width then
        .error (RErr.other "Image too small to store data")
      else
        .ok (setChannel img pix 0
          (img.pixels pix 0 - img.pixels pix 0 % 2 + byte / 128 % 2)) := by
  simp only [embed1Go, embed1Chans, setChannel_pixels]
  norm_num

theorem e1t_12 (f pix byte : Nat) (img : Img) :
    embed1Go (f + 1) pix 1 byte 8 img =
      if img.height ≤ pix / img.width then
        .error (RErr.other "Image too small to store data")
      else
        embed1Go f (pix + 1) 0 (byte * 2 % 256 * 2 % 256) 6
          (setChannel (setChannel img pix 1
              (img.pixels pix 1 - img.pixels pix 1 % 2 + byte / 128 % 2))
            pix 2
            (img.pixels pix 2 - img.pixels pix 2 % 2 +
              byte * 2 % 256 / 128 % 2)) := by
  simp only [embed1Go, embed1Chans, setChannel_pixels]
  norm_num

theorem e1t_2 (f pix byte : Nat) (img : Img) :
    embed1Go (f + 1) pix 2 byte 8 img =
      if img.height ≤ pix / img.width then
        .error (RErr.other "Image too small to store data")
      else
        embed1Go f (pix + 1) 0 (byte * 2 % 256) 7
          (setChannel img pix 2
            (img.pixels pix 2 - img.pixels pix 2 % 2 + byte / 128 % 2)) := by
  simp only [embed1Go, embed1Chans, setChannel_pixels]
  norm_num

theorem applyWrites_nil (b : Nat) (img : Img) : applyWrites b [] img = img := rfl

theorem applyWrites_cons (b : Nat) (ws : WSpec) (rest : List WSpec)
    (img : Img) :
    applyWrites b (ws :: rest) img =
      applyWrites b rest
        (setChannel img ws.pix ws.ch
          (clearAdd (img.pixels ws.pix ws.ch) ws.off ws.wid
            (b / 2 ^ ws.sh % 2 ^ ws.wid))) := rfl
set_option maxHeartbeats 1000000 in
theorem embK1_0 (b startBit idx q : Nat) (img : Img)
    (hP : startBit + idx * 8 = 3 * q) :
    embedByte 1 b startBit idx img =
      if img.height ≤ q / img.width then
        .error (RErr.other "Image too small to store data")
      else if img.height ≤ q / img.width then
        .error (RErr.other "Image too small to store data")
      else if img.height ≤ (q + 1) / img.width then
        .error (RErr.other "Image too small to store data")
      else if img.height ≤ (q + 2) / img.width then
        .error (RErr.other "Image too small to store data")
      else .ok (applyWrites b (plan1_0 q) img) := by
  simp only [embedByte, hP]
  norm_num
  rw [show (9 : Nat) = 8 + 1 from rfl, e1s_8]
  rw [show (8 : Nat) = 7 + 1 from rfl, e1s_5]
  simp only [setChannel_pixels]
  norm_num [nadd2, nadd21, nadd3, nadd31, nadd32]
  rw [show (7 : Nat) = 6 + 1 from rfl, e1f_2]
  simp only [setChannel_pixels]
  norm_num [nadd2, nadd21, nadd3, nadd31, nadd32]
  simp only [plan1_0]
  rw [applyWrites_cons]
  simp only [clearAdd, setChannel_pixels]
  norm_num [nadd2, nadd21, nadd3, nadd31, nadd32]
  rw [applyWrites_cons]
  simp only [clearAdd, setChannel_pixels]
  norm_num [nadd2, nadd21, nadd3, nadd31, nadd32]
  rw [applyWrites_cons]
  simp only [clearAdd, setChannel_pixels]
  norm_num [nadd2, nadd21, nadd3, nadd31, nadd32]
  rw [applyWrites_cons]
  simp only [clearAdd, setChannel_pixels]
  norm_num [nadd2, nadd21, nadd3, nadd31, nadd32]
  rw [applyWrites_cons]
  simp only [clearAdd, setChannel_pixels]
  norm_num [nadd2, nadd21, nadd3, nadd31, nadd32]
  rw [applyWrites_cons]
  simp only [clearAdd, setChannel_pixels]
  norm_num [nadd2, nadd21, nadd3, nadd31, nadd32]
  rw [applyWrites_cons]
  simp only [clearAdd, setChannel_pixels]
  norm_num [nadd2, nadd21, nadd3, nadd31, nadd32]
  rw [applyWrites_cons]
  simp only [clearAdd, setChannel_pixels]
  norm_num [nadd2, nadd21, nadd3, nadd31, nadd32]
  rw [applyWrites_nil]
  repeat' (first | omega | congr 1 | rfl)

set_option maxHeartbeats 1000000 in
theorem embK1_1 (b startBit idx q : Nat) (img : Img)
    (hP : startBit + idx * 8 = 3 * q + 1) :
    embedByte 1 b startBit idx img =
      if img.height ≤ q / img.width then
        .error (RErr.other "Image too small to store data")
      else if img.height ≤ q / img.width then
        .error (RErr.other "Image too small to store data")
      else if img.height ≤ (q + 1) / img.width then
        .error (RErr.other "Image too small to store data")
      else if img.height ≤ (q + 2) / img.width then
        .error (RErr.other "Image too small to store data")
      else .ok (applyWrites b (plan1_1 q) img) := by
  simp only [embedByte, hP]
  norm_num
  rw [Nat.mul_add_div (by norm_num), Nat.mul_add_mod]
  norm_num
  rw [show (9 : Nat) = 8 + 1 from rfl, e1t_12]
  rw [show (8 : Nat) = 7 + 1 from rfl, e1s_6]
  simp only [setChannel_pixels]
  norm_num [nadd2, nadd21, nadd3, nadd31, nadd32]
  rw [show (7 : Nat) = 6 + 1 from rfl, e1f_3]
  simp only [setChannel_pixels]
  norm_num [nadd2, nadd21, nadd3, nadd31, nadd32]
  simp only [plan1_1]
  rw [applyWrites_cons]
  simp only [clearAdd, setChannel_pixels]
  norm_num [nadd2, nadd21, nadd3, nadd31, nadd32]
  rw [applyWrites_cons]
  simp only [clearAdd, setChannel_pixels]
  norm_num [nadd2, nadd21, nadd3, nadd31, nadd32]
  rw [applyWrites_cons]
  simp only [clearAdd, setChannel_pixels]
  norm_num [nadd2, nadd21, nadd3, nadd31, nadd32]
  rw [applyWrites_cons]
  simp only [clearAdd, setChannel_pixels]
  norm_num [nadd2, nadd21, nadd3, nadd31, nadd32]
  rw [applyWrites_cons]
  simp only [clearAdd, setChannel_pixels]
  norm_num [nadd2, nadd21, nadd3, nadd31, nadd32]
  rw [applyWrites_cons]
  simp only [clearAdd, setChannel_pixels]
  norm_num [nadd2, nadd21, nadd3, nadd31, nadd32]
  rw [applyWrites_cons]
  simp only [clearAdd, setChannel_pixels]
  norm_num [nadd2, nadd21, nadd3, nadd31, nadd32]
  rw [applyWrites_cons]
  simp only [clearAdd, setChannel_pixels]
  norm_num [nadd2, nadd21, nadd3, nadd31, nadd32]
  rw [applyWrites_nil]
  repeat' (first | omega | congr 1 | rfl)

set_option maxHeartbeats 1000000 in
theorem embK1_2 (b startBit idx q : Nat) (img : Img)
    (hP : startBit + idx * 8 = 3 * q + 2) :
    embedByte 1 b startBit idx img =
      if img.height ≤ q / img.width then
        .error (RErr.other "Image too small to store data")
      else if img.height ≤ q / img.width then
        .error (RErr.other "Image too small to store data")
      else if img.height ≤ (q + 1) / img.width then
        .error (RErr.other "Image too small to store data")
      else if img.height ≤ (q + 2) / img.width then
        .error (RErr.other "Image too small to store data")
      else if img.height ≤ (q + 3) / img.width then
        .error (RErr.other "Image too small to store data")
      else .ok (applyWrites b (plan1_2 q) img) := by
  simp only [embedByte, hP]
  norm_num
  rw [Nat.mul_add_div (by norm_num), Nat.mul_add_mod]
  norm_num
  rw [show (9 : Nat) = 8 + 1 from rfl, e1t_2]
  rw [show (8 : Nat) = 7 + 1 from rfl, e1s_7]
  simp only [setChannel_pixels]
  norm_num [nadd2, nadd21, nadd3, nadd31, nadd32]
  rw [show (7 : Nat) = 6 + 1 from rfl, e1s_4]
  simp only [setChannel_pixels]
  norm_num [nadd2, nadd21, nadd3, nadd31, nadd32]
  rw [show (6 : Nat) = 5 + 1 from rfl, e1f_1]
  simp only [setChannel_pixels]
  norm_num [nadd2, nadd21, nadd3, nadd31, nadd32]
  simp only [plan1_2]
  rw [applyWrites_cons]
  simp only [clearAdd, setChannel_pixels]
  norm_num [nadd2, nadd21, nadd3, nadd31, nadd32]
  rw [applyWrites_cons]
  simp only [clearAdd, setChannel_pixels]
  norm_num [nadd2, nadd21, nadd3, nadd31, nadd32]
  rw [applyWrites_cons]
  simp only [clearAdd, setChannel_pixels]
  norm_num [nadd2, nadd21, nadd3, nadd31, nadd32]
  rw [applyWrites_cons]
  simp only [clearAdd, setChannel_pixels]
  norm_num [nadd2, nadd21, nadd3, nadd31, nadd32]
  rw [applyWrites_cons]
  simp only [clearAdd, setChannel_pixels]
  norm_num [nadd2, nadd21, nadd3, nadd31, nadd32]
  rw [applyWrites_cons]
  simp only [clearAdd, setChannel_pixels]
  norm_num [nadd2, nadd21, nadd3, nadd31, nadd32]
  rw [applyWrites_cons]
  simp only [clearAdd, setChannel_pixels]
  norm_num [nadd2, nadd21, nadd3, nadd31, nadd32]
  rw [applyWrites_cons]
  simp only [clearAdd, setChannel_pixels]
  norm_num [nadd2, nadd21, nadd3, nadd31, nadd32]
  rw [applyWrites_nil]
  repeat' (first | omega | congr 1 | rfl)

theorem extK1_0 (startBit idx q : Nat) (img : Img)
    (hP : startBit + idx * 8 = 3 * q)
    (h1 : ¬ img.height ≤ q / img.width)
    (h2 : ¬ img.height ≤ (q + 1) / img.width)
    (h3 : ¬ img.height ≤ (q + 2) / img.width) :
    extractByte 1 startBit idx img = .ok (readSum img (plan1_0 q)) := by
  simp only [extractByte, hP]
  norm_num
  simp only [extract1Go, extract1Chans, if_neg h1, if_neg h2, if_neg h3,
    plan1_0, readSum]
  norm_num
  first
  | ring
  | (congr 1; ring)

set_option maxHeartbeats 2000000 in
theorem extK1_1 (startBit idx q : Nat) (img : Img)
    (hP : startBit + idx * 8 = 3 * q + 1)
    (h1 : ¬ img.height ≤ q / img.width)
    (h2 : ¬ img.height ≤ (q + 1) / img.width)
    (h3 : ¬ img.height ≤ (q + 2) / img.width) :
    extractByte 1 startBit idx img = .ok (readSum img (plan1_1 q)) := by
  simp only [extractByte, hP]
  norm_num
  rw [Nat.mul_add_div (by norm_num), Nat.mul_add_mod]
  norm_num
  simp only [extract1Go, extract1Chans, if_neg h1, if_neg h2, if_neg h3,
    plan1_1, readSum]
  norm_num
  first
  | ring
  | (congr 1; ring)

set_option maxHeartbeats 2000000 in
theorem extK1_2 (startBit idx q : Nat) (img : Img)
    (hP : startBit + idx * 8 = 3 * q + 2)
    (h1 : ¬ img.height ≤ q / img.width)
    (h2 : ¬ img.height ≤ (q + 1) / img.width)
    (h3 : ¬ img.height ≤ (q + 2) / img.width)
    (h4 : ¬ img.height ≤ (q + 3) / img.width) :
    extractByte 1 startBit idx img = .ok (readSum img (plan1_2 q)) := by
  simp only [extractByte, hP]
  norm_num
  rw [Nat.mul_add_div (by norm_num), Nat.mul_add_mod]
  norm_num
  simp only [extract1Go, extract1Chans, if_neg h1, if_neg h2, if_neg h3,
    if_neg h4, plan1_2, readSum]
  norm_num
  first
  | ring
  | (congr 1; ring)

/-! ### Assembling the per-byte specifications -/

def planVal (b : Nat) : List WSpec → Nat
  | [] => 0
  | ws :: rest => b / 2 ^ ws.sh % 2 ^ ws.wid * 2 ^ ws.sh + planVal b rest

theorem readSum_eq_planVal (b : Nat) (img2 : Img) :
    ∀ plan : List WSpec,
      (∀ ws ∈ plan, img2.pixels ws.pix ws.ch / 2 ^ ws.off % 2 ^ ws.wid =
        b / 2 ^ ws.sh % 2 ^ ws.wid) →
      readSum img2 plan = planVal b plan
  | [], _ => rfl
  | ws :: rest, h => by
      rw [readSum, planVal, h ws (List.mem_cons_self _ _),
        readSum_eq_planVal b img2 rest
          (fun w hw => h w (List.mem_cons_of_mem _ hw))]

/-- The four data-independent conclusions shared by every case of the
per-byte embed specification. -/
theorem caseSpec (k b startBit idx B : Nat) (img : Img) (plan : List WSpec)
    (hext : extractByte k startBit idx (applyWrites b plan img) =
      .ok (readSum (applyWrites b plan img) plan))
    (hnd : plan.Pairwise (fun x y => ¬(x.pix = y.pix ∧ x.ch = y.ch)))
    (hpos : ∀ ws ∈ plan, ws.ch < 3 ∧ B ≤ (3 * ws.pix + ws.ch) * k + ws.off)
    (hval : planVal b plan = b % 256) :
    (applyWrites b plan img).width = img.width ∧
    (applyWrites b plan img).height = img.height ∧
    agreesBelow k B img (applyWrites b plan img) ∧
    extractByte k startBit idx (applyWrites b plan img) = .ok (b % 256) :=
  ⟨applyWrites_width b plan img, applyWrites_height b plan img,
   applyWrites_agrees k B b plan img hpos,
   by rw [hext, readSum_eq_planVal b _ plan (applyWrites_read b plan img hnd),
        hval]⟩

set_option maxHeartbeats 4000000 in
theorem embSpec1 (b startBit idx : Nat) (img img' : Img)
    (hE : embedByte 1 b startBit idx img = .ok img') :
    img'.width = img.width ∧ img'.height = img.height ∧
    ¬ img.height ≤ ((startBit + idx * 8 + 7) / 3) / img.width ∧
    agreesBelow 1 (startBit + idx * 8) img img' ∧
    extractByte 1 startBit idx img' = .ok (b % 256) := by
  obtain ⟨q, r, hr, hqr⟩ : ∃ q r, r < 3 ∧ startBit + idx * 8 = 3 * q + r :=
    ⟨(startBit + idx * 8) / 3, (startBit + idx * 8) % 3,
      Nat.mod_lt _ (by norm_num), (Nat.div_add_mod _ 3).symm⟩
  interval_cases r
  · rw [embK1_0 b startBit idx q img (by omega)] at hE
    by_cases h1 : img.height ≤ q / img.width
    · rw [if_pos h1] at hE; simp at hE
    rw [if_neg h1, if_neg h1] at hE
    by_cases h2 : img.height ≤ (q + 1) / img.width
    · rw [if_pos h2] at hE; simp at hE
    rw [if_neg h2] at hE
    by_cases h3 : img.height ≤ (q + 2) / img.width
    · rw [if_pos h3] at hE; simp at hE
    rw [if_neg h3] at hE
    injection hE with hI
    subst hI
    have hc := caseSpec 1 b startBit idx (startBit + idx * 8) img (plan1_0 q)
      (extK1_0 startBit idx q _ (by omega)
        (by rw [applyWrites_height, applyWrites_width]; exact h1)
        (by rw [applyWrites_height, applyWrites_width]; exact h2)
        (by rw [applyWrites_height, applyWrites_width]; exact h3))
      (by simp [plan1_0]; try omega)
      (by intro ws hws
          simp [plan1_0] at hws
          rcases hws with rfl | rfl | rfl | rfl | rfl | rfl | rfl | rfl <;>
            exact ⟨by norm_num, by simp; omega⟩)
      (by norm_num [planVal, plan1_0]; omega)
    exact ⟨hc.1, hc.2.1,
      by rw [show (startBit + idx * 8 + 7) / 3 = q + 2 from by omega]; exact h3,
      hc.2.2.1, hc.2.2.2⟩
  · rw [embK1_1 b startBit idx q img (by omega)] at hE
    by_cases h1 : img.height ≤ q / img.width
    · rw [if_pos h1] at hE; simp at hE
    rw [if_neg h1, if_neg h1] at hE
    by_cases h2 : img.height ≤ (q + 1) / img.width
    · rw [if_pos h2] at hE; simp at hE
    rw [if_neg h2] at hE
    by_cases h3 : img.height ≤ (q + 2) / img.width
    · rw [if_pos h3] at hE; simp at hE
    rw [if_neg h3] at hE
    injection hE with hI
    subst hI
    have hc := caseSpec 1 b startBit idx (startBit + idx * 8) img (plan1_1 q)
      (extK1_1 startBit idx q _ (by omega)
        (by rw [applyWrites_height, applyWrites_width]; exact h1)
        (by rw [applyWrites_height, applyWrites_width]; exact h2)
        (by rw [applyWrites_height, applyWrites_width]; exact h3))
      (by simp [plan1_1]; try omega)
      (by intro ws hws
          simp [plan1_1] at hws
          rcases hws with rfl | rfl | rfl | rfl | rfl | rfl | rfl | rfl <;>
            exact ⟨by norm_num, by simp; omega⟩)
      (by norm_num [planVal, plan1_1]; omega)
    exact ⟨hc.1, hc.2.1,
      by rw [show (startBit + idx * 8 + 7) / 3 = q + 2 from by omega]; exact h3,
      hc.2.2.1, hc.2.2.2⟩
  · rw [embK1_2 b startBit idx q img (by omega)] at hE
    by_cases h1 : img.height ≤ q / img.width
    · rw [if_pos h1] at hE; simp at hE
    rw [if_neg h1, if_neg h1] at hE
    by_cases h2 : img.height ≤ (q + 1) / img.width
    · rw [if_pos h2] at hE; simp at hE
    rw [if_neg h2] at hE
    by_cases h3 : img.height ≤ (q + 2) / img.width
    · rw [if_pos h3] at hE; simp at hE
    rw [if_neg h3] at hE
    by_cases h4 : img.height ≤ (q + 3) / img.width
    · rw [if_pos h4] at hE; simp at hE
    rw [if_neg h4] at hE
    injection hE with hI
    subst hI
    have hc := caseSpec 1 b startBit idx (startBit + idx * 8) img (plan1_2 q)
      (extK1_2 startBit idx q _ (by omega)
        (by rw [applyWrites_height, applyWrites_width]; exact h1)
        (by rw [applyWrites_height, applyWrites_width]; exact h2)
        (by rw [applyWrites_height, applyWrites_width]; exact h3)
        (by rw [applyWrites_height, applyWrites_width]; exact h4))
      (by simp [plan1_2]; try omega)
      (by intro ws hws
          simp [plan1_2] at hws
          rcases hws with rfl | rfl | rfl | rfl | rfl | rfl | rfl | rfl <;>
            exact ⟨by norm_num, by simp; omega⟩)
      (by norm_num [planVal, plan1_2]; omega)
    exact ⟨hc.1, hc.2.1,
      by rw [show (startBit + idx * 8 + 7) / 3 = q + 3 from by omega]; exact h4,
      hc.2.2.1, hc.2.2.2⟩



set_option maxHeartbeats 1000000 in
theorem extCong1 (startBit idx : Nat) (i1 i2 : Img)
    (hw : i2.width = i1.width) (hh : i2.height = i1.height)
    (hpix : ¬ i1.height ≤ ((startBit + idx * 8 + 7) / 3) / i1.width)
    (ha : agreesBelow 1 (startBit + idx * 8 + 8) i1 i2) :
    extractByte 1 startBit idx i1 = extractByte 1 startBit idx i2 := by
  obtain ⟨q, r, hr, hqr⟩ : ∃ q r, r < 3 ∧ startBit + idx * 8 = 3 * q + r :=
    ⟨(startBit + idx * 8) / 3, (startBit + idx * 8) % 3,
      Nat.mod_lt _ (by norm_num), (Nat.div_add_mod _ 3).symm⟩
  have hm1 : ∀ j, j ≤ (startBit + idx * 8 + 7) / 3 →
      ¬ i1.height ≤ j / i1.width :=
    fun j hj hc => hpix (le_trans hc (Nat.div_le_div_right hj))
  have hm2 : ∀ j, j ≤ (startBit + idx * 8 + 7) / 3 →
      ¬ i2.height ≤ j / i2.width := by
    intro j hj
    rw [hh, hw]
    exact hm1 j hj
  interval_cases r
  · rw [extK1_0 startBit idx q i1 (by omega) (hm1 q (by omega)) (hm1 (q + 1) (by omega)) (hm1 (q + 2) (by omega)),
      extK1_0 startBit idx q i2 (by omega) (hm2 q (by omega)) (hm2 (q + 1) (by omega)) (hm2 (q + 2) (by omega))]
    congr 1
    refine readSum_congr 1 (startBit + idx * 8 + 8) i1 i2 ha (plan1_0 q) ?_
    intro ws hws
    simp [plan1_0] at hws
    rcases hws with rfl | rfl | rfl | rfl | rfl | rfl | rfl | rfl <;> exact ⟨by norm_num, by simp; omega⟩
  · rw [extK1_1 startBit idx q i1 (by omega) (hm1 q (by omega)) (hm1 (q + 1) (by omega)) (hm1 (q + 2) (by omega)),
      extK1_1 startBit idx q i2 (by omega) (hm2 q (by omega)) (hm2 (q + 1) (by omega)) (hm2 (q + 2) (by omega))]
    congr 1
    refine readSum_congr 1 (startBit + idx * 8 + 8) i1 i2 ha (plan1_1 q) ?_
    intro ws hws
    simp [plan1_1] at hws
    rcases hws with rfl | rfl | rfl | rfl | rfl | rfl | rfl | rfl <;> exact ⟨by norm_num, by simp; omega⟩
  · rw [extK1_2 startBit idx q i1 (by omega) (hm1 q (by omega)) (hm1 (q + 1) (by omega)) (hm1 (q + 2) (by omega)) (hm1 (q + 3) (by omega)),
      extK1_2 startBit idx q i2 (by omega) (hm2 q (by omega)) (hm2 (q + 1) (by omega)) (hm2 (q + 2) (by omega)) (hm2 (q + 3) (by omega))]
    congr 1
    refine readSum_congr 1 (startBit + idx * 8 + 8) i1 i2 ha (plan1_2 q) ?_
    intro ws hws
    simp [plan1_2] at hws
    rcases hws with rfl | rfl | rfl | rfl | rfl | rfl | rfl | rfl <;> exact ⟨by norm_num, by simp; omega⟩

set_option maxHeartbeats 1000000 in
theorem embSpec2 (b startBit idx : Nat) (img img' : Img)
    (hsb : startBit % 2 = 0)
    (hE : embedByte 2 b startBit idx img = .ok img') :
    img'.width = img.width ∧ img'.height = img.height ∧
    ¬ img.height ≤ ((startBit + idx * 8 + 7) / 6) / img.width ∧
    agreesBelow 2 (startBit + idx * 8) img img' ∧
    extractByte 2 startBit idx img' = .ok (b % 256) := by
  obtain ⟨q, r, hr, hev, hqr⟩ :
      ∃ q r, r < 6 ∧ r % 2 = 0 ∧ startBit + idx * 8 = 6 * q + r :=
    ⟨(startBit + idx * 8) / 6, (startBit + idx * 8) % 6,
      Nat.mod_lt _ (by norm_num), by omega, (Nat.div_add_mod _ 6).symm⟩
  interval_cases r
  · rw [embK2_0 b startBit idx q img (by omega)] at hE
    by_cases h1 : img.height ≤ q / img.width
    · rw [if_pos h1] at hE; simp at hE
    rw [if_neg h1] at hE
    by_cases h2 : img.height ≤ (q + 1) / img.width
    · rw [if_pos h2] at hE; simp at hE
    rw [if_neg h2] at hE
    injection hE with hI
    subst hI
    have hc := caseSpec 2 b startBit idx (startBit + idx * 8) img (plan2_0 q)
      (extK2_0 startBit idx q _ (by omega)
        (by rw [applyWrites_height, applyWrites_width]; exact h1)
        (by rw [applyWrites_height, applyWrites_width]; exact h2))
      (by simp [plan2_0]; try omega)
      (by intro ws hws
          simp [plan2_0] at hws
          rcases hws with rfl | rfl | rfl | rfl <;>
            exact ⟨by norm_num, by simp; omega⟩)
      (by norm_num [planVal, plan2_0]; omega)
    exact ⟨hc.1, hc.2.1,
      by rw [show (startBit + idx * 8 + 7) / 6 = q + 1 from by omega]; exact h2,
      hc.2.2.1, hc.2.2.2⟩
  · omega
  · rw [embK2_2 b startBit idx q img (by omega)] at hE
    by_cases h1 : img.height ≤ q / img.width
    · rw [if_pos h1] at hE; simp at hE
    rw [if_neg h1] at hE
    by_cases h2 : img.height ≤ (q + 1) / img.width
    · rw [if_pos h2] at hE; simp at hE
    rw [if_neg h2] at hE
    injection hE with hI
    subst hI
    have hc := caseSpec 2 b startBit idx (startBit + idx * 8) img (plan2_2 q)
      (extK2_2 startBit idx q _ (by omega)
        (by rw [applyWrites_height, applyWrites_width]; exact h1)
        (by rw [applyWrites_height, applyWrites_width]; exact h2))
      (by simp [plan2_2]; try omega)
      (by intro ws hws
          simp [plan2_2] at hws
          rcases hws with rfl | rfl | rfl | rfl <;>
            exact ⟨by norm_num, by simp; omega⟩)
      (by norm_num [planVal, plan2_2]; omega)
    exact ⟨hc.1, hc.2.1,
      by rw [show (startBit + idx * 8 + 7) / 6 = q + 1 from by omega]; exact h2,
      hc.2.2.1, hc.2.2.2⟩
  · omega
  · rw [embK2_4 b startBit idx q img (by omega)] at hE
    by_cases h1 : img.height ≤ q / img.width
    · rw [if_pos h1] at hE; simp at hE
    rw [if_neg h1] at hE
    by_cases h2 : img.height ≤ (q + 1) / img.width
    · rw [if_pos h2] at hE; simp at hE
    rw [if_neg h2] at hE
    injection hE with hI
    subst hI
    have hc := caseSpec 2 b startBit idx (startBit + idx * 8) img (plan2_4 q)
      (extK2_4 startBit idx q _ (by omega)
        (by rw [applyWrites_height, applyWrites_width]; exact h1)
        (by rw [applyWrites_height, applyWrites_width]; exact h2))
      (by simp [plan2_4]; try omega)
      (by intro ws hws
          simp [plan2_4] at hws
          rcases hws with rfl | rfl | rfl | rfl <;>
            exact ⟨by norm_num, by simp; omega⟩)
      (by norm_num [planVal, plan2_4]; omega)
    exact ⟨hc.1, hc.2.1,
      by rw [show (startBit + idx * 8 + 7) / 6 = q + 1 from by omega]; exact h2,
      hc.2.2.1, hc.2.2.2⟩
  · omega

set_option maxHeartbeats 1000000 in
theorem extCong2 (startBit idx : Nat) (i1 i2 : Img)
    (hsb : startBit % 2 = 0)
    (hw : i2.width = i1.width) (hh : i2.height = i1.height)
    (hpix : ¬ i1.height ≤ ((startBit + idx * 8 + 7) / 6) / i1.width)
    (ha : agreesBelow 2 (startBit + idx * 8 + 8) i1 i2) :
    extractByte 2 startBit idx i1 = extractByte 2 startBit idx i2 := by
  obtain ⟨q, r, hr, hev, hqr⟩ :
      ∃ q r, r < 6 ∧ r % 2 = 0 ∧ startBit + idx * 8 = 6 * q + r :=
    ⟨(startBit + idx * 8) / 6, (startBit + idx * 8) % 6,
      Nat.mod_lt _ (by norm_num), by omega, (Nat.div_add_mod _ 6).symm⟩
  have hm1 : ∀ j, j ≤ (startBit + idx * 8 + 7) / 6 →
      ¬ i1.height ≤ j / i1.width :=
    fun j hj hc => hpix (le_trans hc (Nat.div_le_div_right hj))
  have hm2 : ∀ j, j ≤ (startBit + idx * 8 + 7) / 6 →
      ¬ i2.height ≤ j / i2.width := by
    intro j hj
    rw [hh, hw]
    exact hm1 j hj
  interval_cases r
  · rw [extK2_0 startBit idx q i1 (by omega)
        (hm1 q (by omega)) (hm1 (q + 1) (by omega)),
      extK2_0 startBit idx q i2 (by omega)
        (hm2 q (by omega)) (hm2 (q + 1) (by omega))]
    congr 1
    refine readSum_congr 2 (startBit + idx * 8 + 8) i1 i2 ha (plan2_0 q) ?_
    intro ws hws
    simp [plan2_0] at hws
    rcases hws with rfl | rfl | rfl | rfl <;> exact ⟨by norm_num, by simp; omega⟩
  · omega
  · rw [extK2_2 startBit idx q i1 (by omega)
        (hm1 q (by omega)) (hm1 (q + 1) (by omega)),
      extK2_2 startBit idx q i2 (by omega)
        (hm2 q (by omega)) (hm2 (q + 1) (by omega))]
    congr 1
    refine readSum_congr 2 (startBit + idx * 8 + 8) i1 i2 ha (plan2_2 q) ?_
    intro ws hws
    simp [plan2_2] at hws
    rcases hws with rfl | rfl | rfl | rfl <;> exact ⟨by norm_num, by simp; omega⟩
  · omega
  · rw [extK2_4 startBit idx q i1 (by omega)
        (hm1 q (by omega)) (hm1 (q + 1) (by omega)),
      extK2_4 startBit idx q i2 (by omega)
        (hm2 q (by omega)) (hm2 (q + 1) (by omega))]
    congr 1
    refine readSum_congr 2 (startBit + idx * 8 + 8) i1 i2 ha (plan2_4 q) ?_
    intro ws hws
    simp [plan2_4] at hws
    rcases hws with rfl | rfl | rfl | rfl <;> exact ⟨by norm_num, by simp; omega⟩
  · omega

set_option maxHeartbeats 1000000 in
theorem embSpec3 (b startBit idx : Nat) (img img' : Img)
    (hE : embedByte 3 b startBit idx img = .ok img') :
    img'.width = img.width ∧ img'.height = img.height ∧
    ¬ img.height ≤ ((startBit + idx * 8 + 7) / 9) / img.width ∧
    agreesBelow 3 (startBit + idx * 8) img img' ∧
    extractByte 3 startBit idx img' = .ok (b % 256) := by
  obtain ⟨q, r, hr, hqr⟩ : ∃ q r, r < 9 ∧ startBit + idx * 8 = 9 * q + r :=
    ⟨(startBit + idx * 8) / 9, (startBit + idx * 8) % 9,
      Nat.mod_lt _ (by norm_num), (Nat.div_add_mod _ 9).symm⟩
  interval_cases r
  · rw [embK3_0 b startBit idx q img (by omega)] at hE
    by_cases h1 : img.height ≤ q / img.width
    · rw [if_pos h1] at hE; simp at hE
    rw [if_neg h1] at hE
    injection hE with hI
    subst hI
    have hc := caseSpec 3 b startBit idx (startBit + idx * 8) img (plan3_0 q)
      (extK3_0 startBit idx q _ (by omega)
        (by rw [applyWrites_height, applyWrites_width]; exact h1))
      (by simp [plan3_0]; try omega)
      (by intro ws hws
          simp [plan3_0] at hws
          rcases hws with rfl | rfl | rfl <;>
            exact ⟨by norm_num, by simp; omega⟩)
      (by norm_num [planVal, plan3_0]; omega)
    exact ⟨hc.1, hc.2.1,
      by rw [show (startBit + idx * 8 + 7) / 9 = q from by omega]; exact h1,
      hc.2.2.1, hc.2.2.2⟩
  · rw [embK3_1 b startBit idx q img (by omega)] at hE
    by_cases h1 : img.height ≤ q / img.width
    · rw [if_pos h1] at hE; simp at hE
    rw [if_neg h1] at hE
    injection hE with hI
    subst hI
    have hc := caseSpec 3 b startBit idx (startBit + idx * 8) img (plan3_1 q)
      (extK3_1 startBit idx q _ (by omega)
        (by rw [applyWrites_height, applyWrites_width]; exact h1))
      (by simp [plan3_1]; try omega)
      (by intro ws hws
          simp [plan3_1] at hws
          rcases hws with rfl | rfl | rfl <;>
            exact ⟨by norm_num, by simp; omega⟩)
      (by norm_num [planVal, plan3_1]; omega)
    exact ⟨hc.1, hc.2.1,
      by rw [show (startBit + idx * 8 + 7) / 9 = q from by omega]; exact h1,
      hc.2.2.1, hc.2.2.2⟩
  · rw [embK3_2 b startBit idx q img (by omega)] at hE
    by_cases h1 : img.height ≤ q / img.width
    · rw [if_pos h1] at hE; simp at hE
    rw [if_neg h1] at hE
    by_cases h2 : img.height ≤ (q + 1) / img.width
    · rw [if_pos h2] at hE; simp at hE
    rw [if_neg h2] at hE
    injection hE with hI
    subst hI
    have hc := caseSpec 3 b startBit idx (startBit + idx * 8) img (plan3_2 q)
      (extK3_2 startBit idx q _ (by omega)
        (by rw [applyWrites_height, applyWrites_width]; exact h1)
        (by rw [applyWrites_height, applyWrites_width]; exact h2))
      (by simp [plan3_2]; try omega)
      (by intro ws hws
          simp [plan3_2] at hws
          rcases hws with rfl | rfl | rfl | rfl <;>
            exact ⟨by norm_num, by simp; omega⟩)
      (by norm_num [planVal, plan3_2]; omega)
    exact ⟨hc.1, hc.2.1,
      by rw [show (startBit + idx * 8 + 7) / 9 = q + 1 from by omega]; exact h2,
      hc.2.2.1, hc.2.2.2⟩
  · rw [embK3_3 b startBit idx q img (by omega)] at hE
    by_cases h1 : img.height ≤ q / img.width
    · rw [if_pos h1] at hE; simp at hE
    rw [if_neg h1] at hE
    by_cases h2 : img.height ≤ (q + 1) / img.width
    · rw [if_pos h2] at hE; simp at hE
    rw [if_neg h2] at hE
    injection hE with hI
    subst hI
    have hc := caseSpec 3 b startBit idx (startBit + idx * 8) img (plan3_3 q)
      (extK3_3 startBit idx q _ (by omega)
        (by rw [applyWrites_height, applyWrites_width]; exact h1)
        (by rw [applyWrites_height, applyWrites_width]; exact h2))
      (by simp [plan3_3]; try omega)
      (by intro ws hws
          simp [plan3_3] at hws
          rcases hws with rfl | rfl | rfl <;>
            exact ⟨by norm_num, by simp; omega⟩)
      (by norm_num [planVal, plan3_3]; omega)
    exact ⟨hc.1, hc.2.1,
      by rw [show (startBit + idx * 8 + 7) / 9 = q + 1 from by omega]; exact h2,
      hc.2.2.1, hc.2.2.2⟩
  · rw [embK3_4 b startBit idx q img (by omega)] at hE
    by_cases h1 : img.height ≤ q / img.width
    · rw [if_pos h1] at hE; simp at hE
    rw [if_neg h1] at hE
    by_cases h2 : img.height ≤ (q + 1) / img.width
    · rw [if_pos h2] at hE; simp at hE
    rw [if_neg h2] at hE
    injection hE with hI
    subst hI
    have hc := caseSpec 3 b startBit idx (startBit + idx * 8) img (plan3_4 q)
      (extK3_4 startBit idx q _ (by omega)
        (by rw [applyWrites_height, applyWrites_width]; exact h1)
        (by rw [applyWrites_height, applyWrites_width]; exact h2))
      (by simp [plan3_4]; try omega)
      (by intro ws hws
          simp [plan3_4] at hws
          rcases hws with rfl | rfl | rfl <;>
            exact ⟨by norm_num, by simp; omega⟩)
      (by norm_num [planVal, plan3_4]; omega)
    exact ⟨hc.1, hc.2.1,
      by rw [show (startBit + idx * 8 + 7) / 9 = q + 1 from by omega]; exact h2,
      hc.2.2.1, hc.2.2.2⟩
  · rw [embK3_5 b startBit idx q img (by omega)] at hE
    by_cases h1 : img.height ≤ q / img.width
    · rw [if_pos h1] at hE; simp at hE
    rw [if_neg h1] at hE
    by_cases h2 : img.height ≤ (q + 1) / img.width
    · rw [if_pos h2] at hE; simp at hE
    rw [if_neg h2] at hE
    injection hE with hI
    subst hI
    have hc := caseSpec 3 b startBit idx (startBit + idx * 8) img (plan3_5 q)
      (extK3_5 startBit idx q _ (by omega)
        (by rw [applyWrites_height, applyWrites_width]; exact h1)
        (by rw [applyWrites_height, applyWrites_width]; exact h2))
      (by simp [plan3_5]; try omega)
      (by intro ws hws
          simp [plan3_5] at hws
          rcases hws with rfl | rfl | rfl | rfl <;>
            exact ⟨by norm_num, by simp; omega⟩)
      (by norm_num [planVal, plan3_5]; omega)
    exact ⟨hc.1, hc.2.1,
      by rw [show (startBit + idx * 8 + 7) / 9 = q + 1 from by omega]; exact h2,
      hc.2.2.1, hc.2.2.2⟩
  · rw [embK3_6 b startBit idx q img (by omega)] at hE
    by_cases h1 : img.height ≤ q / img.width
    · rw [if_pos h1] at hE; simp at hE
    rw [if_neg h1] at hE
    by_cases h2 : img.height ≤ (q + 1) / img.width
    · rw [if_pos h2] at hE; simp at hE
    rw [if_neg h2] at hE
    injection hE with hI
    subst hI
    have hc := caseSpec 3 b startBit idx (startBit + idx * 8) img (plan3_6 q)
      (extK3_6 startBit idx q _ (by omega)
        (by rw [applyWrites_height, applyWrites_width]; exact h1)
        (by rw [applyWrites_height, applyWrites_width]; exact h2))
      (by simp [plan3_6]; try omega)
      (by intro ws hws
          simp [plan3_6] at hws
          rcases hws with rfl | rfl | rfl <;>
            exact ⟨by norm_num, by simp; omega⟩)
      (by norm_num [planVal, plan3_6]; omega)
    exact ⟨hc.1, hc.2.1,
      by rw [show (startBit + idx * 8 + 7) / 9 = q + 1 from by omega]; exact h2,
      hc.2.2.1, hc.2.2.2⟩
  · rw [embK3_7 b startBit idx q img (by omega)] at hE
    by_cases h1 : img.height ≤ q / img.width
    · rw [if_pos h1] at hE; simp at hE
    rw [if_neg h1] at hE
    by_cases h2 : img.height ≤ (q + 1) / img.width
    · rw [if_pos h2] at hE; simp at hE
    rw [if_neg h2] at hE
    injection hE with hI
    subst hI
    have hc := caseSpec 3 b startBit idx (startBit + idx * 8) img (plan3_7 q)
      (extK3_7 startBit idx q _ (by omega)
        (by rw [applyWrites_height, applyWrites_width]; exact h1)
        (by rw [applyWrites_height, applyWrites_width]; exact h2))
      (by simp [plan3_7]; try omega)
      (by intro ws hws
          simp [plan3_7] at hws
          rcases hws with rfl | rfl | rfl <;>
            exact ⟨by norm_num, by simp; omega⟩)
      (by norm_num [planVal, plan3_7]; omega)
    exact ⟨hc.1, hc.2.1,
      by rw [show (startBit + idx * 8 + 7) / 9 = q + 1 from by omega]; exact h2,
      hc.2.2.1, hc.2.2.2⟩
  · rw [embK3_8 b startBit idx q img (by omega)] at hE
    by_cases h1 : img.height ≤ q / img.width
    · rw [if_pos h1] at hE; simp at hE
    rw [if_neg h1] at hE
    by_cases h2 : img.height ≤ (q + 1) / img.width
    · rw [if_pos h2] at hE; simp at hE
    rw [if_neg h2] at hE
    injection hE with hI
    subst hI
    have hc := caseSpec 3 b startBit idx (startBit + idx * 8) img (plan3_8 q)
      (extK3_8 startBit idx q _ (by omega)
        (by rw [applyWrites_height, applyWrites_width]; exact h1)
        (by rw [applyWrites_height, applyWrites_width]; exact h2))
      (by simp [plan3_8]; try omega)
      (by intro ws hws
          simp [plan3_8] at hws
          rcases hws with rfl | rfl | rfl | rfl <;>
            exact ⟨by norm_num, by simp; omega⟩)
      (by norm_num [planVal, plan3_8]; omega)
    exact ⟨hc.1, hc.2.1,
      by rw [show (startBit + idx * 8 + 7) / 9 = q + 1 from by omega]; exact h2,
      hc.2.2.1, hc.2.2.2⟩

set_option maxHeartbeats 1000000 in
theorem extCong3 (startBit idx : Nat) (i1 i2 : Img)
    (hw : i2.width = i1.width) (hh : i2.height = i1.height)
    (hpix : ¬ i1.height ≤ ((startBit + idx * 8 + 7) / 9) / i1.width)
    (ha : agreesBelow 3 (startBit + idx * 8 + 8) i1 i2) :
    extractByte 3 startBit idx i1 = extractByte 3 startBit idx i2 := by
  obtain ⟨q, r, hr, hqr⟩ : ∃ q r, r < 9 ∧ startBit + idx * 8 = 9 * q + r :=
    ⟨(startBit + idx * 8) / 9, (startBit + idx * 8) % 9,
      Nat.mod_lt _ (by norm_num), (Nat.div_add_mod _ 9).symm⟩
  have hm1 : ∀ j, j ≤ (startBit + idx * 8 + 7) / 9 →
      ¬ i1.height ≤ j / i1.width :=
    fun j hj hc => hpix (le_trans hc (Nat.div_le_div_right hj))
  have hm2 : ∀ j, j ≤ (startBit + idx * 8 + 7) / 9 →
      ¬ i2.height ≤ j / i2.width := by
    intro j hj
    rw [hh, hw]
    exact hm1 j hj
  interval_cases r
  · rw [extK3_0 startBit idx q i1 (by omega) (hm1 q (by omega)),
      extK3_0 startBit idx q i2 (by omega) (hm2 q (by omega))]
    congr 1
    refine readSum_congr 3 (startBit + idx * 8 + 8) i1 i2 ha (plan3_0 q) ?_
    intro ws hws
    simp [plan3_0] at hws
    rcases hws with rfl | rfl | rfl <;> exact ⟨by norm_num, by simp; omega⟩
  · rw [extK3_1 startBit idx q i1 (by omega) (hm1 q (by omega)),
      extK3_1 startBit idx q i2 (by omega) (hm2 q (by omega))]
    congr 1
    refine readSum_congr 3 (startBit + idx * 8 + 8) i1 i2 ha (plan3_1 q) ?_
    intro ws hws
    simp [plan3_1] at hws
    rcases hws with rfl | rfl | rfl <;> exact ⟨by norm_num, by simp; omega⟩
  · rw [extK3_2 startBit idx q i1 (by omega) (hm1 q (by omega)) (hm1 (q + 1) (by omega)),
      extK3_2 startBit idx q i2 (by omega) (hm2 q (by omega)) (hm2 (q + 1) (by omega))]
    congr 1
    refine readSum_congr 3 (startBit + idx * 8 + 8) i1 i2 ha (plan3_2 q) ?_
    intro ws hws
    simp [plan3_2] at hws
    rcases hws with rfl | rfl | rfl | rfl <;> exact ⟨by norm_num, by simp; omega⟩
  · rw [extK3_3 startBit idx q i1 (by omega) (hm1 q (by omega)) (hm1 (q + 1) (by omega)),
      extK3_3 startBit idx q i2 (by omega) (hm2 q (by omega)) (hm2 (q + 1) (by omega))]
    congr 1
    refine readSum_congr 3 (startBit + idx * 8 + 8) i1 i2 ha (plan3_3 q) ?_
    intro ws hws
    simp [plan3_3] at hws
    rcases hws with rfl | rfl | rfl <;> exact ⟨by norm_num, by simp; omega⟩
  · rw [extK3_4 startBit idx q i1 (by omega) (hm1 q (by omega)) (hm1 (q + 1) (by omega)),
      extK3_4 startBit idx q i2 (by omega) (hm2 q (by omega)) (hm2 (q + 1) (by omega))]
    congr 1
    refine readSum_congr 3 (startBit + idx * 8 + 8) i1 i2 ha (plan3_4 q) ?_
    intro ws hws
    simp [plan3_4] at hws
    rcases hws with rfl | rfl | rfl <;> exact ⟨by norm_num, by simp; omega⟩
  · rw [extK3_5 startBit idx q i1 (by omega) (hm1 q (by omega)) (hm1 (q + 1) (by omega)),
      extK3_5 startBit idx q i2 (by omega) (hm2 q (by omega)) (hm2 (q + 1) (by omega))]
    congr 1
    refine readSum_congr 3 (startBit + idx * 8 + 8) i1 i2 ha (plan3_5 q) ?_
    intro ws hws
    simp [plan3_5] at hws
    rcases hws with rfl | rfl | rfl | rfl <;> exact ⟨by norm_num, by simp; omega⟩
  · rw [extK3_6 startBit idx q i1 (by omega) (hm1 q (by omega)) (hm1 (q + 1) (by omega)),
      extK3_6 startBit idx q i2 (by omega) (hm2 q (by omega)) (hm2 (q + 1) (by omega))]
    congr 1
    refine readSum_congr 3 (startBit + idx * 8 + 8) i1 i2 ha (plan3_6 q) ?_
    intro ws hws
    simp [plan3_6] at hws
    rcases hws with rfl | rfl | rfl <;> exact ⟨by norm_num, by simp; omega⟩
  · rw [extK3_7 startBit idx q i1 (by omega) (hm1 q (by omega)) (hm1 (q + 1) (by omega)),
      extK3_7 startBit idx q i2 (by omega) (hm2 q (by omega)) (hm2 (q + 1) (by omega))]
    congr 1
    refine readSum_congr 3 (startBit + idx * 8 + 8) i1 i2 ha (plan3_7 q) ?_
    intro ws hws
    simp [plan3_7] at hws
    rcases hws with rfl | rfl | rfl <;> exact ⟨by norm_num, by simp; omega⟩
  · rw [extK3_8 startBit idx q i1 (by omega) (hm1 q (by omega)) (hm1 (q + 1) (by omega)),
      extK3_8 startBit idx q i2 (by omega) (hm2 q (by omega)) (hm2 (q + 1) (by omega))]
    congr 1
    refine readSum_congr 3 (startBit + idx * 8 + 8) i1 i2 ha (plan3_8 q) ?_
    intro ws hws
    simp [plan3_8] at hws
    rcases hws with rfl | rfl | rfl | rfl <;> exact ⟨by norm_num, by simp; omega⟩


/-! ### Uniform per-byte specification and the embedding loop -/

theorem embedByte_spec (k b startBit idx : Nat) (img img' : Img)
    (hk : k = 1 ∨ k = 2 ∨ k = 3) (hsb : startBit % 2 = 0)
    (hE : embedByte k b startBit idx img = .ok img') :
    img'.width = img.width ∧ img'.height = img.height ∧
    ¬ img.height ≤ ((startBit + idx * 8 + 7) / (k * 3)) / img.width ∧
    agreesBelow k (startBit + idx * 8) img img' ∧
    extractByte k startBit idx img' = .ok (b % 256) := by
  rcases hk with rfl | rfl | rfl
  · simpa using embSpec1 b startBit idx img img' hE
  · simpa using embSpec2 b startBit idx img img' hsb hE
  · simpa using embSpec3 b startBit idx img img' hE

theorem extractByte_congr (k startBit idx : Nat) (i1 i2 : Img)
    (hk : k = 1 ∨ k = 2 ∨ k = 3) (hsb : startBit % 2 = 0)
    (hw : i2.width = i1.width) (hh : i2.height = i1.height)
    (hpix : ¬ i1.height ≤ ((startBit + idx * 8 + 7) / (k * 3)) / i1.width)
    (ha : agreesBelow k (startBit + idx * 8 + 8) i1 i2) :
    extractByte k startBit idx i1 = extractByte k startBit idx i2 := by
  rcases hk with rfl | rfl | rfl
  · exact extCong1 startBit idx i1 i2 hw hh (by simpa using hpix) ha
  · exact extCong2 startBit idx i1 i2 hsb hw hh (by simpa using hpix) ha
  · exact extCong3 startBit idx i1 i2 hw hh (by simpa using hpix) ha

theorem embedGo_spec (k startBit : Nat) (hk : k = 1 ∨ k = 2 ∨ k = 3)
    (hsb : startBit % 2 = 0) :
    ∀ (data : List Nat) (idx : Nat) (img img' : Img),
      embedBytes.go k startBit data idx img = .ok img' →
      img'.width = img.width ∧ img'.height = img.height ∧
      agreesBelow k (startBit + idx * 8) img img' ∧
      ∀ i (h : i < data.length),
        ¬ img'.height ≤ ((startBit + (idx + i) * 8 + 7) / (k * 3)) / img'.width ∧
        extractByte k startBit (idx + i) img' = .ok (data.get ⟨i, h⟩ % 256)
  | [], idx, img, img', hE => by
      have hE2 : Except.ok img = Except.ok img' := hE
      injection hE2 with hI
      subst hI
      exact ⟨rfl, rfl, agreesBelow_refl _ _ _,
        fun i h => absurd h (by simp)⟩
  | b :: rest, idx, img, img', hE => by
      have hE2 : (match embedByte k b startBit idx img with
          | .error e => (.error e : RResult Img)
          | .ok img2 => embedBytes.go k startBit rest (idx + 1) img2) =
          .ok img' := hE
      cases hM : embedByte k b startBit idx img with
      | error e =>
          rw [hM] at hE2
          exact absurd hE2 (by simp)
      | ok img1 =>
          rw [hM] at hE2
          have hE3 : embedBytes.go k startBit rest (idx + 1) img1 = .ok img' :=
            hE2
          obtain ⟨hw1, hh1, hpx1, hag1, hx1⟩ :=
            embedByte_spec k b startBit idx img img1 hk hsb hM
          obtain ⟨hw2, hh2, hag2, hrest⟩ :=
            embedGo_spec k startBit hk hsb rest (idx + 1) img1 img' hE3
          refine ⟨hw2.trans hw1, hh2.trans hh1, ?_, ?_⟩
          · exact agreesBelow_trans hag1 (agreesBelow_mono (by omega) hag2)
          · intro i h
            cases i with
            | zero =>
                constructor
                · rw [hw2.trans hw1, hh2.trans hh1]
                  simpa using hpx1
                · have hcong := extractByte_congr k startBit idx img1 img' hk
                    hsb hw2 hh2 (by rw [hh1, hw1]; exact hpx1)
                    (agreesBelow_mono (by omega) hag2)
                  simpa using hcong.symm.trans hx1
            | succ i2 =>
                obtain ⟨hpA, hxA⟩ := hrest i2 (by simpa using h)
                constructor
                · rw [show startBit + (idx + (i2 + 1)) * 8 + 7 =
                      startBit + (idx + 1 + i2) * 8 + 7 from by omega]
                  exact hpA
                · rw [show idx + (i2 + 1) = idx + 1 + i2 from by omega]
                  simpa using hxA

theorem extractGo_spec (k startBit : Nat) (img : Img) :
    ∀ (L : List Nat) (idx : Nat),
      (∀ i (h : i < L.length),
        extractByte k startBit (idx + i) img = .ok (L.get ⟨i, h⟩)) →
      extractBytes.go k img startBit idx L.length = .ok L
  | [], _, _ => rfl
  | b :: rest, idx, h => by
      have hb : extractByte k startBit idx img = .ok b := by
        simpa using h 0 (by simp)
      have hr : extractBytes.go k img startBit (idx + 1) rest.length =
          .ok rest :=
        extractGo_spec k startBit img rest (idx + 1)
          (fun i hi => by
            rw [show idx + 1 + i = idx + (i + 1) from by omega]
            simpa using h (i + 1) (by simpa using hi))
      show (match extractByte k startBit idx img with
        | .error e => (.error e : RResult (List Nat))
        | .ok b2 =>
            match extractBytes.go k img startBit (idx + 1) rest.length with
            | .error e => .error e
            | .ok rest2 => .ok (b2 :: rest2)) = .ok (b :: rest)
      rw [hb, hr]

theorem le32_bytes_lt (n : Nat) : ∀ b ∈ le32 n, b < 256 := by
  intro b hb
  simp [le32] at hb
  rcases hb with rfl | rfl | rfl | rfl <;> omega

theorem le32val_le32A (n : Nat) (h : n < 2 ^ 32) : le32val (le32 n) = n := by
  simp [le32val, le32]
  omega

/-! ### The LSB codec round-trip -/

set_option maxHeartbeats 1000000 in
/-- C5: LSB codec round-trip. For every bit-depth k in {1,2,3} and every
byte payload x (bytes < 256, length < 2^32) that fits the cover image
(encode returns Ok), decoding the produced image returns exactly x: the
32-bit little-endian length header written MSB-first at bit offset 0 and
the payload at bit offset 32 are recovered from the k low bits of the
R,G,B channels, each byte's position computed from its byte index with
spill into the next pixel. -/
theorem c5_roundtrip (k : Nat) (hk : k = 1 ∨ k = 2 ∨ k = 3) (cover : Img)
    (data : List Nat) (hbd : ∀ b ∈ data, b < 256)
    (hlen : data.length < 2 ^ 32) (img : Img)
    (hE : lsbEncode k cover data = .ok img) :
    lsbDecode k img = .ok data := by
  simp only [lsbEncode] at hE
  by_cases hcap : cover.width * cover.height <
      ceilDiv ((data.length + 4) * 8) (k * 3) +
        if 1 < k then ceilDiv ((data.length + 4) * 8) (k * 3) else 100
  · rw [if_pos hcap] at hE
    exact absurd hE (by simp)
  · rw [if_neg hcap] at hE
    cases hH : embedBytes k cover (le32 data.length) 0 with
    | error e =>
        rw [hH] at hE
        exact absurd hE (by simp)
    | ok imgH =>
        rw [hH] at hE
        have hE3 : embedBytes k imgH data 32 = .ok img := hE
        have hHgo : embedBytes.go k 0 (le32 data.length) 0 cover = .ok imgH :=
          hH
        have hEgo : embedBytes.go k 32 data 0 imgH = .ok img := hE3
        obtain ⟨hwH, hhH, hagH, hhdr⟩ :=
          embedGo_spec k 0 hk rfl (le32 data.length) 0 cover imgH hHgo
        obtain ⟨hwD, hhD, hagD, hdat⟩ :=
          embedGo_spec k 32 hk rfl data 0 imgH img hEgo
        have hhdr' : ∀ i (h : i < (le32 data.length).length),
            extractByte k 0 i img = .ok ((le32 data.length).get ⟨i, h⟩) := by
          intro i h
          have h4 : i < 4 := by simpa [le32] using h
          obtain ⟨hpx, hx⟩ := hhdr i h
          have hagD2 : agreesBelow k 32 imgH img := by simpa using hagD
          have hcong := extractByte_congr k 0 i imgH img hk rfl hwD hhD
            (by simpa using hpx)
            (agreesBelow_mono (by omega) hagD2)
          rw [show (0 : Nat) + i = i from by omega] at hx
          rw [hcong.symm.trans hx]
          have hlt : (le32 data.length).get ⟨i, h⟩ < 256 :=
            le32_bytes_lt data.length _ (List.get_mem _ _ _)
          rw [Nat.mod_eq_of_lt hlt]
        have hx4 : extractBytes k img 0 4 = .ok (le32 data.length) :=
          extractGo_spec k 0 img (le32 data.length) 0
            (fun i hi => by simpa using hhdr' i hi)
        have hdata : ∀ i (h : i < data.length),
            extractByte k 32 (0 + i) img = .ok (data.get ⟨i, h⟩) := by
          intro i h
          obtain ⟨hpA, hxA⟩ := hdat i h
          rw [hxA, Nat.mod_eq_of_lt (hbd _ (List.get_mem _ _ _))]
        show (match extractBytes k img 0 4 with
          | .error e => (.error e : RResult (List Nat))
          | .ok lenBytes => extractBytes k img 32 (le32val lenBytes)) =
          .ok data
        rw [hx4]
        show extractBytes k img 32 (le32val (le32 data.length)) = .ok data
        rw [le32val_le32A data.length hlen]
        show extractBytes.go k img 32 0 data.length = .ok data
        exact extractGo_spec k 32 img data 0 hdata

def wCover : Img := ⟨100, 2, fun _ _ => 0⟩

def wStego : Img := (lsbEncode 1 wCover []).toOption.getD wCover

theorem c5_roundtrip_witness :
    ((1 : Nat) = 1 ∨ (1 : Nat) = 2 ∨ (1 : Nat) = 3) ∧
    (∀ b ∈ ([] : List Nat), b < 256) ∧
    ([] : List Nat).length < 2 ^ 32 ∧
    lsbEncode 1 wCover [] = .ok wStego ∧
    lsbDecode 1 wStego = .ok ([] : List Nat) :=
  ⟨Or.inl rfl, by simp, by norm_num, rfl,
    c5_roundtrip 1 (Or.inl rfl) wCover [] (by simp) (by norm_num) wStego rfl⟩


end RainbowRs
